import Mathlib

/-!
# openSYDE diagnostic communication core: NVM list access of the data dealer

Shallow embedding of `C_OSCDataDealerNvm` (file
`opensyde_syde_coder_c/libs/osy_core/data_dealer/C_OSCDataDealerNvm.cpp`).

Conventions of the embedding

* `uint8`, `uint16`, `uint32` values are natural numbers; where the C++ code
  computes in a fixed width the reduction `% 2 ^ w` is written out.
* A `std::vector<uint8>` is a `List Nat`.
* The return codes of `stwerrors.h` are the constructors of `T_Error`.
* A method that mutates its object returns the new object.
* A `memcpy` out of a vector that would leave the vector has no defined
  result in C++; the functions that contain such a read return `Option`
  and `none` stands for that undefined read.
* Requests that go to the protocol driver are collected in a request log,
  so that "no wire traffic" is a statement about that log.
-/

set_option maxRecDepth 8000

namespace OpenSyde

/-! ## Return codes -/

/-- Return codes declared in `stwerrors.h` (the header is not part of the sources at hand;
only the symbolic names are used, never their numeric values). -/
inductive T_Error
  | C_NO_ERR
  | C_UNKNOWN_ERR
  | C_WARN
  | C_DEFAULT
  | C_BUSY
  | C_RANGE
  | C_OVERFLOW
  | C_RD_WR
  | C_NOACT
  | C_COM
  | C_CONFIG
  | C_CHECKSUM
  | C_TIMEOUT
  deriving DecidableEq, Repr

open T_Error

/-! ## Fixed width arithmetic -/

/-- Modulus of `uint32` arithmetic. -/
def U32_MOD : Nat := 2 ^ 32

/-- Subtraction of two `uint32` values as C++ computes it (wraps around). -/
def u32_sub (a b : Nat) : Nat :=
  (a % U32_MOD + (U32_MOD - b % U32_MOD)) % U32_MOD

/-- Addition of two `uint32` values as C++ computes it (wraps around). -/
def u32_add (a b : Nat) : Nat :=
  (a + b) % U32_MOD

/-! ## CRC16-CCITT -/

/-- Modelled from the spec: one bit step of the CRC16-CCITT register ("polynomial per CCITT",
that is x^16 + x^12 + x^5 + 1 = 0x1021, most significant bit first). The class
`stw_scl::C_SCLChecksums` is not part of the sources at hand. -/
def crc16Bit (u16_Crc : Nat) : Nat :=
  if 0x8000 ≤ u16_Crc % 0x10000 then
    (u16_Crc * 2 % 0x10000) ^^^ 0x1021
  else
    u16_Crc * 2 % 0x10000

/-- Modelled from the spec: CRC16-CCITT update of the running 16 bit checksum with one byte:
the byte is combined with the upper half of the register, then eight bit steps follow. -/
def crc16Byte (u16_Crc : Nat) (u8_Byte : Nat) : Nat :=
  crc16Bit (crc16Bit (crc16Bit (crc16Bit (crc16Bit (crc16Bit (crc16Bit (crc16Bit
    ((u16_Crc % 0x10000) ^^^ (u8_Byte % 0x100 * 0x100)))))))))

/-- Modelled from the spec: `C_SCLChecksums::CalcCRC16(data, size, crc)`, the running CRC16-CCITT:
the checksum passed in is updated with every byte of the data in order. -/
def CalcCRC16 (c_Data : List Nat) (u16_Crc : Nat) : Nat :=
  c_Data.foldl crc16Byte u16_Crc

/-! ## Data model -/

/-- Modelled from the spec: `C_OSCNodeDataPoolContent`, the typed value of an element
("current value (typed, little/big-endian convertible)"). The class is not part of the sources
at hand. The value is held as its bytes, least significant byte first; the number of bytes is
fixed by the type of the value. -/
structure C_OSCNodeDataPoolContent where
  /-- Bytes of the value, least significant byte first -/
  mc_Data : List Nat
  deriving DecidableEq, Repr

namespace C_OSCNodeDataPoolContent

/-- Modelled from the spec: size of the value in bytes. -/
def GetSizeByte (c : C_OSCNodeDataPoolContent) : Nat :=
  c.mc_Data.length

/-- Modelled from the spec: serialisation of the value, least significant byte first. -/
def GetValueAsLittleEndianBlob (c : C_OSCNodeDataPoolContent) : List Nat :=
  c.mc_Data

/-- Modelled from the spec: serialisation of the value, most significant byte first. -/
def GetValueAsBigEndianBlob (c : C_OSCNodeDataPoolContent) : List Nat :=
  c.mc_Data.reverse

/-- Modelled from the spec: take over the value from a little endian serialisation. The value is
typed: a blob of another size is refused with `C_RANGE` and the value is kept. -/
def SetValueFromLittleEndianBlob (c : C_OSCNodeDataPoolContent) (orc_Data : List Nat) :
    T_Error × C_OSCNodeDataPoolContent :=
  if orc_Data.length ≠ c.mc_Data.length then (C_RANGE, c) else (C_NO_ERR, { mc_Data := orc_Data })

/-- Modelled from the spec: take over the value from a big endian serialisation. The value is
typed: a blob of another size is refused with `C_RANGE` and the value is kept. -/
def SetValueFromBigEndianBlob (c : C_OSCNodeDataPoolContent) (orc_Data : List Nat) :
    T_Error × C_OSCNodeDataPoolContent :=
  if orc_Data.length ≠ c.mc_Data.length then (C_RANGE, c)
  else (C_NO_ERR, { mc_Data := orc_Data.reverse })

end C_OSCNodeDataPoolContent

/-- Number that a sequence of bytes denotes when the first byte is the least significant one. -/
def littleEndianValue : List Nat → Nat
  | [] => 0
  | b :: bs => b % 0x100 + 0x100 * littleEndianValue bs

/-- Number that a sequence of bytes denotes when the first byte is the most significant one. -/
def bigEndianValue (c_Bytes : List Nat) : Nat :=
  littleEndianValue c_Bytes.reverse

/-- Element of a data pool list (`C_OSCNodeDataPoolListElement`), restricted to the members
the data dealer uses. -/
structure C_OSCNodeDataPoolListElement where
  /-- Absolute NVM address of the element -/
  u32_NvMStartAddress : Nat
  /-- Value of the element as read from or to be written to NVM -/
  c_NvmValue : C_OSCNodeDataPoolContent
  /-- Flag: the NVM value was read from the device -/
  q_NvmValueIsValid : Bool
  deriving DecidableEq, Repr

/-- Modelled from the spec: `C_OSCNodeDataPoolListElement::GetSizeByte`, the byte size of the
element ("byte size (1-8)", a `uint32`), which is the size of its typed value. -/
def C_OSCNodeDataPoolListElement.GetSizeByte (e : C_OSCNodeDataPoolListElement) : Nat :=
  e.c_NvmValue.GetSizeByte

/-- List of a data pool (`C_OSCNodeDataPoolList`), restricted to the members the data dealer
uses. -/
structure C_OSCNodeDataPoolList where
  /-- NVM start address of the list -/
  u32_NvMStartAddress : Nat
  /-- Reserved NVM size of the list in bytes -/
  u32_NvMSize : Nat
  /-- Flag: the list carries a CRC -/
  q_NvMCRCActive : Bool
  /-- Stored CRC of the list -/
  u32_NvMCRC : Nat
  /-- Elements of the list -/
  c_Elements : List C_OSCNodeDataPoolListElement
  deriving DecidableEq, Repr

namespace C_OSCNodeDataPoolList

/-- Modelled from the spec: `SetCRCFromBigEndianBlob`, the two bytes are the stored 16 bit CRC,
first byte most significant. -/
def SetCRCFromBigEndianBlob (l : C_OSCNodeDataPoolList) (orc_Data : List Nat) :
    C_OSCNodeDataPoolList :=
  { l with u32_NvMCRC := orc_Data.getD 0 0 % 0x100 * 0x100 + orc_Data.getD 1 0 % 0x100 }

/-- Modelled from the spec: `SetCRCFromLittleEndianBlob`, the two bytes are the stored 16 bit CRC,
first byte least significant. -/
def SetCRCFromLittleEndianBlob (l : C_OSCNodeDataPoolList) (orc_Data : List Nat) :
    C_OSCNodeDataPoolList :=
  { l with u32_NvMCRC := orc_Data.getD 0 0 % 0x100 + orc_Data.getD 1 0 % 0x100 * 0x100 }

end C_OSCNodeDataPoolList

/-- Data pool of a node (`C_OSCNodeDataPool`), restricted to its lists. -/
structure C_OSCNodeDataPool where
  /-- Lists of the data pool -/
  c_Lists : List C_OSCNodeDataPoolList
  deriving DecidableEq, Repr

/-- Node (`C_OSCNode`), restricted to its data pools. -/
structure C_OSCNode where
  /-- Data pools of the node -/
  c_DataPools : List C_OSCNodeDataPool
  deriving DecidableEq, Repr

/-! ## Diagnostic protocol -/

/-- What one `NvmRead` call of the protocol driver hands back: its return code, the content of the
buffer after the call and the negative response code it wrote, if any. -/
structure T_NvmReadResponse where
  /-- Return code of the protocol driver -/
  s32_Return : T_Error
  /-- Content of the buffer after the call -/
  c_Values : List Nat
  /-- Negative response code written by the call, if any -/
  oc_NrCode : Option Nat

/-- The diagnostic protocol as the data dealer sees it (`C_OSCDiagProtocolBase`, an abstract class
whose implementations are not part of the sources at hand). The answer of the device is a
function of the request. The value of the class constant `mhu8_ENDIANNESS_BIG` is not known
here and is carried along. -/
structure C_OSCDiagProtocolBase where
  /-- Class constant naming big endian byte order -/
  mhu8_ENDIANNESS_BIG : Nat
  /-- Result of `GetEndianness()` -/
  u8_Endianness : Nat
  /-- Reaction to `NvmRead(address, buffer, nr code)`: the buffer carries the number of bytes to read -/
  NvmRead : Nat → List Nat → T_NvmReadResponse

/-- Result of `GetEndianness()`. -/
def C_OSCDiagProtocolBase.GetEndianness (p : C_OSCDiagProtocolBase) : Nat :=
  p.u8_Endianness

/-- One `NvmRead` request as it is handed to the protocol driver. -/
structure T_NvmReadRequest where
  /-- NVM address of the request -/
  u32_MemoryAddress : Nat
  /-- Buffer handed over; its size is the number of bytes to read -/
  c_DataRecord : List Nat
  deriving DecidableEq, Repr

/-- The data dealer (`C_OSCDataDealerNvm`): node and protocol may be absent (NULL). -/
structure C_OSCDataDealerNvm where
  /-- Node of the data dealer or NULL -/
  mpc_Node : Option C_OSCNode
  /-- Protocol of the data dealer or NULL -/
  mpc_DiagProtocol : Option C_OSCDiagProtocolBase

/-! ## Operations of `C_OSCDataDealerNvm` -/

/-- Byte serialisation of the NVM value of an element as `NvmCalcCrc` feeds it to the CRC. -/
def serializeNvmValue (p : C_OSCDiagProtocolBase) (e : C_OSCNodeDataPoolListElement) : List Nat :=
  if p.GetEndianness = p.mhu8_ENDIANNESS_BIG then
    e.c_NvmValue.GetValueAsBigEndianBlob
  else
    e.c_NvmValue.GetValueAsLittleEndianBlob

/-- Loop of `NvmCalcCrc` over the elements, starting with the running checksum `u16_Crc`. -/
def nvmCalcCrcLoop (p : C_OSCDiagProtocolBase) :
    List C_OSCNodeDataPoolListElement → Nat → Nat
  | [], u16_Crc => u16_Crc
  | e :: es, u16_Crc => nvmCalcCrcLoop p es (CalcCRC16 (serializeNvmValue p e) u16_Crc)

/-- Method `C_OSCDataDealerNvm::NvmCalcCrc`: CRC over the list; the argument is the protocol behind
`mpc_DiagProtocol` or `none` for NULL. -/
def NvmCalcCrc (oc_DiagProtocol : Option C_OSCDiagProtocolBase) (orc_List : C_OSCNodeDataPoolList) :
    Nat :=
  match oc_DiagProtocol with
  | none => 0x1D0F
  | some p => nvmCalcCrcLoop p orc_List.c_Elements 0x1D0F

/-- Method `C_OSCDataDealerNvm::m_AdaptProtocolReturnValue`. -/
def m_AdaptProtocolReturnValue (os32_ProtReturnValue : T_Error) : T_Error :=
  match os32_ProtReturnValue with
  | C_NO_ERR => os32_ProtReturnValue
  | C_TIMEOUT => os32_ProtReturnValue
  | C_WARN => os32_ProtReturnValue
  | C_NOACT => os32_ProtReturnValue
  | C_COM => os32_ProtReturnValue
  | C_RD_WR => C_WARN
  | _ => C_CONFIG

/-- Content of a vector after `resize(n)`: cut or filled up with zero bytes. -/
def resize (c_Values : List Nat) (n : Nat) : List Nat :=
  c_Values.take n ++ List.replicate (n - c_Values.length) 0

/-- Result of `m_NvmReadListRaw`: return code, buffer, negative response code and the requests
that went to the protocol driver. -/
structure T_NvmReadListRawResult where
  /-- Return code -/
  s32_Return : T_Error
  /-- Buffer `orc_Values` after the call -/
  c_Values : List Nat
  /-- Negative response code written, if any -/
  oc_NrCode : Option Nat
  /-- Requests handed to the protocol driver, in order -/
  c_Requests : List T_NvmReadRequest

/-- Method `C_OSCDataDealerNvm::m_NvmReadListRaw`. The protocol `p` is the object behind
`mpc_DiagProtocol`; `GetNumBytesUsed` is the method of the list class of that name, which is not
part of the sources at hand and is carried along. -/
def m_NvmReadListRaw (p : C_OSCDiagProtocolBase) (GetNumBytesUsed : C_OSCNodeDataPoolList → Nat)
    (orc_List : C_OSCNodeDataPoolList) (orc_Values : List Nat) : T_NvmReadListRawResult :=
  if orc_List.u32_NvMSize > 2 ∨ (orc_List.u32_NvMSize > 0 ∧ orc_List.q_NvMCRCActive = false) then
    let u32_NumBytesToRead := GetNumBytesUsed orc_List
    let c_Buffer := resize orc_Values u32_NumBytesToRead
    let c_Response := p.NvmRead orc_List.u32_NvMStartAddress c_Buffer
    { s32_Return := m_AdaptProtocolReturnValue c_Response.s32_Return
      c_Values := c_Response.c_Values
      oc_NrCode := c_Response.oc_NrCode
      c_Requests := [{ u32_MemoryAddress := orc_List.u32_NvMStartAddress, c_DataRecord := c_Buffer }] }
  else
    { s32_Return := C_OVERFLOW, c_Values := orc_Values, oc_NrCode := none, c_Requests := [] }

/-- The `memcpy` of `n` bytes out of a vector from index `u32_Index` on; `none` when the bytes do
not all lie inside the vector. -/
def readBytes (orc_Values : List Nat) (u32_Index n : Nat) : Option (List Nat) :=
  if u32_Index + n ≤ orc_Values.length then some ((orc_Values.drop u32_Index).take n) else none

/-- Index of an element in the dump: `pc_Element->u32_NvMStartAddress - orc_List.u32_NvMStartAddress`
in `uint32`. -/
def elementIndex (u32_ListStart : Nat) (e : C_OSCNodeDataPoolListElement) : Nat :=
  u32_sub e.u32_NvMStartAddress u32_ListStart

/-- The element after its value was taken from `c_ElementData` in the byte order of the protocol
and its flag was set. -/
def decodeElement (p : C_OSCDiagProtocolBase) (e : C_OSCNodeDataPoolListElement)
    (c_ElementData : List Nat) : C_OSCNodeDataPoolListElement :=
  { e with
    c_NvmValue :=
      if p.GetEndianness = p.mhu8_ENDIANNESS_BIG then
        (e.c_NvmValue.SetValueFromBigEndianBlob c_ElementData).2
      else
        (e.c_NvmValue.SetValueFromLittleEndianBlob c_ElementData).2
    q_NvmValueIsValid := true }

/-- Loop of `m_SaveDumpValuesToListValues` over the elements that are still to be handled:
return code and the elements after the loop. The loop leaves at the first element for which the
dump is too short. -/
def saveDumpLoop (p : C_OSCDiagProtocolBase) (u32_ListStart : Nat) (orc_Values : List Nat) :
    List C_OSCNodeDataPoolListElement → Option (T_Error × List C_OSCNodeDataPoolListElement)
  | [] => some (C_NO_ERR, [])
  | e :: es =>
    let u32_SizeElement := e.GetSizeByte
    let u32_Index := elementIndex u32_ListStart e
    if orc_Values.length ≥ u32_add u32_Index u32_SizeElement then
      match readBytes orc_Values u32_Index u32_SizeElement with
      | none => none
      | some c_ElementData =>
        match saveDumpLoop p u32_ListStart orc_Values es with
        | none => none
        | some (s32_Return, c_Rest) => some (s32_Return, decodeElement p e c_ElementData :: c_Rest)
    else
      some (C_RD_WR, e :: es)

/-- Method `C_OSCDataDealerNvm::m_SaveDumpValuesToListValues`; `p` is the object behind
`mpc_DiagProtocol`. -/
def m_SaveDumpValuesToListValues (p : C_OSCDiagProtocolBase) (orc_Values : List Nat)
    (orc_List : C_OSCNodeDataPoolList) : Option (T_Error × C_OSCNodeDataPoolList) :=
  match saveDumpLoop p orc_List.u32_NvMStartAddress orc_Values orc_List.c_Elements with
  | none => none
  | some (s32_Return, c_Elements) => some (s32_Return, { orc_List with c_Elements := c_Elements })

/-- Method `C_OSCDataDealerNvm::m_SaveDumpToList`; `p` is the object behind
`mpc_DiagProtocol`. -/
def m_SaveDumpToList (p : C_OSCDiagProtocolBase) (orc_Values : List Nat)
    (orc_List : C_OSCNodeDataPoolList) : Option (T_Error × C_OSCNodeDataPoolList) :=
  match m_SaveDumpValuesToListValues p orc_Values orc_List with
  | none => none
  | some (s32_Return, c_List) =>
    if c_List.q_NvMCRCActive = true ∧ s32_Return = C_NO_ERR then
      if orc_Values.length ≥ 2 then
        let c_CrcData := orc_Values.take 2
        let c_ListCrc :=
          if p.GetEndianness = p.mhu8_ENDIANNESS_BIG then
            c_List.SetCRCFromBigEndianBlob c_CrcData
          else
            c_List.SetCRCFromLittleEndianBlob c_CrcData
        let u16_CalcCrc := NvmCalcCrc (some p) c_ListCrc
        if u16_CalcCrc ≠ c_ListCrc.u32_NvMCRC then
          some (C_CHECKSUM, c_ListCrc)
        else
          some (s32_Return, c_ListCrc)
      else
        some (C_CHECKSUM, c_List)
    else
      some (s32_Return, c_List)

/-- The node after list `ou32_ListIndex` of data pool `ou32_DataPoolIndex` was replaced. -/
def C_OSCNode.setList (n : C_OSCNode) (ou32_DataPoolIndex ou32_ListIndex : Nat)
    (c_List : C_OSCNodeDataPoolList) : C_OSCNode :=
  { c_DataPools := n.c_DataPools.modify
      (fun c_Pool => { c_Lists := c_Pool.c_Lists.set ou32_ListIndex c_List }) ou32_DataPoolIndex }

/-- Result of `NvmReadList`: the requests that went to the protocol driver, the negative response
code written, and the outcome: return code with the data dealer after the call, or `none` when
the call ran into a read outside the dump. -/
structure T_NvmReadListResult where
  /-- Requests handed to the protocol driver, in order -/
  c_Requests : List T_NvmReadRequest
  /-- Negative response code written, if any -/
  oc_NrCode : Option Nat
  /-- Return code and data dealer after the call -/
  oc_Outcome : Option (T_Error × C_OSCDataDealerNvm)

/-- Method `C_OSCDataDealerNvm::NvmReadList`: the size comparisons of the index check are the
lookups of the data pool and of the list. -/
def NvmReadList (d : C_OSCDataDealerNvm) (GetNumBytesUsed : C_OSCNodeDataPoolList → Nat)
    (ou32_DataPoolIndex ou32_ListIndex : Nat) : T_NvmReadListResult :=
  match d.mpc_Node, d.mpc_DiagProtocol with
  | some c_Node, some p =>
    match c_Node.c_DataPools[ou32_DataPoolIndex]? with
    | none => { c_Requests := [], oc_NrCode := none, oc_Outcome := some (C_RANGE, d) }
    | some c_Pool =>
      match c_Pool.c_Lists[ou32_ListIndex]? with
      | none => { c_Requests := [], oc_NrCode := none, oc_Outcome := some (C_RANGE, d) }
      | some rc_List =>
        let c_Raw := m_NvmReadListRaw p GetNumBytesUsed rc_List []
        if c_Raw.s32_Return = C_NO_ERR then
          match m_SaveDumpToList p c_Raw.c_Values rc_List with
          | none =>
            { c_Requests := c_Raw.c_Requests, oc_NrCode := c_Raw.oc_NrCode, oc_Outcome := none }
          | some (s32_Return, c_List) =>
            { c_Requests := c_Raw.c_Requests
              oc_NrCode := c_Raw.oc_NrCode
              oc_Outcome := some (s32_Return,
                { d with mpc_Node := some (c_Node.setList ou32_DataPoolIndex ou32_ListIndex c_List) }) }
        else
          { c_Requests := c_Raw.c_Requests, oc_NrCode := c_Raw.oc_NrCode,
            oc_Outcome := some (c_Raw.s32_Return, d) }
  | _, _ => { c_Requests := [], oc_NrCode := none, oc_Outcome := some (C_CONFIG, d) }

/-! ## Notions used to state the properties -/

/-- The bytes of the dump that belong to an element: as many bytes as the element is long, from
the index of the element on. -/
def elementBytes (u32_ListStart : Nat) (orc_Values : List Nat)
    (e : C_OSCNodeDataPoolListElement) : List Nat :=
  (orc_Values.drop (elementIndex u32_ListStart e)).take e.GetSizeByte

/-- Layout condition of a list: every element lies at or behind the start address of the list,
and its offset in the list plus its size is a `uint32` value. -/
def elementsInList (l : C_OSCNodeDataPoolList) : Prop :=
  ∀ e ∈ l.c_Elements,
    l.u32_NvMStartAddress ≤ e.u32_NvMStartAddress ∧
    e.u32_NvMStartAddress - l.u32_NvMStartAddress + e.GetSizeByte < U32_MOD

instance (l : C_OSCNodeDataPoolList) : Decidable (elementsInList l) := by
  unfold elementsInList
  infer_instance

/-- Byte `k` of the dump is one of the bytes of the element. -/
def coversByte (u32_ListStart : Nat) (k : Nat) (e : C_OSCNodeDataPoolListElement) : Bool :=
  decide (elementIndex u32_ListStart e ≤ k ∧ k < elementIndex u32_ListStart e + e.GetSizeByte)

/-- Number of elements of the list that byte `k` of the dump belongs to. -/
def coverCount (l : C_OSCNodeDataPoolList) (k : Nat) : Nat :=
  (l.c_Elements.filter (coversByte l.u32_NvMStartAddress k)).length

/-- Layout of a dump of `n` bytes for a list with CRC: the first two bytes are the stored CRC and
belong to no element, and every later byte belongs to exactly one element. -/
def dumpLayout (l : C_OSCNodeDataPoolList) (n : Nat) : Prop :=
  ∀ k, k < n → (k < 2 ∧ coverCount l k = 0) ∨ (2 ≤ k ∧ coverCount l k = 1)

instance (l : C_OSCNodeDataPoolList) (n : Nat) : Decidable (dumpLayout l n) := by
  unfold dumpLayout
  infer_instance

/-- The stored CRC that a dump carries in its bytes 0 and 1: byte 0 is the most significant byte
when the protocol is big endian and the least significant byte otherwise. -/
def dumpCrc (p : C_OSCDiagProtocolBase) (orc_Values : List Nat) : Nat :=
  if p.GetEndianness = p.mhu8_ENDIANNESS_BIG then
    orc_Values.getD 0 0 % 0x100 * 0x100 + orc_Values.getD 1 0 % 0x100
  else
    orc_Values.getD 0 0 % 0x100 + orc_Values.getD 1 0 % 0x100 * 0x100

/-- The list found under the two indexes in the node of a data dealer, if there is one. -/
def listAt (oc_Node : Option C_OSCNode) (ou32_DataPoolIndex ou32_ListIndex : Nat) :
    Option C_OSCNodeDataPoolList :=
  match oc_Node with
  | none => none
  | some c_Node =>
    match c_Node.c_DataPools[ou32_DataPoolIndex]? with
    | none => none
    | some c_Pool => c_Pool.c_Lists[ou32_ListIndex]?

/-- A protocol that answers as `p` does, but with byte `k` of every dump replaced by `u8_Byte`. -/
def tamperedProtocol (p : C_OSCDiagProtocolBase) (k u8_Byte : Nat) : C_OSCDiagProtocolBase :=
  { p with
    NvmRead := fun u32_Address c_Buffer =>
      { p.NvmRead u32_Address c_Buffer with
        c_Values := (p.NvmRead u32_Address c_Buffer).c_Values.set k u8_Byte } }

/-! ## Fixtures -/

/-- A protocol of the given byte order (1 is big endian) that answers every read positively with
the given bytes. -/
def fixtureProtocol (u8_Endianness : Nat) (c_Answer : List Nat) : C_OSCDiagProtocolBase :=
  { mhu8_ENDIANNESS_BIG := 1
    u8_Endianness := u8_Endianness
    NvmRead := fun _ _ => { s32_Return := C_NO_ERR, c_Values := c_Answer, oc_NrCode := none } }

/-- A protocol that answers every read with the given return code and leaves the buffer. -/
def fixtureFailingProtocol (s32_Return : T_Error) : C_OSCDiagProtocolBase :=
  { mhu8_ENDIANNESS_BIG := 1
    u8_Endianness := 0
    NvmRead := fun _ c_Buffer =>
      { s32_Return := s32_Return, c_Values := c_Buffer, oc_NrCode := some 0x31 } }

/-- A list with CRC at NVM address 100: the CRC, a two byte element and a one byte element, none
of them read so far. -/
def fixtureList : C_OSCNodeDataPoolList :=
  { u32_NvMStartAddress := 100
    u32_NvMSize := 5
    q_NvMCRCActive := true
    u32_NvMCRC := 0
    c_Elements :=
      [{ u32_NvMStartAddress := 102, c_NvmValue := { mc_Data := [0, 0] },
          q_NvmValueIsValid := false },
        { u32_NvMStartAddress := 104, c_NvmValue := { mc_Data := [0] },
          q_NvmValueIsValid := false }] }

/-- A dump of `fixtureList` with a fitting CRC for a little endian protocol: the CRC16-CCITT of
the bytes 0x12 0x34 0x56 with start value 0x1D0F is 0xCF6D. -/
def fixtureDump : List Nat := [0x6D, 0xCF, 0x12, 0x34, 0x56]

/-- A node with one data pool that holds `fixtureList`. -/
def fixtureNode : C_OSCNode :=
  { c_DataPools := [{ c_Lists := [fixtureList] }] }

/-- A data dealer for `fixtureNode` whose little endian protocol answers with the given bytes. -/
def fixtureDealer (c_Answer : List Nat) : C_OSCDataDealerNvm :=
  { mpc_Node := some fixtureNode, mpc_DiagProtocol := some (fixtureProtocol 0 c_Answer) }

/-- A `GetNumBytesUsed` for the fixtures: the sizes of the elements, and two bytes for the CRC. -/
def fixtureNumBytesUsed (l : C_OSCNodeDataPoolList) : Nat :=
  (l.c_Elements.map (fun e => e.GetSizeByte)).sum + (if l.q_NvMCRCActive = true then 2 else 0)

/-- The elements of `fixtureList` after they were decoded from `fixtureDump` by a little endian
protocol. -/
def fixtureDecodedElements : List C_OSCNodeDataPoolListElement :=
  [{ u32_NvMStartAddress := 102, c_NvmValue := { mc_Data := [0x12, 0x34] },
      q_NvmValueIsValid := true },
    { u32_NvMStartAddress := 104, c_NvmValue := { mc_Data := [0x56] },
      q_NvmValueIsValid := true }]

/-- The second element of `fixtureList`. -/
def fixtureSecondElement : C_OSCNodeDataPoolListElement :=
  { u32_NvMStartAddress := 104, c_NvmValue := { mc_Data := [0] }, q_NvmValueIsValid := false }

/-- A dump that ends before the second element of `fixtureList`. -/
def fixtureShortDump : List Nat := [0x6D, 0xCF, 0x12, 0x34]

/-- A list with CRC whose NVM size is exactly the two bytes of the CRC. -/
def fixtureCrcOnlyList : C_OSCNodeDataPoolList :=
  { u32_NvMStartAddress := 100
    u32_NvMSize := 2
    q_NvMCRCActive := true
    u32_NvMCRC := 0
    c_Elements := [] }

/-- A data dealer for a node that holds `fixtureCrcOnlyList`; its little endian protocol answers
with the CRC of a list without elements. -/
def fixtureCrcOnlyDealer : C_OSCDataDealerNvm :=
  { mpc_Node := some { c_DataPools := [{ c_Lists := [fixtureCrcOnlyList] }] }
    mpc_DiagProtocol := some (fixtureProtocol 0 [0x0F, 0x1D]) }

/-- A list with CRC at NVM address 100 whose two one byte elements both lie at the address 102:
byte 3 of a dump of the list belongs to no element. -/
def fixtureOverlapList : C_OSCNodeDataPoolList :=
  { u32_NvMStartAddress := 100
    u32_NvMSize := 4
    q_NvMCRCActive := true
    u32_NvMCRC := 0
    c_Elements :=
      [{ u32_NvMStartAddress := 102, c_NvmValue := { mc_Data := [0] },
          q_NvmValueIsValid := false },
        { u32_NvMStartAddress := 102, c_NvmValue := { mc_Data := [0] },
          q_NvmValueIsValid := false }] }

/-- A dump of `fixtureOverlapList` with a fitting CRC for a little endian protocol: the
CRC16-CCITT of the bytes 0x12 0x12 with start value 0x1D0F is 0xD3A2. -/
def fixtureOverlapDump : List Nat := [0xA2, 0xD3, 0x12, 0x34]

/-- A list at NVM address 0 whose two byte element lies at the last `uint32` address: offset
plus size of the element is not a `uint32` value. -/
def fixtureWrapList : C_OSCNodeDataPoolList :=
  { u32_NvMStartAddress := 0
    u32_NvMSize := 5
    q_NvMCRCActive := false
    u32_NvMCRC := 0
    c_Elements :=
      [{ u32_NvMStartAddress := 0xFFFFFFFF, c_NvmValue := { mc_Data := [0, 0] },
          q_NvmValueIsValid := false }] }

/-- A data dealer for a node that holds `fixtureOverlapList`; its little endian protocol answers
with the given bytes. -/
def fixtureOverlapDealer (c_Answer : List Nat) : C_OSCDataDealerNvm :=
  { mpc_Node := some { c_DataPools := [{ c_Lists := [fixtureOverlapList] }] }
    mpc_DiagProtocol := some (fixtureProtocol 0 c_Answer) }

/-! ## Diagnostic communication driver: data model

Shallow embedding of `C_SyvComDriverDiag` (file
`opensyde_tool/src/system_views/communication/C_SyvComDriverDiag.cpp`).

* The answer of a server to a request is a function of the request; the requests are collected
  in request logs.
* A `std::vector` access with an index that is not below the size has no defined result; the
  functions that contain such an access return `Option` and `none` stands for it.
* The texts of the error details are not formatted: an error detail is kept as a record of the
  node name and the reasons, a reason as a value of `T_ErrorReason`.
* Calls of the logging functions are left out.
-/

/-- Version of a data pool: the three bytes of `au8_Version`. -/
abbrev T_Version := Nat × Nat × Nat

/-- Diagnostic server of a node (`C_OscNodeProperties::E_DiagnosticServerProtocol`), with the
three enumerators that the driver names. `eDS_UNKNOWN` stands for a value of the variable that
is none of the three enumerators; a `switch` handles it under its `default` label. -/
inductive E_DiagnosticServerProtocol
  | eDS_NONE
  | eDS_KEFEX
  | eDS_OPEN_SYDE
  | eDS_UNKNOWN
  deriving DecidableEq, Repr

/-- Type of a data pool (`C_OscNodeDataPool::E_Type`); the driver names `eNVM` and `eHALC_NVM`
only. -/
inductive E_Type
  | eDIAG
  | eNVM
  | eCOM
  | eHALC
  | eHALC_NVM
  deriving DecidableEq, Repr

/-- Data pool of a node as the driver sees it (`C_OscNodeDataPool`). The two hash members stand
for the results of the methods `CalcGeneratedDefinitionHash` and
`CalcDefinitionHash(..., eCT_NON_NVM_DEFAULT_COMPAT_V1)`, whose code is not under the sources
of the driver. -/
structure C_OscNodeDataPool where
  /-- Name of the data pool -/
  c_Name : String
  /-- Version of the data pool -/
  au8_Version : T_Version
  /-- Type of the data pool -/
  e_Type : E_Type
  /-- Result of `CalcGeneratedDefinitionHash` -/
  u32_GeneratedDefinitionHash : Nat
  /-- Result of `CalcDefinitionHash` for the V1 compatible default values -/
  u32_CompatV1DefinitionHash : Nat
  deriving DecidableEq, Repr

/-- Node as the driver sees it (`C_OscNode`): name, diagnostic server and data pools. -/
structure C_OscNode where
  /-- Name of the node (`c_Properties.c_Name`) -/
  c_Name : String
  /-- Diagnostic server of the node (`c_Properties.e_DiagnosticServer`) -/
  e_DiagnosticServer : E_DiagnosticServerProtocol
  /-- Data pools of the node -/
  c_DataPools : List C_OscNodeDataPool
  deriving DecidableEq, Repr

/-- Identification of a data pool element (`C_OscNodeDataPoolListElementId`). -/
structure C_OscNodeDataPoolListElementId where
  /-- Index of the node in the system definition -/
  u32_NodeIndex : Nat
  /-- Index of the data pool in the node -/
  u32_DataPoolIndex : Nat
  /-- Index of the list in the data pool -/
  u32_ListIndex : Nat
  /-- Index of the element in the list -/
  u32_ElementIndex : Nat
  deriving DecidableEq, Repr

/-- View as the driver sees it (`C_PuiSvData`): the element identifications handed out by
`GetAllRegisteredDashboardElements`, the keys of `GetReadRailAssignments` and the elements of
`GetWriteAssignments`. -/
structure C_PuiSvData where
  /-- Elements registered on the dashboards -/
  c_RegisteredDashboardElements : List C_OscNodeDataPoolListElementId
  /-- Elements with a read rail assignment -/
  c_ReadRailAssignments : List C_OscNodeDataPoolListElementId
  /-- Elements with a write assignment -/
  c_WriteAssignments : List C_OscNodeDataPoolListElementId
  deriving DecidableEq, Repr

/-- Meta data of a data pool on the server (`C_OscProtocolDriverOsy::C_DataPoolMetaData`). -/
structure C_DataPoolMetaData where
  /-- Version of the data pool on the server -/
  au8_Version : T_Version
  /-- Name of the data pool on the server -/
  c_Name : String
  deriving DecidableEq, Repr

/-- What `DataPoolReadMetaData` hands back: return code, the meta data written and the negative
response code written. -/
structure T_ReadMetaDataResponse where
  /-- Return code of the protocol -/
  s32_Return : T_Error
  /-- Version and name written by the call -/
  c_MetaData : C_DataPoolMetaData
  /-- Negative response code written by the call -/
  u8_ErrorCode : Nat
  deriving DecidableEq, Repr

/-- What `DataPoolVerify` hands back: return code and the match flag, if the call wrote it. -/
structure T_VerifyResponse where
  /-- Return code of the protocol -/
  s32_Return : T_Error
  /-- Match flag written by the call, if any -/
  oq_Match : Option Bool
  deriving DecidableEq, Repr

/-- One `DataPoolVerify` request. -/
structure T_VerifyRequest where
  /-- Index of the data pool on the server -/
  u8_DataPoolIndex : Nat
  /-- Checksum to compare with -/
  u32_DataPoolChecksum : Nat
  deriving DecidableEq, Repr

/-- Protocol instance of a node as the driver sees it (an element of `mc_DiagProtocols`). The
class constant `hu8_NR_CODE_REQUEST_OUT_OF_RANGE` of `C_OscProtocolDriverOsy` is not known here
and is carried along. -/
structure C_OscDiagProtocolBase where
  /-- Flag: the instance is a `C_OscDiagProtocolOsy` (the `dynamic_cast` succeeds) -/
  q_IsOsy : Bool
  /-- Class constant for the negative response code "request out of range" -/
  hu8_NR_CODE_REQUEST_OUT_OF_RANGE : Nat
  /-- Reaction to `DataPoolReadMetaData(index, ...)` -/
  DataPoolReadMetaData : Nat → T_ReadMetaDataResponse
  /-- Reaction to `DataPoolVerify(index, 0, 0, checksum, match)` -/
  DataPoolVerify : Nat → Nat → T_VerifyResponse
  /-- Mapping handed over with `RegisterDataPoolMapping`: pairs of client and server index -/
  mc_DataPoolMapping : List (Nat × Nat)
  /-- Flag: the instance is a `C_OscDiagProtocolKfx` (the `dynamic_cast` succeeds) -/
  q_IsKfx : Bool := false
  /-- Reaction to `Logoff(flag)` of a `C_OscDiagProtocolKfx` -/
  Logoff : Bool → T_Error := fun _ => C_NO_ERR
  /-- Reaction to `DataPoolStopEventDriven()` -/
  DataPoolStopEventDriven : T_Error := C_NO_ERR
  /-- Reaction to `Cycle()` -/
  Cycle : T_Error := C_NO_ERR

/-- Reason of a failed data pool check; stands for the text of the reason. -/
inductive T_ErrorReason
  /-- The read of the Datapool meta data failed with error (and negative response code) -/
  | metaDataReadFailed (s32_Return : T_Error) (ou8_ErrorCode : Option Nat)
  /-- The name of Datapool does not match (Client, Server) -/
  | nameMismatch (c_Client c_Server : String)
  /-- The version of Datapool does not match (Client, Server) -/
  | versionMismatch (c_Name : String) (c_Client c_Server : T_Version)
  /-- The checksum of Datapool does not match -/
  | checksumMismatch (c_Name : String)
  /-- The verify of the Datapool failed with error -/
  | verifyFailed (c_Name : String) (s32_Return : T_Error)
  /-- The Datapool does not exist on the server -/
  | notOnServer (c_Name : String)
  deriving DecidableEq, Repr

/-- One entry of the error details: the name of the node and the reasons listed for it. -/
structure T_ErrorDetail where
  /-- Name of the node -/
  c_NodeName : String
  /-- Reasons in the order in which they were added -/
  c_Reasons : List T_ErrorReason
  deriving DecidableEq, Repr

/-! ## Diagnostic communication driver: check of the data pools -/

/-- Result of the two checksum verification functions: return code, match flag and error reason
after the call, and the verify requests that went to the protocol. -/
structure T_CrcVerificationResult where
  /-- Return code -/
  s32_Return : T_Error
  /-- Value of `orq_Match` after the call -/
  q_Match : Bool
  /-- Value of `orc_ErrorReason` after the call; `none` is the empty text -/
  oc_ErrorReason : Option T_ErrorReason
  /-- Verify requests handed to the protocol, in order -/
  c_Requests : List T_VerifyRequest
  deriving DecidableEq, Repr

/-- Method `C_SyvComDriverDiag::mh_DoDatapoolCrcVerification`; `q_Match` and `oc_ErrorReason` are
the values of the two reference parameters before the call. -/
def mh_DoDatapoolCrcVerification (orc_Datapool : C_OscNodeDataPool)
    (orc_Protocol : C_OscDiagProtocolBase) (ou32_ServerDatapoolIndex : Nat)
    (oq_UseGeneratedVariant : Bool) (q_Match : Bool) (oc_ErrorReason : Option T_ErrorReason) :
    T_CrcVerificationResult :=
  let u32_DataPoolChecksum :=
    if oq_UseGeneratedVariant = true then orc_Datapool.u32_GeneratedDefinitionHash
    else orc_Datapool.u32_CompatV1DefinitionHash
  let c_Response := orc_Protocol.DataPoolVerify (ou32_ServerDatapoolIndex % 0x100)
    u32_DataPoolChecksum
  let c_Request : T_VerifyRequest :=
    { u8_DataPoolIndex := ou32_ServerDatapoolIndex % 0x100
      u32_DataPoolChecksum := u32_DataPoolChecksum }
  if c_Response.s32_Return ≠ C_NO_ERR then
    { s32_Return := c_Response.s32_Return
      q_Match := c_Response.oq_Match.getD q_Match
      oc_ErrorReason :=
        some (T_ErrorReason.verifyFailed orc_Datapool.c_Name c_Response.s32_Return)
      c_Requests := [c_Request] }
  else
    { s32_Return := c_Response.s32_Return
      q_Match := c_Response.oq_Match.getD q_Match
      oc_ErrorReason := oc_ErrorReason
      c_Requests := [c_Request] }

/-- Method `C_SyvComDriverDiag::mh_HandleDatapoolCrcVerification`; `q_Match` and `oc_ErrorReason`
are the values of the two reference parameters before the call. -/
def mh_HandleDatapoolCrcVerification (orc_Datapool : C_OscNodeDataPool)
    (orc_Protocol : C_OscDiagProtocolBase) (ou32_ServerDatapoolIndex : Nat)
    (q_Match : Bool) (oc_ErrorReason : Option T_ErrorReason) : T_CrcVerificationResult :=
  let c_First := mh_DoDatapoolCrcVerification orc_Datapool orc_Protocol ou32_ServerDatapoolIndex
    true q_Match oc_ErrorReason
  if c_First.s32_Return = C_NO_ERR then
    if c_First.q_Match = false then
      if orc_Datapool.e_Type ≠ E_Type.eNVM ∧ orc_Datapool.e_Type ≠ E_Type.eHALC_NVM then
        let c_Second := mh_DoDatapoolCrcVerification orc_Datapool orc_Protocol
          ou32_ServerDatapoolIndex false c_First.q_Match c_First.oc_ErrorReason
        { c_Second with c_Requests := c_First.c_Requests ++ c_Second.c_Requests }
      else
        c_First
    else
      c_First
  else
    c_First

/-- Result of `m_GetReadDatapoolMetadata`: return code, index on the server and the meta data
written, if any. -/
structure T_ReadDatapoolMetadata where
  /-- Return code -/
  s32_Return : T_Error
  /-- Value of `oru32_ServerDatapoolIndex` after the call -/
  u32_ServerDatapoolIndex : Nat
  /-- Meta data written to `orc_Metadata`, if any -/
  oc_Metadata : Option C_DataPoolMetaData
  deriving DecidableEq, Repr

/-- Loop of `m_GetReadDatapoolMetadata` over the meta data that is still to be looked at;
`u32_ServerDatapoolIndex` counts the entries passed. -/
def getReadDatapoolMetadataLoop (orc_DatapoolName : String) :
    List C_DataPoolMetaData → Nat → T_ReadDatapoolMetadata
  | [], u32_ServerDatapoolIndex =>
    { s32_Return := C_RANGE, u32_ServerDatapoolIndex := u32_ServerDatapoolIndex,
      oc_Metadata := none }
  | rc_Metadata :: c_Rest, u32_ServerDatapoolIndex =>
    if orc_DatapoolName = rc_Metadata.c_Name then
      { s32_Return := C_NO_ERR, u32_ServerDatapoolIndex := u32_ServerDatapoolIndex,
        oc_Metadata := some rc_Metadata }
    else
      getReadDatapoolMetadataLoop orc_DatapoolName c_Rest (u32_ServerDatapoolIndex + 1)

/-- Method `C_SyvComDriverDiag::m_GetReadDatapoolMetadata`, for the meta data read from the node
(`mc_ReadDatapoolMetadata[ou32_ActiveDiagNodeIndex]`). -/
def m_GetReadDatapoolMetadata (rc_NodeDatapoolsMetadata : List C_DataPoolMetaData)
    (orc_DatapoolName : String) : T_ReadDatapoolMetadata :=
  getReadDatapoolMetadataLoop orc_DatapoolName rc_NodeDatapoolsMetadata 0

/-- What the check of one data pool in `m_CheckOsyDatapoolsAndCreateMapping` yields: the return
code of the data pool, the error reason, the entry added to the mapping, and the verify requests
that went to the protocol. -/
structure T_DatapoolCheck where
  /-- Value of `s32_Return` for the data pool -/
  s32_Return : T_Error
  /-- Value of `c_ErrorReason` for the data pool; `none` is the empty text -/
  oc_ErrorReason : Option T_ErrorReason
  /-- Entry written to `c_DatapoolMapping`: client index and server index, both as `uint8` -/
  oc_Mapping : Option (Nat × Nat)
  /-- Verify requests handed to the protocol, in order -/
  c_Requests : List T_VerifyRequest
  deriving DecidableEq, Repr

/-- Body of the loop of `m_CheckOsyDatapoolsAndCreateMapping` for a data pool that is used on a
dashboard. -/
def checkDatapool (pc_Protocol : C_OscDiagProtocolBase)
    (rc_NodeDatapoolsMetadata : List C_DataPoolMetaData) (rc_Datapool : C_OscNodeDataPool)
    (u32_ItDataPool : Nat) : T_DatapoolCheck :=
  let c_Found := m_GetReadDatapoolMetadata rc_NodeDatapoolsMetadata rc_Datapool.c_Name
  let c_ServerMetadata : C_DataPoolMetaData :=
    c_Found.oc_Metadata.getD { au8_Version := (0, 0, 0), c_Name := "" }
  if c_Found.s32_Return = C_NO_ERR then
    if c_ServerMetadata.c_Name ≠ "" ∧ c_ServerMetadata.c_Name ≠ rc_Datapool.c_Name then
      { s32_Return := C_DEFAULT
        oc_ErrorReason :=
          some (T_ErrorReason.nameMismatch rc_Datapool.c_Name c_ServerMetadata.c_Name)
        oc_Mapping := none
        c_Requests := [] }
    else if rc_Datapool.au8_Version ≠ c_ServerMetadata.au8_Version then
      { s32_Return := C_DEFAULT
        oc_ErrorReason :=
          some (T_ErrorReason.versionMismatch rc_Datapool.c_Name rc_Datapool.au8_Version
            c_ServerMetadata.au8_Version)
        oc_Mapping := none
        c_Requests := [] }
    else
      let c_Verify := mh_HandleDatapoolCrcVerification rc_Datapool pc_Protocol
        c_Found.u32_ServerDatapoolIndex false none
      if c_Verify.s32_Return = C_NO_ERR then
        if c_Verify.q_Match = false then
          { s32_Return := C_DEFAULT
            oc_ErrorReason := some (T_ErrorReason.checksumMismatch rc_Datapool.c_Name)
            oc_Mapping := none
            c_Requests := c_Verify.c_Requests }
        else
          { s32_Return := C_NO_ERR
            oc_ErrorReason := c_Verify.oc_ErrorReason
            oc_Mapping := some (u32_ItDataPool % 0x100, c_Found.u32_ServerDatapoolIndex % 0x100)
            c_Requests := c_Verify.c_Requests }
      else
        { s32_Return := c_Verify.s32_Return
          oc_ErrorReason := c_Verify.oc_ErrorReason
          oc_Mapping := none
          c_Requests := c_Verify.c_Requests }
  else
    { s32_Return := C_DEFAULT
      oc_ErrorReason := some (T_ErrorReason.notOnServer rc_Datapool.c_Name)
      oc_Mapping := none
      c_Requests := [] }

/-- The assignment `c_DatapoolMapping[key] = value` of a `std::map`: the entry of the key is
replaced, or the pair is added. -/
def mapAssign (c_Map : List (Nat × Nat)) (c_Entry : Nat × Nat) : List (Nat × Nat) :=
  c_Map.filter (fun x => x.1 ≠ c_Entry.1) ++ [c_Entry]

/-- The value that a `std::map` holds for a key, if any. -/
def mapFind (c_Map : List (Nat × Nat)) (u8_Key : Nat) : Option Nat :=
  (c_Map.find? (fun x => x.1 = u8_Key)).map (fun x => x.2)

/-- Search of `m_CheckOsyDatapoolsAndCreateMapping` for a usage of the data pool: flag
`q_DatapoolRelevant`. -/
def isDatapoolRelevant (c_RegisteredElementIds : List C_OscNodeDataPoolListElementId)
    (u32_NodeIndex u32_ItDataPool : Nat) : Bool :=
  c_RegisteredElementIds.any
    (fun c_Id => c_Id.u32_NodeIndex = u32_NodeIndex ∧ c_Id.u32_DataPoolIndex = u32_ItDataPool)

/-- Local state of `m_CheckOsyDatapoolsAndCreateMapping` while it runs over the data pools. -/
structure T_CheckState where
  /-- Value of `s32_Retval` -/
  s32_Retval : T_Error
  /-- Reasons added to `c_DataPoolErrorString`, in order -/
  c_DataPoolErrorString : List T_ErrorReason
  /-- Value of `c_DatapoolMapping` -/
  c_DatapoolMapping : List (Nat × Nat)
  /-- Verify requests handed to the protocol, in order -/
  c_Requests : List T_VerifyRequest
  deriving DecidableEq, Repr

/-- The local state after the check of one data pool was taken over. -/
def T_CheckState.take (c_State : T_CheckState) (c_Check : T_DatapoolCheck) : T_CheckState :=
  { s32_Retval := if c_Check.s32_Return ≠ C_NO_ERR then c_Check.s32_Return else c_State.s32_Retval
    c_DataPoolErrorString :=
      if c_Check.s32_Return ≠ C_NO_ERR then
        c_State.c_DataPoolErrorString ++ c_Check.oc_ErrorReason.toList
      else c_State.c_DataPoolErrorString
    c_DatapoolMapping :=
      match c_Check.oc_Mapping with
      | none => c_State.c_DatapoolMapping
      | some c_Entry => mapAssign c_State.c_DatapoolMapping c_Entry
    c_Requests := c_State.c_Requests ++ c_Check.c_Requests }

/-- Loop of `m_CheckOsyDatapoolsAndCreateMapping` over the data pools that are still to be
handled; `u32_ItDataPool` is the index of the first of them. The meta data read from the node is
`none` when `mc_ReadDatapoolMetadata` has no entry for the node; it is looked at for a used data
pool only. -/
def checkDatapoolsLoop (pc_Protocol : C_OscDiagProtocolBase)
    (oc_NodeDatapoolsMetadata : Option (List C_DataPoolMetaData))
    (c_RegisteredElementIds : List C_OscNodeDataPoolListElementId) (u32_NodeIndex : Nat) :
    List C_OscNodeDataPool → Nat → T_CheckState → Option T_CheckState
  | [], _, c_State => some c_State
  | rc_Datapool :: c_Rest, u32_ItDataPool, c_State =>
    if isDatapoolRelevant c_RegisteredElementIds u32_NodeIndex u32_ItDataPool = true then
      match oc_NodeDatapoolsMetadata with
      | none => none
      | some rc_NodeDatapoolsMetadata =>
        checkDatapoolsLoop pc_Protocol oc_NodeDatapoolsMetadata c_RegisteredElementIds
          u32_NodeIndex c_Rest (u32_ItDataPool + 1)
          (c_State.take
            (checkDatapool pc_Protocol rc_NodeDatapoolsMetadata rc_Datapool u32_ItDataPool))
    else
      checkDatapoolsLoop pc_Protocol oc_NodeDatapoolsMetadata c_RegisteredElementIds
        u32_NodeIndex c_Rest (u32_ItDataPool + 1) c_State

/-! ## Diagnostic communication driver: start of the diagnostic servers -/

/-- What the driver reaches through the handlers `C_PuiSdHandler` and `C_PuiSvHandler`: the nodes
of the system definition (`GetOscNodeConst`), the views (`GetView`), and the class constant
`C_OscNode::hu32_MAX_NUMBER_OF_DATA_POOLS_PER_NODE`, whose value is not known here and is carried
along. -/
structure T_Project where
  /-- Nodes of the system definition -/
  c_Nodes : List C_OscNode
  /-- Views of the project -/
  c_Views : List C_PuiSvData
  /-- Maximum number of data pools per node -/
  hu32_MAX_NUMBER_OF_DATA_POOLS_PER_NODE : Nat
  deriving DecidableEq, Repr

/-- The driver (`C_SyvComDriverDiag`), restricted to the members used by the functions that are
embedded here. -/
structure C_SyvComDriverDiag where
  /-- Flag: `InitDiag` was successful -/
  mq_Initialized : Bool
  /-- Index of the view -/
  mu32_ViewIndex : Nat
  /-- Indexes of the active nodes in the system definition -/
  mc_ActiveNodesIndexes : List Nat
  /-- Active nodes with diagnosis: indexes into `mc_ActiveNodesIndexes` -/
  mc_ActiveDiagNodes : List Nat
  /-- Protocol instances, one per active node -/
  mc_DiagProtocols : List C_OscDiagProtocolBase
  /-- Indexes of the nodes with elements used by the view (a `std::set`) -/
  mc_DiagNodesWithElements : List Nat
  /-- Meta data read from the servers, one list per active node with diagnosis -/
  mc_ReadDatapoolMetadata : List (List C_DataPoolMetaData)

/-- One request of the driver to the protocol of an active node. -/
inductive T_Request
  /-- Call of `DataPoolReadMetaData` with the index of the data pool -/
  | readMetaData (u32_ActiveNode : Nat) (u8_DataPoolIndex : Nat)
  /-- Call of `DataPoolVerify` -/
  | verify (u32_ActiveNode : Nat) (c_Request : T_VerifyRequest)
  deriving DecidableEq, Repr

/-- Result of the scan in `m_GetAllDatapoolMetadata`: return code, the meta data pushed to
`mc_ReadDatapoolMetadata`, the error reason if there is one, and the indexes asked for. -/
structure T_MetadataScan where
  /-- Value of `s32_Return` behind the loop -/
  s32_Return : T_Error
  /-- Meta data pushed, in order -/
  c_Metadata : List C_DataPoolMetaData
  /-- Value of `c_ErrorReason`; `none` is the empty text -/
  oc_ErrorReason : Option T_ErrorReason
  /-- Indexes handed to `DataPoolReadMetaData`, in order -/
  c_Requests : List Nat
  deriving DecidableEq, Repr

/-- Loop of `m_GetAllDatapoolMetadata`: `u32_Left` runs of the loop are left, the next one is for
`u32_ItDataPool`. -/
def getAllDatapoolMetadataLoop (pc_Protocol : C_OscDiagProtocolBase) :
    Nat → Nat → T_MetadataScan
  | 0, _ => { s32_Return := C_NO_ERR, c_Metadata := [], oc_ErrorReason := none, c_Requests := [] }
  | u32_Left + 1, u32_ItDataPool =>
    let c_Response := pc_Protocol.DataPoolReadMetaData (u32_ItDataPool % 0x100)
    if c_Response.s32_Return = C_NO_ERR then
      let c_Rest := getAllDatapoolMetadataLoop pc_Protocol u32_Left (u32_ItDataPool + 1)
      { c_Rest with
        c_Metadata := c_Response.c_MetaData :: c_Rest.c_Metadata
        c_Requests := u32_ItDataPool % 0x100 :: c_Rest.c_Requests }
    else if c_Response.s32_Return = C_WARN then
      if c_Response.u8_ErrorCode = pc_Protocol.hu8_NR_CODE_REQUEST_OUT_OF_RANGE then
        { s32_Return := C_NO_ERR, c_Metadata := [], oc_ErrorReason := none,
          c_Requests := [u32_ItDataPool % 0x100] }
      else
        { s32_Return := C_WARN, c_Metadata := []
          oc_ErrorReason :=
            some (T_ErrorReason.metaDataReadFailed C_WARN (some c_Response.u8_ErrorCode))
          c_Requests := [u32_ItDataPool % 0x100] }
    else
      { s32_Return := c_Response.s32_Return, c_Metadata := []
        oc_ErrorReason := some (T_ErrorReason.metaDataReadFailed c_Response.s32_Return none)
        c_Requests := [u32_ItDataPool % 0x100] }

/-- Result of a function of the driver: return code, the driver after the call, the error
details after the call and the requests that went to the protocols. -/
structure T_DriverResult where
  /-- Return code -/
  s32_Return : T_Error
  /-- The driver after the call -/
  c_Driver : C_SyvComDriverDiag
  /-- Value of `orc_ErrorDetails` after the call -/
  c_ErrorDetails : List T_ErrorDetail
  /-- Requests handed to the protocols, in order -/
  c_Requests : List T_Request

/-- Method `C_SyvComDriverDiag::m_GetAllDatapoolMetadata`. -/
def m_GetAllDatapoolMetadata (c_Project : T_Project) (d : C_SyvComDriverDiag)
    (ou32_ActiveDiagNodeIndex : Nat) (orc_ErrorDetails : List T_ErrorDetail) :
    Option T_DriverResult :=
  match d.mc_ActiveDiagNodes[ou32_ActiveDiagNodeIndex]? with
  | none => none
  | some u32_ActiveNode =>
    if c_Project.hu32_MAX_NUMBER_OF_DATA_POOLS_PER_NODE = 0 then
      some { s32_Return := C_NO_ERR, c_Driver := d, c_ErrorDetails := orc_ErrorDetails,
             c_Requests := [] }
    else
      match d.mc_DiagProtocols[u32_ActiveNode]? with
      | none => none
      | some pc_Protocol =>
        let c_Scan := getAllDatapoolMetadataLoop pc_Protocol
          c_Project.hu32_MAX_NUMBER_OF_DATA_POOLS_PER_NODE 0
        let c_Requests := c_Scan.c_Requests.map (T_Request.readMetaData u32_ActiveNode)
        let oc_ReadDatapoolMetadata : Option (List (List C_DataPoolMetaData)) :=
          if c_Scan.c_Metadata = [] then some d.mc_ReadDatapoolMetadata
          else
            (d.mc_ReadDatapoolMetadata[ou32_ActiveDiagNodeIndex]?).map
              (fun c_Old =>
                d.mc_ReadDatapoolMetadata.set ou32_ActiveDiagNodeIndex (c_Old ++ c_Scan.c_Metadata))
        match oc_ReadDatapoolMetadata with
        | none => none
        | some c_ReadDatapoolMetadata =>
          let c_Driver := { d with mc_ReadDatapoolMetadata := c_ReadDatapoolMetadata }
          match c_Scan.oc_ErrorReason with
          | none =>
            some { s32_Return := c_Scan.s32_Return, c_Driver := c_Driver,
                   c_ErrorDetails := orc_ErrorDetails, c_Requests := c_Requests }
          | some c_ErrorReason =>
            match d.mc_ActiveNodesIndexes[u32_ActiveNode]? with
            | none => none
            | some u32_NodeIndex =>
              match c_Project.c_Nodes[u32_NodeIndex]? with
              | none =>
                some { s32_Return := c_Scan.s32_Return, c_Driver := c_Driver,
                       c_ErrorDetails := orc_ErrorDetails, c_Requests := c_Requests }
              | some pc_Node =>
                some { s32_Return := c_Scan.s32_Return, c_Driver := c_Driver
                       c_ErrorDetails :=
                         orc_ErrorDetails ++
                           [{ c_NodeName := pc_Node.c_Name, c_Reasons := [c_ErrorReason] }]
                       c_Requests := c_Requests }

/-- Result of `m_CheckOsyDatapoolsAndCreateMapping`: besides the result of a function of the
driver, the local mapping `c_DatapoolMapping` at the end of the function, the flag whether
`RegisterDataPoolMapping` was called with it, and the verify requests in order. -/
structure T_CheckResult where
  /-- Return code -/
  s32_Return : T_Error
  /-- The driver after the call -/
  c_Driver : C_SyvComDriverDiag
  /-- Value of `orc_ErrorDetails` after the call -/
  c_ErrorDetails : List T_ErrorDetail
  /-- Verify requests handed to the protocol of the node, in order -/
  c_Requests : List T_VerifyRequest
  /-- Value of the local `c_DatapoolMapping` at the end -/
  c_DatapoolMapping : List (Nat × Nat)
  /-- Flag: `RegisterDataPoolMapping` was called -/
  q_Registered : Bool

/-- Modelled from the spec: the driver after `RegisterDataPoolMapping` was called on the protocol
of an active node ("record ... in a mapping table the Protocol must consult"): the protocol
instance holds the mapping handed over. -/
def C_SyvComDriverDiag.registerDataPoolMapping (d : C_SyvComDriverDiag) (u32_ActiveNode : Nat)
    (c_DatapoolMapping : List (Nat × Nat)) : C_SyvComDriverDiag :=
  { d with
    mc_DiagProtocols :=
      d.mc_DiagProtocols.modify
        (fun c_Protocol => { c_Protocol with mc_DataPoolMapping := c_DatapoolMapping })
        u32_ActiveNode }

/-- Method `C_SyvComDriverDiag::m_CheckOsyDatapoolsAndCreateMapping`. -/
def m_CheckOsyDatapoolsAndCreateMapping (c_Project : T_Project) (d : C_SyvComDriverDiag)
    (ou32_ActiveDiagNodeIndex : Nat) (orc_ErrorDetails : List T_ErrorDetail) :
    Option T_CheckResult :=
  match d.mc_ActiveDiagNodes[ou32_ActiveDiagNodeIndex]? with
  | none => none
  | some u32_ActiveNode =>
    match d.mc_DiagProtocols[u32_ActiveNode]? with
    | none => none
    | some c_Protocol =>
      match d.mc_ActiveNodesIndexes[u32_ActiveNode]? with
      | none => none
      | some u32_NodeIndex =>
        match c_Project.c_Views[d.mu32_ViewIndex]?, c_Project.c_Nodes[u32_NodeIndex]?,
          c_Protocol.q_IsOsy with
        | some pc_View, some pc_Node, true =>
          match checkDatapoolsLoop c_Protocol
              (d.mc_ReadDatapoolMetadata[ou32_ActiveDiagNodeIndex]?)
              pc_View.c_RegisteredDashboardElements u32_NodeIndex pc_Node.c_DataPools 0
              { s32_Retval := C_NO_ERR, c_DataPoolErrorString := [], c_DatapoolMapping := [],
                c_Requests := [] } with
          | none => none
          | some c_State =>
            if c_State.s32_Retval = C_NO_ERR then
              some { s32_Return := c_State.s32_Retval
                     c_Driver := d.registerDataPoolMapping u32_ActiveNode c_State.c_DatapoolMapping
                     c_ErrorDetails := orc_ErrorDetails
                     c_Requests := c_State.c_Requests
                     c_DatapoolMapping := c_State.c_DatapoolMapping
                     q_Registered := true }
            else
              some { s32_Return := c_State.s32_Retval
                     c_Driver := d
                     c_ErrorDetails :=
                       orc_ErrorDetails ++
                         [{ c_NodeName := pc_Node.c_Name
                            c_Reasons := c_State.c_DataPoolErrorString }]
                     c_Requests := c_State.c_Requests
                     c_DatapoolMapping := c_State.c_DatapoolMapping
                     q_Registered := false }
        | _, _, _ =>
          some { s32_Return := C_CONFIG, c_Driver := d, c_ErrorDetails := orc_ErrorDetails,
                 c_Requests := [], c_DatapoolMapping := [], q_Registered := false }

/-- Insertion into a `std::set`. -/
def setInsert (c_Set : List Nat) (u32_Value : Nat) : List Nat :=
  if u32_Value ∈ c_Set then c_Set else c_Set ++ [u32_Value]

/-- Method `C_SyvComDriverDiag::m_InitDiagNodes`: return code and the driver after the call. -/
def m_InitDiagNodes (c_Project : T_Project) (d : C_SyvComDriverDiag) :
    T_Error × C_SyvComDriverDiag :=
  match c_Project.c_Views[d.mu32_ViewIndex]? with
  | none => (C_CONFIG, d)
  | some pc_View =>
    (C_NO_ERR,
      { d with
        mc_DiagNodesWithElements :=
          (pc_View.c_WriteAssignments.map (fun c_Id => c_Id.u32_NodeIndex)).foldl setInsert
            ((pc_View.c_ReadRailAssignments.map (fun c_Id => c_Id.u32_NodeIndex)).foldl setInsert
              d.mc_DiagNodesWithElements) })

/-- Local state of `m_StartDiagServers` while it runs over the active nodes with diagnosis. -/
structure T_StartState where
  /-- Value of `s32_Retval` -/
  s32_Retval : T_Error
  /-- The driver -/
  c_Driver : C_SyvComDriverDiag
  /-- Value of `orc_ErrorDetails` -/
  c_ErrorDetails : List T_ErrorDetail
  /-- Requests handed to the protocols, in order -/
  c_Requests : List T_Request

/-- Body of the loop of `m_StartDiagServers` for the active node with diagnosis of index
`u32_DiagNodeCounter`. -/
def startDiagServer (c_Project : T_Project) (u32_DiagNodeCounter : Nat)
    (c_State : T_StartState) : Option T_StartState :=
  match c_State.c_Driver.mc_ActiveDiagNodes[u32_DiagNodeCounter]? with
  | none => none
  | some u32_ActiveNode =>
    match c_State.c_Driver.mc_ActiveNodesIndexes[u32_ActiveNode]? with
    | none => none
    | some u32_NodeIndex =>
      if u32_NodeIndex ∈ c_State.c_Driver.mc_DiagNodesWithElements then
        match c_Project.c_Nodes[u32_NodeIndex]? with
        | none => some { c_State with s32_Retval := C_CONFIG }
        | some pc_Node =>
          if pc_Node.e_DiagnosticServer = E_DiagnosticServerProtocol.eDS_KEFEX then
            some c_State
          else
            match m_GetAllDatapoolMetadata c_Project c_State.c_Driver u32_DiagNodeCounter
                c_State.c_ErrorDetails with
            | none => none
            | some c_Read =>
              if c_Read.s32_Return = C_NO_ERR then
                match m_CheckOsyDatapoolsAndCreateMapping c_Project c_Read.c_Driver
                    u32_DiagNodeCounter c_Read.c_ErrorDetails with
                | none => none
                | some c_Check =>
                  some { s32_Retval :=
                           if c_Check.s32_Return ≠ C_NO_ERR then c_Check.s32_Return
                           else c_State.s32_Retval
                         c_Driver := c_Check.c_Driver
                         c_ErrorDetails := c_Check.c_ErrorDetails
                         c_Requests :=
                           c_State.c_Requests ++ c_Read.c_Requests ++
                             c_Check.c_Requests.map (T_Request.verify u32_ActiveNode) }
              else
                some { s32_Retval := c_Read.s32_Return
                       c_Driver := c_Read.c_Driver
                       c_ErrorDetails := c_Read.c_ErrorDetails
                       c_Requests := c_State.c_Requests ++ c_Read.c_Requests }
      else
        some c_State

/-- Loop of `m_StartDiagServers`: `u32_Left` runs of the loop are left, the next one is for
`u32_DiagNodeCounter`. -/
def startDiagServersLoop (c_Project : T_Project) :
    Nat → Nat → T_StartState → Option T_StartState
  | 0, _, c_State => some c_State
  | u32_Left + 1, u32_DiagNodeCounter, c_State =>
    match startDiagServer c_Project u32_DiagNodeCounter c_State with
    | none => none
    | some c_Next => startDiagServersLoop c_Project u32_Left (u32_DiagNodeCounter + 1) c_Next

/-- Local state of `m_StartDiagServers` in front of its loop: `mc_ReadDatapoolMetadata` was
cleared and resized to one empty list per active node with diagnosis. -/
def startDiagServersInit (d : C_SyvComDriverDiag) (orc_ErrorDetails : List T_ErrorDetail) :
    T_StartState :=
  { s32_Retval := C_NO_ERR
    c_Driver :=
      { d with mc_ReadDatapoolMetadata := List.replicate d.mc_ActiveDiagNodes.length [] }
    c_ErrorDetails := orc_ErrorDetails
    c_Requests := [] }

/-- Method `C_SyvComDriverDiag::m_StartDiagServers`. -/
def m_StartDiagServers (c_Project : T_Project) (d : C_SyvComDriverDiag)
    (orc_ErrorDetails : List T_ErrorDetail) : Option T_DriverResult :=
  if d.mq_Initialized = true ∧ d.mc_DiagProtocols.length > 0 then
    match startDiagServersLoop c_Project d.mc_ActiveDiagNodes.length 0
        (startDiagServersInit d orc_ErrorDetails) with
    | none => none
    | some c_State =>
      some { s32_Return := c_State.s32_Retval, c_Driver := c_State.c_Driver,
             c_ErrorDetails := c_State.c_ErrorDetails, c_Requests := c_State.c_Requests }
  else if d.mq_Initialized = true ∧ d.mc_DiagProtocols.length = 0 ∧
      d.mc_ActiveDiagNodes.length = 0 then
    some { s32_Return := C_NO_ERR, c_Driver := { d with mc_ReadDatapoolMetadata := [] },
           c_ErrorDetails := orc_ErrorDetails, c_Requests := [] }
  else
    some { s32_Return := C_CONFIG, c_Driver := { d with mc_ReadDatapoolMetadata := [] },
           c_ErrorDetails := orc_ErrorDetails, c_Requests := [] }

/-! ## Diagnostic communication driver: start of the routing -/

/-- Identification of a server (`C_OscProtocolDriverOsyNode`). -/
structure C_OscProtocolDriverOsyNode where
  /-- Identifier of the bus -/
  u8_BusIdentifier : Nat
  /-- Identifier of the node on the bus -/
  u8_NodeIdentifier : Nat
  deriving DecidableEq, Repr

/-- What `m_StartRoutingIp2Ip` and `m_StartRouting` hand back: return code and the value written
to `*opu32_ErrorActiveNodeIndex`, if the call wrote one. -/
structure T_RoutingResponse where
  /-- Return code -/
  s32_Return : T_Error
  /-- Active node index of the node that caused the error, if written -/
  ou32_ErrorActiveNodeIndex : Option Nat
  deriving DecidableEq, Repr

/-- The members and functions of the base class `C_OscComDriverProtocol` that `m_StartRoutingDiag`
uses; their code is not under the sources of the driver. The reaction of a function is a function
of its argument. -/
structure T_RoutingBase where
  /-- Reaction to `m_StartRoutingIp2Ip(active node, ...)` -/
  m_StartRoutingIp2Ip : Nat → T_RoutingResponse
  /-- Reaction to `m_StartRouting(active node, ...)` -/
  m_StartRouting : Nat → T_RoutingResponse
  /-- Reaction to `ReConnectNode(server id)` -/
  ReConnectNode : C_OscProtocolDriverOsyNode → T_Error
  /-- Result of `GetClientId()` -/
  c_ClientId : C_OscProtocolDriverOsyNode
  /-- Identifications of the servers, one per active node -/
  mc_ServerIds : List C_OscProtocolDriverOsyNode

/-- One call of `m_StartRoutingDiag` into the base class. -/
inductive T_RoutingCall
  /-- Call of `m_StartRoutingIp2Ip` for an active node -/
  | startRoutingIp2Ip (u32_ActiveNode : Nat)
  /-- Call of `m_StartRouting` for an active node -/
  | startRouting (u32_ActiveNode : Nat)
  /-- Call of `ReConnectNode` for a server -/
  | reConnectNode (c_ServerId : C_OscProtocolDriverOsyNode)
  deriving DecidableEq, Repr

/-- State of `m_StartRoutingDiag`: return code, the local `u32_ErrorActiveNodeIndex` (`none` as
long as nothing was written to it), the two reference parameters and the calls into the base
class. An entry of the error details names a node here and has no reasons. -/
structure T_RoutingState where
  /-- Value of `s32_Return` -/
  s32_Return : T_Error
  /-- Value of the local `u32_ErrorActiveNodeIndex`, if it was written -/
  ou32_ErrorActiveNodeIndex : Option Nat
  /-- Value of `orc_ErrorDetails` -/
  c_ErrorDetails : List T_ErrorDetail
  /-- Value of `orc_ErrorActiveNodes` (a `std::set`) -/
  c_ErrorActiveNodes : List Nat
  /-- Calls into the base class, in order -/
  c_Calls : List T_RoutingCall
  deriving DecidableEq, Repr

/-- One of the two halves of `m_GetRoutingErrorDetails`: the node is added to the set and its name
to the details, unless the set holds it already. -/
def addRoutingErrorNode (c_Project : T_Project) (d : C_SyvComDriverDiag)
    (c_Details : List T_ErrorDetail × List Nat) (u32_ActiveNode : Nat) :
    Option (List T_ErrorDetail × List Nat) :=
  if u32_ActiveNode ∈ c_Details.2 then some c_Details
  else
    match d.mc_ActiveNodesIndexes[u32_ActiveNode]? with
    | none => none
    | some u32_NodeIndex =>
      match c_Project.c_Nodes[u32_NodeIndex]? with
      | none => some (c_Details.1, setInsert c_Details.2 u32_ActiveNode)
      | some pc_Node =>
        some (c_Details.1 ++ [{ c_NodeName := pc_Node.c_Name, c_Reasons := [] }],
          setInsert c_Details.2 u32_ActiveNode)

/-- Method `C_SyvComDriverDiag::m_GetRoutingErrorDetails`: error details and set of nodes after the
call. The index of the node that caused the error is `none` when the caller never wrote the
variable it passes. -/
def m_GetRoutingErrorDetails (c_Project : T_Project) (d : C_SyvComDriverDiag)
    (orc_ErrorDetails : List T_ErrorDetail) (orc_ErrorActiveNodes : List Nat)
    (ou32_ActiveNode : Nat) (oou32_ErrorActiveNodeIndex : Option Nat) :
    Option (List T_ErrorDetail × List Nat) :=
  match oou32_ErrorActiveNodeIndex with
  | none => none
  | some ou32_ErrorActiveNodeIndex =>
    match addRoutingErrorNode c_Project d (orc_ErrorDetails, orc_ErrorActiveNodes)
        ou32_ActiveNode with
    | none => none
    | some c_Details => addRoutingErrorNode c_Project d c_Details ou32_ErrorActiveNodeIndex

/-- What the body of a loop of `m_StartRoutingDiag` does for one node before it looks at the
return code: the return code, the value written to `u32_ErrorActiveNodeIndex` if one was written,
and the calls into the base class. -/
structure T_NodeRouting where
  /-- Value of `s32_Return` -/
  s32_Return : T_Error
  /-- Value written to `u32_ErrorActiveNodeIndex`, if any -/
  ou32_ErrorActiveNodeIndex : Option Nat
  /-- Calls into the base class, in order -/
  c_Calls : List T_RoutingCall
  deriving DecidableEq, Repr

/-- Body of the first loop of `m_StartRoutingDiag` up to the test of the return code: the call of
`m_StartRoutingIp2Ip`. -/
def startRoutingIp2IpOfNode (c_Base : T_RoutingBase) (u32_ActiveNode : Nat) :
    Option (Option T_NodeRouting) :=
  let c_Response := c_Base.m_StartRoutingIp2Ip u32_ActiveNode
  some (some { s32_Return := c_Response.s32_Return
               ou32_ErrorActiveNodeIndex := c_Response.ou32_ErrorActiveNodeIndex
               c_Calls := [T_RoutingCall.startRoutingIp2Ip u32_ActiveNode] })

/-- Body of the second loop of `m_StartRoutingDiag` up to the test of the return code: the call
of `m_StartRouting` and, for an openSYDE node on the bus of the client whose routing was started,
the call of `ReConnectNode`. The result is `some none` for a node that is not in the system
definition (nothing is called), and `none` if an access to a vector has no defined result. -/
def startRoutingOfNode (c_Project : T_Project) (d : C_SyvComDriverDiag) (c_Base : T_RoutingBase)
    (u32_ActiveNode : Nat) : Option (Option T_NodeRouting) :=
  match d.mc_ActiveNodesIndexes[u32_ActiveNode]? with
  | none => none
  | some u32_NodeIndex =>
    match c_Project.c_Nodes[u32_NodeIndex]? with
    | none => some none
    | some pc_Node =>
      let c_Response := c_Base.m_StartRouting u32_ActiveNode
      if pc_Node.e_DiagnosticServer = E_DiagnosticServerProtocol.eDS_OPEN_SYDE ∧
          c_Response.s32_Return = C_NO_ERR then
        match c_Base.mc_ServerIds[u32_ActiveNode]? with
        | none => none
        | some c_ServerId =>
          if c_Base.c_ClientId.u8_BusIdentifier = c_ServerId.u8_BusIdentifier then
            some (some { s32_Return := c_Base.ReConnectNode c_ServerId
                         ou32_ErrorActiveNodeIndex := c_Response.ou32_ErrorActiveNodeIndex
                         c_Calls := [T_RoutingCall.startRouting u32_ActiveNode,
                           T_RoutingCall.reConnectNode c_ServerId] })
          else
            some (some { s32_Return := c_Response.s32_Return
                         ou32_ErrorActiveNodeIndex := c_Response.ou32_ErrorActiveNodeIndex
                         c_Calls := [T_RoutingCall.startRouting u32_ActiveNode] })
      else
        some (some { s32_Return := c_Response.s32_Return
                     ou32_ErrorActiveNodeIndex := c_Response.ou32_ErrorActiveNodeIndex
                     c_Calls := [T_RoutingCall.startRouting u32_ActiveNode] })

/-- The local `u32_ErrorActiveNodeIndex` of `m_StartRoutingDiag` behind a call that got its
address: the value written by the call, or the value from before if the call wrote none. -/
def errorActiveNodeIndexAfter (oc_Before oc_Written : Option Nat) : Option Nat :=
  match oc_Written with
  | none => oc_Before
  | some u32_Written => some u32_Written

/-- The shape that the two loops of `m_StartRoutingDiag` share, for the body `c_Body` up to the
test of the return code: `u32_Left` runs of the loop are left, the next one is for
`u32_DiagNodeCounter`. If the return code of a node is not `C_NO_ERR` the error details are
worked out with `m_GetRoutingErrorDetails` and the loop is left (`break`). -/
def startRoutingLoop (c_Project : T_Project) (d : C_SyvComDriverDiag)
    (c_Body : Nat → Option (Option T_NodeRouting)) :
    Nat → Nat → T_RoutingState → Option T_RoutingState
  | 0, _, c_State => some c_State
  | u32_Left + 1, u32_DiagNodeCounter, c_State =>
    match d.mc_ActiveDiagNodes[u32_DiagNodeCounter]? with
    | none => none
    | some u32_ActiveNode =>
      match c_Body u32_ActiveNode with
      | none => none
      | some none =>
        startRoutingLoop c_Project d c_Body u32_Left (u32_DiagNodeCounter + 1) c_State
      | some (some c_Routing) =>
        let ou32_ErrorActiveNodeIndex :=
          errorActiveNodeIndexAfter c_State.ou32_ErrorActiveNodeIndex
            c_Routing.ou32_ErrorActiveNodeIndex
        if c_Routing.s32_Return ≠ C_NO_ERR then
          match m_GetRoutingErrorDetails c_Project d c_State.c_ErrorDetails
              c_State.c_ErrorActiveNodes u32_ActiveNode ou32_ErrorActiveNodeIndex with
          | none => none
          | some c_Details =>
            some { s32_Return := c_Routing.s32_Return
                   ou32_ErrorActiveNodeIndex := ou32_ErrorActiveNodeIndex
                   c_ErrorDetails := c_Details.1
                   c_ErrorActiveNodes := c_Details.2
                   c_Calls := c_State.c_Calls ++ c_Routing.c_Calls }
        else
          startRoutingLoop c_Project d c_Body u32_Left (u32_DiagNodeCounter + 1)
            { s32_Return := c_Routing.s32_Return
              ou32_ErrorActiveNodeIndex := ou32_ErrorActiveNodeIndex
              c_ErrorDetails := c_State.c_ErrorDetails
              c_ErrorActiveNodes := c_State.c_ErrorActiveNodes
              c_Calls := c_State.c_Calls ++ c_Routing.c_Calls }

/-- Method `C_SyvComDriverDiag::m_StartRoutingDiag`. -/
def m_StartRoutingDiag (c_Project : T_Project) (d : C_SyvComDriverDiag) (c_Base : T_RoutingBase)
    (orc_ErrorDetails : List T_ErrorDetail) (orc_ErrorActiveNodes : List Nat) :
    Option T_RoutingState :=
  match startRoutingLoop c_Project d (startRoutingIp2IpOfNode c_Base)
      d.mc_ActiveDiagNodes.length 0
      { s32_Return := C_NO_ERR, ou32_ErrorActiveNodeIndex := none
        c_ErrorDetails := orc_ErrorDetails, c_ErrorActiveNodes := orc_ErrorActiveNodes
        c_Calls := [] } with
  | none => none
  | some c_State =>
    if c_State.s32_Return = C_NO_ERR then
      startRoutingLoop c_Project d (startRoutingOfNode c_Project d c_Base)
        d.mc_ActiveDiagNodes.length 0 c_State
    else
      some c_State

/-! ## Diagnostic communication driver: received CAN messages -/

/-- Multiplexer type of a signal (`C_OscCanSignal::E_MultiplexerType`). -/
inductive E_MultiplexerType
  | eMUX_DEFAULT
  | eMUX_MULTIPLEXER_SIGNAL
  | eMUX_MULTIPLEXED_SIGNAL
  deriving DecidableEq, Repr

/-- Signal of a CAN message (`C_OscCanSignal`): multiplexer type and multiplex value as the driver
uses them, start bit and length for the functions of `C_OscCanUtil`. -/
structure C_OscCanSignal where
  /-- Multiplexer type of the signal -/
  e_MultiplexerType : E_MultiplexerType
  /-- Multiplexer value for which a multiplexed signal is in the message -/
  u16_MultiplexValue : Nat
  /-- First bit of the signal -/
  u16_ComBitStart : Nat
  /-- Number of bits of the signal -/
  u16_ComBitLength : Nat
  deriving DecidableEq, Repr

/-- Type of a content (`C_OscNodeDataPoolContent::E_Type`); the driver names `eUINT8` and
`eUINT16` only. -/
inductive E_ContentType
  | eUINT8
  | eUINT16
  | eOTHER
  deriving DecidableEq, Repr

/-- Modelled from the spec: content of a data element with time stamp
(`C_PuiSvDbDataElementContent`, "decode template value"; "decoded values receive a ... timestamp
... before delivery"), as far as the driver uses it: the type handed out by `GetType`, the value
and the time stamp. -/
structure C_PuiSvDbDataElementContent where
  /-- Type of the value -/
  e_Type : E_ContentType
  /-- The value as a number -/
  u64_Value : Nat
  /-- Time stamp of the value -/
  u32_TimeStamp : Nat
  deriving DecidableEq, Repr

/-- Modelled from the spec: the content after `SetTimeStamp`, which has the new time stamp and is
unchanged otherwise. -/
def C_PuiSvDbDataElementContent.SetTimeStamp (c : C_PuiSvDbDataElementContent)
    (u32_TimeStamp : Nat) : C_PuiSvDbDataElementContent :=
  { c with u32_TimeStamp := u32_TimeStamp }

/-- The functions of `C_OscCanUtil` and of the content that `m_HandleCanMessage` uses and the
content that the default constructor of `C_PuiSvDbDataElementContent` builds; their code is not
under the sources of the driver. -/
structure T_CanUtil where
  /-- Result of `h_IsSignalInMessage(dlc, signal)` -/
  h_IsSignalInMessage : Nat → C_OscCanSignal → Bool
  /-- The content after `h_GetSignalValue(data, signal, content)` -/
  h_GetSignalValue :
    List Nat → C_OscCanSignal → C_PuiSvDbDataElementContent → C_PuiSvDbDataElementContent
  /-- A default constructed content -/
  c_DefaultContent : C_PuiSvDbDataElementContent
  /-- Result of `GetValueU8()` of a content -/
  GetValueU8 : C_PuiSvDbDataElementContent → Nat
  /-- Result of `GetValueU16()` of a content -/
  GetValueU16 : C_PuiSvDbDataElementContent → Nat

/-- Received CAN message (`T_STWCAN_Msg_RX`). -/
structure T_STWCAN_Msg_RX where
  /-- CAN identifier -/
  u32_ID : Nat
  /-- Flag: 1 for an extended identifier -/
  u8_XTD : Nat
  /-- Data length code -/
  u8_DLC : Nat
  /-- Data bytes -/
  au8_Data : List Nat
  /-- Time of reception in micro seconds -/
  u64_TimeStamp : Nat
  deriving DecidableEq, Repr

/-- Registration of a widget for a signal (`C_SyvComDriverDiagWidgetRegistration`); the handler is
`none` for NULL and a number that names the widget otherwise. -/
structure C_SyvComDriverDiagWidgetRegistration where
  /-- Handler of the widget or NULL -/
  pc_Handler : Option Nat
  /-- Data length code of the message of the signal -/
  u16_Dlc : Nat
  /-- Flag: the message of the signal has an extended identifier -/
  q_IsExtended : Bool
  /-- The signal -/
  c_Signal : C_OscCanSignal
  /-- The multiplexer signal of the message, for a multiplexed signal -/
  c_MultiplexerSignal : C_OscCanSignal
  /-- Identification of the element of the signal -/
  c_ElementId : C_OscNodeDataPoolListElementId
  /-- Content that serves as template for new values -/
  c_ElementContent : C_PuiSvDbDataElementContent
  deriving DecidableEq, Repr

/-- One call of `m_HandleCanMessage` to the handler of a widget. -/
inductive T_WidgetCall
  /-- Call of `InsertNewValueIntoQueue(element, content)` on a handler -/
  | InsertNewValueIntoQueue (u32_Handler : Nat) (c_ElementId : C_OscNodeDataPoolListElementId)
      (c_Content : C_PuiSvDbDataElementContent)
  /-- Call of `SetErrorForInvalidDlc(element, dlc)` on a handler -/
  | SetErrorForInvalidDlc (u32_Handler : Nat) (c_ElementId : C_OscNodeDataPoolListElementId)
      (u8_Dlc : Nat)
  deriving DecidableEq, Repr

/-- The multiplexer value `u16_MultiplexerValue` that `m_HandleCanMessage` reads from the message:
the value of the multiplexer signal as 8 or 16 bit number (the getters return `uint8` and
`uint16`), and 0 for a content of another type. -/
def multiplexerValue (c_Util : T_CanUtil) (orc_Msg : T_STWCAN_Msg_RX)
    (rc_WidgetRegistration : C_SyvComDriverDiagWidgetRegistration) : Nat :=
  let c_MultiplexerContent := c_Util.h_GetSignalValue orc_Msg.au8_Data
    rc_WidgetRegistration.c_MultiplexerSignal c_Util.c_DefaultContent
  if c_MultiplexerContent.e_Type = E_ContentType.eUINT8 then
    c_Util.GetValueU8 c_MultiplexerContent % 0x100
  else if c_MultiplexerContent.e_Type = E_ContentType.eUINT16 then
    c_Util.GetValueU16 c_MultiplexerContent % 0x10000
  else
    0

/-- The two flags `q_SignalFits` and `q_DlcErrorPossible` that `m_HandleCanMessage` works out for
a registration. -/
def signalFits (c_Util : T_CanUtil) (orc_Msg : T_STWCAN_Msg_RX)
    (rc_WidgetRegistration : C_SyvComDriverDiagWidgetRegistration) : Bool × Bool :=
  if rc_WidgetRegistration.c_Signal.e_MultiplexerType
      ≠ E_MultiplexerType.eMUX_MULTIPLEXED_SIGNAL then
    (c_Util.h_IsSignalInMessage orc_Msg.u8_DLC rc_WidgetRegistration.c_Signal, true)
  else
    if c_Util.h_IsSignalInMessage orc_Msg.u8_DLC rc_WidgetRegistration.c_MultiplexerSignal
        = true then
      if rc_WidgetRegistration.c_Signal.u16_MultiplexValue
          = multiplexerValue c_Util orc_Msg rc_WidgetRegistration then
        (c_Util.h_IsSignalInMessage orc_Msg.u8_DLC rc_WidgetRegistration.c_Signal, true)
      else
        (false, false)
    else
      (false, true)

/-- Body of the loop of `m_HandleCanMessage` for one registration: the calls to the handler. -/
def handleRegistration (c_Util : T_CanUtil) (orc_Msg : T_STWCAN_Msg_RX)
    (rc_WidgetRegistration : C_SyvComDriverDiagWidgetRegistration) : List T_WidgetCall :=
  match rc_WidgetRegistration.pc_Handler with
  | none => []
  | some u32_Handler =>
    if decide (orc_Msg.u8_XTD = 1) = rc_WidgetRegistration.q_IsExtended then
      let c_Flags := signalFits c_Util orc_Msg rc_WidgetRegistration
      if c_Flags.1 = true then
        let u64_TimeStamp := orc_Msg.u64_TimeStamp / 1000
        let c_Content := (c_Util.h_GetSignalValue orc_Msg.au8_Data rc_WidgetRegistration.c_Signal
          rc_WidgetRegistration.c_ElementContent).SetTimeStamp (u64_TimeStamp % U32_MOD)
        [T_WidgetCall.InsertNewValueIntoQueue u32_Handler rc_WidgetRegistration.c_ElementId
          c_Content]
      else if c_Flags.2 = true then
        [T_WidgetCall.SetErrorForInvalidDlc u32_Handler rc_WidgetRegistration.c_ElementId
          orc_Msg.u8_DLC]
      else
        []
    else
      []

/-- Key of `mc_AllWidgets` (`C_OscCanMessageUniqueId`): CAN identifier and extended flag. -/
abbrev C_OscCanMessageUniqueId := Nat × Bool

/-- The entry that `mc_AllWidgets.find(key)` finds, if there is one. -/
def findWidgets
    (mc_AllWidgets : List (C_OscCanMessageUniqueId × List C_SyvComDriverDiagWidgetRegistration))
    (c_Key : C_OscCanMessageUniqueId) : Option (List C_SyvComDriverDiagWidgetRegistration) :=
  (mc_AllWidgets.find? (fun c_Entry => c_Entry.1 = c_Key)).map (fun c_Entry => c_Entry.2)

/-- Method `C_SyvComDriverDiag::m_HandleCanMessage`: the calls to the handlers of the widgets, in
order. The call of the function of the same name of the base class is left out; it does not
reach the widgets. -/
def m_HandleCanMessage (c_Util : T_CanUtil)
    (mc_AllWidgets : List (C_OscCanMessageUniqueId × List C_SyvComDriverDiagWidgetRegistration))
    (orc_Msg : T_STWCAN_Msg_RX) : List T_WidgetCall :=
  match findWidgets mc_AllWidgets (orc_Msg.u32_ID, decide (orc_Msg.u8_XTD = 1)) with
  | none => []
  | some rc_Registrations =>
    (rc_Registrations.map (handleRegistration c_Util orc_Msg)).flatten

/-! ## Diagnostic communication driver: notions -/

/-- The checks that the loop of `m_CheckOsyDatapoolsAndCreateMapping` takes over one after the
other: the check of each data pool that is used on a dashboard, in the order of the data pools
of the client; `u32_ItDataPool` is the index of the first data pool of the list. -/
def datapoolChecks (pc_Protocol : C_OscDiagProtocolBase)
    (rc_NodeDatapoolsMetadata : List C_DataPoolMetaData)
    (c_RegisteredElementIds : List C_OscNodeDataPoolListElementId) (u32_NodeIndex : Nat) :
    List C_OscNodeDataPool → Nat → List T_DatapoolCheck
  | [], _ => []
  | rc_Datapool :: c_Rest, u32_ItDataPool =>
    if isDatapoolRelevant c_RegisteredElementIds u32_NodeIndex u32_ItDataPool = true then
      checkDatapool pc_Protocol rc_NodeDatapoolsMetadata rc_Datapool u32_ItDataPool ::
        datapoolChecks pc_Protocol rc_NodeDatapoolsMetadata c_RegisteredElementIds u32_NodeIndex
          c_Rest (u32_ItDataPool + 1)
    else
      datapoolChecks pc_Protocol rc_NodeDatapoolsMetadata c_RegisteredElementIds u32_NodeIndex
        c_Rest (u32_ItDataPool + 1)

/-- The checks of a list that failed, in order. -/
def failedChecks (c_Checks : List T_DatapoolCheck) : List T_DatapoolCheck :=
  c_Checks.filter (fun c_Check => c_Check.s32_Return ≠ C_NO_ERR)

/-- The calls into the base class that the body `c_Body` of a loop of `m_StartRoutingDiag` makes
for the active nodes of a list, in order. -/
def routingCalls (c_Body : Nat → Option (Option T_NodeRouting)) (c_ActiveNodes : List Nat) :
    List T_RoutingCall :=
  (c_ActiveNodes.map
    (fun u32_ActiveNode =>
      match c_Body u32_ActiveNode with
      | some (some c_Routing) => c_Routing.c_Calls
      | _ => [])).flatten

/-- Two drivers have the same frame: they agree in the flag, the view, the active nodes, the
active nodes with diagnosis and the nodes with elements, and in the number of protocol instances
and of lists of meta data. -/
def C_SyvComDriverDiag.sameFrame (d c_Other : C_SyvComDriverDiag) : Prop :=
  c_Other.mq_Initialized = d.mq_Initialized ∧ c_Other.mu32_ViewIndex = d.mu32_ViewIndex ∧
  c_Other.mc_ActiveNodesIndexes = d.mc_ActiveNodesIndexes ∧
  c_Other.mc_ActiveDiagNodes = d.mc_ActiveDiagNodes ∧
  c_Other.mc_DiagNodesWithElements = d.mc_DiagNodesWithElements ∧
  c_Other.mc_DiagProtocols.length = d.mc_DiagProtocols.length ∧
  c_Other.mc_ReadDatapoolMetadata.length = d.mc_ReadDatapoolMetadata.length

instance (d c_Other : C_SyvComDriverDiag) : Decidable (d.sameFrame c_Other) := by
  unfold C_SyvComDriverDiag.sameFrame
  exact inferInstance

/-- The vectors of the driver fit to each other and to the project: every active node with
diagnosis has a protocol instance, and its node is in the system definition. -/
def C_SyvComDriverDiag.consistent (c_Project : T_Project) (d : C_SyvComDriverDiag) : Prop :=
  ∀ u32_ActiveNode, u32_ActiveNode ∈ d.mc_ActiveDiagNodes →
    u32_ActiveNode < d.mc_DiagProtocols.length ∧
    ∃ u32_NodeIndex, d.mc_ActiveNodesIndexes[u32_ActiveNode]? = some u32_NodeIndex ∧
      u32_NodeIndex < c_Project.c_Nodes.length

instance (c_Project : T_Project) (d : C_SyvComDriverDiag) :
    Decidable (d.consistent c_Project) := by
  unfold C_SyvComDriverDiag.consistent
  exact inferInstance

/-- Notion of the specification: a value is delivered for a registration and a frame if the
signal fits the data length code of the frame and, for a multiplexed signal, the multiplexer
signal fits as well and its value is the multiplex value of the signal. -/
def specDeliversValue (c_Util : T_CanUtil) (orc_Msg : T_STWCAN_Msg_RX)
    (rc_WidgetRegistration : C_SyvComDriverDiagWidgetRegistration) : Prop :=
  c_Util.h_IsSignalInMessage orc_Msg.u8_DLC rc_WidgetRegistration.c_Signal = true ∧
  (rc_WidgetRegistration.c_Signal.e_MultiplexerType = E_MultiplexerType.eMUX_MULTIPLEXED_SIGNAL →
    c_Util.h_IsSignalInMessage orc_Msg.u8_DLC rc_WidgetRegistration.c_MultiplexerSignal = true ∧
    rc_WidgetRegistration.c_Signal.u16_MultiplexValue
      = multiplexerValue c_Util orc_Msg rc_WidgetRegistration)

instance (c_Util : T_CanUtil) (orc_Msg : T_STWCAN_Msg_RX)
    (rc_WidgetRegistration : C_SyvComDriverDiagWidgetRegistration) :
    Decidable (specDeliversValue c_Util orc_Msg rc_WidgetRegistration) := by
  unfold specDeliversValue
  exact inferInstance

/-- Notion of the specification: an error of the data length code is reported for a registration
and a frame if the multiplexer signal of a multiplexed signal does not fit the data length code
of the frame, or if the signal does not fit it and is not multiplexed or is multiplexed with a
multiplexer signal that fits and has the multiplex value of the signal. -/
def specReportsDlcError (c_Util : T_CanUtil) (orc_Msg : T_STWCAN_Msg_RX)
    (rc_WidgetRegistration : C_SyvComDriverDiagWidgetRegistration) : Prop :=
  (rc_WidgetRegistration.c_Signal.e_MultiplexerType = E_MultiplexerType.eMUX_MULTIPLEXED_SIGNAL ∧
    c_Util.h_IsSignalInMessage orc_Msg.u8_DLC rc_WidgetRegistration.c_MultiplexerSignal = false) ∨
  (c_Util.h_IsSignalInMessage orc_Msg.u8_DLC rc_WidgetRegistration.c_Signal = false ∧
    (rc_WidgetRegistration.c_Signal.e_MultiplexerType
        ≠ E_MultiplexerType.eMUX_MULTIPLEXED_SIGNAL ∨
      (c_Util.h_IsSignalInMessage orc_Msg.u8_DLC rc_WidgetRegistration.c_MultiplexerSignal
          = true ∧
        rc_WidgetRegistration.c_Signal.u16_MultiplexValue
          = multiplexerValue c_Util orc_Msg rc_WidgetRegistration)))

instance (c_Util : T_CanUtil) (orc_Msg : T_STWCAN_Msg_RX)
    (rc_WidgetRegistration : C_SyvComDriverDiagWidgetRegistration) :
    Decidable (specReportsDlcError c_Util orc_Msg rc_WidgetRegistration) := by
  unfold specReportsDlcError
  exact inferInstance

/-! ## Diagnostic communication driver: fixtures -/

/-- A data pool of type DIAG with two different definition hashes. -/
def fixtureDiagPool : C_OscNodeDataPool :=
  { c_Name := "Crash", au8_Version := (1, 0, 0), e_Type := E_Type.eDIAG
    u32_GeneratedDefinitionHash := 0x1111, u32_CompatV1DefinitionHash := 0x2222 }

/-- A data pool of type NVM. -/
def fixtureNvmPool : C_OscNodeDataPool :=
  { c_Name := "Params", au8_Version := (2, 1, 0), e_Type := E_Type.eNVM
    u32_GeneratedDefinitionHash := 0x3333, u32_CompatV1DefinitionHash := 0x4444 }

/-- A second data pool of type DIAG. -/
def fixtureLogPool : C_OscNodeDataPool :=
  { c_Name := "Log", au8_Version := (0, 1, 0), e_Type := E_Type.eDIAG
    u32_GeneratedDefinitionHash := 0x5555, u32_CompatV1DefinitionHash := 0x6666 }

/-- Meta data of the three data pools of the fixture server, in the order of its slots: the
server holds `Params` in slot 0, `Crash` in slot 1 and `Log` in slot 2. -/
def fixtureServerMetadata : List C_DataPoolMetaData :=
  [{ au8_Version := (2, 1, 0), c_Name := "Params" }, { au8_Version := (1, 0, 0), c_Name := "Crash" },
   { au8_Version := (0, 1, 0), c_Name := "Log" }]

/-- The reaction of a server with the data pools of `fixtureServerMetadata` to
`DataPoolReadMetaData`: a slot behind the data pools is answered with the negative response
"request out of range" (`0x31`). -/
def fixtureReadMetaData (u8_Index : Nat) : T_ReadMetaDataResponse :=
  match fixtureServerMetadata[u8_Index]? with
  | some c_MetaData => { s32_Return := C_NO_ERR, c_MetaData := c_MetaData, u8_ErrorCode := 0 }
  | none =>
    { s32_Return := C_WARN, c_MetaData := { au8_Version := (0, 0, 0), c_Name := "" }
      u8_ErrorCode := 0x31 }

/-- A server with the data pools of `fixtureServerMetadata`; it holds the definition of `Params`,
the V1 compatible definition of `Crash` and the generated definition of `Log`. -/
def fixtureServer : C_OscDiagProtocolBase :=
  { q_IsOsy := true
    hu8_NR_CODE_REQUEST_OUT_OF_RANGE := 0x31
    DataPoolReadMetaData := fixtureReadMetaData
    DataPoolVerify := fun u8_Index u32_Checksum =>
      { s32_Return := C_NO_ERR
        oq_Match := some (decide ((u8_Index = 0 ∧ u32_Checksum = 0x3333) ∨
          (u8_Index = 1 ∧ u32_Checksum = 0x2222) ∨ (u8_Index = 2 ∧ u32_Checksum = 0x5555))) }
    mc_DataPoolMapping := [] }

/-- A server that answers no verify request in time. -/
def fixtureTimeoutServer : C_OscDiagProtocolBase :=
  { fixtureServer with
    DataPoolVerify := fun _ _ => { s32_Return := C_TIMEOUT, oq_Match := none } }

/-- A server whose verify service fails with a communication error. -/
def fixtureComServer : C_OscDiagProtocolBase :=
  { fixtureServer with
    DataPoolVerify := fun _ _ => { s32_Return := C_COM, oq_Match := none } }

/-- Meta data read from a server that holds `Crash` in another version than the client. -/
def fixtureOtherVersionMetadata : List C_DataPoolMetaData :=
  [{ au8_Version := (2, 1, 0), c_Name := "Params" }, { au8_Version := (1, 0, 1), c_Name := "Crash" },
   { au8_Version := (0, 1, 0), c_Name := "Log" }]

/-- Meta data read from a server that holds `Engine` instead of `Crash`. -/
def fixtureNoCrashMetadata : List C_DataPoolMetaData :=
  [{ au8_Version := (2, 1, 0), c_Name := "Params" }, { au8_Version := (1, 0, 0), c_Name := "Engine" },
   { au8_Version := (0, 1, 0), c_Name := "Log" }]

/-- A node with an openSYDE server: on the client `Crash` is data pool 0, `Params` is data pool
1 and `Log` is data pool 2. -/
def fixtureOsyNode : C_OscNode :=
  { c_Name := "Node_A", e_DiagnosticServer := E_DiagnosticServerProtocol.eDS_OPEN_SYDE
    c_DataPools := [fixtureDiagPool, fixtureNvmPool, fixtureLogPool] }

/-- Identification of the first element of a data pool of node 0. -/
def fixtureElementId (u32_DataPoolIndex : Nat) : C_OscNodeDataPoolListElementId :=
  { u32_NodeIndex := 0, u32_DataPoolIndex := u32_DataPoolIndex, u32_ListIndex := 0
    u32_ElementIndex := 0 }

/-- A view that uses an element of each of the three data pools of node 0. -/
def fixtureView : C_PuiSvData :=
  { c_RegisteredDashboardElements := [fixtureElementId 0, fixtureElementId 1, fixtureElementId 2]
    c_ReadRailAssignments := [fixtureElementId 0, fixtureElementId 1, fixtureElementId 2]
    c_WriteAssignments := [] }

/-- A project with the node and the view of the fixtures and at most 32 data pools per node. -/
def fixtureProject : T_Project :=
  { c_Nodes := [fixtureOsyNode], c_Views := [fixtureView]
    hu32_MAX_NUMBER_OF_DATA_POOLS_PER_NODE := 32 }

/-- An initialized driver for `fixtureProject` with the given protocol instance for its node and
the given meta data read from it. -/
def fixtureDriverOf (pc_Protocol : C_OscDiagProtocolBase)
    (c_Metadata : List C_DataPoolMetaData) : C_SyvComDriverDiag :=
  { mq_Initialized := true, mu32_ViewIndex := 0, mc_ActiveNodesIndexes := [0]
    mc_ActiveDiagNodes := [0], mc_DiagProtocols := [pc_Protocol]
    mc_DiagNodesWithElements := [0], mc_ReadDatapoolMetadata := [c_Metadata] }

/-- An initialized driver for `fixtureProject` and `fixtureServer` before the meta data is
read. -/
def fixtureDriver : C_SyvComDriverDiag := fixtureDriverOf fixtureServer []


/-- A second node with an openSYDE server and the data pool `Params`. -/
def fixtureParamsNode : C_OscNode :=
  { c_Name := "Node_B", e_DiagnosticServer := E_DiagnosticServerProtocol.eDS_OPEN_SYDE
    c_DataPools := [fixtureNvmPool] }

/-- A third node with an openSYDE server and the data pool `Log`. -/
def fixtureLogNode : C_OscNode :=
  { c_Name := "Node_C", e_DiagnosticServer := E_DiagnosticServerProtocol.eDS_OPEN_SYDE
    c_DataPools := [fixtureLogPool] }

/-- A view that uses data pool 0 of node 0 and data pool 0 of node 2, and nothing of node 1. -/
def fixtureThreeNodesView : C_PuiSvData :=
  { c_RegisteredDashboardElements :=
      [{ u32_NodeIndex := 0, u32_DataPoolIndex := 0, u32_ListIndex := 0, u32_ElementIndex := 0 },
       { u32_NodeIndex := 2, u32_DataPoolIndex := 0, u32_ListIndex := 0, u32_ElementIndex := 0 }]
    c_ReadRailAssignments :=
      [{ u32_NodeIndex := 0, u32_DataPoolIndex := 0, u32_ListIndex := 0, u32_ElementIndex := 0 }]
    c_WriteAssignments :=
      [{ u32_NodeIndex := 2, u32_DataPoolIndex := 0, u32_ListIndex := 0, u32_ElementIndex := 0 }] }

/-- A project with three nodes and the view `fixtureThreeNodesView`. -/
def fixtureThreeNodesProject : T_Project :=
  { c_Nodes := [fixtureOsyNode, fixtureParamsNode, fixtureLogNode]
    c_Views := [fixtureThreeNodesView]
    hu32_MAX_NUMBER_OF_DATA_POOLS_PER_NODE := 32 }

/-- An initialized driver for `fixtureThreeNodesProject`: the server of node 0 answers no verify
request in time, the verify service of the server of node 1 fails, the server of node 2 is
`fixtureServer`. The set of the nodes with elements is the one that `m_InitDiagNodes` works
out. -/
def fixtureThreeNodesDriver : C_SyvComDriverDiag :=
  (m_InitDiagNodes fixtureThreeNodesProject
    { mq_Initialized := true, mu32_ViewIndex := 0, mc_ActiveNodesIndexes := [0, 1, 2]
      mc_ActiveDiagNodes := [0, 1, 2]
      mc_DiagProtocols := [fixtureTimeoutServer, fixtureComServer, fixtureServer]
      mc_DiagNodesWithElements := [], mc_ReadDatapoolMetadata := [] }).2

/-- A base class for `fixtureThreeNodesDriver`: the client is on bus 0 together with node 0, the
nodes 1 and 2 are on bus 1 and are reached by routing. IP to IP routing is not needed, the
routing to node 0 is set up, the routing to node 1 and to node 2 runs into a timeout. -/
def fixtureRoutingBase : T_RoutingBase :=
  { m_StartRoutingIp2Ip := fun _ => { s32_Return := C_NO_ERR, ou32_ErrorActiveNodeIndex := none }
    m_StartRouting := fun u32_ActiveNode =>
      if u32_ActiveNode = 0 then { s32_Return := C_NO_ERR, ou32_ErrorActiveNodeIndex := none }
      else { s32_Return := C_TIMEOUT, ou32_ErrorActiveNodeIndex := some u32_ActiveNode }
    ReConnectNode := fun _ => C_NO_ERR
    c_ClientId := { u8_BusIdentifier := 0, u8_NodeIdentifier := 10 }
    mc_ServerIds :=
      [{ u8_BusIdentifier := 0, u8_NodeIdentifier := 1 },
       { u8_BusIdentifier := 1, u8_NodeIdentifier := 2 },
       { u8_BusIdentifier := 1, u8_NodeIdentifier := 3 }] }

/-- A base class for `fixtureThreeNodesDriver` in which the nodes 1 and 2 do not support IP to
IP routing. -/
def fixtureIp2IpBase : T_RoutingBase :=
  { fixtureRoutingBase with
    m_StartRoutingIp2Ip := fun u32_ActiveNode =>
      if u32_ActiveNode = 0 then { s32_Return := C_NO_ERR, ou32_ErrorActiveNodeIndex := none }
      else { s32_Return := C_NOACT, ou32_ErrorActiveNodeIndex := some u32_ActiveNode } }

/-- Functions for signals of 8 or 16 bit that start at a byte: a signal fits if its last bit is
within the bytes of the data length code; its value is the byte at its start, with the next byte
as upper byte for a signal of more than 8 bit, and the type of the content follows the length. -/
def fixtureCanUtil : T_CanUtil :=
  { h_IsSignalInMessage := fun u8_Dlc c_Signal =>
      decide (c_Signal.u16_ComBitStart + c_Signal.u16_ComBitLength ≤ 8 * u8_Dlc)
    h_GetSignalValue := fun c_Data c_Signal c_Content =>
      if c_Signal.u16_ComBitLength ≤ 8 then
        { c_Content with
          e_Type := E_ContentType.eUINT8
          u64_Value := c_Data.getD (c_Signal.u16_ComBitStart / 8) 0 }
      else
        { c_Content with
          e_Type := E_ContentType.eUINT16
          u64_Value := c_Data.getD (c_Signal.u16_ComBitStart / 8) 0 +
            0x100 * c_Data.getD (c_Signal.u16_ComBitStart / 8 + 1) 0 }
    c_DefaultContent := { e_Type := E_ContentType.eUINT8, u64_Value := 0, u32_TimeStamp := 0 }
    GetValueU8 := fun c_Content => c_Content.u64_Value % 0x100
    GetValueU16 := fun c_Content => c_Content.u64_Value % 0x10000 }

/-- Registration of the widget 7 for a multiplexed signal in byte 1 of a message with standard
identifier: the multiplexer signal is byte 0 and the signal is in the message for the multiplexer
value 2. -/
def fixtureRegistration : C_SyvComDriverDiagWidgetRegistration :=
  { pc_Handler := some 7, u16_Dlc := 2, q_IsExtended := false
    c_Signal :=
      { e_MultiplexerType := E_MultiplexerType.eMUX_MULTIPLEXED_SIGNAL, u16_MultiplexValue := 2
        u16_ComBitStart := 8, u16_ComBitLength := 8 }
    c_MultiplexerSignal :=
      { e_MultiplexerType := E_MultiplexerType.eMUX_MULTIPLEXER_SIGNAL, u16_MultiplexValue := 0
        u16_ComBitStart := 0, u16_ComBitLength := 8 }
    c_ElementId := fixtureElementId 0
    c_ElementContent := { e_Type := E_ContentType.eUINT8, u64_Value := 0, u32_TimeStamp := 0 } }

/-- The widgets of the fixtures: `fixtureRegistration` under the key of the standard identifier
`0x100`. -/
def fixtureAllWidgets :
    List (C_OscCanMessageUniqueId × List C_SyvComDriverDiagWidgetRegistration) :=
  [((0x100, false), [fixtureRegistration])]

/-- A frame with standard identifier `0x100` and one data byte: the multiplexer value is 3. -/
def fixtureOtherMuxMsg : T_STWCAN_Msg_RX :=
  { u32_ID := 0x100, u8_XTD := 0, u8_DLC := 1, au8_Data := [3, 0, 0, 0, 0, 0, 0, 0]
    u64_TimeStamp := 5000999 }

/-- A frame with standard identifier `0x100` and two data bytes: the multiplexer value is 2 and
the value of the signal is `0x55`. -/
def fixtureSelectedMsg : T_STWCAN_Msg_RX :=
  { u32_ID := 0x100, u8_XTD := 0, u8_DLC := 2, au8_Data := [2, 0x55, 0, 0, 0, 0, 0, 0]
    u64_TimeStamp := 5000999 }

/-! ## Diagnostic communication driver: cyclic engine -/

/-- Loop of `m_Cycle` over the protocol instances that are still to be handled: the indexes of
the protocol instances whose `Cycle()` was called, in order. The loop is left after the first
call that does not return `C_NO_ERR`. -/
def cycleLoop : List C_OscDiagProtocolBase → Nat → List Nat
  | [], _ => []
  | c_Protocol :: c_Rest, u32_Counter =>
    if c_Protocol.Cycle ≠ C_NO_ERR then
      [u32_Counter]
    else
      u32_Counter :: cycleLoop c_Rest (u32_Counter + 1)

/-- Method `C_SyvComDriverDiag::m_Cycle`: return code and the indexes of the protocol instances
whose `Cycle()` was called, in order. -/
def m_Cycle (d : C_SyvComDriverDiag) : T_Error × List Nat :=
  (C_NO_ERR, cycleLoop d.mc_DiagProtocols 0)

/-! ## Diagnostic communication driver: stop of the diagnosis -/

/-- One call that `StopDiagnosisServer` makes. -/
inductive T_StopCall
  /-- Call of `Logoff(flag)` on the protocol instance with the given index -/
  | Logoff (u32_Counter : Nat) (q_Flag : Bool)
  /-- Call of `DataPoolStopEventDriven()` on the protocol instance of an active node -/
  | DataPoolStopEventDriven (u32_ActiveNode : Nat)
  /-- Call of `m_StopRoutingOfActiveNodes()` of the base class -/
  | m_StopRoutingOfActiveNodes
  deriving DecidableEq, Repr

/-- Loop of `StopCyclicTransmissions` over the active nodes with diagnosis that are still to be
handled; `s32_Return` is the return code so far. A node that does not confirm the stop sets the
return code to `C_COM`, and the loop goes on. -/
def stopEventDrivenLoop (d : C_SyvComDriverDiag) :
    List Nat → T_Error → Option (T_Error × List T_StopCall)
  | [], s32_Return => some (s32_Return, [])
  | u32_ActiveNode :: c_Rest, s32_Return =>
    match d.mc_DiagProtocols[u32_ActiveNode]? with
    | none => none
    | some c_Protocol =>
      match stopEventDrivenLoop d c_Rest
          (if c_Protocol.DataPoolStopEventDriven ≠ C_NO_ERR then C_COM else s32_Return) with
      | none => none
      | some c_Result =>
        some (c_Result.1, T_StopCall.DataPoolStopEventDriven u32_ActiveNode :: c_Result.2)

/-- Method `C_SyvComDriverDiag::StopCyclicTransmissions`: return code and the calls to the
protocol instances, in order. -/
def StopCyclicTransmissions (c_Project : T_Project) (d : C_SyvComDriverDiag) :
    Option (T_Error × List T_StopCall) :=
  match c_Project.c_Views[d.mu32_ViewIndex]? with
  | none => some (C_CONFIG, [])
  | some _ =>
    if d.mq_Initialized = false then
      some (C_CONFIG, [])
    else
      stopEventDrivenLoop d d.mc_ActiveDiagNodes C_NO_ERR

/-- Loop of `StopDiagnosisServer` over the protocol instances that are still to be handled;
`s32_Return` is the return code so far. A failed logoff sets the return code, and the loop goes
on. -/
def logoffLoop : List C_OscDiagProtocolBase → Nat → T_Error → T_Error × List T_StopCall
  | [], _, s32_Return => (s32_Return, [])
  | c_Protocol :: c_Rest, u32_Counter, s32_Return =>
    if c_Protocol.q_IsKfx = true then
      let s32_ReturnLogoff := c_Protocol.Logoff false
      let c_Result := logoffLoop c_Rest (u32_Counter + 1)
        (if s32_ReturnLogoff ≠ C_NO_ERR then s32_ReturnLogoff else s32_Return)
      (c_Result.1, T_StopCall.Logoff u32_Counter false :: c_Result.2)
    else
      logoffLoop c_Rest (u32_Counter + 1) s32_Return

/-- Result of `StopDiagnosisServer`. -/
structure T_StopResult where
  /-- Return code -/
  s32_Return : T_Error
  /-- The driver after the call -/
  c_Driver : C_SyvComDriverDiag
  /-- The calls to the protocol instances and to the base class, in order -/
  c_Calls : List T_StopCall

/-- Method `C_SyvComDriverDiag::StopDiagnosisServer`. The return code of
`StopCyclicTransmissions` is not used. -/
def StopDiagnosisServer (c_Project : T_Project) (d : C_SyvComDriverDiag) : Option T_StopResult :=
  if d.mq_Initialized = true then
    let c_Logoff := logoffLoop d.mc_DiagProtocols 0 C_NO_ERR
    match StopCyclicTransmissions c_Project d with
    | none => none
    | some c_Stop =>
      some { s32_Return := c_Logoff.1
             c_Driver := { d with mq_Initialized := false }
             c_Calls := c_Logoff.2 ++ c_Stop.2 ++ [T_StopCall.m_StopRoutingOfActiveNodes] }
  else
    some { s32_Return := C_NO_ERR, c_Driver := d, c_Calls := [] }

/-! ## Diagnostic communication driver: polling -/

/-- A data dealer of the driver (`C_SyvComDataDealer`), as far as the driver hands it on: the
node index it was created with and the active node whose protocol instance it was created
with. -/
structure C_SyvComDataDealer where
  /-- Index of the node in the system definition -/
  mu32_NodeIndex : Nat
  /-- Active node whose protocol instance the data dealer uses -/
  u32_ActiveNode : Nat
  deriving DecidableEq, Repr

/-- Identification of a list of a data pool (`C_OscNodeDataPoolListId`). -/
structure C_OscNodeDataPoolListId where
  /-- Index of the node -/
  u32_NodeIndex : Nat
  /-- Index of the data pool within the node -/
  u32_DataPoolIndex : Nat
  /-- Index of the list within the data pool -/
  u32_ListIndex : Nat
  deriving DecidableEq, Repr

/-- One request handed to the polling thread: the `Start...` function called with its
arguments. -/
inductive T_PollRequest
  /-- Call of `StartDataPoolRead(dealer, data pool, list, element)` -/
  | StartDataPoolRead (c_Dealer : C_SyvComDataDealer)
      (u8_DataPoolIndex u16_ListIndex u16_ElementIndex : Nat)
  /-- Call of `StartDataPoolWrite(dealer, data pool, list, element)` -/
  | StartDataPoolWrite (c_Dealer : C_SyvComDataDealer)
      (u8_DataPoolIndex u16_ListIndex u16_ElementIndex : Nat)
  /-- Call of `StartNvmRead(dealer, data pool, list, element)` -/
  | StartNvmRead (c_Dealer : C_SyvComDataDealer)
      (u8_DataPoolIndex u16_ListIndex u16_ElementIndex : Nat)
  /-- Call of `StartNvmWrite(dealer, data pool, list, element)` -/
  | StartNvmWrite (c_Dealer : C_SyvComDataDealer)
      (u8_DataPoolIndex u16_ListIndex u16_ElementIndex : Nat)
  /-- Call of `StartNvmReadList(dealer, data pool, list)` -/
  | StartNvmReadList (c_Dealer : C_SyvComDataDealer) (u8_DataPoolIndex u16_ListIndex : Nat)
  /-- Call of `StartNvmSafeWriteChangedValues(dealer, list ids)` -/
  | StartNvmSafeWriteChangedValues (c_Dealer : C_SyvComDataDealer)
      (c_ListIds : List C_OscNodeDataPoolListId)
  /-- Call of `StartNvmSafeReadValues(dealer)` -/
  | StartNvmSafeReadValues (c_Dealer : C_SyvComDataDealer)
  /-- Call of `StartNvmSafeWriteCrcs(dealer)` -/
  | StartNvmSafeWriteCrcs (c_Dealer : C_SyvComDataDealer)
  /-- Call of `StartNvmNotifyOfChanges(dealer, data pool, list)` -/
  | StartNvmNotifyOfChanges (c_Dealer : C_SyvComDataDealer)
      (u8_DataPoolIndex u16_ListIndex : Nat)
  /-- Call of `StartNvmSafeReadParameterValues(dealer, list ids)` -/
  | StartNvmSafeReadParameterValues (c_Dealer : C_SyvComDataDealer)
      (c_ListIds : List C_OscNodeDataPoolListId)
  deriving DecidableEq, Repr

/-- Modelled from the spec: the polling engine (`C_SyvComPollingThreadDiag`, whose code is not
under the sources): "executes exactly one request at a time across the whole driver"; it holds
the request in flight, if there is one, and "the stored result code and, for error responses,
the negative-response code". -/
structure C_SyvComPollingThreadDiag where
  /-- The request in flight; `none` when the engine accepts the next request -/
  oc_Request : Option T_PollRequest
  /-- Stored result code -/
  s32_Result : T_Error
  /-- Stored negative response code -/
  u8_Nrc : Nat
  deriving DecidableEq, Repr

/-- Modelled from the spec: the `Start...` functions of the polling engine, whose code is not
under the sources: "starting a new request while one is in flight fails with `Busy`"; otherwise
the request is in flight from now on. -/
def C_SyvComPollingThreadDiag.Start (t : C_SyvComPollingThreadDiag) (c_Request : T_PollRequest) :
    T_Error × C_SyvComPollingThreadDiag :=
  match t.oc_Request with
  | some _ => (C_BUSY, t)
  | none => (C_NO_ERR, { t with oc_Request := some c_Request })

/-- Modelled from the spec: `AcceptNextRequest` of the polling engine, whose code is not under
the sources: after the completion was handled no request is in flight ("one job at a time,
started on demand and joined/observed via a completion signal"). -/
def C_SyvComPollingThreadDiag.AcceptNextRequest (t : C_SyvComPollingThreadDiag) :
    C_SyvComPollingThreadDiag :=
  { t with oc_Request := none }

/-- Loop of `m_GetActiveDiagIndex` over the active nodes with diagnosis that are still to be
compared: the value of `u32_DiagNodeIndex` and of `q_Found` after the loop. -/
def activeDiagIndexLoop (u32_ActiveIndex : Nat) : List Nat → Nat → Nat × Bool
  | [], u32_DiagNodeIndex => (u32_DiagNodeIndex, false)
  | u32_ActiveDiagNode :: c_Rest, u32_DiagNodeIndex =>
    if u32_ActiveDiagNode = u32_ActiveIndex then
      (u32_DiagNodeIndex, true)
    else
      activeDiagIndexLoop u32_ActiveIndex c_Rest (u32_DiagNodeIndex + 1)

/-- Method `C_SyvComDriverDiag::m_GetActiveDiagIndex`: the index handed back and the value of
`q_Found` at the end, which is written to `opq_Found` if the caller passes it and is asserted
otherwise. `m_GetActiveIndex` is the function of the base class, which hands back an index and
its flag. -/
def m_GetActiveDiagIndex (m_GetActiveIndex : Nat → Nat × Bool) (d : C_SyvComDriverDiag)
    (ou32_NodeIndex : Nat) : Nat × Bool :=
  let c_Active := m_GetActiveIndex ou32_NodeIndex
  if c_Active.2 = true then
    activeDiagIndexLoop c_Active.1 d.mc_ActiveDiagNodes 0
  else
    (0, false)

/-- Result of a `Poll...` function of the driver. -/
structure T_PollResult where
  /-- Return code -/
  s32_Return : T_Error
  /-- The polling thread after the call -/
  c_PollingThread : C_SyvComPollingThreadDiag
  /-- The request handed to a `Start...` function of the polling thread, if one was called -/
  oc_Started : Option T_PollRequest
  deriving DecidableEq, Repr

/-- The call `mc_PollingThread.Start...(*mc_DataDealers[u32_ActiveIndex], ...)`; `c_Build` makes
the request from the data dealer. There is no result if the vector has no data dealer at the
index. -/
def startPolling (mc_DataDealers : List (Option C_SyvComDataDealer))
    (t : C_SyvComPollingThreadDiag) (u32_ActiveIndex : Nat)
    (c_Build : C_SyvComDataDealer → T_PollRequest) : Option T_PollResult :=
  match mc_DataDealers[u32_ActiveIndex]? with
  | some (some c_Dealer) =>
    some { s32_Return := (t.Start (c_Build c_Dealer)).1
           c_PollingThread := (t.Start (c_Build c_Dealer)).2
           oc_Started := some (c_Build c_Dealer) }
  | _ => none

/-- Method `C_SyvComDriverDiag::PollDataPoolRead`. -/
def PollDataPoolRead (m_GetActiveIndex : Nat → Nat × Bool) (d : C_SyvComDriverDiag)
    (mc_DataDealers : List (Option C_SyvComDataDealer)) (t : C_SyvComPollingThreadDiag)
    (ou32_NodeIndex ou8_DataPoolIndex ou16_ListIndex ou16_ElementIndex : Nat) :
    Option T_PollResult :=
  let u32_ActiveIndex := (m_GetActiveDiagIndex m_GetActiveIndex d ou32_NodeIndex).1
  if u32_ActiveIndex ≥ mc_DataDealers.length then
    some { s32_Return := C_RANGE, c_PollingThread := t, oc_Started := none }
  else
    startPolling mc_DataDealers t u32_ActiveIndex
      (fun c_Dealer =>
        T_PollRequest.StartDataPoolRead c_Dealer ou8_DataPoolIndex ou16_ListIndex ou16_ElementIndex)

/-- Method `C_SyvComDriverDiag::PollDataPoolWrite`. -/
def PollDataPoolWrite (m_GetActiveIndex : Nat → Nat × Bool) (d : C_SyvComDriverDiag)
    (mc_DataDealers : List (Option C_SyvComDataDealer)) (t : C_SyvComPollingThreadDiag)
    (ou32_NodeIndex ou8_DataPoolIndex ou16_ListIndex ou16_ElementIndex : Nat) :
    Option T_PollResult :=
  let u32_ActiveIndex := (m_GetActiveDiagIndex m_GetActiveIndex d ou32_NodeIndex).1
  if u32_ActiveIndex ≥ mc_DataDealers.length then
    some { s32_Return := C_RANGE, c_PollingThread := t, oc_Started := none }
  else
    startPolling mc_DataDealers t u32_ActiveIndex
      (fun c_Dealer =>
        T_PollRequest.StartDataPoolWrite c_Dealer ou8_DataPoolIndex ou16_ListIndex ou16_ElementIndex)

/-- Method `C_SyvComDriverDiag::PollNvmRead`. -/
def PollNvmRead (m_GetActiveIndex : Nat → Nat × Bool) (d : C_SyvComDriverDiag)
    (mc_DataDealers : List (Option C_SyvComDataDealer)) (t : C_SyvComPollingThreadDiag)
    (ou32_NodeIndex ou8_DataPoolIndex ou16_ListIndex ou16_ElementIndex : Nat) :
    Option T_PollResult :=
  let u32_ActiveIndex := (m_GetActiveDiagIndex m_GetActiveIndex d ou32_NodeIndex).1
  if u32_ActiveIndex ≥ mc_DataDealers.length then
    some { s32_Return := C_RANGE, c_PollingThread := t, oc_Started := none }
  else
    startPolling mc_DataDealers t u32_ActiveIndex
      (fun c_Dealer =>
        T_PollRequest.StartNvmRead c_Dealer ou8_DataPoolIndex ou16_ListIndex ou16_ElementIndex)

/-- Method `C_SyvComDriverDiag::PollNvmWrite`. -/
def PollNvmWrite (m_GetActiveIndex : Nat → Nat × Bool) (d : C_SyvComDriverDiag)
    (mc_DataDealers : List (Option C_SyvComDataDealer)) (t : C_SyvComPollingThreadDiag)
    (ou32_NodeIndex ou8_DataPoolIndex ou16_ListIndex ou16_ElementIndex : Nat) :
    Option T_PollResult :=
  let u32_ActiveIndex := (m_GetActiveDiagIndex m_GetActiveIndex d ou32_NodeIndex).1
  if u32_ActiveIndex ≥ mc_DataDealers.length then
    some { s32_Return := C_RANGE, c_PollingThread := t, oc_Started := none }
  else
    startPolling mc_DataDealers t u32_ActiveIndex
      (fun c_Dealer =>
        T_PollRequest.StartNvmWrite c_Dealer ou8_DataPoolIndex ou16_ListIndex ou16_ElementIndex)

/-- Method `C_SyvComDriverDiag::PollNvmReadList`. -/
def PollNvmReadList (m_GetActiveIndex : Nat → Nat × Bool) (d : C_SyvComDriverDiag)
    (mc_DataDealers : List (Option C_SyvComDataDealer)) (t : C_SyvComPollingThreadDiag)
    (ou32_NodeIndex ou8_DataPoolIndex ou16_ListIndex : Nat) : Option T_PollResult :=
  let c_ActiveIndex := m_GetActiveDiagIndex m_GetActiveIndex d ou32_NodeIndex
  if c_ActiveIndex.1 ≥ mc_DataDealers.length ∨ c_ActiveIndex.2 = false then
    some { s32_Return := C_RANGE, c_PollingThread := t, oc_Started := none }
  else
    startPolling mc_DataDealers t c_ActiveIndex.1
      (fun c_Dealer => T_PollRequest.StartNvmReadList c_Dealer ou8_DataPoolIndex ou16_ListIndex)

/-- Method `C_SyvComDriverDiag::PollSafeNvmWriteChangedElements`. -/
def PollSafeNvmWriteChangedElements (m_GetActiveIndex : Nat → Nat × Bool)
    (d : C_SyvComDriverDiag) (mc_DataDealers : List (Option C_SyvComDataDealer))
    (t : C_SyvComPollingThreadDiag) (ou32_NodeIndex : Nat)
    (orc_ListIds : List C_OscNodeDataPoolListId) : Option T_PollResult :=
  let u32_ActiveIndex := (m_GetActiveDiagIndex m_GetActiveIndex d ou32_NodeIndex).1
  if u32_ActiveIndex ≥ mc_DataDealers.length then
    some { s32_Return := C_RANGE, c_PollingThread := t, oc_Started := none }
  else
    startPolling mc_DataDealers t u32_ActiveIndex
      (fun c_Dealer => T_PollRequest.StartNvmSafeWriteChangedValues c_Dealer orc_ListIds)

/-- Method `C_SyvComDriverDiag::PollSafeNvmReadValues`. -/
def PollSafeNvmReadValues (m_GetActiveIndex : Nat → Nat × Bool) (d : C_SyvComDriverDiag)
    (mc_DataDealers : List (Option C_SyvComDataDealer)) (t : C_SyvComPollingThreadDiag)
    (ou32_NodeIndex : Nat) : Option T_PollResult :=
  let u32_ActiveIndex := (m_GetActiveDiagIndex m_GetActiveIndex d ou32_NodeIndex).1
  if u32_ActiveIndex ≥ mc_DataDealers.length then
    some { s32_Return := C_RANGE, c_PollingThread := t, oc_Started := none }
  else
    startPolling mc_DataDealers t u32_ActiveIndex
      (fun c_Dealer => T_PollRequest.StartNvmSafeReadValues c_Dealer)

/-- Method `C_SyvComDriverDiag::PollSafeNvmSafeWriteCrcs`. -/
def PollSafeNvmSafeWriteCrcs (m_GetActiveIndex : Nat → Nat × Bool) (d : C_SyvComDriverDiag)
    (mc_DataDealers : List (Option C_SyvComDataDealer)) (t : C_SyvComPollingThreadDiag)
    (ou32_NodeIndex : Nat) : Option T_PollResult :=
  let u32_ActiveIndex := (m_GetActiveDiagIndex m_GetActiveIndex d ou32_NodeIndex).1
  if u32_ActiveIndex ≥ mc_DataDealers.length then
    some { s32_Return := C_RANGE, c_PollingThread := t, oc_Started := none }
  else
    startPolling mc_DataDealers t u32_ActiveIndex
      (fun c_Dealer => T_PollRequest.StartNvmSafeWriteCrcs c_Dealer)

/-- Method `C_SyvComDriverDiag::PollNvmNotifyOfChanges`. -/
def PollNvmNotifyOfChanges (m_GetActiveIndex : Nat → Nat × Bool) (d : C_SyvComDriverDiag)
    (mc_DataDealers : List (Option C_SyvComDataDealer)) (t : C_SyvComPollingThreadDiag)
    (ou32_NodeIndex ou8_DataPoolIndex ou16_ListIndex : Nat) : Option T_PollResult :=
  let u32_ActiveIndex := (m_GetActiveDiagIndex m_GetActiveIndex d ou32_NodeIndex).1
  if u32_ActiveIndex ≥ mc_DataDealers.length then
    some { s32_Return := C_RANGE, c_PollingThread := t, oc_Started := none }
  else
    startPolling mc_DataDealers t u32_ActiveIndex
      (fun c_Dealer =>
        T_PollRequest.StartNvmNotifyOfChanges c_Dealer ou8_DataPoolIndex ou16_ListIndex)

/-- Method `C_SyvComDriverDiag::PollNvmSafeReadParameterValues`. -/
def PollNvmSafeReadParameterValues (m_GetActiveIndex : Nat → Nat × Bool)
    (d : C_SyvComDriverDiag) (mc_DataDealers : List (Option C_SyvComDataDealer))
    (t : C_SyvComPollingThreadDiag) (ou32_NodeIndex : Nat)
    (orc_ListIds : List C_OscNodeDataPoolListId) : Option T_PollResult :=
  let u32_ActiveIndex := (m_GetActiveDiagIndex m_GetActiveIndex d ou32_NodeIndex).1
  if u32_ActiveIndex ≥ mc_DataDealers.length then
    some { s32_Return := C_RANGE, c_PollingThread := t, oc_Started := none }
  else
    startPolling mc_DataDealers t u32_ActiveIndex
      (fun c_Dealer => T_PollRequest.StartNvmSafeReadParameterValues c_Dealer orc_ListIds)

/-- Method `C_SyvComDriverDiag::m_HandlePollingFinished`: the polling thread after the call and
the result code and negative response code handed on with `SigPollingFinished`. -/
def m_HandlePollingFinished (t : C_SyvComPollingThreadDiag) :
    C_SyvComPollingThreadDiag × T_Error × Nat :=
  (t.AcceptNextRequest, t.s32_Result, t.u8_Nrc)

/-! ## Diagnostic communication driver: diagnostic mode -/

/-- The functions of the base class and the constant of `C_OscProtocolDriverOsy` that
`SetDiagnosticMode` uses besides the routing; their code is not under the sources of the driver.
A function that works on the set of the defect nodes hands back its return code and the set
after the call. -/
structure T_SessionBase where
  /-- Constant `C_OscProtocolDriverOsy::hu8_DIAGNOSTIC_SESSION_EXTENDED_DIAGNOSIS` -/
  hu8_DIAGNOSTIC_SESSION_EXTENDED_DIAGNOSIS : Nat
  /-- Reaction to `m_SetNodesSessionId(active nodes, session, flag, defect nodes)` -/
  m_SetNodesSessionId : List Nat → Nat → Bool → List Nat → T_Error × List Nat
  /-- Reaction to `m_SetNodesSecurityAccess(active nodes, level, defect nodes)` -/
  m_SetNodesSecurityAccess : List Nat → Nat → List Nat → T_Error × List Nat
  /-- Result of `m_GetActiveNodeName(active node)` -/
  m_GetActiveNodeName : Nat → String

/-- One step of `SetDiagnosticMode`: the function called with its arguments. -/
inductive T_DiagnosticModeStep
  /-- Call of `m_StartRoutingDiag` with the set of the defect nodes -/
  | m_StartRoutingDiag (c_DefectNodeIndices : List Nat)
  /-- Call of `m_SetNodesSessionId` -/
  | m_SetNodesSessionId (c_ActiveNodes : List Nat) (u8_SessionId : Nat) (q_Flag : Bool)
      (c_DefectNodeIndices : List Nat)
  /-- Call of `m_SetNodesSecurityAccess` -/
  | m_SetNodesSecurityAccess (c_ActiveNodes : List Nat) (u8_SecurityLevel : Nat)
      (c_DefectNodeIndices : List Nat)
  /-- Call of `m_StartDiagServers` -/
  | m_StartDiagServers
  deriving DecidableEq, Repr

/-- Result of `SetDiagnosticMode`. -/
structure T_DiagnosticModeResult where
  /-- Return code -/
  s32_Return : T_Error
  /-- The driver after the call -/
  c_Driver : C_SyvComDriverDiag
  /-- Value of `orc_ErrorDetails` after the call -/
  c_ErrorDetails : List T_ErrorDetail
  /-- Value of `mc_DefectNodeIndices` after the call -/
  mc_DefectNodeIndices : List Nat
  /-- The steps, in order -/
  c_Steps : List T_DiagnosticModeStep
  /-- Calls of `m_StartRoutingDiag` into the base class, in order -/
  c_RoutingCalls : List T_RoutingCall
  /-- Requests of `m_StartDiagServers` to the protocols, in order -/
  c_Requests : List T_Request

/-- The lines that `SetDiagnosticMode` adds to the error details: one entry with the name of the
node for every defect node, in the order of the `std::set`. -/
def defectNodeDetails (c_Session : T_SessionBase) (c_DefectNodeIndices : List Nat) :
    List T_ErrorDetail :=
  (c_DefectNodeIndices.insertionSort (fun a b => a ≤ b)).map
    (fun u32_ActiveNode =>
      { c_NodeName := c_Session.m_GetActiveNodeName u32_ActiveNode, c_Reasons := [] })

/-- The call of `m_SetNodesSessionId` in `SetDiagnosticMode` after the routing came to the state
`c_Routing`: return code and defect nodes after the call. -/
def sessionStepResult (d : C_SyvComDriverDiag) (c_Session : T_SessionBase)
    (c_Routing : T_RoutingState) : T_Error × List Nat :=
  c_Session.m_SetNodesSessionId d.mc_ActiveDiagNodes
    c_Session.hu8_DIAGNOSTIC_SESSION_EXTENDED_DIAGNOSIS true c_Routing.c_ErrorActiveNodes

/-- The call of `m_SetNodesSecurityAccess` in `SetDiagnosticMode` after the call of
`m_SetNodesSessionId`: return code and defect nodes after the call. -/
def securityStepResult (d : C_SyvComDriverDiag) (c_Session : T_SessionBase)
    (c_Routing : T_RoutingState) : T_Error × List Nat :=
  c_Session.m_SetNodesSecurityAccess d.mc_ActiveDiagNodes 1
    (sessionStepResult d c_Session c_Routing).2

/-- The part of `SetDiagnosticMode` between the routing and the start of the diagnosis servers:
return code, error details, defect nodes and the steps taken. -/
def setSessionAndSecurity (d : C_SyvComDriverDiag) (c_Session : T_SessionBase)
    (c_Routing : T_RoutingState) :
    T_Error × List T_ErrorDetail × List Nat × List T_DiagnosticModeStep :=
  if c_Routing.s32_Return = C_NO_ERR ∨ c_Routing.s32_Return = C_TIMEOUT then
    let c_SessionStep := T_DiagnosticModeStep.m_SetNodesSessionId d.mc_ActiveDiagNodes
      c_Session.hu8_DIAGNOSTIC_SESSION_EXTENDED_DIAGNOSIS true c_Routing.c_ErrorActiveNodes
    if (sessionStepResult d c_Session c_Routing).1 = C_NO_ERR then
      let c_SecurityStep := T_DiagnosticModeStep.m_SetNodesSecurityAccess d.mc_ActiveDiagNodes 1
        (sessionStepResult d c_Session c_Routing).2
      ((securityStepResult d c_Session c_Routing).1,
        if (securityStepResult d c_Session c_Routing).1 ≠ C_NO_ERR then
          defectNodeDetails c_Session (securityStepResult d c_Session c_Routing).2
        else [],
        (securityStepResult d c_Session c_Routing).2, [c_SessionStep, c_SecurityStep])
    else
      ((sessionStepResult d c_Session c_Routing).1,
        defectNodeDetails c_Session (sessionStepResult d c_Session c_Routing).2,
        (sessionStepResult d c_Session c_Routing).2, [c_SessionStep])
  else
    (c_Routing.s32_Return, c_Routing.c_ErrorDetails, c_Routing.c_ErrorActiveNodes, [])

/-- Method `C_SyvComDriverDiag::SetDiagnosticMode`. -/
def SetDiagnosticMode (c_Project : T_Project) (d : C_SyvComDriverDiag) (c_Base : T_RoutingBase)
    (c_Session : T_SessionBase) (orc_ErrorDetails : List T_ErrorDetail) :
    Option T_DiagnosticModeResult :=
  match m_StartRoutingDiag c_Project d c_Base orc_ErrorDetails [] with
  | none => none
  | some c_Routing =>
    let c_State := setSessionAndSecurity d c_Session c_Routing
    if c_State.1 = C_NO_ERR then
      match m_StartDiagServers c_Project d c_State.2.1 with
      | none => none
      | some c_Servers =>
        some { s32_Return := c_Servers.s32_Return
               c_Driver := c_Servers.c_Driver
               c_ErrorDetails := c_Servers.c_ErrorDetails
               mc_DefectNodeIndices := c_State.2.2.1
               c_Steps := T_DiagnosticModeStep.m_StartRoutingDiag [] :: c_State.2.2.2 ++
                 [T_DiagnosticModeStep.m_StartDiagServers]
               c_RoutingCalls := c_Routing.c_Calls
               c_Requests := c_Servers.c_Requests }
    else
      some { s32_Return := c_State.1
             c_Driver := d
             c_ErrorDetails := c_State.2.1
             mc_DefectNodeIndices := c_State.2.2.1
             c_Steps := T_DiagnosticModeStep.m_StartRoutingDiag [] :: c_State.2.2.2
             c_RoutingCalls := c_Routing.c_Calls
             c_Requests := [] }

/-! ## Diagnostic communication driver: initialization -/

/-- A protocol instance that `m_InitDiagProtocol` builds: its class and the active node it was
built for. -/
inductive T_DiagProtocolInstance
  /-- Instance of `C_OscDiagProtocolOsy` -/
  | C_OscDiagProtocolOsy (u32_ItActiveNode : Nat)
  /-- Instance of `C_OscDiagProtocolKfx` -/
  | C_OscDiagProtocolKfx (u32_ItActiveNode : Nat)
  deriving DecidableEq, Repr

/-- The members of the driver and of its base class that `InitDiag` reads or writes. A vector of
pointers holds `none` for `NULL`; a transport protocol is named by a number. -/
structure T_InitMembers where
  /-- Flag: `InitDiag` was successful -/
  mq_Initialized : Bool
  /-- Index of the view -/
  mu32_ViewIndex : Nat
  /-- Indexes of the active nodes in the system definition -/
  mc_ActiveNodesIndexes : List Nat
  /-- Transport protocols of the active nodes -/
  mc_TransportProtocols : List Nat
  /-- Identifications of the servers -/
  mc_ServerIds : List C_OscProtocolDriverOsyNode
  /-- Active nodes with diagnosis: indexes into `mc_ActiveNodesIndexes` -/
  mc_ActiveDiagNodes : List Nat
  /-- Active nodes that communicate: indexes into `mc_ActiveNodesIndexes` -/
  mc_ActiveCommunicatingNodes : List Nat
  /-- Indexes of the nodes with elements used by the view (a `std::set`) -/
  mc_DiagNodesWithElements : List Nat
  /-- Protocol instances, one slot per active node -/
  mc_DiagProtocols : List (Option T_DiagProtocolInstance)
  /-- The openSYDE protocol instances among them, one slot per active node -/
  mc_OsyProtocols : List (Option T_DiagProtocolInstance)
  /-- Data dealers, one slot per active node with diagnosis -/
  mc_DataDealers : List (Option C_SyvComDataDealer)
  deriving DecidableEq, Repr

/-- What `InitDiag` gets from functions whose code is not under the sources of the driver:
`C_SyvComDriverUtil::h_GetOscComDriverParamFromView`, `C_OscComDriverProtocol::Init` with the
members of the base class after it, the two sets of `C_PuiSvHandler` and the reactions of a new
`C_OscDiagProtocolOsy` to its two setters. -/
structure T_InitBase where
  /-- Return code of `h_GetOscComDriverParamFromView` -/
  s32_ParamReturn : T_Error
  /-- Flag `q_NodeDiagRoutingError` after `h_GetOscComDriverParamFromView` -/
  q_NodeDiagRoutingError : Bool
  /-- Return code of `C_OscComDriverProtocol::Init` -/
  s32_InitReturn : T_Error
  /-- Value of `mc_ActiveNodesIndexes` after `C_OscComDriverProtocol::Init` -/
  mc_ActiveNodesIndexes : List Nat
  /-- Value of `mc_TransportProtocols` after `C_OscComDriverProtocol::Init` -/
  mc_TransportProtocols : List Nat
  /-- Value of `mc_ServerIds` after `C_OscComDriverProtocol::Init` -/
  mc_ServerIds : List C_OscProtocolDriverOsyNode
  /-- Result of `GetClientId()` -/
  c_ClientId : C_OscProtocolDriverOsyNode
  /-- Reaction to `SetTransportProtocol(transport protocol)` -/
  SetTransportProtocol : Nat → T_Error
  /-- Reaction to `SetNodeIdentifiers(client, server)` -/
  SetNodeIdentifiers : C_OscProtocolDriverOsyNode → C_OscProtocolDriverOsyNode → T_Error
  /-- Set handed out by `GetViewNodeDashboardRoutingErrors` -/
  c_NodeDashboardErrors : List Nat
  /-- Set handed out by `GetViewRelevantNodesForDashboardRouting` -/
  c_RelevantNodes : List Nat

/-- Modelled from the spec: `m_GetActiveNodeCount()` of the base class, whose code is not under
the sources: the number of the active nodes ("build one Protocol instance per active node"). -/
def T_InitMembers.m_GetActiveNodeCount (m : T_InitMembers) : Nat :=
  m.mc_ActiveNodesIndexes.length

/-- A vector of pointers after `resize(n, NULL)` or `resize(n)`. -/
def resizeNull {α : Type} (c_Vector : List (Option α)) (n : Nat) : List (Option α) :=
  c_Vector.take n ++ List.replicate (n - c_Vector.length) none

/-- Body of the loop of `m_InitDiagProtocol` for the active node `u32_ItActiveNode` with the
node index `u32_NodeIndex`: value of `s32_Retval` and the members after the body. There is no
result if a vector is read or written outside its bounds. -/
def initDiagProtocolOfNode (c_Project : T_Project) (c_Base : T_InitBase)
    (u32_NodeIndex u32_ItActiveNode : Nat) (m : T_InitMembers) : Option (T_Error × T_InitMembers) :=
  match c_Project.c_Nodes[u32_NodeIndex]? with
  | none => some (C_CONFIG, m)
  | some pc_Node =>
    match pc_Node.e_DiagnosticServer with
    | E_DiagnosticServerProtocol.eDS_OPEN_SYDE =>
      match m.mc_TransportProtocols[u32_ItActiveNode]? with
      | none => none
      | some c_TransportProtocol =>
        let oc_Retval : Option T_Error :=
          if c_Base.SetTransportProtocol c_TransportProtocol = C_NO_ERR then
            match m.mc_ServerIds[u32_ItActiveNode]? with
            | none => none
            | some c_ServerId =>
              if c_Base.SetNodeIdentifiers c_Base.c_ClientId c_ServerId ≠ C_NO_ERR then
                some C_OVERFLOW
              else
                some C_NO_ERR
          else
            some C_OVERFLOW
        match oc_Retval with
        | none => none
        | some s32_Retval =>
          if u32_ItActiveNode < m.mc_OsyProtocols.length ∧
              u32_ItActiveNode < m.mc_DiagProtocols.length then
            some (s32_Retval,
              { m with
                mc_OsyProtocols := m.mc_OsyProtocols.set u32_ItActiveNode
                  (some (T_DiagProtocolInstance.C_OscDiagProtocolOsy u32_ItActiveNode))
                mc_DiagProtocols := m.mc_DiagProtocols.set u32_ItActiveNode
                  (some (T_DiagProtocolInstance.C_OscDiagProtocolOsy u32_ItActiveNode)) })
          else
            none
    | E_DiagnosticServerProtocol.eDS_KEFEX =>
      if u32_ItActiveNode < m.mc_DiagProtocols.length then
        some (C_NO_ERR,
          { m with
            mc_DiagProtocols := m.mc_DiagProtocols.set u32_ItActiveNode
              (some (T_DiagProtocolInstance.C_OscDiagProtocolKfx u32_ItActiveNode)) })
      else
        none
    | _ =>
      if u32_ItActiveNode < m.mc_DiagProtocols.length then
        some (C_OVERFLOW,
          { m with mc_DiagProtocols := m.mc_DiagProtocols.set u32_ItActiveNode none })
      else
        none

/-- Loop of `m_InitDiagProtocol` over the active nodes that are still to be handled;
`u32_ItActiveNode` is the index of the first of them. The loop is left at the first node for
which the body does not come to `C_NO_ERR`. -/
def initDiagProtocolLoop (c_Project : T_Project) (c_Base : T_InitBase) :
    List Nat → Nat → T_InitMembers → Option (T_Error × T_InitMembers)
  | [], _, m => some (C_NO_ERR, m)
  | u32_NodeIndex :: c_Rest, u32_ItActiveNode, m =>
    match initDiagProtocolOfNode c_Project c_Base u32_NodeIndex u32_ItActiveNode m with
    | none => none
    | some c_Result =>
      if c_Result.1 ≠ C_NO_ERR then
        some c_Result
      else
        initDiagProtocolLoop c_Project c_Base c_Rest (u32_ItActiveNode + 1) c_Result.2

/-- Method `C_SyvComDriverDiag::m_InitDiagProtocol`: return code and the members after the
call. -/
def m_InitDiagProtocol (c_Project : T_Project) (c_Base : T_InitBase) (m : T_InitMembers) :
    Option (T_Error × T_InitMembers) :=
  if m.mc_TransportProtocols.length ≥ m.m_GetActiveNodeCount ∧
      m.mc_ServerIds.length = m.m_GetActiveNodeCount then
    initDiagProtocolLoop c_Project c_Base m.mc_ActiveNodesIndexes 0
      { m with
        mc_DiagProtocols := resizeNull m.mc_DiagProtocols m.m_GetActiveNodeCount
        mc_OsyProtocols := resizeNull m.mc_OsyProtocols m.m_GetActiveNodeCount }
  else
    some (C_CONFIG, m)

/-- Loop of `m_InitDataDealer` over the active nodes with diagnosis that are still to be
handled; `u32_DiagNodeCounter` is the index of the first of them. A node that is not in the
system definition sets the return code to `C_CONFIG`, and the loop goes on. -/
def initDataDealerLoop (c_Project : T_Project) :
    List Nat → Nat → T_Error → T_InitMembers → Option (T_Error × T_InitMembers)
  | [], _, s32_Retval, m => some (s32_Retval, m)
  | u32_ActiveNode :: c_Rest, u32_DiagNodeCounter, s32_Retval, m =>
    match m.mc_ActiveNodesIndexes[u32_ActiveNode]? with
    | none => none
    | some u32_NodeIndex =>
      match c_Project.c_Nodes[u32_NodeIndex]? with
      | some _ =>
        if u32_ActiveNode < m.mc_DiagProtocols.length ∧
            u32_DiagNodeCounter < m.mc_DataDealers.length then
          initDataDealerLoop c_Project c_Rest (u32_DiagNodeCounter + 1) s32_Retval
            { m with
              mc_DataDealers := m.mc_DataDealers.set u32_DiagNodeCounter
                (some { mu32_NodeIndex := u32_NodeIndex, u32_ActiveNode := u32_ActiveNode }) }
        else
          none
      | none => initDataDealerLoop c_Project c_Rest (u32_DiagNodeCounter + 1) C_CONFIG m

/-- Method `C_SyvComDriverDiag::m_InitDataDealer`: return code and the members after the
call. -/
def m_InitDataDealer (c_Project : T_Project) (m : T_InitMembers) :
    Option (T_Error × T_InitMembers) :=
  if m.mc_DiagProtocols.length = m.m_GetActiveNodeCount then
    match c_Project.c_Views[m.mu32_ViewIndex]? with
    | some _ =>
      initDataDealerLoop c_Project m.mc_ActiveDiagNodes 0 C_NO_ERR
        { m with mc_DataDealers := resizeNull m.mc_DataDealers m.mc_ActiveDiagNodes.length }
    | none => some (C_CONFIG, m)
  else
    some (C_CONFIG, m)

/-- Loop of `InitDiag` over the active nodes in the case of a routing error of the dashboard:
the active nodes that are added to `mc_ActiveDiagNodes` and to `mc_ActiveCommunicatingNodes`;
`u32_ActiveNodeCounter` is the index of the first node of the list. -/
def activeDiagNodesLoop (c_Base : T_InitBase) : List Nat → Nat → List Nat × List Nat
  | [], _ => ([], [])
  | u32_NodeIndex :: c_Rest, u32_ActiveNodeCounter =>
    let c_More := activeDiagNodesLoop c_Base c_Rest (u32_ActiveNodeCounter + 1)
    (if u32_NodeIndex ∈ c_Base.c_NodeDashboardErrors then c_More.1
      else u32_ActiveNodeCounter :: c_More.1,
     if u32_NodeIndex ∈ c_Base.c_RelevantNodes then u32_ActiveNodeCounter :: c_More.2
      else c_More.2)

/-- The part of `InitDiag` in front of the call of `m_InitDiagProtocol`: the value of
`s32_Return` and the members there. -/
def initActiveNodes (c_Project : T_Project) (c_Base : T_InitBase) (m : T_InitMembers) :
    T_Error × T_InitMembers :=
  let c_Nodes : T_Error × List Nat :=
    if c_Base.s32_ParamReturn = C_NO_ERR then
      ((m_InitDiagNodes c_Project
          { mq_Initialized := m.mq_Initialized, mu32_ViewIndex := m.mu32_ViewIndex
            mc_ActiveNodesIndexes := m.mc_ActiveNodesIndexes
            mc_ActiveDiagNodes := m.mc_ActiveDiagNodes, mc_DiagProtocols := []
            mc_DiagNodesWithElements := m.mc_DiagNodesWithElements
            mc_ReadDatapoolMetadata := [] }).1,
        (m_InitDiagNodes c_Project
          { mq_Initialized := m.mq_Initialized, mu32_ViewIndex := m.mu32_ViewIndex
            mc_ActiveNodesIndexes := m.mc_ActiveNodesIndexes
            mc_ActiveDiagNodes := m.mc_ActiveDiagNodes, mc_DiagProtocols := []
            mc_DiagNodesWithElements := m.mc_DiagNodesWithElements
            mc_ReadDatapoolMetadata := [] }).2.mc_DiagNodesWithElements)
    else
      (c_Base.s32_ParamReturn, m.mc_DiagNodesWithElements)
  let c_Init : T_Error × T_InitMembers :=
    if c_Nodes.1 = C_NO_ERR then
      (c_Base.s32_InitReturn,
        { m with
          mc_DiagNodesWithElements := c_Nodes.2
          mc_ActiveNodesIndexes := c_Base.mc_ActiveNodesIndexes
          mc_TransportProtocols := c_Base.mc_TransportProtocols
          mc_ServerIds := c_Base.mc_ServerIds })
    else
      (c_Nodes.1, { m with mc_DiagNodesWithElements := c_Nodes.2 })
  if c_Base.q_NodeDiagRoutingError = true then
    (c_Init.1,
      { c_Init.2 with
        mc_ActiveDiagNodes := c_Init.2.mc_ActiveDiagNodes ++
          (activeDiagNodesLoop c_Base c_Init.2.mc_ActiveNodesIndexes 0).1
        mc_ActiveCommunicatingNodes := c_Init.2.mc_ActiveCommunicatingNodes ++
          (activeDiagNodesLoop c_Base c_Init.2.mc_ActiveNodesIndexes 0).2 })
  else
    (c_Init.1,
      { c_Init.2 with
        mc_ActiveDiagNodes := List.range c_Init.2.mc_ActiveNodesIndexes.length
        mc_ActiveCommunicatingNodes := List.range c_Init.2.mc_ActiveNodesIndexes.length })

/-- Method `C_SyvComDriverDiag::InitDiag`: return code and the members after the call. -/
def InitDiag (c_Project : T_Project) (c_Base : T_InitBase) (m : T_InitMembers) :
    Option (T_Error × T_InitMembers) :=
  let c_Start := initActiveNodes c_Project c_Base m
  if c_Start.1 = C_NO_ERR then
    match m_InitDiagProtocol c_Project c_Base c_Start.2 with
    | none => none
    | some c_Protocols =>
      if c_Protocols.1 = C_NO_ERR then
        match m_InitDataDealer c_Project c_Protocols.2 with
        | none => none
        | some c_Dealers =>
          if c_Dealers.1 = C_NO_ERR then
            some (c_Dealers.1, { c_Dealers.2 with mq_Initialized := true })
          else
            some c_Dealers
      else
        some c_Protocols
  else if c_Start.1 = C_NOACT then
    some (c_Start.1, { c_Start.2 with mq_Initialized := true })
  else
    some c_Start

/-! ## Diagnostic communication driver: registration of widgets -/

/-- CAN message of the system definition (`C_OscCanMessage`), as far as `RegisterWidget` reads
it. -/
structure C_OscCanMessage where
  /-- CAN identifier -/
  u32_CanId : Nat
  /-- Flag: the identifier is an extended identifier -/
  q_IsExtended : Bool
  /-- Data length code -/
  u16_Dlc : Nat
  /-- Signals of the message -/
  c_Signals : List C_OscCanSignal
  deriving DecidableEq, Repr

/-- One data element of a widget: what `GetDataPoolElementIndex(counter, id)` hands back for
its counter, and whether `GetType()` of the identification is `eBUS_SIGNAL`. -/
structure T_WidgetElement where
  /-- Return code of `GetDataPoolElementIndex` -/
  s32_Return : T_Error
  /-- Identification written by `GetDataPoolElementIndex` -/
  c_DpElementId : C_OscNodeDataPoolListElementId
  /-- Flag: the type of the identification is `eBUS_SIGNAL` -/
  q_IsBusSignal : Bool
  deriving DecidableEq, Repr

/-- A widget (`C_PuiSvDbDataElementHandler`): a number that names the object and its data
elements, one per counter below `GetWidgetDataPoolElementCount()`. -/
structure C_PuiSvDbDataElementHandler where
  /-- Number that stands for the address of the widget -/
  u32_Handler : Nat
  /-- The data elements by counter -/
  c_Elements : List T_WidgetElement
  deriving DecidableEq, Repr

/-- The functions of `C_PuiSdHandler` that `RegisterWidget` uses and the signal that the default
constructor of `C_OscCanSignal` builds; their code is not under the sources of the driver. The
message and the signal are the ones that `GetCanMessage` and `GetCanSignal` find with the
indexes written by `ConvertElementIndexToSignalIndex`; `none` stands for NULL. -/
structure T_SignalLookup where
  /-- Value `c_Value` of the element found by `GetOscDataPoolListElement`, as content -/
  GetOscDataPoolListElement : C_OscNodeDataPoolListElementId → Option C_PuiSvDbDataElementContent
  /-- Message of the element -/
  GetCanMessage : C_OscNodeDataPoolListElementId → Option C_OscCanMessage
  /-- Signal of the element -/
  GetCanSignal : C_OscNodeDataPoolListElementId → Option C_OscCanSignal
  /-- Signal built by the default constructor -/
  c_DefaultSignal : C_OscCanSignal

/-- Operator `==` of `C_SyvComDriverDiagWidgetRegistration`. -/
def C_SyvComDriverDiagWidgetRegistration.equals
    (c_This orc_Cmp : C_SyvComDriverDiagWidgetRegistration) : Bool :=
  if c_This.q_IsExtended ≠ orc_Cmp.q_IsExtended ∨ c_This.u16_Dlc ≠ orc_Cmp.u16_Dlc ∨
      c_This.pc_Handler ≠ orc_Cmp.pc_Handler ∨ c_This.c_Signal ≠ orc_Cmp.c_Signal ∨
      c_This.c_MultiplexerSignal ≠ orc_Cmp.c_MultiplexerSignal then
    false
  else
    true

/-- The multiplexer signal that `RegisterWidget` stores: for a multiplexed signal the first
multiplexer signal of the message, if there is one, and the signal of the default constructor
otherwise. -/
def multiplexerSignalOf (c_Lookup : T_SignalLookup) (pc_CanMsg : C_OscCanMessage)
    (pc_Signal : C_OscCanSignal) : C_OscCanSignal :=
  if pc_Signal.e_MultiplexerType = E_MultiplexerType.eMUX_MULTIPLEXED_SIGNAL then
    match pc_CanMsg.c_Signals.find?
        (fun c_Signal => c_Signal.e_MultiplexerType = E_MultiplexerType.eMUX_MULTIPLEXER_SIGNAL) with
    | some c_MultiplexerSignal => c_MultiplexerSignal
    | none => c_Lookup.c_DefaultSignal
  else
    c_Lookup.c_DefaultSignal

/-- The key and the registration that the body of the loop of `RegisterWidget` builds for a
data element of the widget `u32_Handler`; `none` if the body adds nothing for the element. -/
def registrationOf (c_Lookup : T_SignalLookup) (u32_Handler : Nat)
    (c_Element : T_WidgetElement) :
    Option (C_OscCanMessageUniqueId × C_SyvComDriverDiagWidgetRegistration) :=
  if c_Element.s32_Return = C_NO_ERR then
    if c_Element.q_IsBusSignal = true then
      match c_Lookup.GetCanMessage c_Element.c_DpElementId,
        c_Lookup.GetCanSignal c_Element.c_DpElementId,
        c_Lookup.GetOscDataPoolListElement c_Element.c_DpElementId with
      | some pc_CanMsg, some pc_Signal, some c_Value =>
        some ((pc_CanMsg.u32_CanId, pc_CanMsg.q_IsExtended),
          { pc_Handler := some u32_Handler
            u16_Dlc := pc_CanMsg.u16_Dlc
            q_IsExtended := pc_CanMsg.q_IsExtended
            c_Signal := pc_Signal
            c_MultiplexerSignal := multiplexerSignalOf c_Lookup pc_CanMsg pc_Signal
            c_ElementId := c_Element.c_DpElementId
            c_ElementContent := c_Value })
      | _, _, _ => none
    else
      none
  else
    none

/-- The map `mc_AllWidgets` after the registration was added under the key: the list of the key
gets the registration at its end unless it contains an equal one, and a key that the map does
not have gets a new list with the registration. The order of the entries of the map has no
meaning. -/
def addRegistration :
    List (C_OscCanMessageUniqueId × List C_SyvComDriverDiagWidgetRegistration) →
    C_OscCanMessageUniqueId → C_SyvComDriverDiagWidgetRegistration →
    List (C_OscCanMessageUniqueId × List C_SyvComDriverDiagWidgetRegistration)
  | [], c_MsgCanId, c_WidgetRegistration => [(c_MsgCanId, [c_WidgetRegistration])]
  | c_Entry :: c_Rest, c_MsgCanId, c_WidgetRegistration =>
    if c_Entry.1 = c_MsgCanId then
      (if c_Entry.2.any (fun c_Other => c_Other.equals c_WidgetRegistration) = false then
        (c_Entry.1, c_Entry.2 ++ [c_WidgetRegistration])
      else
        c_Entry) :: c_Rest
    else
      c_Entry :: addRegistration c_Rest c_MsgCanId c_WidgetRegistration

/-- Body of the loop of `RegisterWidget` for one data element: the map after the body. -/
def registerElement (c_Lookup : T_SignalLookup) (u32_Handler : Nat)
    (mc_AllWidgets : List (C_OscCanMessageUniqueId × List C_SyvComDriverDiagWidgetRegistration))
    (c_Element : T_WidgetElement) :
    List (C_OscCanMessageUniqueId × List C_SyvComDriverDiagWidgetRegistration) :=
  match registrationOf c_Lookup u32_Handler c_Element with
  | some c_New => addRegistration mc_AllWidgets c_New.1 c_New.2
  | none => mc_AllWidgets

/-- Method `C_SyvComDriverDiag::RegisterWidget`: the map `mc_AllWidgets` after the call. -/
def RegisterWidget (c_Lookup : T_SignalLookup)
    (mc_AllWidgets : List (C_OscCanMessageUniqueId × List C_SyvComDriverDiagWidgetRegistration))
    (opc_Widget : Option C_PuiSvDbDataElementHandler) :
    List (C_OscCanMessageUniqueId × List C_SyvComDriverDiagWidgetRegistration) :=
  match opc_Widget with
  | none => mc_AllWidgets
  | some c_Widget =>
    c_Widget.c_Elements.foldl (registerElement c_Lookup c_Widget.u32_Handler) mc_AllWidgets

/-! ## Diagnostic communication driver: further notions -/

/-- The time stamps of the values that a list of calls delivers to the widgets, in order. -/
def deliveredTimeStamps (c_Calls : List T_WidgetCall) : List Nat :=
  c_Calls.filterMap
    (fun c_Call =>
      match c_Call with
      | T_WidgetCall.InsertNewValueIntoQueue _ _ c_Content => some c_Content.u32_TimeStamp
      | T_WidgetCall.SetErrorForInvalidDlc _ _ _ => none)

/-- The indexes of the protocol instances of a list that are `C_OscDiagProtocolKfx` instances,
in order; `u32_Counter` is the index of the first instance of the list. -/
def kfxIndexes : List C_OscDiagProtocolBase → Nat → List Nat
  | [], _ => []
  | c_Protocol :: c_Rest, u32_Counter =>
    if c_Protocol.q_IsKfx = true then
      u32_Counter :: kfxIndexes c_Rest (u32_Counter + 1)
    else
      kfxIndexes c_Rest (u32_Counter + 1)

/-- The protocol instance that the diagnostic server of a node asks for: an instance of
`C_OscDiagProtocolOsy` for an openSYDE server, an instance of `C_OscDiagProtocolKfx` for a KEFEX
server and none (`NULL`) for a node without diagnostic server or with an unknown one. -/
def instanceOfNode (pc_Node : C_OscNode) (u32_ItActiveNode : Nat) :
    Option T_DiagProtocolInstance :=
  match pc_Node.e_DiagnosticServer with
  | E_DiagnosticServerProtocol.eDS_OPEN_SYDE =>
    some (T_DiagProtocolInstance.C_OscDiagProtocolOsy u32_ItActiveNode)
  | E_DiagnosticServerProtocol.eDS_KEFEX =>
    some (T_DiagProtocolInstance.C_OscDiagProtocolKfx u32_ItActiveNode)
  | _ => none

/-- A node for which `m_InitDiagProtocol` builds no instance: its diagnostic server is
`eDS_NONE` or a value that is none of the enumerators (`case eDS_NONE: default:`). -/
def noDiagnosticServer (pc_Node : C_OscNode) : Prop :=
  pc_Node.e_DiagnosticServer = E_DiagnosticServerProtocol.eDS_NONE ∨
  pc_Node.e_DiagnosticServer = E_DiagnosticServerProtocol.eDS_UNKNOWN

instance (pc_Node : C_OscNode) : Decidable (noDiagnosticServer pc_Node) := by
  unfold noDiagnosticServer
  exact inferInstance

/-- Two states of the members agree in what the loop of `m_InitDiagProtocol` does not write:
all members but the two vectors of protocol instances, whose lengths are the same. -/
def T_InitMembers.sameFrame (m c_Other : T_InitMembers) : Prop :=
  c_Other.mq_Initialized = m.mq_Initialized ∧ c_Other.mu32_ViewIndex = m.mu32_ViewIndex ∧
  c_Other.mc_ActiveNodesIndexes = m.mc_ActiveNodesIndexes ∧
  c_Other.mc_TransportProtocols = m.mc_TransportProtocols ∧
  c_Other.mc_ServerIds = m.mc_ServerIds ∧
  c_Other.mc_ActiveDiagNodes = m.mc_ActiveDiagNodes ∧
  c_Other.mc_ActiveCommunicatingNodes = m.mc_ActiveCommunicatingNodes ∧
  c_Other.mc_DiagNodesWithElements = m.mc_DiagNodesWithElements ∧
  c_Other.mc_DataDealers = m.mc_DataDealers ∧
  c_Other.mc_DiagProtocols.length = m.mc_DiagProtocols.length ∧
  c_Other.mc_OsyProtocols.length = m.mc_OsyProtocols.length

instance (m c_Other : T_InitMembers) : Decidable (m.sameFrame c_Other) := by
  unfold T_InitMembers.sameFrame
  exact inferInstance

/-- The map `mc_AllWidgets` of a new driver after a sequence of calls of `RegisterWidget`, each
with the system definition of its time. -/
def registerWidgets
    (c_Calls : List (T_SignalLookup × Option C_PuiSvDbDataElementHandler)) :
    List (C_OscCanMessageUniqueId × List C_SyvComDriverDiagWidgetRegistration) :=
  c_Calls.foldl (fun mc_AllWidgets c_Call => RegisterWidget c_Call.1 mc_AllWidgets c_Call.2) []

/-- The map holds under the key a registration equal to the given one. -/
def holdsRegistration
    (mc_AllWidgets : List (C_OscCanMessageUniqueId × List C_SyvComDriverDiagWidgetRegistration))
    (c_MsgCanId : C_OscCanMessageUniqueId)
    (c_WidgetRegistration : C_SyvComDriverDiagWidgetRegistration) : Prop :=
  ∃ c_List, findWidgets mc_AllWidgets c_MsgCanId = some c_List ∧
    ∃ c_Other, c_Other ∈ c_List ∧ c_Other.equals c_WidgetRegistration = true

/-- The map of the widgets is well formed: no key has two entries, no list holds two
registrations that are equal by the operator `==`, and the extended flag of every registration is
the one of its key. -/
def widgetsWellFormed
    (mc_AllWidgets : List (C_OscCanMessageUniqueId × List C_SyvComDriverDiagWidgetRegistration)) :
    Prop :=
  (mc_AllWidgets.map (fun c_Entry => c_Entry.1)).Nodup ∧
  ∀ c_Entry, c_Entry ∈ mc_AllWidgets →
    c_Entry.2.Pairwise (fun c_This c_Other => c_This.equals c_Other = false) ∧
    ∀ c_WidgetRegistration, c_WidgetRegistration ∈ c_Entry.2 →
      c_WidgetRegistration.q_IsExtended = c_Entry.1.2

/-! ## Diagnostic communication driver: further fixtures -/

/-- A KEFEX server whose logoff and whose stop of the event driven transmissions fail or
succeed as given. -/
def fixtureKfxServer (s32_Logoff s32_Stop : T_Error) : C_OscDiagProtocolBase :=
  { q_IsOsy := false
    hu8_NR_CODE_REQUEST_OUT_OF_RANGE := 0x31
    DataPoolReadMetaData := fixtureReadMetaData
    DataPoolVerify := fun _ _ => { s32_Return := C_NO_ERR, oq_Match := some true }
    mc_DataPoolMapping := []
    q_IsKfx := true
    Logoff := fun _ => s32_Logoff
    DataPoolStopEventDriven := s32_Stop }

/-- An openSYDE server whose `Cycle()` fails with `C_COM`. -/
def fixtureCycleFailsServer : C_OscDiagProtocolBase :=
  { fixtureServer with Cycle := C_COM }

/-- A driver with two protocol instances; `Cycle()` of the first one fails. -/
def fixtureCycleDriver : C_SyvComDriverDiag :=
  { mq_Initialized := true, mu32_ViewIndex := 0, mc_ActiveNodesIndexes := [0, 1]
    mc_ActiveDiagNodes := [0, 1], mc_DiagProtocols := [fixtureCycleFailsServer, fixtureServer]
    mc_DiagNodesWithElements := [], mc_ReadDatapoolMetadata := [] }

/-- An initialized driver for `fixtureThreeNodesProject` with a KEFEX server whose logoff runs
into a timeout, an openSYDE server and a KEFEX server whose logoff succeeds and that does not
confirm the stop of the event driven transmissions. -/
def fixtureMixedDriver : C_SyvComDriverDiag :=
  { mq_Initialized := true, mu32_ViewIndex := 0, mc_ActiveNodesIndexes := [0, 1, 2]
    mc_ActiveDiagNodes := [0, 1, 2]
    mc_DiagProtocols :=
      [fixtureKfxServer C_TIMEOUT C_NO_ERR, fixtureServer, fixtureKfxServer C_NO_ERR C_WARN]
    mc_DiagNodesWithElements := [], mc_ReadDatapoolMetadata := [] }

/-- The frame `fixtureSelectedMsg` received at another time. -/
def fixtureSelectedMsgAt (u64_TimeStamp : Nat) : T_STWCAN_Msg_RX :=
  { fixtureSelectedMsg with u64_TimeStamp := u64_TimeStamp }

/-- A base class whose `m_GetActiveIndex` looks for the node among the active nodes of the
driver. -/
def fixtureGetActiveIndex (d : C_SyvComDriverDiag) (ou32_NodeIndex : Nat) : Nat × Bool :=
  (d.mc_ActiveNodesIndexes.indexOf ou32_NodeIndex,
    decide (ou32_NodeIndex ∈ d.mc_ActiveNodesIndexes))

/-- A driver for `fixtureThreeNodesProject` in which the nodes 0 and 2 are active and the node 2
is the only active node with diagnosis. -/
def fixturePollDriver : C_SyvComDriverDiag :=
  { mq_Initialized := true, mu32_ViewIndex := 0, mc_ActiveNodesIndexes := [0, 2]
    mc_ActiveDiagNodes := [1], mc_DiagProtocols := [fixtureServer, fixtureServer]
    mc_DiagNodesWithElements := [], mc_ReadDatapoolMetadata := [[]] }

/-- The data dealers of `fixturePollDriver`: one data dealer, for the node 2. -/
def fixtureDataDealers : List (Option C_SyvComDataDealer) :=
  [some { mu32_NodeIndex := 2, u32_ActiveNode := 1 }]

/-- A polling thread without request in flight. -/
def fixtureIdleThread : C_SyvComPollingThreadDiag :=
  { oc_Request := none, s32_Result := C_NO_ERR, u8_Nrc := 0 }

/-- A polling thread with a read from the node 2 in flight. -/
def fixtureBusyThread : C_SyvComPollingThreadDiag :=
  { oc_Request :=
      some (T_PollRequest.StartNvmRead { mu32_NodeIndex := 2, u32_ActiveNode := 1 } 0 1 2)
    s32_Result := C_WARN, u8_Nrc := 0x31 }

/-- A base class whose session and security functions succeed for every node and leave the set
of the defect nodes as it is. -/
def fixtureSessionBase : T_SessionBase :=
  { hu8_DIAGNOSTIC_SESSION_EXTENDED_DIAGNOSIS := 3
    m_SetNodesSessionId := fun _ _ _ c_DefectNodeIndices => (C_NO_ERR, c_DefectNodeIndices)
    m_SetNodesSecurityAccess := fun _ _ c_DefectNodeIndices => (C_NO_ERR, c_DefectNodeIndices)
    m_GetActiveNodeName := fun u32_ActiveNode =>
      if u32_ActiveNode = 0 then "Node_A" else if u32_ActiveNode = 1 then "Node_B" else "Node_C" }

/-- A base class whose session function fails with `C_WARN` and reports the nodes 2 and 1 as
defect. -/
def fixtureNoSessionBase : T_SessionBase :=
  { fixtureSessionBase with
    m_SetNodesSessionId := fun _ _ _ c_DefectNodeIndices =>
      (C_WARN, setInsert (setInsert c_DefectNodeIndices 2) 1) }

/-- A node without diagnostic server. -/
def fixtureNoServerNode : C_OscNode :=
  { c_Name := "Node_D", e_DiagnosticServer := E_DiagnosticServerProtocol.eDS_NONE
    c_DataPools := [] }

/-- A node with a KEFEX server. -/
def fixtureKfxNode : C_OscNode :=
  { c_Name := "Node_E", e_DiagnosticServer := E_DiagnosticServerProtocol.eDS_KEFEX
    c_DataPools := [] }

/-- A project with an openSYDE node, a KEFEX node and a node without diagnostic server. -/
def fixtureInitProject : T_Project :=
  { c_Nodes := [fixtureOsyNode, fixtureKfxNode, fixtureNoServerNode]
    c_Views := [fixtureView]
    hu32_MAX_NUMBER_OF_DATA_POOLS_PER_NODE := 32 }

/-- A node whose diagnostic server is none of the enumerators. -/
def fixtureUnknownServerNode : C_OscNode :=
  { c_Name := "Node_U", e_DiagnosticServer := E_DiagnosticServerProtocol.eDS_UNKNOWN
    c_DataPools := [] }

/-- A project with an openSYDE node and a node with an unknown diagnostic server. -/
def fixtureUnknownServerProject : T_Project :=
  { c_Nodes := [fixtureOsyNode, fixtureUnknownServerNode]
    c_Views := [fixtureView]
    hu32_MAX_NUMBER_OF_DATA_POOLS_PER_NODE := 32 }

/-- The members of a driver for the view 0 after its construction. -/
def fixtureNewMembers : T_InitMembers :=
  { mq_Initialized := false, mu32_ViewIndex := 0, mc_ActiveNodesIndexes := []
    mc_TransportProtocols := [], mc_ServerIds := []
    mc_ActiveDiagNodes := [], mc_ActiveCommunicatingNodes := [], mc_DiagNodesWithElements := []
    mc_DiagProtocols := [], mc_OsyProtocols := [], mc_DataDealers := [] }

/-- A base class that activates the given nodes of `fixtureInitProject`, with one transport
protocol and one server identification per active node; all functions succeed. -/
def fixtureInitBase (c_ActiveNodes : List Nat) : T_InitBase :=
  { s32_ParamReturn := C_NO_ERR, q_NodeDiagRoutingError := false, s32_InitReturn := C_NO_ERR
    mc_ActiveNodesIndexes := c_ActiveNodes
    mc_TransportProtocols := c_ActiveNodes.map (fun u32_NodeIndex => 100 + u32_NodeIndex)
    mc_ServerIds := c_ActiveNodes.map
      (fun u32_NodeIndex => { u8_BusIdentifier := 0, u8_NodeIdentifier := u32_NodeIndex + 1 })
    c_ClientId := { u8_BusIdentifier := 0, u8_NodeIdentifier := 126 }
    SetTransportProtocol := fun _ => C_NO_ERR
    SetNodeIdentifiers := fun _ _ => C_NO_ERR
    c_NodeDashboardErrors := [], c_RelevantNodes := [] }

/-- A system definition with the multiplexed signal of `fixtureRegistration` in the message
`0x100` for every element of the node 0, and nothing for the elements of other nodes. -/
def fixtureLookup : T_SignalLookup :=
  { GetOscDataPoolListElement := fun c_Id =>
      if c_Id.u32_NodeIndex = 0 then
        some { e_Type := E_ContentType.eUINT8, u64_Value := 0, u32_TimeStamp := 0 }
      else none
    GetCanMessage := fun c_Id =>
      if c_Id.u32_NodeIndex = 0 then
        some { u32_CanId := 0x100, q_IsExtended := false, u16_Dlc := 2
               c_Signals := [fixtureRegistration.c_MultiplexerSignal,
                 fixtureRegistration.c_Signal] }
      else none
    GetCanSignal := fun c_Id =>
      if c_Id.u32_NodeIndex = 0 then some fixtureRegistration.c_Signal else none
    c_DefaultSignal :=
      { e_MultiplexerType := E_MultiplexerType.eMUX_DEFAULT, u16_MultiplexValue := 0
        u16_ComBitStart := 0, u16_ComBitLength := 0 } }

/-- The widget 7 with three data elements: the bus signal of the first element of the node 0, a
data pool element that is no bus signal, and the same bus signal once more. -/
def fixtureWidget : C_PuiSvDbDataElementHandler :=
  { u32_Handler := 7
    c_Elements :=
      [{ s32_Return := C_NO_ERR, c_DpElementId := fixtureElementId 0, q_IsBusSignal := true },
       { s32_Return := C_NO_ERR, c_DpElementId := fixtureElementId 1, q_IsBusSignal := false },
       { s32_Return := C_NO_ERR, c_DpElementId := fixtureElementId 0, q_IsBusSignal := true }] }
/-! ## Properties of the CRC16-CCITT -/

theorem xor_poly_lt (x : Nat) (h : x < 0x10000) : x ^^^ 0x1021 < 0x10000 :=
  Nat.xor_lt_two_pow (n := 16) h (by norm_num)

theorem crc16Bit_lt (c : Nat) : crc16Bit c < 0x10000 := by
  unfold crc16Bit
  split
  · exact xor_poly_lt _ (Nat.mod_lt _ (by norm_num))
  · exact Nat.mod_lt _ (by norm_num)

theorem xor_poly_odd (x : Nat) (h : x % 2 = 0) : (x ^^^ 0x1021) % 2 = 1 := by
  rw [Nat.xor_mod_two_eq]
  omega

theorem crc16Bit_inj (c d : Nat) (hc : c < 0x10000) (hd : d < 0x10000)
    (h : crc16Bit c = crc16Bit d) : c = d := by
  unfold crc16Bit at h
  rw [Nat.mod_eq_of_lt hc, Nat.mod_eq_of_lt hd] at h
  split_ifs at h with h1 h2 h2
  · have := Nat.xor_left_injective h
    omega
  · have := xor_poly_odd (c * 2 % 0x10000) (by omega)
    omega
  · have := xor_poly_odd (d * 2 % 0x10000) (by omega)
    omega
  · omega



theorem crc16Byte_lt (c b : Nat) : crc16Byte c b < 0x10000 := by
  unfold crc16Byte
  exact crc16Bit_lt _

theorem crc16_mix_lt (c b : Nat) : (c % 0x10000) ^^^ (b % 0x100 * 0x100) < 0x10000 := by
  apply Nat.xor_lt_two_pow (n := 16)
  · exact Nat.mod_lt _ (by norm_num)
  · have := Nat.mod_lt b (show 0x100 > 0 by norm_num)
    norm_num
    omega

theorem crc16Byte_mix_inj (x y : Nat) (hx : x < 0x10000) (hy : y < 0x10000)
    (h : crc16Bit (crc16Bit (crc16Bit (crc16Bit (crc16Bit (crc16Bit (crc16Bit (crc16Bit x)))))))
       = crc16Bit (crc16Bit (crc16Bit (crc16Bit (crc16Bit (crc16Bit (crc16Bit (crc16Bit y)))))))) :
    x = y := by
  have b := crc16Bit_lt
  exact crc16Bit_inj _ _ hx hy (crc16Bit_inj _ _ (b _) (b _) (crc16Bit_inj _ _ (b _) (b _)
    (crc16Bit_inj _ _ (b _) (b _) (crc16Bit_inj _ _ (b _) (b _) (crc16Bit_inj _ _ (b _) (b _)
    (crc16Bit_inj _ _ (b _) (b _) (crc16Bit_inj _ _ (b _) (b _) h)))))))

/-- Distinct checksums stay distinct when the same byte is fed to both. -/
theorem crc16Byte_inj_crc (c d b : Nat) (hc : c < 0x10000) (hd : d < 0x10000)
    (h : crc16Byte c b = crc16Byte d b) : c = d := by
  unfold crc16Byte at h
  have h1 := crc16Byte_mix_inj _ _ (crc16_mix_lt c b) (crc16_mix_lt d b) h
  have h2 := Nat.xor_left_injective h1
  rw [Nat.mod_eq_of_lt hc, Nat.mod_eq_of_lt hd] at h2
  exact h2

/-- Feeding two different bytes to the same checksum gives two different checksums. -/
theorem crc16Byte_inj_byte (c a b : Nat) (h : crc16Byte c a = crc16Byte c b) :
    a % 0x100 = b % 0x100 := by
  unfold crc16Byte at h
  have h1 := crc16Byte_mix_inj _ _ (crc16_mix_lt c a) (crc16_mix_lt c b) h
  have h2 := Nat.xor_right_injective h1
  omega

theorem CalcCRC16_nil (c : Nat) : CalcCRC16 [] c = c := rfl

theorem CalcCRC16_cons (b : Nat) (bs : List Nat) (c : Nat) :
    CalcCRC16 (b :: bs) c = CalcCRC16 bs (crc16Byte c b) := rfl

theorem CalcCRC16_append (xs ys : List Nat) (c : Nat) :
    CalcCRC16 (xs ++ ys) c = CalcCRC16 ys (CalcCRC16 xs c) := by
  simp [CalcCRC16, List.foldl_append]

theorem CalcCRC16_lt (xs : List Nat) (c : Nat) (hc : c < 0x10000) : CalcCRC16 xs c < 0x10000 := by
  induction xs generalizing c with
  | nil => simpa [CalcCRC16_nil] using hc
  | cons b bs ih => rw [CalcCRC16_cons]; exact ih _ (crc16Byte_lt c b)

theorem CalcCRC16_inj_crc (xs : List Nat) (c d : Nat) (hc : c < 0x10000) (hd : d < 0x10000)
    (h : CalcCRC16 xs c = CalcCRC16 xs d) : c = d := by
  induction xs generalizing c d with
  | nil => simpa [CalcCRC16_nil] using h
  | cons b bs ih =>
    rw [CalcCRC16_cons, CalcCRC16_cons] at h
    exact crc16Byte_inj_crc c d b hc hd (ih _ _ (crc16Byte_lt c b) (crc16Byte_lt d b) h)

/-- CRC16-CCITT detects the change of one byte of the data. -/
theorem CalcCRC16_single_byte (xs ys : List Nat) (a b c : Nat)
    (hab : a % 0x100 ≠ b % 0x100) :
    CalcCRC16 (xs ++ a :: ys) c ≠ CalcCRC16 (xs ++ b :: ys) c := by
  intro h
  rw [CalcCRC16_append, CalcCRC16_append, CalcCRC16_cons, CalcCRC16_cons] at h
  have h1 := CalcCRC16_inj_crc ys _ _ (crc16Byte_lt _ a) (crc16Byte_lt _ b) h
  exact hab (crc16Byte_inj_byte _ a b h1)

/-! ## Properties of the decode step -/

theorem u32_sub_of_le (a b : Nat) (hba : b ≤ a) (ha : a - b < U32_MOD) :
    u32_sub a b = a - b := by
  unfold u32_sub U32_MOD at *
  omega

theorem readBytes_eq_some (vals : List Nat) (i n : Nat) (h : i + n ≤ vals.length) :
    readBytes vals i n = some ((vals.drop i).take n) := by
  simp [readBytes, h]

theorem readBytes_some_iff (vals : List Nat) (i n : Nat) (data : List Nat) :
    readBytes vals i n = some data ↔ i + n ≤ vals.length ∧ data = (vals.drop i).take n := by
  unfold readBytes
  split <;> simp_all [eq_comm]

theorem length_drop_take (vals : List Nat) (i n : Nat) (h : i + n ≤ vals.length) :
    ((vals.drop i).take n).length = n := by
  simp; omega

theorem elementBytes_length (start : Nat) (vals : List Nat) (e : C_OSCNodeDataPoolListElement)
    (h : elementIndex start e + e.GetSizeByte ≤ vals.length) :
    (elementBytes start vals e).length = e.GetSizeByte :=
  length_drop_take _ _ _ h

theorem decodeElement_valid (p : C_OSCDiagProtocolBase) (e : C_OSCNodeDataPoolListElement)
    (data : List Nat) : (decodeElement p e data).q_NvmValueIsValid = true := rfl

theorem decodeElement_address (p : C_OSCDiagProtocolBase) (e : C_OSCNodeDataPoolListElement)
    (data : List Nat) :
    (decodeElement p e data).u32_NvMStartAddress = e.u32_NvMStartAddress := rfl

theorem decodeElement_big (p : C_OSCDiagProtocolBase) (e : C_OSCNodeDataPoolListElement)
    (data : List Nat) (hlen : data.length = e.GetSizeByte)
    (hbig : p.GetEndianness = p.mhu8_ENDIANNESS_BIG) :
    (decodeElement p e data).c_NvmValue.GetValueAsBigEndianBlob = data := by
  have h : data.length = e.c_NvmValue.mc_Data.length := hlen
  simp [decodeElement, hbig, C_OSCNodeDataPoolContent.SetValueFromBigEndianBlob,
    C_OSCNodeDataPoolContent.GetValueAsBigEndianBlob, h]

theorem decodeElement_little (p : C_OSCDiagProtocolBase) (e : C_OSCNodeDataPoolListElement)
    (data : List Nat) (hlen : data.length = e.GetSizeByte)
    (hbig : p.GetEndianness ≠ p.mhu8_ENDIANNESS_BIG) :
    (decodeElement p e data).c_NvmValue.GetValueAsLittleEndianBlob = data := by
  have h : data.length = e.c_NvmValue.mc_Data.length := hlen
  simp [decodeElement, hbig, C_OSCNodeDataPoolContent.SetValueFromLittleEndianBlob,
    C_OSCNodeDataPoolContent.GetValueAsLittleEndianBlob, h]

theorem decodeElement_size (p : C_OSCDiagProtocolBase) (e : C_OSCNodeDataPoolListElement)
    (data : List Nat) : (decodeElement p e data).GetSizeByte = e.GetSizeByte := by
  unfold decodeElement C_OSCNodeDataPoolListElement.GetSizeByte
    C_OSCNodeDataPoolContent.GetSizeByte
    C_OSCNodeDataPoolContent.SetValueFromBigEndianBlob
    C_OSCNodeDataPoolContent.SetValueFromLittleEndianBlob
  dsimp only
  split <;> split <;> simp_all

theorem serializeNvmValue_decodeElement (p : C_OSCDiagProtocolBase)
    (e : C_OSCNodeDataPoolListElement) (data : List Nat) (hlen : data.length = e.GetSizeByte) :
    serializeNvmValue p (decodeElement p e data) = data := by
  unfold serializeNvmValue
  split
  · next h => exact decodeElement_big p e data hlen h
  · next h => exact decodeElement_little p e data hlen h

/-- What the decode loop hands back when it hands back anything: either all elements were
decoded, or the loop left at the first element for which the dump is too short. -/
theorem saveDumpLoop_some (p : C_OSCDiagProtocolBase) (start : Nat) (vals : List Nat)
    (es : List C_OSCNodeDataPoolListElement) (r : T_Error)
    (es1 : List C_OSCNodeDataPoolListElement)
    (h : saveDumpLoop p start vals es = some (r, es1)) :
    (r = C_NO_ERR ∧ es1 = es.map (fun e => decodeElement p e (elementBytes start vals e)) ∧
      ∀ e ∈ es, elementIndex start e + e.GetSizeByte ≤ vals.length) ∨
    (r = C_RD_WR ∧ ∃ pre e post, es = pre ++ e :: post ∧
      es1 = pre.map (fun e => decodeElement p e (elementBytes start vals e)) ++ e :: post ∧
      (∀ x ∈ pre, elementIndex start x + x.GetSizeByte ≤ vals.length) ∧
      vals.length < u32_add (elementIndex start e) e.GetSizeByte) := by
  induction es generalizing r es1 with
  | nil =>
    simp [saveDumpLoop] at h
    left; simp [h.1, h.2]
  | cons e es ih =>
    simp only [saveDumpLoop] at h
    split at h
    · next hchk =>
      split at h
      · simp at h
      · next data hdata =>
        rw [readBytes_some_iff] at hdata
        split at h
        · simp at h
        · next r2 rest hrest =>
          simp at h
          obtain ⟨hr, hes1⟩ := h
          subst hr hes1
          rcases ih _ _ hrest with ⟨h1, h2, h3⟩ | ⟨h1, pre, x, post, h2, h3, h4, h5⟩
          · left
            refine ⟨h1, ?_, ?_⟩
            · simp [h2, hdata.2, elementBytes]
            · intro y hy
              rcases List.mem_cons.mp hy with rfl | hy
              · exact hdata.1
              · exact h3 y hy
          · right
            refine ⟨h1, e :: pre, x, post, by simp [h2], ?_, ?_, h5⟩
            · simp [h3, hdata.2, elementBytes]
            · intro y hy
              rcases List.mem_cons.mp hy with rfl | hy
              · exact hdata.1
              · exact h4 y hy
    · next hchk =>
      simp at h
      right
      refine ⟨h.1.symm, [], e, es, rfl, by simp [h.2], by simp, by omega⟩

theorem u32_add_le (a b : Nat) : u32_add a b ≤ a + b := by
  unfold u32_add
  exact Nat.mod_le _ _

/-- The decode loop decodes every element when the dump holds the bytes of every element. -/
theorem saveDumpLoop_all (p : C_OSCDiagProtocolBase) (start : Nat) (vals : List Nat)
    (es : List C_OSCNodeDataPoolListElement)
    (h : ∀ e ∈ es, elementIndex start e + e.GetSizeByte ≤ vals.length) :
    saveDumpLoop p start vals es
      = some (C_NO_ERR, es.map (fun e => decodeElement p e (elementBytes start vals e))) := by
  induction es with
  | nil => rfl
  | cons e es ih =>
    have he := h e (List.mem_cons_self _ _)
    have hchk : vals.length ≥ u32_add (elementIndex start e) e.GetSizeByte :=
      le_trans (u32_add_le _ _) he
    have ih2 := ih (fun x hx => h x (List.mem_cons_of_mem _ hx))
    rw [saveDumpLoop]
    simp only [hchk, if_true, readBytes_eq_some _ _ _ he, ih2, List.map_cons, elementBytes]

/-- The decode loop leaves at the first element for which the dump is too short. -/
theorem saveDumpLoop_short (p : C_OSCDiagProtocolBase) (start : Nat) (vals : List Nat)
    (pre : List C_OSCNodeDataPoolListElement) (e : C_OSCNodeDataPoolListElement)
    (post : List C_OSCNodeDataPoolListElement)
    (h : ∀ x ∈ pre, elementIndex start x + x.GetSizeByte ≤ vals.length)
    (he : vals.length < u32_add (elementIndex start e) e.GetSizeByte) :
    saveDumpLoop p start vals (pre ++ e :: post)
      = some (C_RD_WR,
          pre.map (fun x => decodeElement p x (elementBytes start vals x)) ++ e :: post) := by
  induction pre with
  | nil =>
    have hchk : ¬ vals.length ≥ u32_add (elementIndex start e) e.GetSizeByte := by omega
    simp only [List.nil_append, saveDumpLoop, hchk, if_false, List.map_nil]
  | cons x pre ih =>
    have hx := h x (List.mem_cons_self _ _)
    have hchk : vals.length ≥ u32_add (elementIndex start x) x.GetSizeByte :=
      le_trans (u32_add_le _ _) hx
    have ih2 := ih (fun y hy => h y (List.mem_cons_of_mem _ hy))
    rw [List.cons_append, saveDumpLoop]
    simp only [hchk, if_true, readBytes_eq_some _ _ _ hx, ih2, List.map_cons, elementBytes,
      List.cons_append]

theorem elementIndex_of_inList (l : C_OSCNodeDataPoolList) (e : C_OSCNodeDataPoolListElement)
    (hwf : elementsInList l) (he : e ∈ l.c_Elements) :
    elementIndex l.u32_NvMStartAddress e = e.u32_NvMStartAddress - l.u32_NvMStartAddress ∧
    u32_add (elementIndex l.u32_NvMStartAddress e) e.GetSizeByte
      = e.u32_NvMStartAddress - l.u32_NvMStartAddress + e.GetSizeByte := by
  obtain ⟨h1, h2⟩ := hwf e he
  have h3 : elementIndex l.u32_NvMStartAddress e
      = e.u32_NvMStartAddress - l.u32_NvMStartAddress :=
    u32_sub_of_le _ _ h1 (by omega)
  refine ⟨h3, ?_⟩
  rw [h3]
  unfold u32_add
  exact Nat.mod_eq_of_lt h2

theorem m_SaveDumpValuesToListValues_some (p : C_OSCDiagProtocolBase) (vals : List Nat)
    (l l1 : C_OSCNodeDataPoolList) (r : T_Error)
    (h : m_SaveDumpValuesToListValues p vals l = some (r, l1)) :
    saveDumpLoop p l.u32_NvMStartAddress vals l.c_Elements = some (r, l1.c_Elements) ∧
    l1 = { l with c_Elements := l1.c_Elements } := by
  unfold m_SaveDumpValuesToListValues at h
  split at h
  · simp at h
  · next r2 es hloop =>
    simp at h
    obtain ⟨h1, h2⟩ := h
    subst h1 h2
    exact ⟨hloop, rfl⟩

/-! ## Properties of `NvmCalcCrc` -/

theorem nvmCalcCrcLoop_eq_foldl (p : C_OSCDiagProtocolBase)
    (es : List C_OSCNodeDataPoolListElement) (c : Nat) :
    nvmCalcCrcLoop p es c
      = es.foldl
          (fun u16_Crc e =>
            CalcCRC16
              (if p.GetEndianness = p.mhu8_ENDIANNESS_BIG then
                e.c_NvmValue.GetValueAsBigEndianBlob
              else e.c_NvmValue.GetValueAsLittleEndianBlob)
              u16_Crc)
          c := by
  induction es generalizing c with
  | nil => rfl
  | cons e es ih =>
    rw [nvmCalcCrcLoop, ih, List.foldl_cons]
    unfold serializeNvmValue
    split <;> rfl

theorem nvmCalcCrcLoop_eq_crc_map (p : C_OSCDiagProtocolBase)
    (es : List C_OSCNodeDataPoolListElement) (c : Nat) :
    nvmCalcCrcLoop p es c = CalcCRC16 (es.map (serializeNvmValue p)).flatten c := by
  induction es generalizing c with
  | nil => rfl
  | cons e es ih =>
    rw [nvmCalcCrcLoop, ih, List.map_cons, List.flatten_cons, CalcCRC16_append]

theorem nvmCalcCrcLoop_eq_crc_join (p : C_OSCDiagProtocolBase)
    (es : List C_OSCNodeDataPoolListElement) (c : Nat) :
    nvmCalcCrcLoop p es c
      = CalcCRC16
          (es.map
            (fun e =>
              if p.GetEndianness = p.mhu8_ENDIANNESS_BIG then
                e.c_NvmValue.GetValueAsBigEndianBlob
              else e.c_NvmValue.GetValueAsLittleEndianBlob)).flatten
          c := by
  rw [nvmCalcCrcLoop_eq_crc_map]
  rfl

/-- Reference value: the checksum of the digits "123456789" with start value 0x1D0F is 0xE5CC. -/
theorem CalcCRC16_reference :
    CalcCRC16 [0x31, 0x32, 0x33, 0x34, 0x35, 0x36, 0x37, 0x38, 0x39] 0x1D0F = 0xE5CC := by
  decide

/-! ## Properties of `NvmReadList` and its parts -/

theorem m_AdaptProtocolReturnValue_eq_no_err (r : T_Error) :
    m_AdaptProtocolReturnValue r = C_NO_ERR ↔ r = C_NO_ERR := by
  cases r <;> simp [m_AdaptProtocolReturnValue]

theorem m_AdaptProtocolReturnValue_ne_overflow (r : T_Error) :
    m_AdaptProtocolReturnValue r ≠ C_OVERFLOW := by
  cases r <;> simp [m_AdaptProtocolReturnValue]

theorem resize_nil (n : Nat) : resize [] n = List.replicate n 0 := by
  simp [resize]

/-- A list with nothing to read is refused by `m_NvmReadListRaw` without a request. -/
theorem m_NvmReadListRaw_rejected (p : C_OSCDiagProtocolBase)
    (G : C_OSCNodeDataPoolList → Nat) (l : C_OSCNodeDataPoolList) (vals : List Nat)
    (h : l.u32_NvMSize = 0 ∨ (l.q_NvMCRCActive = true ∧ l.u32_NvMSize ≤ 2)) :
    m_NvmReadListRaw p G l vals
      = { s32_Return := C_OVERFLOW, c_Values := vals, oc_NrCode := none, c_Requests := [] } := by
  have hc : ¬ (l.u32_NvMSize > 2 ∨ (l.u32_NvMSize > 0 ∧ l.q_NvMCRCActive = false)) := by
    rcases h with h | ⟨h1, h2⟩
    · omega
    · simp [h1]; omega
  simp only [m_NvmReadListRaw, hc, if_false]

/-- Every other list is read by `m_NvmReadListRaw` with one request. -/
theorem m_NvmReadListRaw_accepted (p : C_OSCDiagProtocolBase)
    (G : C_OSCNodeDataPoolList → Nat) (l : C_OSCNodeDataPoolList) (vals : List Nat)
    (h : ¬ (l.u32_NvMSize = 0 ∨ (l.q_NvMCRCActive = true ∧ l.u32_NvMSize ≤ 2))) :
    m_NvmReadListRaw p G l vals
      = { s32_Return :=
            m_AdaptProtocolReturnValue
              (p.NvmRead l.u32_NvMStartAddress (resize vals (G l))).s32_Return
          c_Values := (p.NvmRead l.u32_NvMStartAddress (resize vals (G l))).c_Values
          oc_NrCode := (p.NvmRead l.u32_NvMStartAddress (resize vals (G l))).oc_NrCode
          c_Requests :=
            [{ u32_MemoryAddress := l.u32_NvMStartAddress, c_DataRecord := resize vals (G l) }] } := by
  have hc : l.u32_NvMSize > 2 ∨ (l.u32_NvMSize > 0 ∧ l.q_NvMCRCActive = false) := by
    by_cases h1 : l.q_NvMCRCActive = true
    · left
      by_contra h2
      exact h (Or.inr ⟨h1, by omega⟩)
    · right
      refine ⟨?_, by simpa using h1⟩
      by_contra h2
      exact h (Or.inl (by omega))
  simp only [m_NvmReadListRaw, hc, if_true]

theorem listAt_eq_some (node : C_OSCNode) (dp li : Nat) (l : C_OSCNodeDataPoolList) :
    listAt (some node) dp li = some l ↔
      ∃ pool, node.c_DataPools[dp]? = some pool ∧ pool.c_Lists[li]? = some l := by
  simp only [listAt]
  cases h : node.c_DataPools[dp]? with
  | none => simp
  | some pool => simp

theorem listAt_eq_none (node : C_OSCNode) (dp li : Nat) :
    listAt (some node) dp li = none ↔
      node.c_DataPools[dp]? = none ∨
        ∃ pool, node.c_DataPools[dp]? = some pool ∧ pool.c_Lists[li]? = none := by
  simp only [listAt]
  cases h : node.c_DataPools[dp]? with
  | none => simp
  | some pool => simp

/-- The result of `NvmReadList` without node or protocol. -/
theorem NvmReadList_config (d : C_OSCDataDealerNvm) (G : C_OSCNodeDataPoolList → Nat)
    (dp li : Nat) (h : d.mpc_Node = none ∨ d.mpc_DiagProtocol = none) :
    NvmReadList d G dp li
      = { c_Requests := [], oc_NrCode := none, oc_Outcome := some (C_CONFIG, d) } := by
  unfold NvmReadList
  rcases h with h | h
  · rw [h]
  · rw [h]
    cases d.mpc_Node <;> rfl

/-- The result of `NvmReadList` with an index that names no list. -/
theorem NvmReadList_range (d : C_OSCDataDealerNvm) (G : C_OSCNodeDataPoolList → Nat)
    (dp li : Nat) (node : C_OSCNode) (p : C_OSCDiagProtocolBase)
    (hn : d.mpc_Node = some node) (hp : d.mpc_DiagProtocol = some p)
    (h : listAt (some node) dp li = none) :
    NvmReadList d G dp li
      = { c_Requests := [], oc_NrCode := none, oc_Outcome := some (C_RANGE, d) } := by
  unfold NvmReadList
  rw [hn, hp]
  rcases (listAt_eq_none node dp li).mp h with h1 | ⟨pool, h1, h2⟩
  · simp only [h1]
  · simp only [h1, h2]

/-- The result of `NvmReadList` for a list that is there: the raw read, and if that went well the
decode. -/
theorem NvmReadList_of_list (d : C_OSCDataDealerNvm) (G : C_OSCNodeDataPoolList → Nat)
    (dp li : Nat) (node : C_OSCNode) (p : C_OSCDiagProtocolBase) (l : C_OSCNodeDataPoolList)
    (hn : d.mpc_Node = some node) (hp : d.mpc_DiagProtocol = some p)
    (hl : listAt (some node) dp li = some l) :
    NvmReadList d G dp li
      = if (m_NvmReadListRaw p G l []).s32_Return = C_NO_ERR then
          match m_SaveDumpToList p (m_NvmReadListRaw p G l []).c_Values l with
          | none =>
            { c_Requests := (m_NvmReadListRaw p G l []).c_Requests
              oc_NrCode := (m_NvmReadListRaw p G l []).oc_NrCode
              oc_Outcome := none }
          | some (r, l1) =>
            { c_Requests := (m_NvmReadListRaw p G l []).c_Requests
              oc_NrCode := (m_NvmReadListRaw p G l []).oc_NrCode
              oc_Outcome := some (r, { d with mpc_Node := some (node.setList dp li l1) }) }
        else
          { c_Requests := (m_NvmReadListRaw p G l []).c_Requests
            oc_NrCode := (m_NvmReadListRaw p G l []).oc_NrCode
            oc_Outcome := some ((m_NvmReadListRaw p G l []).s32_Return, d) } := by
  obtain ⟨pool, h1, h2⟩ := (listAt_eq_some node dp li l).mp hl
  unfold NvmReadList
  rw [hn, hp]
  simp only [h1, h2]

/-- The requests of `NvmReadList` are those of the raw read. -/
theorem NvmReadList_requests (d : C_OSCDataDealerNvm) (G : C_OSCNodeDataPoolList → Nat)
    (dp li : Nat) (node : C_OSCNode) (p : C_OSCDiagProtocolBase) (l : C_OSCNodeDataPoolList)
    (hn : d.mpc_Node = some node) (hp : d.mpc_DiagProtocol = some p)
    (hl : listAt (some node) dp li = some l) :
    (NvmReadList d G dp li).c_Requests = (m_NvmReadListRaw p G l []).c_Requests := by
  rw [NvmReadList_of_list d G dp li node p l hn hp hl]
  split
  · split <;> rfl
  · rfl

/-- The list after the stored CRC was taken from the first two bytes of the dump in the byte
order of the protocol, as `m_SaveDumpToList` does it. -/
theorem m_SaveDumpToList_eq (p : C_OSCDiagProtocolBase) (vals : List Nat)
    (l l1 : C_OSCNodeDataPoolList) (r : T_Error)
    (hdec : m_SaveDumpValuesToListValues p vals l = some (r, l1)) :
    m_SaveDumpToList p vals l
      = if l1.q_NvMCRCActive = true ∧ r = C_NO_ERR then
          if vals.length ≥ 2 then
            if NvmCalcCrc (some p)
                (if p.GetEndianness = p.mhu8_ENDIANNESS_BIG then
                  l1.SetCRCFromBigEndianBlob (vals.take 2)
                else l1.SetCRCFromLittleEndianBlob (vals.take 2))
              ≠ (if p.GetEndianness = p.mhu8_ENDIANNESS_BIG then
                  l1.SetCRCFromBigEndianBlob (vals.take 2)
                else l1.SetCRCFromLittleEndianBlob (vals.take 2)).u32_NvMCRC then
              some (C_CHECKSUM,
                if p.GetEndianness = p.mhu8_ENDIANNESS_BIG then
                  l1.SetCRCFromBigEndianBlob (vals.take 2)
                else l1.SetCRCFromLittleEndianBlob (vals.take 2))
            else
              some (r,
                if p.GetEndianness = p.mhu8_ENDIANNESS_BIG then
                  l1.SetCRCFromBigEndianBlob (vals.take 2)
                else l1.SetCRCFromLittleEndianBlob (vals.take 2))
          else some (C_CHECKSUM, l1)
        else some (r, l1) := by
  unfold m_SaveDumpToList
  rw [hdec]

theorem m_SaveDumpToList_eq_none (p : C_OSCDiagProtocolBase) (vals : List Nat)
    (l : C_OSCNodeDataPoolList) (hdec : m_SaveDumpValuesToListValues p vals l = none) :
    m_SaveDumpToList p vals l = none := by
  unfold m_SaveDumpToList
  rw [hdec]

/-- The decode step returns `C_NO_ERR` or `C_RD_WR`. -/
theorem m_SaveDumpValuesToListValues_codes (p : C_OSCDiagProtocolBase) (vals : List Nat)
    (l l1 : C_OSCNodeDataPoolList) (r : T_Error)
    (h : m_SaveDumpValuesToListValues p vals l = some (r, l1)) :
    r = C_NO_ERR ∨ r = C_RD_WR := by
  obtain ⟨hloop, _⟩ := m_SaveDumpValuesToListValues_some p vals l l1 r h
  rcases saveDumpLoop_some p _ vals _ _ _ hloop with ⟨h1, _⟩ | ⟨h1, _⟩
  · exact Or.inl h1
  · exact Or.inr h1

/-- The return code of `m_SaveDumpToList` is `C_NO_ERR`, `C_RD_WR` or `C_CHECKSUM`. -/
theorem m_SaveDumpToList_codes (p : C_OSCDiagProtocolBase) (vals : List Nat)
    (l l1 : C_OSCNodeDataPoolList) (r : T_Error)
    (h : m_SaveDumpToList p vals l = some (r, l1)) :
    r = C_NO_ERR ∨ r = C_RD_WR ∨ r = C_CHECKSUM := by
  cases hdec : m_SaveDumpValuesToListValues p vals l with
  | none => rw [m_SaveDumpToList_eq_none p vals l hdec] at h; simp at h
  | some x =>
    obtain ⟨r2, l2⟩ := x
    have hr2 := m_SaveDumpValuesToListValues_codes p vals l l2 r2 hdec
    rw [m_SaveDumpToList_eq p vals l l2 r2 hdec] at h
    split_ifs at h <;> simp at h <;> rcases hr2 with h2 | h2 <;> simp_all

theorem listAt_setList (node : C_OSCNode) (dp li : Nat) (l l2 : C_OSCNodeDataPoolList)
    (h : listAt (some node) dp li = some l) :
    listAt (some (node.setList dp li l2)) dp li = some l2 := by
  obtain ⟨pool, h1, h2⟩ := (listAt_eq_some node dp li l).mp h
  rw [listAt_eq_some]
  refine ⟨{ c_Lists := pool.c_Lists.set li l2 }, ?_, ?_⟩
  · simp [C_OSCNode.setList, List.getElem?_modify_eq, h1]
  · have hlt := (List.getElem?_eq_some.mp h2).1
    simp [List.getElem?_set_self hlt]

theorem getD_take_two (vals : List Nat) :
    (vals.take 2).getD 0 0 = vals.getD 0 0 ∧ (vals.take 2).getD 1 0 = vals.getD 1 0 := by
  simp [List.getElem?_take_of_lt]

/-- The list with the stored CRC of the dump, as `m_SaveDumpToList` sets it. -/
theorem setCrc_eq (p : C_OSCDiagProtocolBase) (vals : List Nat) (l1 : C_OSCNodeDataPoolList) :
    (if p.GetEndianness = p.mhu8_ENDIANNESS_BIG then
        l1.SetCRCFromBigEndianBlob (vals.take 2)
      else l1.SetCRCFromLittleEndianBlob (vals.take 2))
      = { l1 with u32_NvMCRC := dumpCrc p vals } := by
  unfold dumpCrc C_OSCNodeDataPoolList.SetCRCFromBigEndianBlob
    C_OSCNodeDataPoolList.SetCRCFromLittleEndianBlob
  rw [(getD_take_two vals).1, (getD_take_two vals).2]
  split <;> rfl

theorem NvmCalcCrc_congr (oc : Option C_OSCDiagProtocolBase) (l1 l2 : C_OSCNodeDataPoolList)
    (h : l1.c_Elements = l2.c_Elements) : NvmCalcCrc oc l1 = NvmCalcCrc oc l2 := by
  unfold NvmCalcCrc
  rw [h]

/-- The result of `m_SaveDumpToList` for a list with CRC whose elements were all decoded from a
dump of at least two bytes. -/
theorem m_SaveDumpToList_crc (p : C_OSCDiagProtocolBase) (vals : List Nat)
    (l l1 : C_OSCNodeDataPoolList)
    (hcrc : l.q_NvMCRCActive = true) (hlen : 2 ≤ vals.length)
    (hdec : m_SaveDumpValuesToListValues p vals l = some (C_NO_ERR, l1)) :
    m_SaveDumpToList p vals l
      = some (if NvmCalcCrc (some p) l1 = dumpCrc p vals then C_NO_ERR else C_CHECKSUM,
          { l1 with u32_NvMCRC := dumpCrc p vals }) := by
  have hl1 := (m_SaveDumpValuesToListValues_some p vals l l1 _ hdec).2
  have hcrc1 : l1.q_NvMCRCActive = true := by rw [hl1]; exact hcrc
  rw [m_SaveDumpToList_eq p vals l l1 _ hdec, setCrc_eq]
  have hcalc : NvmCalcCrc (some p) { l1 with u32_NvMCRC := dumpCrc p vals }
      = NvmCalcCrc (some p) l1 := NvmCalcCrc_congr _ _ _ rfl
  rw [hcalc]
  simp only [hcrc1, true_and, if_true, ge_iff_le, hlen, ne_eq, ite_not]
  split <;> rfl

theorem m_AdaptProtocolReturnValue_ne_checksum (r : T_Error) :
    m_AdaptProtocolReturnValue r ≠ C_CHECKSUM := by
  cases r <;> simp [m_AdaptProtocolReturnValue]

theorem m_NvmReadListRaw_ne_checksum (p : C_OSCDiagProtocolBase)
    (G : C_OSCNodeDataPoolList → Nat) (l : C_OSCNodeDataPoolList) (vals : List Nat) :
    (m_NvmReadListRaw p G l vals).s32_Return ≠ C_CHECKSUM := by
  unfold m_NvmReadListRaw
  split
  · exact m_AdaptProtocolReturnValue_ne_checksum _
  · simp

/-- When `m_SaveDumpToList` returns `C_CHECKSUM`, the list has a CRC, the decode step went well
and the elements handed back are those of the decode step. -/
theorem m_SaveDumpToList_checksum (p : C_OSCDiagProtocolBase) (vals : List Nat)
    (l l2 : C_OSCNodeDataPoolList)
    (h : m_SaveDumpToList p vals l = some (C_CHECKSUM, l2)) :
    l.q_NvMCRCActive = true ∧
    ∃ l1, m_SaveDumpValuesToListValues p vals l = some (C_NO_ERR, l1) ∧
      l2.c_Elements = l1.c_Elements ∧
      (2 ≤ vals.length → l2 = { l1 with u32_NvMCRC := dumpCrc p vals } ∧
        NvmCalcCrc (some p) l1 ≠ dumpCrc p vals) := by
  cases hdec : m_SaveDumpValuesToListValues p vals l with
  | none => rw [m_SaveDumpToList_eq_none p vals l hdec] at h; simp at h
  | some x =>
    obtain ⟨r1, l1⟩ := x
    have hl1 := (m_SaveDumpValuesToListValues_some p vals l l1 _ hdec).2
    have hcodes := m_SaveDumpValuesToListValues_codes p vals l l1 r1 hdec
    by_cases hc : l1.q_NvMCRCActive = true ∧ r1 = C_NO_ERR
    · obtain ⟨hc1, hc2⟩ := hc
      subst hc2
      have hcrc : l.q_NvMCRCActive = true := by rw [hl1] at hc1; exact hc1
      refine ⟨hcrc, l1, rfl, ?_, ?_⟩
      · rw [m_SaveDumpToList_eq p vals l l1 _ hdec, setCrc_eq] at h
        split_ifs at h <;> simp at h <;> rw [← h]
      · intro hlen
        rw [m_SaveDumpToList_crc p vals l l1 hcrc hlen hdec] at h
        simp only [Option.some.injEq, Prod.mk.injEq] at h
        refine ⟨h.2.symm, ?_⟩
        intro heq
        rw [if_pos heq] at h
        exact absurd h.1 (by decide)
    · exfalso
      rw [m_SaveDumpToList_eq p vals l l1 _ hdec, if_neg hc] at h
      simp only [Option.some.injEq, Prod.mk.injEq] at h
      rcases hcodes with h1 | h1 <;> rw [h1] at h <;> exact absurd h.1 (by decide)

/-! ## Replacing one byte of the dump -/

/-- An element that does not hold byte `k` reads the same bytes from the changed dump. -/
theorem take_drop_set_of_not_covered (vals : List Nat) (k b idx size : Nat)
    (h : ¬ (idx ≤ k ∧ k < idx + size)) :
    ((vals.set k b).drop idx).take size = (vals.drop idx).take size := by
  apply List.ext_getElem?
  intro i
  simp only [List.getElem?_take, List.getElem?_drop]
  split
  · next hi =>
    rw [List.getElem?_set_ne (by omega)]
  · rfl

/-- An element that holds byte `k` reads from the changed dump the bytes it read before, with the
one byte replaced. -/
theorem take_drop_set_of_covered (vals : List Nat) (k b idx size : Nat)
    (h1 : idx ≤ k) (h2 : k < idx + size) (h3 : idx + size ≤ vals.length) :
    (vals.drop idx).take size
      = (vals.drop idx).take (k - idx) ++ vals.getD k 0
          :: (vals.drop (k + 1)).take (idx + size - (k + 1)) ∧
    ((vals.set k b).drop idx).take size
      = (vals.drop idx).take (k - idx) ++ b
          :: (vals.drop (k + 1)).take (idx + size - (k + 1)) := by
  have hk : k < vals.length := by omega
  have hlen : ((vals.drop idx).take (k - idx)).length = k - idx := by
    rw [List.length_take, List.length_drop]
    omega
  constructor
  · apply List.ext_getElem?
    intro i
    by_cases hi : i < k - idx
    · rw [List.getElem?_append_left (by omega)]
      simp only [List.getElem?_take, List.getElem?_drop]
      rw [if_pos (by omega), if_pos hi]
    · rw [List.getElem?_append_right (by omega), hlen]
      by_cases hi2 : i = k - idx
      · subst hi2
        simp only [Nat.sub_self, List.getElem?_cons_zero, List.getElem?_take,
          List.getElem?_drop]
        rw [if_pos (by omega)]
        have : idx + (k - idx) = k := by omega
        rw [this, List.getD_eq_getElem?_getD, List.getElem?_eq_getElem hk]
        rfl
      · obtain ⟨j, hj⟩ : ∃ j, i - (k - idx) = j + 1 := ⟨i - (k - idx) - 1, by omega⟩
        rw [hj, List.getElem?_cons_succ]
        simp only [List.getElem?_take, List.getElem?_drop]
        by_cases hi3 : i < size
        · rw [if_pos hi3, if_pos (by omega)]
          congr 1
          omega
        · rw [if_neg hi3, if_neg (by omega)]
  · apply List.ext_getElem?
    intro i
    by_cases hi : i < k - idx
    · rw [List.getElem?_append_left (by omega)]
      simp only [List.getElem?_take, List.getElem?_drop]
      rw [if_pos (by omega), if_pos hi, List.getElem?_set_ne (by omega)]
    · rw [List.getElem?_append_right (by omega), hlen]
      by_cases hi2 : i = k - idx
      · subst hi2
        simp only [Nat.sub_self, List.getElem?_cons_zero, List.getElem?_take,
          List.getElem?_drop]
        rw [if_pos (by omega)]
        have : idx + (k - idx) = k := by omega
        rw [this, List.getElem?_set_self hk]
      · obtain ⟨j, hj⟩ : ∃ j, i - (k - idx) = j + 1 := ⟨i - (k - idx) - 1, by omega⟩
        rw [hj, List.getElem?_cons_succ]
        simp only [List.getElem?_take, List.getElem?_drop]
        by_cases hi3 : i < size
        · rw [if_pos hi3, if_pos (by omega), List.getElem?_set_ne (by omega)]
          congr 1
          omega
        · rw [if_neg hi3, if_neg (by omega)]

/-- When exactly one entry of a list passes a test, the list splits at that entry. -/
theorem exists_split_of_filter_length_one {α : Type} (f : α → Bool) (xs : List α)
    (h : (xs.filter f).length = 1) :
    ∃ pre x post, xs = pre ++ x :: post ∧ f x = true ∧
      (∀ y ∈ pre, f y = false) ∧ (∀ y ∈ post, f y = false) := by
  induction xs with
  | nil => simp at h
  | cons a as ih =>
    by_cases ha : f a = true
    · rw [List.filter_cons_of_pos ha, List.length_cons] at h
      have hnil : as.filter f = [] := List.length_eq_zero.mp (by omega)
      refine ⟨[], a, as, rfl, ha, by simp, ?_⟩
      intro y hy
      have := List.filter_eq_nil_iff.mp hnil y hy
      simpa using this
    · rw [List.filter_cons_of_neg ha] at h
      obtain ⟨pre, x, post, h1, h2, h3, h4⟩ := ih h
      refine ⟨a :: pre, x, post, by rw [h1]; rfl, h2, ?_, h4⟩
      intro y hy
      rcases List.mem_cons.mp hy with rfl | hy
      · simpa using ha
      · exact h3 y hy

theorem serializeNvmValue_tampered (p : C_OSCDiagProtocolBase) (k b : Nat)
    (e : C_OSCNodeDataPoolListElement) :
    serializeNvmValue (tamperedProtocol p k b) e = serializeNvmValue p e := rfl

theorem nvmCalcCrcLoop_tampered (p : C_OSCDiagProtocolBase) (k b : Nat)
    (es : List C_OSCNodeDataPoolListElement) (c : Nat) :
    nvmCalcCrcLoop (tamperedProtocol p k b) es c = nvmCalcCrcLoop p es c := by
  induction es generalizing c with
  | nil => rfl
  | cons e es ih => rw [nvmCalcCrcLoop, nvmCalcCrcLoop, ih, serializeNvmValue_tampered]

theorem NvmCalcCrc_tampered (p : C_OSCDiagProtocolBase) (k b : Nat)
    (l : C_OSCNodeDataPoolList) :
    NvmCalcCrc (some (tamperedProtocol p k b)) l = NvmCalcCrc (some p) l :=
  nvmCalcCrcLoop_tampered p k b l.c_Elements 0x1D0F

theorem saveDumpLoop_tampered (p : C_OSCDiagProtocolBase) (k b start : Nat) (vals : List Nat)
    (es : List C_OSCNodeDataPoolListElement) :
    saveDumpLoop (tamperedProtocol p k b) start vals es = saveDumpLoop p start vals es := by
  induction es with
  | nil => rfl
  | cons e es ih =>
    rw [saveDumpLoop, saveDumpLoop, ih]
    rfl

theorem m_SaveDumpValuesToListValues_tampered (p : C_OSCDiagProtocolBase) (k b : Nat)
    (vals : List Nat) (l : C_OSCNodeDataPoolList) :
    m_SaveDumpValuesToListValues (tamperedProtocol p k b) vals l
      = m_SaveDumpValuesToListValues p vals l := by
  unfold m_SaveDumpValuesToListValues
  rw [saveDumpLoop_tampered]

theorem dumpCrc_tampered (p : C_OSCDiagProtocolBase) (k b : Nat) (vals : List Nat) :
    dumpCrc (tamperedProtocol p k b) vals = dumpCrc p vals := rfl

theorem m_NvmReadListRaw_tampered (p : C_OSCDiagProtocolBase) (k b : Nat)
    (G : C_OSCNodeDataPoolList → Nat) (l : C_OSCNodeDataPoolList) (vals : List Nat)
    (hacc : ¬ (l.u32_NvMSize = 0 ∨ (l.q_NvMCRCActive = true ∧ l.u32_NvMSize ≤ 2))) :
    (m_NvmReadListRaw (tamperedProtocol p k b) G l vals).s32_Return
        = (m_NvmReadListRaw p G l vals).s32_Return ∧
    (m_NvmReadListRaw (tamperedProtocol p k b) G l vals).c_Values
        = (m_NvmReadListRaw p G l vals).c_Values.set k b := by
  rw [m_NvmReadListRaw_accepted _ G l vals hacc, m_NvmReadListRaw_accepted _ G l vals hacc]
  exact ⟨rfl, rfl⟩

/-- The checksum of a freshly decoded list is the checksum of the bytes of the dump that belong
to its elements, in list order. -/
theorem NvmCalcCrc_of_decoded (p : C_OSCDiagProtocolBase) (vals : List Nat)
    (l l1 : C_OSCNodeDataPoolList)
    (hdec : m_SaveDumpValuesToListValues p vals l = some (C_NO_ERR, l1)) :
    NvmCalcCrc (some p) l1
      = CalcCRC16 (l.c_Elements.map (elementBytes l.u32_NvMStartAddress vals)).flatten 0x1D0F := by
  obtain ⟨hloop, _⟩ := m_SaveDumpValuesToListValues_some p vals l l1 _ hdec
  rcases saveDumpLoop_some p _ vals _ _ _ hloop with ⟨_, hmap, hin⟩ | ⟨hr, _⟩
  · show nvmCalcCrcLoop p l1.c_Elements 0x1D0F = _
    rw [nvmCalcCrcLoop_eq_crc_map, hmap, List.map_map]
    congr 2
    apply List.map_congr_left
    intro e he
    exact serializeNvmValue_decodeElement p e _ (elementBytes_length _ vals e (hin e he))
  · exact absurd hr (by decide)

/-- A dump of the same length decodes as well. -/
theorem m_SaveDumpValuesToListValues_of_length (p : C_OSCDiagProtocolBase) (vals vals2 : List Nat)
    (l l1 : C_OSCNodeDataPoolList) (hlen : vals2.length = vals.length)
    (hdec : m_SaveDumpValuesToListValues p vals l = some (C_NO_ERR, l1)) :
    ∃ l2, m_SaveDumpValuesToListValues p vals2 l = some (C_NO_ERR, l2) := by
  obtain ⟨hloop, _⟩ := m_SaveDumpValuesToListValues_some p vals l l1 _ hdec
  rcases saveDumpLoop_some p _ vals _ _ _ hloop with ⟨_, _, hin⟩ | ⟨hr, _⟩
  · have h2 := saveDumpLoop_all p l.u32_NvMStartAddress vals2 l.c_Elements
      (fun e he => by rw [hlen]; exact hin e he)
    exact ⟨⟨l.u32_NvMStartAddress, l.u32_NvMSize, l.q_NvMCRCActive, l.u32_NvMCRC,
      l.c_Elements.map (fun e => decodeElement p e (elementBytes l.u32_NvMStartAddress vals2 e))⟩,
      by simp only [m_SaveDumpValuesToListValues, h2]⟩
  · exact absurd hr (by decide)

/-- When `m_SaveDumpToList` returns `C_NO_ERR` for a list with CRC, the dump has at least two
bytes, all elements were decoded and the checksum over them is the stored CRC of the dump. -/
theorem m_SaveDumpToList_no_err (p : C_OSCDiagProtocolBase) (vals : List Nat)
    (l l2 : C_OSCNodeDataPoolList) (hcrc : l.q_NvMCRCActive = true)
    (h : m_SaveDumpToList p vals l = some (C_NO_ERR, l2)) :
    2 ≤ vals.length ∧
    ∃ l1, m_SaveDumpValuesToListValues p vals l = some (C_NO_ERR, l1) ∧
      NvmCalcCrc (some p) l1 = dumpCrc p vals := by
  cases hdec : m_SaveDumpValuesToListValues p vals l with
  | none => rw [m_SaveDumpToList_eq_none p vals l hdec] at h; simp at h
  | some x =>
    obtain ⟨r1, l1⟩ := x
    have hl1 := (m_SaveDumpValuesToListValues_some p vals l l1 _ hdec).2
    have hcrc1 : l1.q_NvMCRCActive = true := by rw [hl1]; exact hcrc
    have hr1 : r1 = C_NO_ERR := by
      by_contra hne
      rw [m_SaveDumpToList_eq p vals l l1 _ hdec, if_neg (by simp [hne])] at h
      simp only [Option.some.injEq, Prod.mk.injEq] at h
      exact hne h.1
    subst hr1
    have hlen : 2 ≤ vals.length := by
      by_contra hne
      rw [m_SaveDumpToList_eq p vals l l1 _ hdec, if_pos ⟨hcrc1, rfl⟩, if_neg (by omega)] at h
      simp only [Option.some.injEq, Prod.mk.injEq] at h
      exact absurd h.1 (by decide)
    refine ⟨hlen, l1, rfl, ?_⟩
    rw [m_SaveDumpToList_crc p vals l l1 hcrc hlen hdec] at h
    simp only [Option.some.injEq, Prod.mk.injEq] at h
    by_contra hne
    rw [if_neg hne] at h
    exact absurd h.1 (by decide)

theorem dumpCrc_set_of_ge (p : C_OSCDiagProtocolBase) (vals : List Nat) (k b : Nat)
    (hk : 2 ≤ k) : dumpCrc p (vals.set k b) = dumpCrc p vals := by
  unfold dumpCrc
  simp only [List.getD_eq_getElem?_getD]
  rw [List.getElem?_set_ne (by omega), List.getElem?_set_ne (by omega)]

theorem dumpCrc_lt (p : C_OSCDiagProtocolBase) (vals : List Nat) : dumpCrc p vals < 0x10000 := by
  unfold dumpCrc
  split <;> omega

theorem dumpCrc_set_of_lt (p : C_OSCDiagProtocolBase) (vals : List Nat) (k b : Nat)
    (hk : k < 2) (hlen : 2 ≤ vals.length) (hb : b < 0x100) (hold : vals.getD k 0 < 0x100)
    (hne : b ≠ vals.getD k 0) : dumpCrc p (vals.set k b) ≠ dumpCrc p vals := by
  unfold dumpCrc
  simp only [List.getD_eq_getElem?_getD] at *
  have hk01 : k = 0 ∨ k = 1 := by omega
  rcases hk01 with rfl | rfl
  · rw [List.getElem?_set_self (by omega), List.getElem?_set_ne (by omega)]
    simp only [Option.getD_some]
    split <;> omega
  · rw [List.getElem?_set_self (by omega), List.getElem?_set_ne (by omega)]
    simp only [Option.getD_some]
    split <;> omega

theorem coversByte_eq_false (start k : Nat) (e : C_OSCNodeDataPoolListElement)
    (h : coversByte start k e = false) :
    ¬ (elementIndex start e ≤ k ∧ k < elementIndex start e + e.GetSizeByte) := by
  simpa [coversByte] using h

theorem coversByte_eq_true (start k : Nat) (e : C_OSCNodeDataPoolListElement)
    (h : coversByte start k e = true) :
    elementIndex start e ≤ k ∧ k < elementIndex start e + e.GetSizeByte := by
  simpa [coversByte] using h

theorem map_elementBytes_set_of_not_covered (start : Nat) (vals : List Nat) (k b : Nat)
    (es : List C_OSCNodeDataPoolListElement) (h : ∀ e ∈ es, coversByte start k e = false) :
    es.map (elementBytes start (vals.set k b)) = es.map (elementBytes start vals) := by
  apply List.map_congr_left
  intro e he
  exact take_drop_set_of_not_covered vals k b _ _ (coversByte_eq_false start k e (h e he))

/-- When no element holds byte `k`, the checksum over the elements does not see the change. -/
theorem elementBytes_set_of_count_zero (l : C_OSCNodeDataPoolList) (vals : List Nat) (k b : Nat)
    (h : coverCount l k = 0) :
    l.c_Elements.map (elementBytes l.u32_NvMStartAddress (vals.set k b))
      = l.c_Elements.map (elementBytes l.u32_NvMStartAddress vals) := by
  apply map_elementBytes_set_of_not_covered
  intro e he
  have hnil := List.length_eq_zero.mp h
  have := List.filter_eq_nil_iff.mp hnil e he
  simpa using this

/-- When exactly one element holds byte `k`, the checksum over the elements changes with the
byte. -/
theorem crc_elementBytes_set_of_count_one (l : C_OSCNodeDataPoolList) (vals : List Nat)
    (k b c : Nat) (h : coverCount l k = 1)
    (hin : ∀ e ∈ l.c_Elements,
      elementIndex l.u32_NvMStartAddress e + e.GetSizeByte ≤ vals.length)
    (hne : b % 0x100 ≠ vals.getD k 0 % 0x100) :
    CalcCRC16 (l.c_Elements.map (elementBytes l.u32_NvMStartAddress (vals.set k b))).flatten c
      ≠ CalcCRC16 (l.c_Elements.map (elementBytes l.u32_NvMStartAddress vals)).flatten c := by
  obtain ⟨pre, e, post, hsplit, he, hpre, hpost⟩ :=
    exists_split_of_filter_length_one (coversByte l.u32_NvMStartAddress k) l.c_Elements h
  have hcov := coversByte_eq_true _ k e he
  have hine := hin e (by rw [hsplit]; simp)
  obtain ⟨h1, h2⟩ := take_drop_set_of_covered vals k b _ _ hcov.1 hcov.2 hine
  rw [hsplit, List.map_append, List.map_append, List.map_cons, List.map_cons,
    List.flatten_append, List.flatten_append, List.flatten_cons, List.flatten_cons,
    map_elementBytes_set_of_not_covered _ vals k b pre hpre,
    map_elementBytes_set_of_not_covered _ vals k b post hpost]
  rw [show elementBytes l.u32_NvMStartAddress (vals.set k b) e = _ from h2,
    show elementBytes l.u32_NvMStartAddress vals e = _ from h1]
  simp only [List.append_assoc, List.cons_append]
  rw [← List.append_assoc, ← List.append_assoc
    (List.map (elementBytes l.u32_NvMStartAddress vals) pre).flatten]
  exact CalcCRC16_single_byte _ _ _ _ c hne

/-- One replaced byte of the dump is detected by the CRC check, when the byte is one of the two
bytes of the stored CRC and no element holds it, or lies behind them and exactly one element
holds it. -/
theorem NvmReadList_of_replaced_byte (node : C_OSCNode) (p : C_OSCDiagProtocolBase)
    (G : C_OSCNodeDataPoolList → Nat) (dp li : Nat) (l : C_OSCNodeDataPoolList)
    (d1 : C_OSCDataDealerNvm) (k b : Nat)
    (hl : listAt (some node) dp li = some l)
    (hcrc : l.q_NvMCRCActive = true)
    (hok : (NvmReadList { mpc_Node := some node, mpc_DiagProtocol := some p } G dp li).oc_Outcome
      = some (C_NO_ERR, d1))
    (hold : (p.NvmRead l.u32_NvMStartAddress (List.replicate (G l) 0)).c_Values.getD k 0 < 0x100)
    (hb : b < 0x100)
    (hne : b ≠ (p.NvmRead l.u32_NvMStartAddress (List.replicate (G l) 0)).c_Values.getD k 0)
    (hlayout : (k < 2 ∧ coverCount l k = 0) ∨ (2 ≤ k ∧ coverCount l k = 1)) :
    ∃ d2,
      (NvmReadList { mpc_Node := some node, mpc_DiagProtocol := some (tamperedProtocol p k b) }
        G dp li).oc_Outcome = some (C_CHECKSUM, d2) := by
  rw [NvmReadList_of_list _ G dp li node p l rfl rfl hl] at hok
  by_cases hraw : (m_NvmReadListRaw p G l []).s32_Return = C_NO_ERR
  · rw [if_pos hraw] at hok
    have hacc : ¬ (l.u32_NvMSize = 0 ∨ (l.q_NvMCRCActive = true ∧ l.u32_NvMSize ≤ 2)) := by
      intro hrej
      rw [m_NvmReadListRaw_rejected p G l [] hrej] at hraw
      exact absurd hraw (by decide)
    have hvals : (m_NvmReadListRaw p G l []).c_Values
        = (p.NvmRead l.u32_NvMStartAddress (List.replicate (G l) 0)).c_Values := by
      rw [m_NvmReadListRaw_accepted p G l [] hacc, resize_nil]
    generalize hdump : (p.NvmRead l.u32_NvMStartAddress (List.replicate (G l) 0)).c_Values
      = c_Dump at hold hne hvals
    obtain ⟨ht1, ht2⟩ := m_NvmReadListRaw_tampered p k b G l [] hacc
    rw [hraw] at ht1
    rw [hvals] at ht2 hok
    have hsave : ∃ l2, m_SaveDumpToList p c_Dump l = some (C_NO_ERR, l2) := by
      split at hok
      · simp at hok
      · next r l2 hs =>
        simp only [Option.some.injEq, Prod.mk.injEq] at hok
        exact ⟨l2, by rw [hs, hok.1]⟩
    obtain ⟨l2, hsave⟩ := hsave
    obtain ⟨hlen, l1, hdec, hcalc⟩ := m_SaveDumpToList_no_err p c_Dump l l2 hcrc hsave
    have hin : ∀ e ∈ l.c_Elements,
        elementIndex l.u32_NvMStartAddress e + e.GetSizeByte ≤ c_Dump.length := by
      obtain ⟨hloop, _⟩ := m_SaveDumpValuesToListValues_some p c_Dump l l1 _ hdec
      rcases saveDumpLoop_some p _ c_Dump _ _ _ hloop with ⟨_, _, hin⟩ | ⟨hr, _⟩
      · exact hin
      · exact absurd hr (by decide)
    obtain ⟨l3, hdec3⟩ := m_SaveDumpValuesToListValues_of_length p c_Dump (c_Dump.set k b) l l1
      (List.length_set _ _ _) hdec
    have hdec3t : m_SaveDumpValuesToListValues (tamperedProtocol p k b) (c_Dump.set k b) l
        = some (C_NO_ERR, l3) := by
      rw [m_SaveDumpValuesToListValues_tampered]
      exact hdec3
    have hlen3 : 2 ≤ (c_Dump.set k b).length := by
      rw [List.length_set]
      exact hlen
    have hsave3 := m_SaveDumpToList_crc (tamperedProtocol p k b) (c_Dump.set k b) l l3 hcrc hlen3
      hdec3t
    have hmismatch : NvmCalcCrc (some (tamperedProtocol p k b)) l3
        ≠ dumpCrc (tamperedProtocol p k b) (c_Dump.set k b) := by
      rw [NvmCalcCrc_tampered, dumpCrc_tampered, NvmCalcCrc_of_decoded p _ l l3 hdec3]
      rw [NvmCalcCrc_of_decoded p _ l l1 hdec] at hcalc
      rcases hlayout with ⟨hk2, hcount⟩ | ⟨hk2, hcount⟩
      · rw [elementBytes_set_of_count_zero l c_Dump k b hcount, hcalc]
        exact (dumpCrc_set_of_lt p c_Dump k b hk2 hlen hb hold hne).symm
      · rw [dumpCrc_set_of_ge p c_Dump k b hk2, ← hcalc]
        apply crc_elementBytes_set_of_count_one l c_Dump k b _ hcount hin
        rw [Nat.mod_eq_of_lt hb, Nat.mod_eq_of_lt hold]
        exact hne
    rw [if_neg hmismatch] at hsave3
    rw [NvmReadList_of_list _ G dp li node (tamperedProtocol p k b) l rfl rfl hl, if_pos ht1, ht2,
      hsave3]
    exact ⟨_, rfl⟩
  · rw [if_neg hraw] at hok
    simp only [Option.some.injEq, Prod.mk.injEq] at hok
    exact absurd hok.1 hraw

/-! ## Lemmas: checksum verification of a data pool -/

theorem mh_DoDatapoolCrcVerification_requests (orc_Datapool : C_OscNodeDataPool)
    (orc_Protocol : C_OscDiagProtocolBase) (ou32_ServerDatapoolIndex : Nat)
    (oq_UseGeneratedVariant q_Match : Bool) (oc_ErrorReason : Option T_ErrorReason) :
    (mh_DoDatapoolCrcVerification orc_Datapool orc_Protocol ou32_ServerDatapoolIndex
        oq_UseGeneratedVariant q_Match oc_ErrorReason).c_Requests
      = [{ u8_DataPoolIndex := ou32_ServerDatapoolIndex % 0x100
           u32_DataPoolChecksum :=
             if oq_UseGeneratedVariant = true then orc_Datapool.u32_GeneratedDefinitionHash
             else orc_Datapool.u32_CompatV1DefinitionHash }] := by
  unfold mh_DoDatapoolCrcVerification
  simp only []
  split_ifs <;> rfl

theorem mh_DoDatapoolCrcVerification_return (orc_Datapool : C_OscNodeDataPool)
    (orc_Protocol : C_OscDiagProtocolBase) (ou32_ServerDatapoolIndex : Nat)
    (oq_UseGeneratedVariant q_Match : Bool) (oc_ErrorReason : Option T_ErrorReason) :
    (mh_DoDatapoolCrcVerification orc_Datapool orc_Protocol ou32_ServerDatapoolIndex
        oq_UseGeneratedVariant q_Match oc_ErrorReason).s32_Return
      = (orc_Protocol.DataPoolVerify (ou32_ServerDatapoolIndex % 0x100)
          (if oq_UseGeneratedVariant = true then orc_Datapool.u32_GeneratedDefinitionHash
           else orc_Datapool.u32_CompatV1DefinitionHash)).s32_Return := by
  unfold mh_DoDatapoolCrcVerification
  simp only []
  split_ifs <;> rfl

theorem mh_DoDatapoolCrcVerification_match (orc_Datapool : C_OscNodeDataPool)
    (orc_Protocol : C_OscDiagProtocolBase) (ou32_ServerDatapoolIndex : Nat)
    (oq_UseGeneratedVariant q_Match : Bool) (oc_ErrorReason : Option T_ErrorReason) :
    (mh_DoDatapoolCrcVerification orc_Datapool orc_Protocol ou32_ServerDatapoolIndex
        oq_UseGeneratedVariant q_Match oc_ErrorReason).q_Match
      = ((orc_Protocol.DataPoolVerify (ou32_ServerDatapoolIndex % 0x100)
          (if oq_UseGeneratedVariant = true then orc_Datapool.u32_GeneratedDefinitionHash
           else orc_Datapool.u32_CompatV1DefinitionHash)).oq_Match).getD q_Match := by
  unfold mh_DoDatapoolCrcVerification
  simp only []
  split_ifs <;> rfl

theorem mh_HandleDatapoolCrcVerification_requests_length (orc_Datapool : C_OscNodeDataPool)
    (orc_Protocol : C_OscDiagProtocolBase) (ou32_ServerDatapoolIndex : Nat)
    (q_Match : Bool) (oc_ErrorReason : Option T_ErrorReason) :
    (mh_HandleDatapoolCrcVerification orc_Datapool orc_Protocol ou32_ServerDatapoolIndex q_Match
        oc_ErrorReason).c_Requests.length ≤ 2 := by
  unfold mh_HandleDatapoolCrcVerification
  simp only []
  split_ifs <;> simp [mh_DoDatapoolCrcVerification_requests]
/-! ## Lemmas: scan of the data pools of a server -/

theorem getAllDatapoolMetadataLoop_stop (pc_Protocol : C_OscDiagProtocolBase) :
    ∀ (u32_Stop u32_Max u32_ItDataPool : Nat), u32_Stop ≤ u32_Max →
      (∀ i, i < u32_Stop →
        (pc_Protocol.DataPoolReadMetaData ((u32_ItDataPool + i) % 0x100)).s32_Return = C_NO_ERR) →
      (u32_Stop < u32_Max →
        (pc_Protocol.DataPoolReadMetaData ((u32_ItDataPool + u32_Stop) % 0x100)).s32_Return
          ≠ C_NO_ERR) →
      (getAllDatapoolMetadataLoop pc_Protocol u32_Max u32_ItDataPool).c_Requests
        = (List.range (min (u32_Stop + 1) u32_Max)).map (fun i => (u32_ItDataPool + i) % 0x100) ∧
      (getAllDatapoolMetadataLoop pc_Protocol u32_Max u32_ItDataPool).c_Metadata
        = (List.range u32_Stop).map
            (fun i => (pc_Protocol.DataPoolReadMetaData ((u32_ItDataPool + i) % 0x100)).c_MetaData) ∧
      (getAllDatapoolMetadataLoop pc_Protocol u32_Max u32_ItDataPool).s32_Return
        = (if u32_Stop < u32_Max then
            (if (pc_Protocol.DataPoolReadMetaData
                  ((u32_ItDataPool + u32_Stop) % 0x100)).s32_Return = C_WARN ∧
                (pc_Protocol.DataPoolReadMetaData
                  ((u32_ItDataPool + u32_Stop) % 0x100)).u8_ErrorCode
                  = pc_Protocol.hu8_NR_CODE_REQUEST_OUT_OF_RANGE then C_NO_ERR
             else (pc_Protocol.DataPoolReadMetaData
                  ((u32_ItDataPool + u32_Stop) % 0x100)).s32_Return)
           else C_NO_ERR) ∧
      ((getAllDatapoolMetadataLoop pc_Protocol u32_Max u32_ItDataPool).oc_ErrorReason = none ↔
        (getAllDatapoolMetadataLoop pc_Protocol u32_Max u32_ItDataPool).s32_Return = C_NO_ERR) := by
  intro u32_Stop
  induction u32_Stop with
  | zero =>
    intro u32_Max u32_ItDataPool _ _ h_Negative
    cases u32_Max with
    | zero => simp [getAllDatapoolMetadataLoop]
    | succ n =>
      have h := h_Negative (Nat.succ_pos n)
      simp only [Nat.add_zero] at h
      simp only [getAllDatapoolMetadataLoop, if_neg h, Nat.add_zero, Nat.succ_pos, if_true,
        Nat.zero_add]
      have h_Min : min 1 (n + 1) = 1 := by omega
      have h_Range : List.map (fun i => (u32_ItDataPool + i) % 0x100) (List.range 1)
          = [u32_ItDataPool % 0x100] := rfl
      rw [h_Min, h_Range]
      by_cases h_Warn : (pc_Protocol.DataPoolReadMetaData (u32_ItDataPool % 0x100)).s32_Return
          = C_WARN
      · by_cases h_Code : (pc_Protocol.DataPoolReadMetaData (u32_ItDataPool % 0x100)).u8_ErrorCode
            = pc_Protocol.hu8_NR_CODE_REQUEST_OUT_OF_RANGE
        · simp [h_Warn, h_Code]
        · simp [h_Warn, h_Code]
      · simp [h_Warn, h]
  | succ s ih =>
    intro u32_Max u32_ItDataPool h_Le h_Positive h_Negative
    cases u32_Max with
    | zero => omega
    | succ n =>
      have h_First := h_Positive 0 (Nat.succ_pos s)
      simp only [Nat.add_zero] at h_First
      have h_Rest := ih n (u32_ItDataPool + 1) (by omega)
        (fun i hi => by
          have h := h_Positive (i + 1) (by omega)
          rwa [show u32_ItDataPool + (i + 1) = u32_ItDataPool + 1 + i by omega] at h)
        (fun hs => by
          have h := h_Negative (by omega)
          rwa [show u32_ItDataPool + (s + 1) = u32_ItDataPool + 1 + s by omega] at h)
      obtain ⟨h_Requests, h_Metadata, h_Return, h_Reason⟩ := h_Rest
      have h_Shift : ∀ i, u32_ItDataPool + 1 + i = u32_ItDataPool + (i + 1) := by
        intro i; omega
      simp only [h_Shift] at h_Requests h_Metadata h_Return
      simp only [getAllDatapoolMetadataLoop, if_pos h_First]
      refine ⟨?_, ?_, ?_, ?_⟩
      · rw [h_Requests]
        have h_Min : min (s + 1 + 1) (n + 1) = min (s + 1) n + 1 := by omega
        rw [h_Min, List.range_succ_eq_map, List.map_cons, List.map_map]
        rfl
      · rw [h_Metadata, List.range_succ_eq_map, List.map_cons, List.map_map]
        rfl
      · rw [h_Return]
        have h_Iff : s + 1 < n + 1 ↔ s < n := by omega
        simp only [h_Iff]
      · exact h_Reason

theorem getAllDatapoolMetadataLoop_from_zero (pc_Protocol : C_OscDiagProtocolBase)
    (u32_Stop u32_Max : Nat) (h_Max : u32_Max ≤ 0x100) (h_Stop : u32_Stop ≤ u32_Max)
    (h_Positive : ∀ i, i < u32_Stop → (pc_Protocol.DataPoolReadMetaData i).s32_Return = C_NO_ERR)
    (h_Negative : u32_Stop < u32_Max →
      (pc_Protocol.DataPoolReadMetaData u32_Stop).s32_Return ≠ C_NO_ERR) :
    (getAllDatapoolMetadataLoop pc_Protocol u32_Max 0).c_Requests
      = List.range (min (u32_Stop + 1) u32_Max) ∧
    (getAllDatapoolMetadataLoop pc_Protocol u32_Max 0).c_Metadata
      = (List.range u32_Stop).map (fun i => (pc_Protocol.DataPoolReadMetaData i).c_MetaData) ∧
    (getAllDatapoolMetadataLoop pc_Protocol u32_Max 0).s32_Return
      = (if u32_Stop < u32_Max then
          (if (pc_Protocol.DataPoolReadMetaData u32_Stop).s32_Return = C_WARN ∧
              (pc_Protocol.DataPoolReadMetaData u32_Stop).u8_ErrorCode
                = pc_Protocol.hu8_NR_CODE_REQUEST_OUT_OF_RANGE then C_NO_ERR
           else (pc_Protocol.DataPoolReadMetaData u32_Stop).s32_Return)
         else C_NO_ERR) ∧
    ((getAllDatapoolMetadataLoop pc_Protocol u32_Max 0).oc_ErrorReason = none ↔
      (getAllDatapoolMetadataLoop pc_Protocol u32_Max 0).s32_Return = C_NO_ERR) := by
  have h_Mod : ∀ i, i < u32_Max → (0 + i) % 0x100 = i := by
    intro i hi
    rw [Nat.zero_add]
    exact Nat.mod_eq_of_lt (by omega)
  obtain ⟨h_Requests, h_Metadata, h_Return, h_Reason⟩ :=
    getAllDatapoolMetadataLoop_stop pc_Protocol u32_Stop u32_Max 0 h_Stop
      (fun i hi => by rw [h_Mod i (by omega)]; exact h_Positive i hi)
      (fun hs => by rw [h_Mod u32_Stop hs]; exact h_Negative hs)
  refine ⟨?_, ?_, ?_, h_Reason⟩
  · rw [h_Requests]
    conv_rhs => rw [← List.map_id (List.range (min (u32_Stop + 1) u32_Max))]
    apply List.map_congr_left
    intro i hi
    rw [List.mem_range] at hi
    exact h_Mod i (by omega)
  · rw [h_Metadata]
    apply List.map_congr_left
    intro i hi
    rw [List.mem_range] at hi
    simp only [h_Mod i (by omega)]
  · rw [h_Return]
    by_cases hs : u32_Stop < u32_Max
    · simp only [h_Mod u32_Stop hs]
    · simp only [if_neg hs]

theorem m_GetAllDatapoolMetadata_of_scan
    (c_Project : T_Project) (d : C_SyvComDriverDiag) (ou32_ActiveDiagNodeIndex : Nat)
    (orc_ErrorDetails : List T_ErrorDetail) (u32_ActiveNode u32_NodeIndex : Nat)
    (pc_Protocol : C_OscDiagProtocolBase) (c_Old : List C_DataPoolMetaData)
    (h_ActiveNode : d.mc_ActiveDiagNodes[ou32_ActiveDiagNodeIndex]? = some u32_ActiveNode)
    (h_Protocol : d.mc_DiagProtocols[u32_ActiveNode]? = some pc_Protocol)
    (h_NodeIndex : d.mc_ActiveNodesIndexes[u32_ActiveNode]? = some u32_NodeIndex)
    (h_Old : d.mc_ReadDatapoolMetadata[ou32_ActiveDiagNodeIndex]? = some c_Old) :
    ∃ c_Result : T_DriverResult,
      m_GetAllDatapoolMetadata c_Project d ou32_ActiveDiagNodeIndex orc_ErrorDetails
        = some c_Result ∧
      c_Result.c_Requests
        = (getAllDatapoolMetadataLoop pc_Protocol
            c_Project.hu32_MAX_NUMBER_OF_DATA_POOLS_PER_NODE 0).c_Requests.map
            (T_Request.readMetaData u32_ActiveNode) ∧
      (c_Result.c_Driver.mc_ReadDatapoolMetadata[ou32_ActiveDiagNodeIndex]?
        = some (c_Old ++ (getAllDatapoolMetadataLoop pc_Protocol
            c_Project.hu32_MAX_NUMBER_OF_DATA_POOLS_PER_NODE 0).c_Metadata) ∧
       ∀ k, k ≠ ou32_ActiveDiagNodeIndex →
        c_Result.c_Driver.mc_ReadDatapoolMetadata[k]? = d.mc_ReadDatapoolMetadata[k]?) ∧
      c_Result.s32_Return
        = (getAllDatapoolMetadataLoop pc_Protocol
            c_Project.hu32_MAX_NUMBER_OF_DATA_POOLS_PER_NODE 0).s32_Return := by
  have h_Lt : ou32_ActiveDiagNodeIndex < d.mc_ReadDatapoolMetadata.length := by
    by_contra h_Not
    rw [List.getElem?_eq_none (by omega)] at h_Old
    exact Option.noConfusion h_Old
  unfold m_GetAllDatapoolMetadata
  simp only [h_ActiveNode]
  by_cases h_Zero : c_Project.hu32_MAX_NUMBER_OF_DATA_POOLS_PER_NODE = 0
  · simp only [h_Zero, if_true, getAllDatapoolMetadataLoop]
    exact ⟨_, rfl, rfl, ⟨by simp [h_Old], fun _ _ => rfl⟩, rfl⟩
  · simp only [if_neg h_Zero, h_Protocol, h_NodeIndex, h_Old, Option.map_some']
    generalize getAllDatapoolMetadataLoop pc_Protocol
      c_Project.hu32_MAX_NUMBER_OF_DATA_POOLS_PER_NODE 0 = c_Scan
    by_cases h_Empty : c_Scan.c_Metadata = []
    · simp only [h_Empty, if_true, List.append_nil]
      cases c_Scan.oc_ErrorReason with
      | none => exact ⟨_, rfl, rfl, ⟨h_Old, fun _ _ => rfl⟩, rfl⟩
      | some c_Reason =>
        cases c_Project.c_Nodes[u32_NodeIndex]? with
        | none => exact ⟨_, rfl, rfl, ⟨h_Old, fun _ _ => rfl⟩, rfl⟩
        | some pc_Node => exact ⟨_, rfl, rfl, ⟨h_Old, fun _ _ => rfl⟩, rfl⟩
    · simp only [if_neg h_Empty]
      have h_Self : (d.mc_ReadDatapoolMetadata.set ou32_ActiveDiagNodeIndex
          (c_Old ++ c_Scan.c_Metadata))[ou32_ActiveDiagNodeIndex]?
          = some (c_Old ++ c_Scan.c_Metadata) := by
        rw [List.getElem?_set_self h_Lt]
      have h_Other : ∀ k, k ≠ ou32_ActiveDiagNodeIndex →
          (d.mc_ReadDatapoolMetadata.set ou32_ActiveDiagNodeIndex
            (c_Old ++ c_Scan.c_Metadata))[k]? = d.mc_ReadDatapoolMetadata[k]? := by
        intro k hk
        rw [List.getElem?_set_ne (Ne.symm hk)]
      cases c_Scan.oc_ErrorReason with
      | none => exact ⟨_, rfl, rfl, ⟨h_Self, h_Other⟩, rfl⟩
      | some c_Reason =>
        cases c_Project.c_Nodes[u32_NodeIndex]? with
        | none => exact ⟨_, rfl, rfl, ⟨h_Self, h_Other⟩, rfl⟩
        | some pc_Node => exact ⟨_, rfl, rfl, ⟨h_Self, h_Other⟩, rfl⟩
/-! ## Lemmas: check of the data pools of a node -/

theorem getReadDatapoolMetadataLoop_spec (orc_DatapoolName : String) :
    ∀ (c_Metadata : List C_DataPoolMetaData) (u32_Start : Nat),
      ((∀ m, m ∈ c_Metadata → m.c_Name ≠ orc_DatapoolName) ∧
        getReadDatapoolMetadataLoop orc_DatapoolName c_Metadata u32_Start
          = { s32_Return := C_RANGE, u32_ServerDatapoolIndex := u32_Start + c_Metadata.length
              oc_Metadata := none }) ∨
      (∃ (j : Nat) (m : C_DataPoolMetaData), c_Metadata[j]? = some m ∧
        m.c_Name = orc_DatapoolName ∧
        (∀ (k : Nat) (c_Other : C_DataPoolMetaData), k < j → c_Metadata[k]? = some c_Other →
          c_Other.c_Name ≠ orc_DatapoolName) ∧
        getReadDatapoolMetadataLoop orc_DatapoolName c_Metadata u32_Start
          = { s32_Return := C_NO_ERR, u32_ServerDatapoolIndex := u32_Start + j
              oc_Metadata := some m }) := by
  intro c_Metadata
  induction c_Metadata with
  | nil =>
    intro u32_Start
    left
    exact ⟨fun m hm => absurd hm (List.not_mem_nil m), rfl⟩
  | cons c_Head c_Tail ih =>
    intro u32_Start
    by_cases h_Name : orc_DatapoolName = c_Head.c_Name
    · right
      refine ⟨0, c_Head, by simp, h_Name.symm, fun k _ hk => absurd hk (Nat.not_lt_zero k), ?_⟩
      simp only [getReadDatapoolMetadataLoop, if_pos h_Name, Nat.add_zero]
    · rcases ih (u32_Start + 1) with ⟨h_None, h_Eq⟩ | ⟨j, m, h_Get, h_Same, h_First, h_Eq⟩
      · left
        refine ⟨?_, ?_⟩
        · intro m hm
          rcases List.mem_cons.mp hm with h | h
          · rw [h]; exact fun h_Bad => h_Name h_Bad.symm
          · exact h_None m h
        · simp only [getReadDatapoolMetadataLoop, if_neg h_Name, h_Eq, List.length_cons]
          congr 1
          omega
      · right
        refine ⟨j + 1, m, ?_, h_Same, ?_, ?_⟩
        · simpa using h_Get
        · intro k c_Other hk h_Other
          cases k with
          | zero =>
            simp only [List.getElem?_cons_zero, Option.some.injEq] at h_Other
            rw [← h_Other]
            exact fun h_Bad => h_Name h_Bad.symm
          | succ k =>
            simp only [List.getElem?_cons_succ] at h_Other
            exact h_First k c_Other (by omega) h_Other
        · simp only [getReadDatapoolMetadataLoop, if_neg h_Name, h_Eq]
          congr 1
          omega

theorem m_GetReadDatapoolMetadata_spec (c_Metadata : List C_DataPoolMetaData)
    (orc_DatapoolName : String) :
    ((∀ m, m ∈ c_Metadata → m.c_Name ≠ orc_DatapoolName) ∧
      m_GetReadDatapoolMetadata c_Metadata orc_DatapoolName
        = { s32_Return := C_RANGE, u32_ServerDatapoolIndex := c_Metadata.length
            oc_Metadata := none }) ∨
    (∃ (j : Nat) (m : C_DataPoolMetaData), c_Metadata[j]? = some m ∧
      m.c_Name = orc_DatapoolName ∧
      (∀ (k : Nat) (c_Other : C_DataPoolMetaData), k < j → c_Metadata[k]? = some c_Other →
        c_Other.c_Name ≠ orc_DatapoolName) ∧
      m_GetReadDatapoolMetadata c_Metadata orc_DatapoolName
        = { s32_Return := C_NO_ERR, u32_ServerDatapoolIndex := j, oc_Metadata := some m }) := by
  have h := getReadDatapoolMetadataLoop_spec orc_DatapoolName c_Metadata 0
  simp only [Nat.zero_add] at h
  exact h

theorem checkDatapool_not_on_server (pc_Protocol : C_OscDiagProtocolBase)
    (c_Metadata : List C_DataPoolMetaData) (rc_Datapool : C_OscNodeDataPool)
    (u32_ItDataPool : Nat)
    (h_Missing : ∀ m, m ∈ c_Metadata → m.c_Name ≠ rc_Datapool.c_Name) :
    checkDatapool pc_Protocol c_Metadata rc_Datapool u32_ItDataPool
      = { s32_Return := C_DEFAULT
          oc_ErrorReason := some (T_ErrorReason.notOnServer rc_Datapool.c_Name)
          oc_Mapping := none, c_Requests := [] } := by
  rcases m_GetReadDatapoolMetadata_spec c_Metadata rc_Datapool.c_Name with
    ⟨_, h_Eq⟩ | ⟨j, m, h_Get, h_Same, _, _⟩
  · unfold checkDatapool
    simp [h_Eq]
  · exact absurd h_Same (h_Missing m (List.getElem?_mem h_Get))

theorem checkDatapool_version_mismatch (pc_Protocol : C_OscDiagProtocolBase)
    (c_Metadata : List C_DataPoolMetaData) (rc_Datapool : C_OscNodeDataPool)
    (u32_ItDataPool : Nat) (c_Server : C_DataPoolMetaData)
    (h_Found : (m_GetReadDatapoolMetadata c_Metadata rc_Datapool.c_Name).oc_Metadata
      = some c_Server)
    (h_Version : rc_Datapool.au8_Version ≠ c_Server.au8_Version) :
    checkDatapool pc_Protocol c_Metadata rc_Datapool u32_ItDataPool
      = { s32_Return := C_DEFAULT
          oc_ErrorReason := some (T_ErrorReason.versionMismatch rc_Datapool.c_Name
            rc_Datapool.au8_Version c_Server.au8_Version)
          oc_Mapping := none, c_Requests := [] } := by
  rcases m_GetReadDatapoolMetadata_spec c_Metadata rc_Datapool.c_Name with
    ⟨_, h_Eq⟩ | ⟨j, m, h_Get, h_Same, _, h_Eq⟩
  · rw [h_Eq] at h_Found
    exact Option.noConfusion h_Found
  · rw [h_Eq] at h_Found
    simp only [Option.some.injEq] at h_Found
    subst h_Found
    unfold checkDatapool
    simp [h_Eq, h_Same, h_Version]

theorem checkDatapool_passed (pc_Protocol : C_OscDiagProtocolBase)
    (c_Metadata : List C_DataPoolMetaData) (rc_Datapool : C_OscNodeDataPool)
    (u32_ItDataPool : Nat)
    (h_Passed : (checkDatapool pc_Protocol c_Metadata rc_Datapool u32_ItDataPool).s32_Return
      = C_NO_ERR) :
    ∃ (j : Nat) (m : C_DataPoolMetaData), c_Metadata[j]? = some m ∧
      m.c_Name = rc_Datapool.c_Name ∧
      (∀ (k : Nat) (c_Other : C_DataPoolMetaData), k < j → c_Metadata[k]? = some c_Other →
        c_Other.c_Name ≠ rc_Datapool.c_Name) ∧
      m.au8_Version = rc_Datapool.au8_Version ∧
      (mh_HandleDatapoolCrcVerification rc_Datapool pc_Protocol j false none).s32_Return
        = C_NO_ERR ∧
      (mh_HandleDatapoolCrcVerification rc_Datapool pc_Protocol j false none).q_Match = true ∧
      (checkDatapool pc_Protocol c_Metadata rc_Datapool u32_ItDataPool).oc_Mapping
        = some (u32_ItDataPool % 0x100, j % 0x100) := by
  rcases m_GetReadDatapoolMetadata_spec c_Metadata rc_Datapool.c_Name with
    ⟨_, h_Eq⟩ | ⟨j, m, h_Get, h_Same, h_First, h_Eq⟩
  · unfold checkDatapool at h_Passed
    simp [h_Eq] at h_Passed
  · have h_Version : rc_Datapool.au8_Version = m.au8_Version := by
      by_contra h_Not
      unfold checkDatapool at h_Passed
      simp [h_Eq, h_Same, h_Not] at h_Passed
    have h_Return : (mh_HandleDatapoolCrcVerification rc_Datapool pc_Protocol j false
        none).s32_Return = C_NO_ERR := by
      by_contra h_Not
      unfold checkDatapool at h_Passed
      simp [h_Eq, h_Same, h_Version, h_Not] at h_Passed
    have h_Match : (mh_HandleDatapoolCrcVerification rc_Datapool pc_Protocol j false
        none).q_Match = true := by
      by_contra h_Not
      simp only [Bool.not_eq_true] at h_Not
      unfold checkDatapool at h_Passed
      simp [h_Eq, h_Same, h_Version, h_Return, h_Not] at h_Passed
    refine ⟨j, m, h_Get, h_Same, h_First, h_Version.symm, h_Return, h_Match, ?_⟩
    unfold checkDatapool
    simp [h_Eq, h_Same, h_Version, h_Return, h_Match]

theorem mh_HandleDatapoolCrcVerification_reason (orc_Datapool : C_OscNodeDataPool)
    (orc_Protocol : C_OscDiagProtocolBase) (ou32_ServerDatapoolIndex : Nat) (q_Match : Bool)
    (oc_ErrorReason : Option T_ErrorReason)
    (h_Failed : (mh_HandleDatapoolCrcVerification orc_Datapool orc_Protocol
      ou32_ServerDatapoolIndex q_Match oc_ErrorReason).s32_Return ≠ C_NO_ERR) :
    (mh_HandleDatapoolCrcVerification orc_Datapool orc_Protocol ou32_ServerDatapoolIndex q_Match
        oc_ErrorReason).oc_ErrorReason
      = some (T_ErrorReason.verifyFailed orc_Datapool.c_Name
          (mh_HandleDatapoolCrcVerification orc_Datapool orc_Protocol ou32_ServerDatapoolIndex
            q_Match oc_ErrorReason).s32_Return) := by
  have h_Do : ∀ (q_Variant q_M : Bool) (oc_R : Option T_ErrorReason),
      (mh_DoDatapoolCrcVerification orc_Datapool orc_Protocol ou32_ServerDatapoolIndex q_Variant
        q_M oc_R).s32_Return ≠ C_NO_ERR →
      (mh_DoDatapoolCrcVerification orc_Datapool orc_Protocol ou32_ServerDatapoolIndex q_Variant
        q_M oc_R).oc_ErrorReason
      = some (T_ErrorReason.verifyFailed orc_Datapool.c_Name
          (mh_DoDatapoolCrcVerification orc_Datapool orc_Protocol ou32_ServerDatapoolIndex
            q_Variant q_M oc_R).s32_Return) := by
    intro q_Variant q_M oc_R
    unfold mh_DoDatapoolCrcVerification
    simp only []
    split_ifs with h1 h2 h3
    · intro _; rfl
    · intro h; exact absurd h h2
    · intro _; rfl
    · intro h; exact absurd h h3
  unfold mh_HandleDatapoolCrcVerification at h_Failed ⊢
  simp only [] at h_Failed ⊢
  split_ifs at h_Failed ⊢ with h1 h2 h3
  · exact h_Do _ _ _ h_Failed
  · exact h_Do _ _ _ h_Failed
  · exact h_Do _ _ _ h_Failed
  · exact h_Do _ _ _ h_Failed

theorem checkDatapool_reason_of_failed (pc_Protocol : C_OscDiagProtocolBase)
    (c_Metadata : List C_DataPoolMetaData) (rc_Datapool : C_OscNodeDataPool)
    (u32_ItDataPool : Nat)
    (h_Failed : (checkDatapool pc_Protocol c_Metadata rc_Datapool u32_ItDataPool).s32_Return
      ≠ C_NO_ERR) :
    ∃ c_Reason, (checkDatapool pc_Protocol c_Metadata rc_Datapool u32_ItDataPool).oc_ErrorReason
      = some c_Reason := by
  unfold checkDatapool at h_Failed ⊢
  simp only [] at h_Failed ⊢
  split_ifs at h_Failed ⊢ with h1 h2 h3 h4 h5
  · exact ⟨_, rfl⟩
  · exact ⟨_, rfl⟩
  · exact ⟨_, rfl⟩
  · exact absurd rfl h_Failed
  · exact ⟨_, mh_HandleDatapoolCrcVerification_reason _ _ _ _ _ h4⟩
  · exact ⟨_, rfl⟩

theorem checkDatapoolsLoop_eq_foldl (pc_Protocol : C_OscDiagProtocolBase)
    (c_Metadata : List C_DataPoolMetaData)
    (c_Ids : List C_OscNodeDataPoolListElementId) (u32_NodeIndex : Nat) :
    ∀ (c_DataPools : List C_OscNodeDataPool) (u32_ItDataPool : Nat) (c_State : T_CheckState),
      checkDatapoolsLoop pc_Protocol (some c_Metadata) c_Ids u32_NodeIndex c_DataPools
          u32_ItDataPool c_State
        = some ((datapoolChecks pc_Protocol c_Metadata c_Ids u32_NodeIndex c_DataPools
            u32_ItDataPool).foldl T_CheckState.take c_State) := by
  intro c_DataPools
  induction c_DataPools with
  | nil => intro _ _; rfl
  | cons c_Head c_Tail ih =>
    intro u32_ItDataPool c_State
    by_cases h_Used : isDatapoolRelevant c_Ids u32_NodeIndex u32_ItDataPool = true
    · simp only [checkDatapoolsLoop, datapoolChecks, if_pos h_Used, ih, List.foldl_cons]
    · simp only [checkDatapoolsLoop, datapoolChecks, if_neg h_Used, ih]

theorem datapoolChecks_append (pc_Protocol : C_OscDiagProtocolBase)
    (c_Metadata : List C_DataPoolMetaData)
    (c_Ids : List C_OscNodeDataPoolListElementId) (u32_NodeIndex : Nat) :
    ∀ (c_Front c_Back : List C_OscNodeDataPool) (u32_ItDataPool : Nat),
      datapoolChecks pc_Protocol c_Metadata c_Ids u32_NodeIndex (c_Front ++ c_Back)
          u32_ItDataPool
        = datapoolChecks pc_Protocol c_Metadata c_Ids u32_NodeIndex c_Front u32_ItDataPool ++
          datapoolChecks pc_Protocol c_Metadata c_Ids u32_NodeIndex c_Back
            (u32_ItDataPool + c_Front.length) := by
  intro c_Front
  induction c_Front with
  | nil => intro _ _; rfl
  | cons c_Head c_Tail ih =>
    intro c_Back u32_ItDataPool
    have h_Len : u32_ItDataPool + (c_Head :: c_Tail).length
        = u32_ItDataPool + 1 + c_Tail.length := by
      simp only [List.length_cons]; omega
    rw [h_Len]
    by_cases h_Used : isDatapoolRelevant c_Ids u32_NodeIndex u32_ItDataPool = true
    · rw [List.cons_append, datapoolChecks, if_pos h_Used, ih, datapoolChecks, if_pos h_Used,
        List.cons_append]
    · rw [List.cons_append, datapoolChecks, if_neg h_Used, ih, datapoolChecks, if_neg h_Used]

theorem datapoolChecks_split (pc_Protocol : C_OscDiagProtocolBase)
    (c_Metadata : List C_DataPoolMetaData)
    (c_Ids : List C_OscNodeDataPoolListElementId) (u32_NodeIndex : Nat)
    (c_DataPools : List C_OscNodeDataPool) (i : Nat) (rc_Datapool : C_OscNodeDataPool)
    (h_Pool : c_DataPools[i]? = some rc_Datapool)
    (h_Used : isDatapoolRelevant c_Ids u32_NodeIndex i = true) :
    datapoolChecks pc_Protocol c_Metadata c_Ids u32_NodeIndex c_DataPools 0
      = datapoolChecks pc_Protocol c_Metadata c_Ids u32_NodeIndex (c_DataPools.take i) 0 ++
        checkDatapool pc_Protocol c_Metadata rc_Datapool i ::
        datapoolChecks pc_Protocol c_Metadata c_Ids u32_NodeIndex (c_DataPools.drop (i + 1))
          (i + 1) := by
  have h_Lt : i < c_DataPools.length := by
    by_contra h_Not
    rw [List.getElem?_eq_none (by omega)] at h_Pool
    exact Option.noConfusion h_Pool
  have h_Get : c_DataPools[i] = rc_Datapool := by
    rw [List.getElem?_eq_getElem h_Lt] at h_Pool
    exact Option.some.inj h_Pool
  have h_Split : c_DataPools
      = c_DataPools.take i ++ rc_Datapool :: c_DataPools.drop (i + 1) := by
    rw [← h_Get, List.getElem_cons_drop, List.take_append_drop]
  have h_Len : (c_DataPools.take i).length = i := by
    rw [List.length_take]; omega
  conv_lhs => rw [h_Split]
  rw [datapoolChecks_append, h_Len, Nat.zero_add]
  simp only [datapoolChecks, if_pos h_Used]

theorem datapoolChecks_mem (pc_Protocol : C_OscDiagProtocolBase)
    (c_Metadata : List C_DataPoolMetaData)
    (c_Ids : List C_OscNodeDataPoolListElementId) (u32_NodeIndex : Nat) :
    ∀ (c_DataPools : List C_OscNodeDataPool) (u32_ItDataPool : Nat) (c_Check : T_DatapoolCheck),
      c_Check ∈ datapoolChecks pc_Protocol c_Metadata c_Ids u32_NodeIndex c_DataPools
        u32_ItDataPool →
      ∃ (k : Nat) (rc_Datapool : C_OscNodeDataPool), c_DataPools[k]? = some rc_Datapool ∧
        isDatapoolRelevant c_Ids u32_NodeIndex (u32_ItDataPool + k) = true ∧
        c_Check = checkDatapool pc_Protocol c_Metadata rc_Datapool (u32_ItDataPool + k) := by
  intro c_DataPools
  induction c_DataPools with
  | nil => intro _ c_Check h; exact absurd h (List.not_mem_nil c_Check)
  | cons c_Head c_Tail ih =>
    intro u32_ItDataPool c_Check h_Mem
    have h_Tail : c_Check ∈ datapoolChecks pc_Protocol c_Metadata c_Ids u32_NodeIndex c_Tail
        (u32_ItDataPool + 1) →
        ∃ (k : Nat) (rc_Datapool : C_OscNodeDataPool),
          (c_Head :: c_Tail)[k]? = some rc_Datapool ∧
          isDatapoolRelevant c_Ids u32_NodeIndex (u32_ItDataPool + k) = true ∧
          c_Check = checkDatapool pc_Protocol c_Metadata rc_Datapool (u32_ItDataPool + k) := by
      intro h
      obtain ⟨k, rc_Datapool, h_Get, h_Used, h_Eq⟩ := ih (u32_ItDataPool + 1) c_Check h
      refine ⟨k + 1, rc_Datapool, by simpa using h_Get, ?_, ?_⟩
      · rwa [show u32_ItDataPool + (k + 1) = u32_ItDataPool + 1 + k by omega]
      · rwa [show u32_ItDataPool + (k + 1) = u32_ItDataPool + 1 + k by omega]
    by_cases h_Used : isDatapoolRelevant c_Ids u32_NodeIndex u32_ItDataPool = true
    · simp only [datapoolChecks, if_pos h_Used, List.mem_cons] at h_Mem
      rcases h_Mem with h | h
      · exact ⟨0, c_Head, by simp, by simpa using h_Used, by simpa using h⟩
      · exact h_Tail h
    · simp only [datapoolChecks, if_neg h_Used] at h_Mem
      exact h_Tail h_Mem

theorem foldl_take_requests :
    ∀ (c_Checks : List T_DatapoolCheck) (c_State : T_CheckState),
      (c_Checks.foldl T_CheckState.take c_State).c_Requests
        = c_State.c_Requests ++ (c_Checks.map (fun c => c.c_Requests)).flatten := by
  intro c_Checks
  induction c_Checks with
  | nil => intro c_State; simp
  | cons c_Head c_Tail ih =>
    intro c_State
    rw [List.foldl_cons, ih]
    simp [T_CheckState.take, List.append_assoc]

theorem foldl_take_reasons :
    ∀ (c_Checks : List T_DatapoolCheck) (c_State : T_CheckState),
      (c_Checks.foldl T_CheckState.take c_State).c_DataPoolErrorString
        = c_State.c_DataPoolErrorString ++
          ((failedChecks c_Checks).map (fun c => c.oc_ErrorReason.toList)).flatten := by
  intro c_Checks
  induction c_Checks with
  | nil => intro c_State; simp [failedChecks]
  | cons c_Head c_Tail ih =>
    intro c_State
    rw [List.foldl_cons, ih]
    by_cases h_Failed : c_Head.s32_Return = C_NO_ERR
    · simp [T_CheckState.take, failedChecks, h_Failed]
    · simp [T_CheckState.take, failedChecks, h_Failed, List.append_assoc]

theorem foldl_take_retval :
    ∀ (c_Checks : List T_DatapoolCheck) (c_State : T_CheckState),
      (c_Checks.foldl T_CheckState.take c_State).s32_Retval
        = (((failedChecks c_Checks).getLast?).map (fun c => c.s32_Return)).getD
            c_State.s32_Retval := by
  intro c_Checks
  induction c_Checks with
  | nil => intro c_State; simp [failedChecks]
  | cons c_Head c_Tail ih =>
    intro c_State
    rw [List.foldl_cons, ih]
    by_cases h_Failed : c_Head.s32_Return = C_NO_ERR
    · simp [T_CheckState.take, failedChecks, h_Failed]
    · have h_Filter : failedChecks (c_Head :: c_Tail) = c_Head :: failedChecks c_Tail := by
        simp [failedChecks, h_Failed]
      rw [h_Filter]
      cases h_Tail : failedChecks c_Tail with
      | nil => simp [T_CheckState.take, h_Failed]
      | cons c_Next c_More =>
        rw [List.getLast?_cons_cons]
        cases h_Last : (c_Next :: c_More).getLast? with
        | none => simp at h_Last
        | some c_Last => simp

theorem foldl_take_retval_failed (c_Checks : List T_DatapoolCheck) (c_State : T_CheckState)
    (c_Check : T_DatapoolCheck) (h_Mem : c_Check ∈ c_Checks)
    (h_Failed : c_Check.s32_Return ≠ C_NO_ERR) :
    ∃ c_Last, c_Last ∈ c_Checks ∧ c_Last.s32_Return ≠ C_NO_ERR ∧
      (c_Checks.foldl T_CheckState.take c_State).s32_Retval = c_Last.s32_Return := by
  have h_In : c_Check ∈ failedChecks c_Checks := by
    simp only [failedChecks, List.mem_filter, decide_eq_true_eq]
    exact ⟨h_Mem, h_Failed⟩
  have h_Ne : failedChecks c_Checks ≠ [] := List.ne_nil_of_mem h_In
  have h_Last := List.getLast?_eq_getLast _ h_Ne
  have h_LastMem := List.getLast_mem h_Ne
  simp only [failedChecks, List.mem_filter, decide_eq_true_eq] at h_LastMem
  refine ⟨_, h_LastMem.1, h_LastMem.2, ?_⟩
  rw [foldl_take_retval]
  simp only [failedChecks] at h_Last ⊢
  rw [h_Last]
  rfl

theorem foldl_take_retval_no_err (c_Checks : List T_DatapoolCheck) (c_State : T_CheckState)
    (h_State : c_State.s32_Retval = C_NO_ERR) :
    (c_Checks.foldl T_CheckState.take c_State).s32_Retval = C_NO_ERR ↔
      ∀ c_Check, c_Check ∈ c_Checks → c_Check.s32_Return = C_NO_ERR := by
  constructor
  · intro h_Ok c_Check h_Mem
    by_contra h_Failed
    obtain ⟨c_Last, _, h_LastFailed, h_Eq⟩ :=
      foldl_take_retval_failed c_Checks c_State c_Check h_Mem h_Failed
    rw [h_Ok] at h_Eq
    exact h_LastFailed h_Eq.symm
  · intro h_All
    have h_Empty : failedChecks c_Checks = [] := by
      simp only [failedChecks, List.filter_eq_nil_iff, decide_eq_true_eq, not_not]
      exact h_All
    rw [foldl_take_retval, h_Empty]
    simpa using h_State

theorem find?_filter_of_imp {α : Type} (p q : α → Bool) (h : ∀ x, p x = true → q x = true) :
    ∀ (l : List α), List.find? p (List.filter q l) = List.find? p l := by
  intro l
  induction l with
  | nil => rfl
  | cons c_Head c_Tail ih =>
    by_cases h_Q : q c_Head = true
    · rw [List.filter_cons_of_pos h_Q]
      by_cases h_P : p c_Head = true
      · rw [List.find?_cons_of_pos _ h_P, List.find?_cons_of_pos _ h_P]
      · rw [List.find?_cons_of_neg _ h_P, List.find?_cons_of_neg _ h_P, ih]
    · rw [List.filter_cons_of_neg h_Q]
      have h_P : ¬ p c_Head = true := fun h_Bad => h_Q (h c_Head h_Bad)
      rw [List.find?_cons_of_neg _ h_P, ih]

theorem mapFind_mapAssign (c_Map : List (Nat × Nat)) (c_Entry : Nat × Nat) (u8_Key : Nat) :
    mapFind (mapAssign c_Map c_Entry) u8_Key
      = if c_Entry.1 = u8_Key then some c_Entry.2 else mapFind c_Map u8_Key := by
  unfold mapFind mapAssign
  rw [List.find?_append]
  by_cases h_Key : c_Entry.1 = u8_Key
  · have h_None : List.find? (fun x => decide (x.1 = u8_Key))
        (List.filter (fun x => decide (x.1 ≠ c_Entry.1)) c_Map) = none := by
      rw [List.find?_eq_none]
      intro x hx
      simp only [List.mem_filter, decide_eq_true_eq] at hx
      simp only [decide_eq_true_eq]
      rw [← h_Key]
      exact hx.2
    rw [h_None]
    simp [h_Key]
  · have h_Same : List.find? (fun x => decide (x.1 = u8_Key))
        (List.filter (fun x => decide (x.1 ≠ c_Entry.1)) c_Map)
        = List.find? (fun x => decide (x.1 = u8_Key)) c_Map := by
      apply find?_filter_of_imp
      intro x hx
      simp only [decide_eq_true_eq] at hx ⊢
      rw [hx]
      exact fun h_Bad => h_Key h_Bad.symm
    rw [h_Same]
    cases h_Find : List.find? (fun x => decide (x.1 = u8_Key)) c_Map with
    | none => simp [h_Key]
    | some c_Found => simp [h_Key]

theorem foldl_take_mapFind_of_other_keys (u8_Key : Nat) :
    ∀ (c_Checks : List T_DatapoolCheck) (c_State : T_CheckState),
      (∀ (c_Check : T_DatapoolCheck) (c_Entry : Nat × Nat), c_Check ∈ c_Checks →
        c_Check.oc_Mapping = some c_Entry → c_Entry.1 ≠ u8_Key) →
      mapFind (c_Checks.foldl T_CheckState.take c_State).c_DatapoolMapping u8_Key
        = mapFind c_State.c_DatapoolMapping u8_Key := by
  intro c_Checks
  induction c_Checks with
  | nil => intro _ _; rfl
  | cons c_Head c_Tail ih =>
    intro c_State h_Keys
    rw [List.foldl_cons, ih _ (fun c e hc he => h_Keys c e (List.mem_cons_of_mem _ hc) he)]
    cases h_Map : c_Head.oc_Mapping with
    | none => simp only [T_CheckState.take, h_Map]
    | some c_Entry =>
      simp only [T_CheckState.take, h_Map]
      rw [mapFind_mapAssign, if_neg (h_Keys c_Head c_Entry (List.mem_cons_self _ _) h_Map)]

theorem checkDatapool_mapping_key (pc_Protocol : C_OscDiagProtocolBase)
    (c_Metadata : List C_DataPoolMetaData) (rc_Datapool : C_OscNodeDataPool)
    (u32_ItDataPool : Nat) (c_Entry : Nat × Nat)
    (h_Map : (checkDatapool pc_Protocol c_Metadata rc_Datapool u32_ItDataPool).oc_Mapping
      = some c_Entry) :
    c_Entry.1 = u32_ItDataPool % 0x100 ∧
    (checkDatapool pc_Protocol c_Metadata rc_Datapool u32_ItDataPool).s32_Return = C_NO_ERR := by
  unfold checkDatapool at h_Map ⊢
  simp only [] at h_Map ⊢
  split_ifs at h_Map ⊢ with h1 h2 h3 h4 h5
  simp only [Option.some.injEq] at h_Map
  rw [← h_Map]
  exact ⟨rfl, rfl⟩

theorem foldl_take_mapFind_of_passed (pc_Protocol : C_OscDiagProtocolBase)
    (c_Metadata : List C_DataPoolMetaData)
    (c_Ids : List C_OscNodeDataPoolListElementId) (u32_NodeIndex : Nat)
    (c_DataPools : List C_OscNodeDataPool) (i j : Nat) (rc_Datapool : C_OscNodeDataPool)
    (c_State : T_CheckState)
    (h_Length : c_DataPools.length ≤ 0x100)
    (h_Pool : c_DataPools[i]? = some rc_Datapool)
    (h_Used : isDatapoolRelevant c_Ids u32_NodeIndex i = true)
    (h_Map : (checkDatapool pc_Protocol c_Metadata rc_Datapool i).oc_Mapping
      = some (i % 0x100, j)) :
    mapFind ((datapoolChecks pc_Protocol c_Metadata c_Ids u32_NodeIndex c_DataPools 0).foldl
      T_CheckState.take c_State).c_DatapoolMapping i = some j := by
  have h_Lt : i < c_DataPools.length := by
    by_contra h_Not
    rw [List.getElem?_eq_none (by omega)] at h_Pool
    exact Option.noConfusion h_Pool
  have h_Mod : i % 0x100 = i := Nat.mod_eq_of_lt (by omega)
  rw [datapoolChecks_split pc_Protocol c_Metadata c_Ids u32_NodeIndex c_DataPools i rc_Datapool
    h_Pool h_Used, List.foldl_append, List.foldl_cons]
  rw [foldl_take_mapFind_of_other_keys]
  · simp only [T_CheckState.take, h_Map]
    rw [mapFind_mapAssign]
    simp only [h_Mod, if_true]
  · intro c_Check c_Entry h_Mem h_Entry
    obtain ⟨k, c_Other, h_Get, _, h_Eq⟩ :=
      datapoolChecks_mem pc_Protocol c_Metadata c_Ids u32_NodeIndex _ _ c_Check h_Mem
    have h_K : i + 1 + k < c_DataPools.length := by
      by_contra h_Not
      rw [List.getElem?_drop, List.getElem?_eq_none (by omega)] at h_Get
      exact Option.noConfusion h_Get
    rw [h_Eq] at h_Entry
    rw [(checkDatapool_mapping_key _ _ _ _ _ h_Entry).1, Nat.mod_eq_of_lt (by omega)]
    omega

/-! ## Lemmas: check of the data pools through the driver -/

theorem m_CheckOsyDatapoolsAndCreateMapping_of_checks
    (c_Project : T_Project) (d : C_SyvComDriverDiag) (ou32_ActiveDiagNodeIndex : Nat)
    (orc_ErrorDetails : List T_ErrorDetail) (u32_ActiveNode u32_NodeIndex : Nat)
    (pc_Protocol : C_OscDiagProtocolBase) (pc_View : C_PuiSvData) (pc_Node : C_OscNode)
    (c_Metadata : List C_DataPoolMetaData)
    (h_ActiveNode : d.mc_ActiveDiagNodes[ou32_ActiveDiagNodeIndex]? = some u32_ActiveNode)
    (h_Protocol : d.mc_DiagProtocols[u32_ActiveNode]? = some pc_Protocol)
    (h_NodeIndex : d.mc_ActiveNodesIndexes[u32_ActiveNode]? = some u32_NodeIndex)
    (h_View : c_Project.c_Views[d.mu32_ViewIndex]? = some pc_View)
    (h_Node : c_Project.c_Nodes[u32_NodeIndex]? = some pc_Node)
    (h_Osy : pc_Protocol.q_IsOsy = true)
    (h_Metadata : d.mc_ReadDatapoolMetadata[ou32_ActiveDiagNodeIndex]? = some c_Metadata) :
    m_CheckOsyDatapoolsAndCreateMapping c_Project d ou32_ActiveDiagNodeIndex orc_ErrorDetails
      = some
          (if ((datapoolChecks pc_Protocol c_Metadata pc_View.c_RegisteredDashboardElements
                u32_NodeIndex pc_Node.c_DataPools 0).foldl T_CheckState.take
                { s32_Retval := C_NO_ERR, c_DataPoolErrorString := [], c_DatapoolMapping := []
                  c_Requests := [] }).s32_Retval = C_NO_ERR then
            { s32_Return := C_NO_ERR
              c_Driver := d.registerDataPoolMapping u32_ActiveNode
                ((datapoolChecks pc_Protocol c_Metadata pc_View.c_RegisteredDashboardElements
                  u32_NodeIndex pc_Node.c_DataPools 0).foldl T_CheckState.take
                  { s32_Retval := C_NO_ERR, c_DataPoolErrorString := [], c_DatapoolMapping := []
                    c_Requests := [] }).c_DatapoolMapping
              c_ErrorDetails := orc_ErrorDetails
              c_Requests :=
                ((datapoolChecks pc_Protocol c_Metadata pc_View.c_RegisteredDashboardElements
                  u32_NodeIndex pc_Node.c_DataPools 0).map (fun c => c.c_Requests)).flatten
              c_DatapoolMapping :=
                ((datapoolChecks pc_Protocol c_Metadata pc_View.c_RegisteredDashboardElements
                  u32_NodeIndex pc_Node.c_DataPools 0).foldl T_CheckState.take
                  { s32_Retval := C_NO_ERR, c_DataPoolErrorString := [], c_DatapoolMapping := []
                    c_Requests := [] }).c_DatapoolMapping
              q_Registered := true }
          else
            { s32_Return :=
                ((datapoolChecks pc_Protocol c_Metadata pc_View.c_RegisteredDashboardElements
                  u32_NodeIndex pc_Node.c_DataPools 0).foldl T_CheckState.take
                  { s32_Retval := C_NO_ERR, c_DataPoolErrorString := [], c_DatapoolMapping := []
                    c_Requests := [] }).s32_Retval
              c_Driver := d
              c_ErrorDetails :=
                orc_ErrorDetails ++
                  [{ c_NodeName := pc_Node.c_Name
                     c_Reasons :=
                       ((failedChecks (datapoolChecks pc_Protocol c_Metadata
                          pc_View.c_RegisteredDashboardElements u32_NodeIndex
                          pc_Node.c_DataPools 0)).map (fun c => c.oc_ErrorReason.toList)).flatten }]
              c_Requests :=
                ((datapoolChecks pc_Protocol c_Metadata pc_View.c_RegisteredDashboardElements
                  u32_NodeIndex pc_Node.c_DataPools 0).map (fun c => c.c_Requests)).flatten
              c_DatapoolMapping :=
                ((datapoolChecks pc_Protocol c_Metadata pc_View.c_RegisteredDashboardElements
                  u32_NodeIndex pc_Node.c_DataPools 0).foldl T_CheckState.take
                  { s32_Retval := C_NO_ERR, c_DataPoolErrorString := [], c_DatapoolMapping := []
                    c_Requests := [] }).c_DatapoolMapping
              q_Registered := false }) := by
  unfold m_CheckOsyDatapoolsAndCreateMapping
  simp only [h_ActiveNode, h_Protocol, h_NodeIndex, h_View, h_Node, h_Osy, h_Metadata,
    checkDatapoolsLoop_eq_foldl]
  split_ifs with h_Ok
  · simp only [h_Ok, foldl_take_requests, List.nil_append]
  · simp only [foldl_take_requests, foldl_take_reasons, List.nil_append]

theorem m_CheckOsyDatapoolsAndCreateMapping_of_failed_pool
    (c_Project : T_Project) (d : C_SyvComDriverDiag) (ou32_ActiveDiagNodeIndex : Nat)
    (orc_ErrorDetails : List T_ErrorDetail) (u32_ActiveNode u32_NodeIndex : Nat)
    (pc_Protocol : C_OscDiagProtocolBase) (pc_View : C_PuiSvData) (pc_Node : C_OscNode)
    (c_Metadata : List C_DataPoolMetaData) (i : Nat) (rc_Datapool : C_OscNodeDataPool)
    (h_ActiveNode : d.mc_ActiveDiagNodes[ou32_ActiveDiagNodeIndex]? = some u32_ActiveNode)
    (h_Protocol : d.mc_DiagProtocols[u32_ActiveNode]? = some pc_Protocol)
    (h_NodeIndex : d.mc_ActiveNodesIndexes[u32_ActiveNode]? = some u32_NodeIndex)
    (h_View : c_Project.c_Views[d.mu32_ViewIndex]? = some pc_View)
    (h_Node : c_Project.c_Nodes[u32_NodeIndex]? = some pc_Node)
    (h_Osy : pc_Protocol.q_IsOsy = true)
    (h_Metadata : d.mc_ReadDatapoolMetadata[ou32_ActiveDiagNodeIndex]? = some c_Metadata)
    (h_Pool : pc_Node.c_DataPools[i]? = some rc_Datapool)
    (h_Used : isDatapoolRelevant pc_View.c_RegisteredDashboardElements u32_NodeIndex i = true)
    (h_Failed : (checkDatapool pc_Protocol c_Metadata rc_Datapool i).s32_Return = C_DEFAULT) :
    ∃ c_Result : T_CheckResult,
      m_CheckOsyDatapoolsAndCreateMapping c_Project d ou32_ActiveDiagNodeIndex orc_ErrorDetails
        = some c_Result ∧
      c_Result.s32_Return ≠ C_NO_ERR ∧
      (c_Result.s32_Return = C_DEFAULT ∨
        ∃ (k : Nat) (c_Later : C_OscNodeDataPool), i < k ∧
          pc_Node.c_DataPools[k]? = some c_Later ∧
          isDatapoolRelevant pc_View.c_RegisteredDashboardElements u32_NodeIndex k = true ∧
          (checkDatapool pc_Protocol c_Metadata c_Later k).s32_Return = c_Result.s32_Return) ∧
      c_Result.q_Registered = false ∧
      c_Result.c_Driver.mc_DiagProtocols = d.mc_DiagProtocols ∧
      c_Result.c_ErrorDetails
        = orc_ErrorDetails ++
          [{ c_NodeName := pc_Node.c_Name
             c_Reasons :=
               ((failedChecks (datapoolChecks pc_Protocol c_Metadata
                  pc_View.c_RegisteredDashboardElements u32_NodeIndex
                  pc_Node.c_DataPools 0)).map (fun c => c.oc_ErrorReason.toList)).flatten }] ∧
      c_Result.c_Requests
        = ((datapoolChecks pc_Protocol c_Metadata pc_View.c_RegisteredDashboardElements
              u32_NodeIndex pc_Node.c_DataPools 0).map (fun c => c.c_Requests)).flatten := by
  have h_Split := datapoolChecks_split pc_Protocol c_Metadata
    pc_View.c_RegisteredDashboardElements u32_NodeIndex pc_Node.c_DataPools i rc_Datapool h_Pool
    h_Used
  have h_Ne : (checkDatapool pc_Protocol c_Metadata rc_Datapool i).s32_Return ≠ C_NO_ERR := by
    rw [h_Failed]; decide
  have h_Mem : checkDatapool pc_Protocol c_Metadata rc_Datapool i
      ∈ datapoolChecks pc_Protocol c_Metadata pc_View.c_RegisteredDashboardElements u32_NodeIndex
        pc_Node.c_DataPools 0 := by
    rw [h_Split]
    exact List.mem_append_right _ (List.mem_cons_self _ _)
  have h_Retval : ∀ c_State : T_CheckState,
      ((datapoolChecks pc_Protocol c_Metadata pc_View.c_RegisteredDashboardElements u32_NodeIndex
        pc_Node.c_DataPools 0).foldl T_CheckState.take c_State).s32_Retval ≠ C_NO_ERR := by
    intro c_State
    obtain ⟨c_Last, _, h_LastFailed, h_Eq⟩ := foldl_take_retval_failed _ c_State _ h_Mem h_Ne
    rw [h_Eq]
    exact h_LastFailed
  rw [m_CheckOsyDatapoolsAndCreateMapping_of_checks c_Project d ou32_ActiveDiagNodeIndex
    orc_ErrorDetails u32_ActiveNode u32_NodeIndex pc_Protocol pc_View pc_Node c_Metadata
    h_ActiveNode h_Protocol h_NodeIndex h_View h_Node h_Osy h_Metadata, if_neg (h_Retval _)]
  refine ⟨_, rfl, h_Retval _, ?_, rfl, rfl, rfl, rfl⟩
  simp only []
  rw [h_Split, List.foldl_append, List.foldl_cons]
  generalize h_Post : datapoolChecks pc_Protocol c_Metadata
    pc_View.c_RegisteredDashboardElements u32_NodeIndex (pc_Node.c_DataPools.drop (i + 1))
    (i + 1) = c_Post
  rw [foldl_take_retval]
  cases h_Last : (failedChecks c_Post).getLast? with
  | none =>
    left
    simp only [Option.map_none', Option.getD_none, T_CheckState.take, if_pos h_Ne, h_Failed]
    rw [if_pos (by decide)]
  | some c_Last =>
    right
    have h_LastMem : c_Last ∈ failedChecks c_Post := List.mem_of_getLast?_eq_some h_Last
    simp only [failedChecks, List.mem_filter] at h_LastMem
    rw [← h_Post] at h_LastMem
    obtain ⟨k, c_Later, h_Get, h_LaterUsed, h_Eq⟩ :=
      datapoolChecks_mem pc_Protocol c_Metadata pc_View.c_RegisteredDashboardElements
        u32_NodeIndex _ _ c_Last h_LastMem.1
    rw [List.getElem?_drop] at h_Get
    refine ⟨i + 1 + k, c_Later, by omega, h_Get, h_LaterUsed, ?_⟩
    simp only [Option.map_some', Option.getD_some]
    rw [h_Eq]

theorem failedChecks_mem (c_Checks : List T_DatapoolCheck) (c_Check : T_DatapoolCheck) :
    c_Check ∈ failedChecks c_Checks ↔ c_Check ∈ c_Checks ∧ c_Check.s32_Return ≠ C_NO_ERR := by
  simp only [failedChecks, List.mem_filter, decide_eq_true_eq]

theorem reasons_of_failedChecks :
    ∀ (c_Checks : List T_DatapoolCheck),
      (∀ c_Check, c_Check ∈ c_Checks → ∃ c_Reason, c_Check.oc_ErrorReason = some c_Reason) →
      ((c_Checks.map (fun c => c.oc_ErrorReason.toList)).flatten).map some
        = c_Checks.map (fun c => c.oc_ErrorReason) := by
  intro c_Checks
  induction c_Checks with
  | nil => intro _; rfl
  | cons c_Head c_Tail ih =>
    intro h_All
    obtain ⟨c_Reason, h_Reason⟩ := h_All c_Head (List.mem_cons_self _ _)
    have h_Tail := ih (fun c hc => h_All c (List.mem_cons_of_mem _ hc))
    rw [List.map_cons, List.flatten_cons, List.map_append, h_Tail, List.map_cons, h_Reason]
    rfl

theorem datapoolChecks_failed_reasons (pc_Protocol : C_OscDiagProtocolBase)
    (c_Metadata : List C_DataPoolMetaData)
    (c_Ids : List C_OscNodeDataPoolListElementId) (u32_NodeIndex : Nat)
    (c_DataPools : List C_OscNodeDataPool) (u32_ItDataPool : Nat) :
    (((failedChecks (datapoolChecks pc_Protocol c_Metadata c_Ids u32_NodeIndex c_DataPools
        u32_ItDataPool)).map (fun c => c.oc_ErrorReason.toList)).flatten).map some
      = (failedChecks (datapoolChecks pc_Protocol c_Metadata c_Ids u32_NodeIndex c_DataPools
          u32_ItDataPool)).map (fun c => c.oc_ErrorReason) := by
  apply reasons_of_failedChecks
  intro c_Check h_Mem
  rw [failedChecks_mem] at h_Mem
  obtain ⟨k, rc_Datapool, _, _, h_Eq⟩ :=
    datapoolChecks_mem pc_Protocol c_Metadata c_Ids u32_NodeIndex _ _ c_Check h_Mem.1
  rw [h_Eq]
  apply checkDatapool_reason_of_failed
  rw [← h_Eq]
  exact h_Mem.2

theorem registerDataPoolMapping_protocol (d : C_SyvComDriverDiag) (u32_ActiveNode : Nat)
    (c_DatapoolMapping : List (Nat × Nat)) (pc_Protocol : C_OscDiagProtocolBase)
    (h_Protocol : d.mc_DiagProtocols[u32_ActiveNode]? = some pc_Protocol) :
    (d.registerDataPoolMapping u32_ActiveNode c_DatapoolMapping).mc_DiagProtocols[u32_ActiveNode]?
      = some { pc_Protocol with mc_DataPoolMapping := c_DatapoolMapping } := by
  simp only [C_SyvComDriverDiag.registerDataPoolMapping, List.getElem?_modify_eq, h_Protocol]
  rfl
/-! ## Lemmas: start of the diagnostic servers -/

theorem sameFrame_refl (d : C_SyvComDriverDiag) : d.sameFrame d :=
  ⟨rfl, rfl, rfl, rfl, rfl, rfl, rfl⟩

theorem sameFrame_trans {a b c : C_SyvComDriverDiag} (h1 : a.sameFrame b) (h2 : b.sameFrame c) :
    a.sameFrame c := by
  obtain ⟨a1, a2, a3, a4, a5, a6, a7⟩ := h1
  obtain ⟨b1, b2, b3, b4, b5, b6, b7⟩ := h2
  exact ⟨b1.trans a1, b2.trans a2, b3.trans a3, b4.trans a4, b5.trans a5, b6.trans a6,
    b7.trans a7⟩

theorem consistent_of_sameFrame (c_Project : T_Project) {d c_Other : C_SyvComDriverDiag}
    (h_Frame : d.sameFrame c_Other) (h_Consistent : d.consistent c_Project) :
    c_Other.consistent c_Project := by
  obtain ⟨_, _, a3, a4, _, a6, _⟩ := h_Frame
  unfold C_SyvComDriverDiag.consistent at h_Consistent ⊢
  rw [a3, a4, a6]
  exact h_Consistent

theorem m_GetAllDatapoolMetadata_frame (c_Project : T_Project) (d : C_SyvComDriverDiag)
    (ou32_ActiveDiagNodeIndex : Nat) (orc_ErrorDetails : List T_ErrorDetail)
    (c_Result : T_DriverResult)
    (h_Result : m_GetAllDatapoolMetadata c_Project d ou32_ActiveDiagNodeIndex orc_ErrorDetails
      = some c_Result) :
    d.sameFrame c_Result.c_Driver := by
  unfold m_GetAllDatapoolMetadata at h_Result
  split at h_Result
  · exact Option.noConfusion h_Result
  · split_ifs at h_Result with h_Zero
    · simp only [Option.some.injEq] at h_Result
      rw [← h_Result]
      exact sameFrame_refl d
    · split at h_Result
      · exact Option.noConfusion h_Result
      · rename_i pc_Protocol _
        simp only [] at h_Result
        have h_Length : ∀ c_Stored : List (List C_DataPoolMetaData),
            (if (getAllDatapoolMetadataLoop pc_Protocol
                  c_Project.hu32_MAX_NUMBER_OF_DATA_POOLS_PER_NODE 0).c_Metadata = [] then
                some d.mc_ReadDatapoolMetadata
              else
                (d.mc_ReadDatapoolMetadata[ou32_ActiveDiagNodeIndex]?).map
                  (fun c_Old => d.mc_ReadDatapoolMetadata.set ou32_ActiveDiagNodeIndex
                    (c_Old ++ (getAllDatapoolMetadataLoop pc_Protocol
                      c_Project.hu32_MAX_NUMBER_OF_DATA_POOLS_PER_NODE 0).c_Metadata)))
              = some c_Stored →
            c_Stored.length = d.mc_ReadDatapoolMetadata.length := by
          intro c_Stored h_Stored
          split_ifs at h_Stored
          · simp only [Option.some.injEq] at h_Stored
            rw [← h_Stored]
          · cases h_Old : d.mc_ReadDatapoolMetadata[ou32_ActiveDiagNodeIndex]? with
            | none => rw [h_Old] at h_Stored; exact Option.noConfusion h_Stored
            | some c_Old =>
              rw [h_Old] at h_Stored
              simp only [Option.map_some', Option.some.injEq] at h_Stored
              rw [← h_Stored, List.length_set]
        split at h_Result
        · exact Option.noConfusion h_Result
        · rename_i c_Stored h_Stored
          have h_Len := h_Length c_Stored h_Stored
          split at h_Result
          · simp only [Option.some.injEq] at h_Result
            rw [← h_Result]
            exact ⟨rfl, rfl, rfl, rfl, rfl, rfl, h_Len⟩
          · split at h_Result
            · exact Option.noConfusion h_Result
            · split at h_Result
              · simp only [Option.some.injEq] at h_Result
                rw [← h_Result]
                exact ⟨rfl, rfl, rfl, rfl, rfl, rfl, h_Len⟩
              · simp only [Option.some.injEq] at h_Result
                rw [← h_Result]
                exact ⟨rfl, rfl, rfl, rfl, rfl, rfl, h_Len⟩

theorem m_CheckOsyDatapoolsAndCreateMapping_frame (c_Project : T_Project)
    (d : C_SyvComDriverDiag) (ou32_ActiveDiagNodeIndex : Nat)
    (orc_ErrorDetails : List T_ErrorDetail) (c_Result : T_CheckResult)
    (h_Result : m_CheckOsyDatapoolsAndCreateMapping c_Project d ou32_ActiveDiagNodeIndex
      orc_ErrorDetails = some c_Result) :
    d.sameFrame c_Result.c_Driver := by
  unfold m_CheckOsyDatapoolsAndCreateMapping at h_Result
  split at h_Result
  · exact Option.noConfusion h_Result
  · split at h_Result
    · exact Option.noConfusion h_Result
    · split at h_Result
      · exact Option.noConfusion h_Result
      · split at h_Result
        · split at h_Result
          · exact Option.noConfusion h_Result
          · split_ifs at h_Result
            · simp only [Option.some.injEq] at h_Result
              rw [← h_Result]
              refine ⟨rfl, rfl, rfl, rfl, rfl, ?_, rfl⟩
              simp only [C_SyvComDriverDiag.registerDataPoolMapping, List.length_modify]
            · simp only [Option.some.injEq] at h_Result
              rw [← h_Result]
              exact sameFrame_refl d
        · simp only [Option.some.injEq] at h_Result
          rw [← h_Result]
          exact sameFrame_refl d

theorem m_CheckOsyDatapoolsAndCreateMapping_total (c_Project : T_Project)
    (d : C_SyvComDriverDiag) (ou32_ActiveDiagNodeIndex : Nat)
    (orc_ErrorDetails : List T_ErrorDetail) (u32_ActiveNode u32_NodeIndex : Nat)
    (h_ActiveNode : d.mc_ActiveDiagNodes[ou32_ActiveDiagNodeIndex]? = some u32_ActiveNode)
    (h_Protocol : u32_ActiveNode < d.mc_DiagProtocols.length)
    (h_NodeIndex : d.mc_ActiveNodesIndexes[u32_ActiveNode]? = some u32_NodeIndex)
    (h_Metadata : ou32_ActiveDiagNodeIndex < d.mc_ReadDatapoolMetadata.length) :
    ∃ c_Result, m_CheckOsyDatapoolsAndCreateMapping c_Project d ou32_ActiveDiagNodeIndex
      orc_ErrorDetails = some c_Result := by
  unfold m_CheckOsyDatapoolsAndCreateMapping
  simp only [h_ActiveNode, List.getElem?_eq_getElem h_Protocol, h_NodeIndex,
    List.getElem?_eq_getElem h_Metadata, checkDatapoolsLoop_eq_foldl]
  split
  · split_ifs
    · exact ⟨_, rfl⟩
    · exact ⟨_, rfl⟩
  · exact ⟨_, rfl⟩

theorem m_GetAllDatapoolMetadata_total (c_Project : T_Project) (d : C_SyvComDriverDiag)
    (ou32_ActiveDiagNodeIndex : Nat) (orc_ErrorDetails : List T_ErrorDetail)
    (u32_ActiveNode u32_NodeIndex : Nat)
    (h_ActiveNode : d.mc_ActiveDiagNodes[ou32_ActiveDiagNodeIndex]? = some u32_ActiveNode)
    (h_Protocol : u32_ActiveNode < d.mc_DiagProtocols.length)
    (h_NodeIndex : d.mc_ActiveNodesIndexes[u32_ActiveNode]? = some u32_NodeIndex)
    (h_Metadata : ou32_ActiveDiagNodeIndex < d.mc_ReadDatapoolMetadata.length) :
    ∃ c_Result, m_GetAllDatapoolMetadata c_Project d ou32_ActiveDiagNodeIndex orc_ErrorDetails
      = some c_Result := by
  obtain ⟨c_Result, h_Result, _⟩ :=
    m_GetAllDatapoolMetadata_of_scan c_Project d ou32_ActiveDiagNodeIndex orc_ErrorDetails
      u32_ActiveNode u32_NodeIndex d.mc_DiagProtocols[u32_ActiveNode]
      d.mc_ReadDatapoolMetadata[ou32_ActiveDiagNodeIndex] h_ActiveNode
      (List.getElem?_eq_getElem h_Protocol) h_NodeIndex (List.getElem?_eq_getElem h_Metadata)
  exact ⟨c_Result, h_Result⟩

theorem startDiagServer_cases (c_Project : T_Project) (u32_DiagNodeCounter : Nat)
    (c_State c_Next : T_StartState)
    (h_Step : startDiagServer c_Project u32_DiagNodeCounter c_State = some c_Next) :
    ∃ (u32_ActiveNode u32_NodeIndex : Nat),
      c_State.c_Driver.mc_ActiveDiagNodes[u32_DiagNodeCounter]? = some u32_ActiveNode ∧
      c_State.c_Driver.mc_ActiveNodesIndexes[u32_ActiveNode]? = some u32_NodeIndex ∧
      ((u32_NodeIndex ∉ c_State.c_Driver.mc_DiagNodesWithElements ∧ c_Next = c_State) ∨
       (u32_NodeIndex ∈ c_State.c_Driver.mc_DiagNodesWithElements ∧
         c_Project.c_Nodes[u32_NodeIndex]? = none ∧
         c_Next = { c_State with s32_Retval := C_CONFIG }) ∨
       (u32_NodeIndex ∈ c_State.c_Driver.mc_DiagNodesWithElements ∧
         ∃ pc_Node, c_Project.c_Nodes[u32_NodeIndex]? = some pc_Node ∧
          ((pc_Node.e_DiagnosticServer = E_DiagnosticServerProtocol.eDS_KEFEX ∧
              c_Next = c_State) ∨
           (pc_Node.e_DiagnosticServer ≠ E_DiagnosticServerProtocol.eDS_KEFEX ∧
             ∃ c_Read, m_GetAllDatapoolMetadata c_Project c_State.c_Driver
                 u32_DiagNodeCounter c_State.c_ErrorDetails = some c_Read ∧
               ((c_Read.s32_Return ≠ C_NO_ERR ∧
                  c_Next = { s32_Retval := c_Read.s32_Return
                             c_Driver := c_Read.c_Driver
                             c_ErrorDetails := c_Read.c_ErrorDetails
                             c_Requests := c_State.c_Requests ++ c_Read.c_Requests }) ∨
                (c_Read.s32_Return = C_NO_ERR ∧
                  ∃ c_Check, m_CheckOsyDatapoolsAndCreateMapping c_Project c_Read.c_Driver
                      u32_DiagNodeCounter c_Read.c_ErrorDetails = some c_Check ∧
                    c_Next = { s32_Retval :=
                                 if c_Check.s32_Return ≠ C_NO_ERR then c_Check.s32_Return
                                 else c_State.s32_Retval
                               c_Driver := c_Check.c_Driver
                               c_ErrorDetails := c_Check.c_ErrorDetails
                               c_Requests :=
                                 c_State.c_Requests ++ c_Read.c_Requests ++
                                   c_Check.c_Requests.map
                                     (T_Request.verify u32_ActiveNode) })))))) := by
  unfold startDiagServer at h_Step
  split at h_Step
  · exact Option.noConfusion h_Step
  · rename_i u32_ActiveNode h_ActiveNode
    split at h_Step
    · exact Option.noConfusion h_Step
    · rename_i u32_NodeIndex h_NodeIndex
      refine ⟨u32_ActiveNode, u32_NodeIndex, h_ActiveNode, h_NodeIndex, ?_⟩
      split_ifs at h_Step with h_Mem
      · right
        split at h_Step
        · rename_i h_Node
          left
          exact ⟨h_Mem, h_Node, (Option.some.inj h_Step).symm⟩
        · rename_i pc_Node h_Node
          right
          refine ⟨h_Mem, pc_Node, h_Node, ?_⟩
          split_ifs at h_Step with h_Kefex
          · left
            exact ⟨h_Kefex, (Option.some.inj h_Step).symm⟩
          · right
            refine ⟨h_Kefex, ?_⟩
            split at h_Step
            · exact Option.noConfusion h_Step
            · rename_i c_Read h_Read
              refine ⟨c_Read, h_Read, ?_⟩
              split_ifs at h_Step with h_Return
              · right
                refine ⟨h_Return, ?_⟩
                split at h_Step
                · exact Option.noConfusion h_Step
                · rename_i c_Check h_Check
                  exact ⟨c_Check, h_Check, (Option.some.inj h_Step).symm⟩
              · left
                exact ⟨h_Return, (Option.some.inj h_Step).symm⟩
      · left
        exact ⟨h_Mem, (Option.some.inj h_Step).symm⟩

theorem startDiagServer_frame (c_Project : T_Project) (u32_DiagNodeCounter : Nat)
    (c_State c_Next : T_StartState)
    (h_Step : startDiagServer c_Project u32_DiagNodeCounter c_State = some c_Next) :
    c_State.c_Driver.sameFrame c_Next.c_Driver := by
  obtain ⟨u32_ActiveNode, u32_NodeIndex, _, _, h_Cases⟩ :=
    startDiagServer_cases c_Project u32_DiagNodeCounter c_State c_Next h_Step
  rcases h_Cases with ⟨_, h_Eq⟩ | ⟨_, _, h_Eq⟩ | ⟨_, pc_Node, _, ⟨_, h_Eq⟩ | ⟨_, c_Read, h_Read, h_Rest⟩⟩
  · rw [h_Eq]; exact sameFrame_refl _
  · rw [h_Eq]; exact sameFrame_refl _
  · rw [h_Eq]; exact sameFrame_refl _
  · have h_ReadFrame := m_GetAllDatapoolMetadata_frame _ _ _ _ _ h_Read
    rcases h_Rest with ⟨_, h_Eq⟩ | ⟨_, c_Check, h_Check, h_Eq⟩
    · rw [h_Eq]; exact h_ReadFrame
    · rw [h_Eq]
      exact sameFrame_trans h_ReadFrame (m_CheckOsyDatapoolsAndCreateMapping_frame _ _ _ _ _ h_Check)

theorem startDiagServer_retval (c_Project : T_Project) (u32_DiagNodeCounter : Nat)
    (c_State c_Next : T_StartState)
    (h_Step : startDiagServer c_Project u32_DiagNodeCounter c_State = some c_Next)
    (h_Failed : c_State.s32_Retval ≠ C_NO_ERR) :
    c_Next.s32_Retval ≠ C_NO_ERR := by
  obtain ⟨u32_ActiveNode, u32_NodeIndex, _, _, h_Cases⟩ :=
    startDiagServer_cases c_Project u32_DiagNodeCounter c_State c_Next h_Step
  rcases h_Cases with ⟨_, h_Eq⟩ | ⟨_, _, h_Eq⟩ | ⟨_, pc_Node, _, ⟨_, h_Eq⟩ | ⟨_, c_Read, h_Read, h_Rest⟩⟩
  · rw [h_Eq]; exact h_Failed
  · rw [h_Eq]; exact fun h_Bad => T_Error.noConfusion h_Bad
  · rw [h_Eq]; exact h_Failed
  · rcases h_Rest with ⟨h_Return, h_Eq⟩ | ⟨_, c_Check, h_Check, h_Eq⟩
    · rw [h_Eq]; exact h_Return
    · rw [h_Eq]
      simp only []
      split_ifs with h_Code
      · exact h_Code
      · exact h_Failed

theorem startDiagServer_total (c_Project : T_Project) (u32_DiagNodeCounter : Nat)
    (c_State : T_StartState)
    (h_Consistent : c_State.c_Driver.consistent c_Project)
    (h_Length : c_State.c_Driver.mc_ReadDatapoolMetadata.length
      = c_State.c_Driver.mc_ActiveDiagNodes.length)
    (h_Counter : u32_DiagNodeCounter < c_State.c_Driver.mc_ActiveDiagNodes.length) :
    ∃ c_Next, startDiagServer c_Project u32_DiagNodeCounter c_State = some c_Next := by
  have h_ActiveNode := List.getElem?_eq_getElem h_Counter
  obtain ⟨h_Protocol, u32_NodeIndex, h_NodeIndex, h_NodeLt⟩ :=
    h_Consistent _ (List.getElem_mem h_Counter)
  have h_Node := List.getElem?_eq_getElem h_NodeLt
  unfold startDiagServer
  simp only [h_ActiveNode, h_NodeIndex, h_Node]
  split_ifs with h_Mem h_Kefex
  · exact ⟨_, rfl⟩
  · obtain ⟨c_Read, h_Read⟩ := m_GetAllDatapoolMetadata_total c_Project c_State.c_Driver
      u32_DiagNodeCounter c_State.c_ErrorDetails _ u32_NodeIndex h_ActiveNode h_Protocol
      h_NodeIndex (by omega)
    simp only [h_Read]
    split_ifs with h_Return
    · obtain ⟨_, _, a3, a4, _, a6, a7⟩ := m_GetAllDatapoolMetadata_frame _ _ _ _ _ h_Read
      obtain ⟨c_Check, h_Check⟩ := m_CheckOsyDatapoolsAndCreateMapping_total c_Project
        c_Read.c_Driver u32_DiagNodeCounter c_Read.c_ErrorDetails _ u32_NodeIndex
        (by rw [a4]; exact h_ActiveNode) (by rw [a6]; exact h_Protocol)
        (by rw [a3]; exact h_NodeIndex) (by rw [a7]; omega)
      simp only [h_Check]
      exact ⟨_, rfl⟩
    · exact ⟨_, rfl⟩
  · exact ⟨_, rfl⟩

theorem startDiagServersLoop_succ (c_Project : T_Project) :
    ∀ (u32_Count u32_DiagNodeCounter : Nat) (c_State : T_StartState),
      startDiagServersLoop c_Project (u32_Count + 1) u32_DiagNodeCounter c_State
        = (startDiagServersLoop c_Project u32_Count u32_DiagNodeCounter c_State).bind
            (startDiagServer c_Project (u32_DiagNodeCounter + u32_Count)) := by
  intro u32_Count
  induction u32_Count with
  | zero =>
    intro u32_DiagNodeCounter c_State
    simp only [startDiagServersLoop, Option.some_bind, Nat.add_zero]
    cases startDiagServer c_Project u32_DiagNodeCounter c_State <;> rfl
  | succ n ih =>
    intro u32_DiagNodeCounter c_State
    rw [startDiagServersLoop]
    cases h_Step : startDiagServer c_Project u32_DiagNodeCounter c_State with
    | none =>
      simp only [startDiagServersLoop, h_Step, Option.none_bind]
    | some c_Next =>
      simp only []
      rw [ih (u32_DiagNodeCounter + 1) c_Next]
      conv_rhs => rw [startDiagServersLoop]
      simp only [h_Step]
      rw [show u32_DiagNodeCounter + 1 + n = u32_DiagNodeCounter + (n + 1) by omega]

theorem startDiagServersLoop_total (c_Project : T_Project) (c_Init : T_StartState)
    (h_Consistent : c_Init.c_Driver.consistent c_Project)
    (h_Length : c_Init.c_Driver.mc_ReadDatapoolMetadata.length
      = c_Init.c_Driver.mc_ActiveDiagNodes.length) :
    ∀ u32_Count, u32_Count ≤ c_Init.c_Driver.mc_ActiveDiagNodes.length →
      ∃ c_State, startDiagServersLoop c_Project u32_Count 0 c_Init = some c_State ∧
        c_Init.c_Driver.sameFrame c_State.c_Driver := by
  intro u32_Count
  induction u32_Count with
  | zero => intro _; exact ⟨c_Init, rfl, sameFrame_refl _⟩
  | succ n ih =>
    intro h_Le
    obtain ⟨c_State, h_State, h_Frame⟩ := ih (by omega)
    have h_Frame2 := h_Frame
    obtain ⟨_, _, _, a4, _, _, a7⟩ := h_Frame2
    obtain ⟨c_Next, h_Next⟩ := startDiagServer_total c_Project n c_State
      (consistent_of_sameFrame c_Project h_Frame h_Consistent) (by rw [a4, a7]; exact h_Length)
      (by rw [a4]; omega)
    refine ⟨c_Next, ?_, sameFrame_trans h_Frame (startDiagServer_frame _ _ _ _ h_Next)⟩
    rw [startDiagServersLoop_succ, h_State, Option.some_bind, Nat.zero_add, h_Next]

theorem startDiagServersLoop_retval (c_Project : T_Project) (c_Init : T_StartState) :
    ∀ (u32_More u32_Count : Nat) (c_State c_Later : T_StartState),
      startDiagServersLoop c_Project u32_Count 0 c_Init = some c_State →
      startDiagServersLoop c_Project (u32_Count + u32_More) 0 c_Init = some c_Later →
      c_State.s32_Retval ≠ C_NO_ERR → c_Later.s32_Retval ≠ C_NO_ERR := by
  intro u32_More
  induction u32_More with
  | zero =>
    intro u32_Count c_State c_Later h_State h_Later h_Failed
    rw [Nat.add_zero, h_State] at h_Later
    rw [← Option.some.inj h_Later]
    exact h_Failed
  | succ m ih =>
    intro u32_Count c_State c_Later h_State h_Later h_Failed
    rw [← Nat.add_assoc, startDiagServersLoop_succ] at h_Later
    cases h_Mid : startDiagServersLoop c_Project (u32_Count + m) 0 c_Init with
    | none => rw [h_Mid] at h_Later; exact Option.noConfusion h_Later
    | some c_Mid =>
      rw [h_Mid, Option.some_bind] at h_Later
      exact startDiagServer_retval _ _ _ _ h_Later (ih u32_Count c_State c_Mid h_State h_Mid h_Failed)

theorem startDiagServersLoop_first_failure (c_Project : T_Project) (c_Init : T_StartState)
    (h_Init : c_Init.s32_Retval = C_NO_ERR) :
    ∀ (u32_Count : Nat) (c_State : T_StartState),
      startDiagServersLoop c_Project u32_Count 0 c_Init = some c_State →
      c_State.s32_Retval ≠ C_NO_ERR →
      ∃ (k : Nat) (c_Before c_After : T_StartState), k < u32_Count ∧
        startDiagServersLoop c_Project k 0 c_Init = some c_Before ∧
        startDiagServer c_Project k c_Before = some c_After ∧
        c_Before.s32_Retval = C_NO_ERR ∧ c_After.s32_Retval ≠ C_NO_ERR := by
  intro u32_Count
  induction u32_Count with
  | zero =>
    intro c_State h_State h_Failed
    simp only [startDiagServersLoop, Option.some.injEq] at h_State
    rw [← h_State] at h_Failed
    exact absurd h_Init h_Failed
  | succ n ih =>
    intro c_State h_State h_Failed
    rw [startDiagServersLoop_succ] at h_State
    cases h_Mid : startDiagServersLoop c_Project n 0 c_Init with
    | none => rw [h_Mid] at h_State; exact Option.noConfusion h_State
    | some c_Mid =>
      rw [h_Mid, Option.some_bind, Nat.zero_add] at h_State
      by_cases h_MidFailed : c_Mid.s32_Retval = C_NO_ERR
      · exact ⟨n, c_Mid, c_State, by omega, h_Mid, h_State, h_MidFailed, h_Failed⟩
      · obtain ⟨k, c_Before, c_After, h_K, h1, h2, h3, h4⟩ := ih c_Mid h_Mid h_MidFailed
        exact ⟨k, c_Before, c_After, by omega, h1, h2, h3, h4⟩

theorem mem_setInsert (c_Set : List Nat) (u32_Value x : Nat) :
    x ∈ setInsert c_Set u32_Value ↔ x ∈ c_Set ∨ x = u32_Value := by
  unfold setInsert
  split_ifs with h_Mem
  · constructor
    · exact fun h => Or.inl h
    · rintro (h | h)
      · exact h
      · rw [h]; exact h_Mem
  · simp only [List.mem_append, List.mem_singleton]

theorem mem_foldl_setInsert :
    ∀ (c_Values c_Set : List Nat) (x : Nat),
      x ∈ c_Values.foldl setInsert c_Set ↔ x ∈ c_Set ∨ x ∈ c_Values := by
  intro c_Values
  induction c_Values with
  | nil => intro c_Set x; simp
  | cons c_Head c_Tail ih =>
    intro c_Set x
    rw [List.foldl_cons, ih, mem_setInsert, List.mem_cons]
    constructor
    · rintro ((h | h) | h)
      · exact Or.inl h
      · exact Or.inr (Or.inl h)
      · exact Or.inr (Or.inr h)
    · rintro (h | h | h)
      · exact Or.inl (Or.inl h)
      · exact Or.inl (Or.inr h)
      · exact Or.inr h

theorem m_InitDiagNodes_mem (c_Project : T_Project) (d : C_SyvComDriverDiag)
    (pc_View : C_PuiSvData) (h_View : c_Project.c_Views[d.mu32_ViewIndex]? = some pc_View)
    (u32_NodeIndex : Nat) :
    u32_NodeIndex ∈ (m_InitDiagNodes c_Project d).2.mc_DiagNodesWithElements ↔
      u32_NodeIndex ∈ d.mc_DiagNodesWithElements ∨
      (∃ c_Id, c_Id ∈ pc_View.c_ReadRailAssignments ∧ c_Id.u32_NodeIndex = u32_NodeIndex) ∨
      (∃ c_Id, c_Id ∈ pc_View.c_WriteAssignments ∧ c_Id.u32_NodeIndex = u32_NodeIndex) := by
  simp only [m_InitDiagNodes, h_View, mem_foldl_setInsert, List.mem_map, or_assoc]
/-! ## Lemmas: start of the routing -/

theorem addRoutingErrorNode_set (c_Project : T_Project) (d : C_SyvComDriverDiag)
    (c_Details c_Result : List T_ErrorDetail × List Nat) (u32_ActiveNode : Nat)
    (h_Result : addRoutingErrorNode c_Project d c_Details u32_ActiveNode = some c_Result) :
    c_Result.2 = setInsert c_Details.2 u32_ActiveNode := by
  unfold addRoutingErrorNode at h_Result
  split_ifs at h_Result with h_Mem
  · rw [← Option.some.inj h_Result]
    simp only [setInsert, if_pos h_Mem]
  · split at h_Result
    · exact Option.noConfusion h_Result
    · split at h_Result
      · rw [← Option.some.inj h_Result]
      · rw [← Option.some.inj h_Result]

theorem m_GetRoutingErrorDetails_set (c_Project : T_Project) (d : C_SyvComDriverDiag)
    (orc_ErrorDetails : List T_ErrorDetail) (orc_ErrorActiveNodes : List Nat)
    (ou32_ActiveNode ou32_ErrorActiveNodeIndex : Nat)
    (c_Result : List T_ErrorDetail × List Nat)
    (h_Result : m_GetRoutingErrorDetails c_Project d orc_ErrorDetails orc_ErrorActiveNodes
      ou32_ActiveNode (some ou32_ErrorActiveNodeIndex) = some c_Result) :
    c_Result.2 = setInsert (setInsert orc_ErrorActiveNodes ou32_ActiveNode)
      ou32_ErrorActiveNodeIndex := by
  unfold m_GetRoutingErrorDetails at h_Result
  simp only [] at h_Result
  split at h_Result
  · exact Option.noConfusion h_Result
  · rename_i c_First h_First
    rw [addRoutingErrorNode_set _ _ _ _ _ h_Result, addRoutingErrorNode_set _ _ _ _ _ h_First]

theorem routingCalls_cons (c_Body : Nat → Option (Option T_NodeRouting))
    (u32_ActiveNode : Nat) (c_Rest : List Nat) (c_Routing : T_NodeRouting)
    (h_Body : c_Body u32_ActiveNode = some (some c_Routing)) :
    routingCalls c_Body (u32_ActiveNode :: c_Rest)
      = c_Routing.c_Calls ++ routingCalls c_Body c_Rest := by
  simp only [routingCalls, List.map_cons, List.flatten_cons, h_Body]

theorem routingCalls_ip2ip (c_Base : T_RoutingBase) (c_ActiveNodes : List Nat) :
    routingCalls (startRoutingIp2IpOfNode c_Base) c_ActiveNodes
      = c_ActiveNodes.map T_RoutingCall.startRoutingIp2Ip := by
  induction c_ActiveNodes with
  | nil => rfl
  | cons c_Head c_Tail ih =>
    rw [routingCalls_cons _ _ _ _ rfl, ih]
    rfl

theorem drop_take_succ (c_Nodes : List Nat) (u32_Start u32_Count u32_ActiveNode : Nat)
    (h_Node : c_Nodes[u32_Start]? = some u32_ActiveNode) :
    (c_Nodes.drop u32_Start).take (u32_Count + 1)
      = u32_ActiveNode :: (c_Nodes.drop (u32_Start + 1)).take u32_Count := by
  have h_Lt : u32_Start < c_Nodes.length := by
    by_contra h_Not
    rw [List.getElem?_eq_none (by omega)] at h_Node
    exact Option.noConfusion h_Node
  rw [List.getElem?_eq_getElem h_Lt] at h_Node
  rw [← List.getElem_cons_drop _ _ h_Lt, List.take_succ_cons, Option.some.inj h_Node]

theorem startRoutingLoop_first_failure (c_Project : T_Project) (d : C_SyvComDriverDiag)
    (c_Body : Nat → Option (Option T_NodeRouting)) (u32_ActiveNode u32_Error : Nat)
    (c_Routing : T_NodeRouting) (c_Details : List T_ErrorDetail × List Nat)
    (c_ErrorDetails : List T_ErrorDetail) (c_ErrorActiveNodes : List Nat)
    (h_Body : c_Body u32_ActiveNode = some (some c_Routing))
    (h_Failed : c_Routing.s32_Return ≠ C_NO_ERR)
    (h_Error : c_Routing.ou32_ErrorActiveNodeIndex = some u32_Error)
    (h_Details : m_GetRoutingErrorDetails c_Project d c_ErrorDetails c_ErrorActiveNodes
        u32_ActiveNode (some u32_Error) = some c_Details) :
    ∀ (k u32_Left u32_Start : Nat) (c_State : T_RoutingState), k < u32_Left →
      (∀ (i c_Earlier : Nat), i < k → d.mc_ActiveDiagNodes[u32_Start + i]? = some c_Earlier →
        ∃ c_Ok, c_Body c_Earlier = some (some c_Ok) ∧ c_Ok.s32_Return = C_NO_ERR) →
      (∀ i, i < k → u32_Start + i < d.mc_ActiveDiagNodes.length) →
      d.mc_ActiveDiagNodes[u32_Start + k]? = some u32_ActiveNode →
      c_State.c_ErrorDetails = c_ErrorDetails →
      c_State.c_ErrorActiveNodes = c_ErrorActiveNodes →
      startRoutingLoop c_Project d c_Body u32_Left u32_Start c_State
        = some { s32_Return := c_Routing.s32_Return
                 ou32_ErrorActiveNodeIndex := some u32_Error
                 c_ErrorDetails := c_Details.1
                 c_ErrorActiveNodes := c_Details.2
                 c_Calls := c_State.c_Calls ++
                   routingCalls c_Body ((d.mc_ActiveDiagNodes.drop u32_Start).take (k + 1)) } := by
  intro k
  induction k with
  | zero =>
    intro u32_Left u32_Start c_State h_K _ _ h_Node h_D h_S
    obtain ⟨n, rfl⟩ : ∃ n, u32_Left = n + 1 := ⟨u32_Left - 1, by omega⟩
    rw [Nat.add_zero] at h_Node
    rw [← h_D, ← h_S] at h_Details
    rw [drop_take_succ _ _ _ _ h_Node, List.take_zero, routingCalls_cons _ _ _ _ h_Body]
    simp only [startRoutingLoop, h_Node, h_Body, h_Error, ne_eq, h_Failed, not_false_eq_true,
      if_true, h_Details, routingCalls, List.map_nil, List.flatten_nil, List.append_nil,
      errorActiveNodeIndexAfter]
  | succ k ih =>
    intro u32_Left u32_Start c_State h_K h_Before h_InRange h_Node h_D h_S
    obtain ⟨n, rfl⟩ : ∃ n, u32_Left = n + 1 := ⟨u32_Left - 1, by omega⟩
    have h_Lt := h_InRange 0 (Nat.succ_pos k)
    rw [Nat.add_zero] at h_Lt
    have h_First := List.getElem?_eq_getElem h_Lt
    obtain ⟨c_Ok, h_OkBody, h_OkReturn⟩ := h_Before 0 _ (Nat.succ_pos k)
      (by rw [Nat.add_zero]; exact h_First)
    rw [drop_take_succ _ _ _ _ h_First, routingCalls_cons _ _ _ _ h_OkBody]
    rw [startRoutingLoop]
    simp only [h_First, h_OkBody, h_OkReturn, ne_eq, not_true_eq_false, if_false]
    refine (ih n (u32_Start + 1) _ (by omega)
      (fun i c_Earlier hi h_Get => h_Before (i + 1) c_Earlier (by omega)
        (by rw [show u32_Start + (i + 1) = u32_Start + 1 + i by omega]; exact h_Get))
      (fun i hi => by
        have h := h_InRange (i + 1) (by omega)
        omega)
      (by rw [show u32_Start + 1 + k = u32_Start + (k + 1) by omega]; exact h_Node)
      (by exact h_D) (by exact h_S)).trans ?_
    simp only [List.append_assoc]

theorem startRoutingLoop_all_ok (c_Project : T_Project) (d : C_SyvComDriverDiag)
    (c_Body : Nat → Option (Option T_NodeRouting)) :
    ∀ (u32_Left u32_Start : Nat) (c_State : T_RoutingState),
      u32_Start + u32_Left ≤ d.mc_ActiveDiagNodes.length →
      (∀ (i c_Earlier : Nat), i < u32_Left →
        d.mc_ActiveDiagNodes[u32_Start + i]? = some c_Earlier →
        ∃ c_Ok, c_Body c_Earlier = some (some c_Ok) ∧ c_Ok.s32_Return = C_NO_ERR) →
      c_State.s32_Return = C_NO_ERR →
      ∃ c_Final, startRoutingLoop c_Project d c_Body u32_Left u32_Start c_State = some c_Final ∧
        c_Final.s32_Return = C_NO_ERR ∧
        c_Final.c_ErrorDetails = c_State.c_ErrorDetails ∧
        c_Final.c_ErrorActiveNodes = c_State.c_ErrorActiveNodes ∧
        c_Final.c_Calls = c_State.c_Calls ++
          routingCalls c_Body ((d.mc_ActiveDiagNodes.drop u32_Start).take u32_Left) := by
  intro u32_Left
  induction u32_Left with
  | zero =>
    intro u32_Start c_State _ _ h_State
    exact ⟨c_State, rfl, h_State, rfl, rfl, by simp [routingCalls]⟩
  | succ n ih =>
    intro u32_Start c_State h_Le h_All h_State
    have h_Lt : u32_Start < d.mc_ActiveDiagNodes.length := by omega
    have h_First := List.getElem?_eq_getElem h_Lt
    obtain ⟨c_Ok, h_OkBody, h_OkReturn⟩ := h_All 0 _ (Nat.succ_pos n)
      (by rw [Nat.add_zero]; exact h_First)
    rw [drop_take_succ _ _ _ _ h_First, routingCalls_cons _ _ _ _ h_OkBody]
    rw [startRoutingLoop]
    simp only [h_First, h_OkBody, h_OkReturn, ne_eq, not_true_eq_false, if_false]
    obtain ⟨c_Final, h_Final, h1, h2, h3, h4⟩ := ih (u32_Start + 1)
      { s32_Return := C_NO_ERR
        ou32_ErrorActiveNodeIndex :=
          errorActiveNodeIndexAfter c_State.ou32_ErrorActiveNodeIndex
            c_Ok.ou32_ErrorActiveNodeIndex
        c_ErrorDetails := c_State.c_ErrorDetails
        c_ErrorActiveNodes := c_State.c_ErrorActiveNodes
        c_Calls := c_State.c_Calls ++ c_Ok.c_Calls }
      (by omega)
      (fun i c_Earlier hi h_Get => h_All (i + 1) c_Earlier (by omega)
        (by rw [show u32_Start + (i + 1) = u32_Start + 1 + i by omega]; exact h_Get))
      rfl
    refine ⟨c_Final, h_Final, h1, h2, h3, ?_⟩
    rw [h4]
    simp only [List.append_assoc]
/-! ## Lemmas: received CAN messages -/

theorem signalFits_spec (c_Util : T_CanUtil) (orc_Msg : T_STWCAN_Msg_RX)
    (rc_WidgetRegistration : C_SyvComDriverDiagWidgetRegistration) :
    ((signalFits c_Util orc_Msg rc_WidgetRegistration).1 = true ↔
      specDeliversValue c_Util orc_Msg rc_WidgetRegistration) ∧
    (((signalFits c_Util orc_Msg rc_WidgetRegistration).1 = false ∧
        (signalFits c_Util orc_Msg rc_WidgetRegistration).2 = true) ↔
      specReportsDlcError c_Util orc_Msg rc_WidgetRegistration) := by
  unfold signalFits specDeliversValue specReportsDlcError
  by_cases h_Mux : rc_WidgetRegistration.c_Signal.e_MultiplexerType
      = E_MultiplexerType.eMUX_MULTIPLEXED_SIGNAL
  · by_cases h_MuxFits : c_Util.h_IsSignalInMessage orc_Msg.u8_DLC
        rc_WidgetRegistration.c_MultiplexerSignal = true
    · by_cases h_Selected : rc_WidgetRegistration.c_Signal.u16_MultiplexValue
          = multiplexerValue c_Util orc_Msg rc_WidgetRegistration
      · cases h_Fits : c_Util.h_IsSignalInMessage orc_Msg.u8_DLC rc_WidgetRegistration.c_Signal <;>
          simp [h_Mux, h_MuxFits, h_Selected, h_Fits]
      · cases h_Fits : c_Util.h_IsSignalInMessage orc_Msg.u8_DLC rc_WidgetRegistration.c_Signal <;>
          simp [h_Mux, h_MuxFits, h_Selected, h_Fits]
    · cases h_Fits : c_Util.h_IsSignalInMessage orc_Msg.u8_DLC rc_WidgetRegistration.c_Signal <;>
        simp [h_Mux, h_MuxFits, h_Fits]
  · cases h_Fits : c_Util.h_IsSignalInMessage orc_Msg.u8_DLC rc_WidgetRegistration.c_Signal <;>
      simp [h_Mux, h_Fits]

theorem specDeliversValue_not_specReportsDlcError (c_Util : T_CanUtil)
    (orc_Msg : T_STWCAN_Msg_RX) (rc_WidgetRegistration : C_SyvComDriverDiagWidgetRegistration) :
    ¬ (specDeliversValue c_Util orc_Msg rc_WidgetRegistration ∧
      specReportsDlcError c_Util orc_Msg rc_WidgetRegistration) := by
  rintro ⟨h_Value, h_Error⟩
  have h_Spec := signalFits_spec c_Util orc_Msg rc_WidgetRegistration
  have h1 := h_Spec.1.mpr h_Value
  have h2 := (h_Spec.2.mpr h_Error).1
  rw [h1] at h2
  exact Bool.noConfusion h2

theorem handleRegistration_spec (c_Util : T_CanUtil) (orc_Msg : T_STWCAN_Msg_RX)
    (rc_WidgetRegistration : C_SyvComDriverDiagWidgetRegistration) (u32_Handler : Nat)
    (h_Handler : rc_WidgetRegistration.pc_Handler = some u32_Handler)
    (h_Extended : rc_WidgetRegistration.q_IsExtended = decide (orc_Msg.u8_XTD = 1)) :
    handleRegistration c_Util orc_Msg rc_WidgetRegistration
      = if specDeliversValue c_Util orc_Msg rc_WidgetRegistration then
          [T_WidgetCall.InsertNewValueIntoQueue u32_Handler rc_WidgetRegistration.c_ElementId
            ((c_Util.h_GetSignalValue orc_Msg.au8_Data rc_WidgetRegistration.c_Signal
              rc_WidgetRegistration.c_ElementContent).SetTimeStamp
              (orc_Msg.u64_TimeStamp / 1000 % U32_MOD))]
        else if specReportsDlcError c_Util orc_Msg rc_WidgetRegistration then
          [T_WidgetCall.SetErrorForInvalidDlc u32_Handler rc_WidgetRegistration.c_ElementId
            orc_Msg.u8_DLC]
        else [] := by
  have h_Spec := signalFits_spec c_Util orc_Msg rc_WidgetRegistration
  unfold handleRegistration
  simp only [h_Handler, h_Extended, if_true]
  by_cases h_Value : (signalFits c_Util orc_Msg rc_WidgetRegistration).1 = true
  · rw [if_pos h_Value, if_pos (h_Spec.1.mp h_Value)]
  · rw [if_neg h_Value, if_neg (fun h => h_Value (h_Spec.1.mpr h))]
    by_cases h_Error : (signalFits c_Util orc_Msg rc_WidgetRegistration).2 = true
    · rw [if_pos h_Error, if_pos (h_Spec.2.mp ⟨by simpa using h_Value, h_Error⟩)]
    · rw [if_neg h_Error, if_neg (fun h => h_Error (h_Spec.2.mpr h).2)]

/-! ## Lemmas: reads of the decode loop -/

/-- With the layout condition, an element whose size check passes lies inside the dump. -/
theorem elementIndex_inside_of_check (start : Nat) (vals : List Nat)
    (e : C_OSCNodeDataPoolListElement)
    (h_Start : start ≤ e.u32_NvMStartAddress)
    (h_End : e.u32_NvMStartAddress - start + e.GetSizeByte < U32_MOD)
    (h_Check : vals.length ≥ u32_add (elementIndex start e) e.GetSizeByte) :
    elementIndex start e + e.GetSizeByte ≤ vals.length := by
  have h_Index : elementIndex start e = e.u32_NvMStartAddress - start :=
    u32_sub_of_le _ _ h_Start (by omega)
  rw [h_Index] at h_Check ⊢
  unfold u32_add at h_Check
  rw [Nat.mod_eq_of_lt h_End] at h_Check
  exact h_Check

/-- With the layout condition the decode loop never reads outside the dump: it hands back a
result for every dump. -/
theorem saveDumpLoop_isSome (p : C_OSCDiagProtocolBase) (start : Nat) (vals : List Nat)
    (es : List C_OSCNodeDataPoolListElement)
    (h_Layout : ∀ e ∈ es, start ≤ e.u32_NvMStartAddress ∧
      e.u32_NvMStartAddress - start + e.GetSizeByte < U32_MOD) :
    (saveDumpLoop p start vals es).isSome = true := by
  induction es with
  | nil => rfl
  | cons e es ih =>
    have h_Rest := ih (fun x hx => h_Layout x (List.mem_cons_of_mem _ hx))
    obtain ⟨h_Start, h_End⟩ := h_Layout e (List.mem_cons_self _ _)
    rw [saveDumpLoop]
    split_ifs with h_Check
    · have h_Inside := elementIndex_inside_of_check start vals e h_Start h_End h_Check
      rw [readBytes_eq_some _ _ _ h_Inside]
      obtain ⟨c_Result, h_Result⟩ := Option.isSome_iff_exists.mp h_Rest
      rw [h_Result]
      rfl
    · rfl

/-! ## Lemmas: registration of the data pool mapping -/

/-- The checks of the data pools used on a dashboard all pass exactly when the check of every
data pool of the client that is used on a dashboard passes. -/
theorem datapoolChecks_all_passed_iff (pc_Protocol : C_OscDiagProtocolBase)
    (c_Metadata : List C_DataPoolMetaData)
    (c_Ids : List C_OscNodeDataPoolListElementId) (u32_NodeIndex : Nat)
    (c_DataPools : List C_OscNodeDataPool) :
    (∀ c_Check, c_Check ∈ datapoolChecks pc_Protocol c_Metadata c_Ids u32_NodeIndex c_DataPools 0 →
      c_Check.s32_Return = C_NO_ERR) ↔
    (∀ (i : Nat) (rc_Datapool : C_OscNodeDataPool), c_DataPools[i]? = some rc_Datapool →
      isDatapoolRelevant c_Ids u32_NodeIndex i = true →
      (checkDatapool pc_Protocol c_Metadata rc_Datapool i).s32_Return = C_NO_ERR) := by
  constructor
  · intro h_All i rc_Datapool h_Pool h_Used
    apply h_All
    rw [datapoolChecks_split pc_Protocol c_Metadata c_Ids u32_NodeIndex c_DataPools i rc_Datapool
      h_Pool h_Used]
    exact List.mem_append_right _ (List.mem_cons_self _ _)
  · intro h_All c_Check h_Mem
    obtain ⟨k, rc_Datapool, h_Pool, h_Used, h_Eq⟩ :=
      datapoolChecks_mem pc_Protocol c_Metadata c_Ids u32_NodeIndex c_DataPools 0 c_Check h_Mem
    rw [Nat.zero_add] at h_Used h_Eq
    rw [h_Eq]
    exact h_All k rc_Datapool h_Pool h_Used

/-- The value of `s32_Retval` after the loop over the data pools: the value from before the
loop if the check of every data pool used on a dashboard passes, and otherwise the return code
of the last data pool used on a dashboard whose check fails. -/
theorem foldl_take_retval_last_failed (pc_Protocol : C_OscDiagProtocolBase)
    (c_Metadata : List C_DataPoolMetaData)
    (c_Ids : List C_OscNodeDataPoolListElementId) (u32_NodeIndex : Nat) :
    ∀ (c_DataPools : List C_OscNodeDataPool) (u32_ItDataPool : Nat) (c_State : T_CheckState),
      ((∀ (k : Nat) (rc_Datapool : C_OscNodeDataPool), c_DataPools[k]? = some rc_Datapool →
          isDatapoolRelevant c_Ids u32_NodeIndex (u32_ItDataPool + k) = true →
          (checkDatapool pc_Protocol c_Metadata rc_Datapool (u32_ItDataPool + k)).s32_Return
            = C_NO_ERR) ∧
        ((datapoolChecks pc_Protocol c_Metadata c_Ids u32_NodeIndex c_DataPools
          u32_ItDataPool).foldl T_CheckState.take c_State).s32_Retval = c_State.s32_Retval) ∨
      ∃ (k : Nat) (c_Last : C_OscNodeDataPool), c_DataPools[k]? = some c_Last ∧
        isDatapoolRelevant c_Ids u32_NodeIndex (u32_ItDataPool + k) = true ∧
        (checkDatapool pc_Protocol c_Metadata c_Last (u32_ItDataPool + k)).s32_Return
          ≠ C_NO_ERR ∧
        ((datapoolChecks pc_Protocol c_Metadata c_Ids u32_NodeIndex c_DataPools
          u32_ItDataPool).foldl T_CheckState.take c_State).s32_Retval
          = (checkDatapool pc_Protocol c_Metadata c_Last (u32_ItDataPool + k)).s32_Return ∧
        ∀ (j : Nat) (rc_Datapool : C_OscNodeDataPool), k < j →
          c_DataPools[j]? = some rc_Datapool →
          isDatapoolRelevant c_Ids u32_NodeIndex (u32_ItDataPool + j) = true →
          (checkDatapool pc_Protocol c_Metadata rc_Datapool (u32_ItDataPool + j)).s32_Return
            = C_NO_ERR := by
  intro c_DataPools
  induction c_DataPools with
  | nil =>
    intro u32_ItDataPool c_State
    left
    refine ⟨fun k rc_Datapool h_Get => ?_, rfl⟩
    simp at h_Get
  | cons c_Head c_Tail ih =>
    intro u32_ItDataPool c_State
    have h_Shift : ∀ k, u32_ItDataPool + 1 + k = u32_ItDataPool + (k + 1) := fun k => by omega
    -- the state after the head and what is known about it
    have h_Step : ∀ c_Next : T_CheckState,
        (((∀ (k : Nat) (rc_Datapool : C_OscNodeDataPool), c_Tail[k]? = some rc_Datapool →
            isDatapoolRelevant c_Ids u32_NodeIndex (u32_ItDataPool + 1 + k) = true →
            (checkDatapool pc_Protocol c_Metadata rc_Datapool
              (u32_ItDataPool + 1 + k)).s32_Return = C_NO_ERR) ∧
          ((datapoolChecks pc_Protocol c_Metadata c_Ids u32_NodeIndex c_Tail
            (u32_ItDataPool + 1)).foldl T_CheckState.take c_Next).s32_Retval
            = c_Next.s32_Retval) ∨
        ∃ (k : Nat) (c_Last : C_OscNodeDataPool), c_Tail[k]? = some c_Last ∧
          isDatapoolRelevant c_Ids u32_NodeIndex (u32_ItDataPool + 1 + k) = true ∧
          (checkDatapool pc_Protocol c_Metadata c_Last (u32_ItDataPool + 1 + k)).s32_Return
            ≠ C_NO_ERR ∧
          ((datapoolChecks pc_Protocol c_Metadata c_Ids u32_NodeIndex c_Tail
            (u32_ItDataPool + 1)).foldl T_CheckState.take c_Next).s32_Retval
            = (checkDatapool pc_Protocol c_Metadata c_Last
                (u32_ItDataPool + 1 + k)).s32_Return ∧
          ∀ (j : Nat) (rc_Datapool : C_OscNodeDataPool), k < j →
            c_Tail[j]? = some rc_Datapool →
            isDatapoolRelevant c_Ids u32_NodeIndex (u32_ItDataPool + 1 + j) = true →
            (checkDatapool pc_Protocol c_Metadata rc_Datapool
              (u32_ItDataPool + 1 + j)).s32_Return = C_NO_ERR) := fun c_Next =>
      ih (u32_ItDataPool + 1) c_Next
    by_cases h_Used : isDatapoolRelevant c_Ids u32_NodeIndex u32_ItDataPool = true
    · rw [datapoolChecks, if_pos h_Used, List.foldl_cons]
      rcases h_Step (c_State.take
        (checkDatapool pc_Protocol c_Metadata c_Head u32_ItDataPool)) with
        ⟨h_All, h_Retval⟩ | ⟨k, c_Last, h_Get, h_LastUsed, h_LastFailed, h_Retval, h_Later⟩
      · by_cases h_Failed : (checkDatapool pc_Protocol c_Metadata c_Head
            u32_ItDataPool).s32_Return = C_NO_ERR
        · left
          refine ⟨fun k rc_Datapool h_Get h_KUsed => ?_, ?_⟩
          · cases k with
            | zero =>
              simp only [List.getElem?_cons_zero, Option.some.injEq] at h_Get
              rw [← h_Get]
              exact h_Failed
            | succ n =>
              simp only [List.getElem?_cons_succ] at h_Get
              rw [← h_Shift n] at h_KUsed ⊢
              exact h_All n rc_Datapool h_Get h_KUsed
          · rw [h_Retval]
            simp only [T_CheckState.take, h_Failed, ne_eq, not_true_eq_false, if_false]
        · right
          refine ⟨0, c_Head, List.getElem?_cons_zero, h_Used, h_Failed, ?_,
            fun j rc_Datapool h_Lt h_Get h_JUsed => ?_⟩
          · rw [h_Retval]
            simp only [T_CheckState.take, ne_eq, h_Failed, not_false_eq_true, if_true]
            rfl
          · cases j with
            | zero => omega
            | succ n =>
              simp only [List.getElem?_cons_succ] at h_Get
              rw [← h_Shift n] at h_JUsed ⊢
              exact h_All n rc_Datapool h_Get h_JUsed
      · right
        refine ⟨k + 1, c_Last, by simpa using h_Get, ?_, ?_, ?_,
          fun j rc_Datapool h_Lt h_JGet h_JUsed => ?_⟩
        · rw [← h_Shift k]
          exact h_LastUsed
        · rw [← h_Shift k]
          exact h_LastFailed
        · rw [← h_Shift k]
          exact h_Retval
        · cases j with
          | zero => omega
          | succ n =>
            simp only [List.getElem?_cons_succ] at h_JGet
            rw [← h_Shift n] at h_JUsed ⊢
            exact h_Later n rc_Datapool (by omega) h_JGet h_JUsed
    · rw [datapoolChecks, if_neg h_Used]
      rcases h_Step c_State with
        ⟨h_All, h_Retval⟩ | ⟨k, c_Last, h_Get, h_LastUsed, h_LastFailed, h_Retval, h_Later⟩
      · left
        refine ⟨fun k rc_Datapool h_Get h_KUsed => ?_, h_Retval⟩
        cases k with
        | zero => exact absurd h_KUsed h_Used
        | succ n =>
          simp only [List.getElem?_cons_succ] at h_Get
          rw [← h_Shift n] at h_KUsed ⊢
          exact h_All n rc_Datapool h_Get h_KUsed
      · right
        refine ⟨k + 1, c_Last, by simpa using h_Get, ?_, ?_, ?_,
          fun j rc_Datapool h_Lt h_JGet h_JUsed => ?_⟩
        · rw [← h_Shift k]
          exact h_LastUsed
        · rw [← h_Shift k]
          exact h_LastFailed
        · rw [← h_Shift k]
          exact h_Retval
        · cases j with
          | zero => omega
          | succ n =>
            simp only [List.getElem?_cons_succ] at h_JGet
            rw [← h_Shift n] at h_JUsed ⊢
            exact h_Later n rc_Datapool (by omega) h_JGet h_JUsed

/-- The return code of `m_CheckOsyDatapoolsAndCreateMapping` when the check of a data pool used
on a dashboard fails: the return code of the check of the last data pool used on a dashboard
whose check fails. -/
theorem m_CheckOsyDatapoolsAndCreateMapping_last_failed
    (c_Project : T_Project) (d : C_SyvComDriverDiag) (ou32_ActiveDiagNodeIndex : Nat)
    (orc_ErrorDetails : List T_ErrorDetail) (u32_ActiveNode u32_NodeIndex : Nat)
    (pc_Protocol : C_OscDiagProtocolBase) (pc_View : C_PuiSvData) (pc_Node : C_OscNode)
    (c_Metadata : List C_DataPoolMetaData) (i : Nat) (rc_Datapool : C_OscNodeDataPool)
    (c_Result : T_CheckResult)
    (h_ActiveNode : d.mc_ActiveDiagNodes[ou32_ActiveDiagNodeIndex]? = some u32_ActiveNode)
    (h_Protocol : d.mc_DiagProtocols[u32_ActiveNode]? = some pc_Protocol)
    (h_NodeIndex : d.mc_ActiveNodesIndexes[u32_ActiveNode]? = some u32_NodeIndex)
    (h_View : c_Project.c_Views[d.mu32_ViewIndex]? = some pc_View)
    (h_Node : c_Project.c_Nodes[u32_NodeIndex]? = some pc_Node)
    (h_Osy : pc_Protocol.q_IsOsy = true)
    (h_Metadata : d.mc_ReadDatapoolMetadata[ou32_ActiveDiagNodeIndex]? = some c_Metadata)
    (h_Pool : pc_Node.c_DataPools[i]? = some rc_Datapool)
    (h_Used : isDatapoolRelevant pc_View.c_RegisteredDashboardElements u32_NodeIndex i = true)
    (h_Failed : (checkDatapool pc_Protocol c_Metadata rc_Datapool i).s32_Return ≠ C_NO_ERR)
    (h_Result : m_CheckOsyDatapoolsAndCreateMapping c_Project d ou32_ActiveDiagNodeIndex
      orc_ErrorDetails = some c_Result) :
    ∃ (k : Nat) (c_Last : C_OscNodeDataPool), i ≤ k ∧
      pc_Node.c_DataPools[k]? = some c_Last ∧
      isDatapoolRelevant pc_View.c_RegisteredDashboardElements u32_NodeIndex k = true ∧
      (checkDatapool pc_Protocol c_Metadata c_Last k).s32_Return = c_Result.s32_Return ∧
      ∀ (j : Nat) (c_Later : C_OscNodeDataPool), k < j →
        pc_Node.c_DataPools[j]? = some c_Later →
        isDatapoolRelevant pc_View.c_RegisteredDashboardElements u32_NodeIndex j = true →
        (checkDatapool pc_Protocol c_Metadata c_Later j).s32_Return = C_NO_ERR := by
  have h_Return : c_Result.s32_Return
      = ((datapoolChecks pc_Protocol c_Metadata pc_View.c_RegisteredDashboardElements
          u32_NodeIndex pc_Node.c_DataPools 0).foldl T_CheckState.take
          { s32_Retval := C_NO_ERR, c_DataPoolErrorString := [], c_DatapoolMapping := []
            c_Requests := [] }).s32_Retval := by
    rw [m_CheckOsyDatapoolsAndCreateMapping_of_checks c_Project d ou32_ActiveDiagNodeIndex
      orc_ErrorDetails u32_ActiveNode u32_NodeIndex pc_Protocol pc_View pc_Node c_Metadata
      h_ActiveNode h_Protocol h_NodeIndex h_View h_Node h_Osy h_Metadata] at h_Result
    rw [← Option.some.inj h_Result]
    split_ifs with h_Ok
    · exact h_Ok.symm
    · rfl
  rcases foldl_take_retval_last_failed pc_Protocol c_Metadata
      pc_View.c_RegisteredDashboardElements u32_NodeIndex pc_Node.c_DataPools 0
      { s32_Retval := C_NO_ERR, c_DataPoolErrorString := [], c_DatapoolMapping := []
        c_Requests := [] } with
    ⟨h_All, _⟩ | ⟨k, c_Last, h_Get, h_LastUsed, h_LastFailed, h_Retval, h_Later⟩
  · have h_Passed := h_All i rc_Datapool h_Pool (by rw [Nat.zero_add]; exact h_Used)
    rw [Nat.zero_add] at h_Passed
    exact absurd h_Passed h_Failed
  · rw [Nat.zero_add] at h_LastUsed h_Retval
    refine ⟨k, c_Last, ?_, h_Get, h_LastUsed, ?_, fun j c_Later h_Lt h_JGet h_JUsed => ?_⟩
    · by_contra h_Not
      have h_Passed := h_Later i rc_Datapool (by omega) h_Pool
        (by rw [Nat.zero_add]; exact h_Used)
      rw [Nat.zero_add] at h_Passed
      exact h_Failed h_Passed
    · rw [h_Return, h_Retval]
    · have h_Passed := h_Later j c_Later h_Lt h_JGet (by rw [Nat.zero_add]; exact h_JUsed)
      rw [Nat.zero_add] at h_Passed
      exact h_Passed

/-! ## Lemmas: time stamps of delivered values -/

theorem mem_deliveredTimeStamps (c_Calls : List T_WidgetCall) (u32_TimeStamp : Nat) :
    u32_TimeStamp ∈ deliveredTimeStamps c_Calls ↔
      ∃ u32_Handler c_ElementId c_Content,
        T_WidgetCall.InsertNewValueIntoQueue u32_Handler c_ElementId c_Content ∈ c_Calls ∧
        c_Content.u32_TimeStamp = u32_TimeStamp := by
  unfold deliveredTimeStamps
  rw [List.mem_filterMap]
  constructor
  · rintro ⟨c_Call, h_Mem, h_Some⟩
    cases c_Call with
    | InsertNewValueIntoQueue u32_Handler c_ElementId c_Content =>
      simp only [Option.some.injEq] at h_Some
      exact ⟨u32_Handler, c_ElementId, c_Content, h_Mem, h_Some⟩
    | SetErrorForInvalidDlc _ _ _ => exact Option.noConfusion h_Some
  · rintro ⟨u32_Handler, c_ElementId, c_Content, h_Mem, h_Eq⟩
    exact ⟨_, h_Mem, by simp only [h_Eq]⟩

/-- Every value that the body of the loop of `m_HandleCanMessage` delivers has the time stamp
of the frame in milliseconds as 32 bit number. -/
theorem handleRegistration_time_stamp (c_Util : T_CanUtil) (orc_Msg : T_STWCAN_Msg_RX)
    (rc_WidgetRegistration : C_SyvComDriverDiagWidgetRegistration) (u32_TimeStamp : Nat)
    (h_Mem : u32_TimeStamp
      ∈ deliveredTimeStamps (handleRegistration c_Util orc_Msg rc_WidgetRegistration)) :
    u32_TimeStamp = orc_Msg.u64_TimeStamp / 1000 % U32_MOD := by
  rw [mem_deliveredTimeStamps] at h_Mem
  obtain ⟨u32_Handler, c_ElementId, c_Content, h_Call, h_Eq⟩ := h_Mem
  unfold handleRegistration at h_Call
  split at h_Call
  · exact absurd h_Call (List.not_mem_nil _)
  · simp only at h_Call
    split_ifs at h_Call
    · rw [List.mem_singleton] at h_Call
      injection h_Call with _ _ h_Content
      rw [← h_Eq, h_Content]
      rfl
    · rw [List.mem_singleton] at h_Call
      exact T_WidgetCall.noConfusion h_Call
    · exact absurd h_Call (List.not_mem_nil _)
    · exact absurd h_Call (List.not_mem_nil _)

/-- Every value that `m_HandleCanMessage` delivers has the time stamp of the frame in
milliseconds as 32 bit number. -/
theorem m_HandleCanMessage_time_stamp_eq (c_Util : T_CanUtil)
    (mc_AllWidgets : List (C_OscCanMessageUniqueId × List C_SyvComDriverDiagWidgetRegistration))
    (orc_Msg : T_STWCAN_Msg_RX) (u32_TimeStamp : Nat)
    (h_Mem : u32_TimeStamp ∈ deliveredTimeStamps (m_HandleCanMessage c_Util mc_AllWidgets orc_Msg)) :
    u32_TimeStamp = orc_Msg.u64_TimeStamp / 1000 % U32_MOD := by
  rw [mem_deliveredTimeStamps] at h_Mem
  obtain ⟨u32_Handler, c_ElementId, c_Content, h_Call, h_Eq⟩ := h_Mem
  unfold m_HandleCanMessage at h_Call
  split at h_Call
  · exact absurd h_Call (List.not_mem_nil _)
  · rw [List.mem_flatten] at h_Call
    obtain ⟨c_Calls, h_List, h_In⟩ := h_Call
    rw [List.mem_map] at h_List
    obtain ⟨rc_WidgetRegistration, _, h_Body⟩ := h_List
    apply handleRegistration_time_stamp c_Util orc_Msg rc_WidgetRegistration
    rw [mem_deliveredTimeStamps, h_Body]
    exact ⟨u32_Handler, c_ElementId, c_Content, h_In, h_Eq⟩

/-! ## Lemmas: stop of the diagnosis -/

theorem mem_kfxIndexes :
    ∀ (c_Protocols : List C_OscDiagProtocolBase) (u32_Counter i : Nat),
      i ∈ kfxIndexes c_Protocols u32_Counter ↔
        ∃ (j : Nat) (c_Protocol : C_OscDiagProtocolBase),
          c_Protocols[j]? = some c_Protocol ∧ c_Protocol.q_IsKfx = true ∧ i = u32_Counter + j := by
  intro c_Protocols
  induction c_Protocols with
  | nil =>
    intro u32_Counter i
    simp [kfxIndexes]
  | cons c_Head c_Tail ih =>
    intro u32_Counter i
    have h_Tail : i ∈ kfxIndexes c_Tail (u32_Counter + 1) ↔
        ∃ (j : Nat) (c_Protocol : C_OscDiagProtocolBase),
          (c_Head :: c_Tail)[j + 1]? = some c_Protocol ∧ c_Protocol.q_IsKfx = true ∧
          i = u32_Counter + (j + 1) := by
      rw [ih]
      constructor
      · rintro ⟨j, c_Protocol, h_Get, h_Kfx, h_Eq⟩
        exact ⟨j, c_Protocol, by simpa using h_Get, h_Kfx, by omega⟩
      · rintro ⟨j, c_Protocol, h_Get, h_Kfx, h_Eq⟩
        exact ⟨j, c_Protocol, by simpa using h_Get, h_Kfx, by omega⟩
    unfold kfxIndexes
    by_cases h_Kfx : c_Head.q_IsKfx = true
    · rw [if_pos h_Kfx, List.mem_cons, h_Tail]
      constructor
      · rintro (h_Eq | ⟨j, c_Protocol, h_Get, h_Flag, h_Eq⟩)
        · exact ⟨0, c_Head, by simp, h_Kfx, by omega⟩
        · exact ⟨j + 1, c_Protocol, h_Get, h_Flag, h_Eq⟩
      · rintro ⟨j, c_Protocol, h_Get, h_Flag, h_Eq⟩
        cases j with
        | zero => left; omega
        | succ j => right; exact ⟨j, c_Protocol, h_Get, h_Flag, h_Eq⟩
    · rw [if_neg h_Kfx, h_Tail]
      constructor
      · rintro ⟨j, c_Protocol, h_Get, h_Flag, h_Eq⟩
        exact ⟨j + 1, c_Protocol, h_Get, h_Flag, h_Eq⟩
      · rintro ⟨j, c_Protocol, h_Get, h_Flag, h_Eq⟩
        cases j with
        | zero =>
          simp only [List.getElem?_cons_zero, Option.some.injEq] at h_Get
          rw [h_Get] at h_Kfx
          exact absurd h_Flag h_Kfx
        | succ j => exact ⟨j, c_Protocol, h_Get, h_Flag, h_Eq⟩

theorem kfxIndexes_nodup :
    ∀ (c_Protocols : List C_OscDiagProtocolBase) (u32_Counter : Nat),
      (kfxIndexes c_Protocols u32_Counter).Nodup := by
  intro c_Protocols
  induction c_Protocols with
  | nil => intro _; exact List.nodup_nil
  | cons c_Head c_Tail ih =>
    intro u32_Counter
    unfold kfxIndexes
    split_ifs with h_Kfx
    · refine List.nodup_cons.mpr ⟨?_, ih _⟩
      intro h_Mem
      rw [mem_kfxIndexes] at h_Mem
      obtain ⟨j, _, _, _, h_Eq⟩ := h_Mem
      omega
    · exact ih _

theorem logoffLoop_calls :
    ∀ (c_Protocols : List C_OscDiagProtocolBase) (u32_Counter : Nat) (s32_Return : T_Error),
      (logoffLoop c_Protocols u32_Counter s32_Return).2
        = (kfxIndexes c_Protocols u32_Counter).map (fun i => T_StopCall.Logoff i false) := by
  intro c_Protocols
  induction c_Protocols with
  | nil => intro _ _; rfl
  | cons c_Head c_Tail ih =>
    intro u32_Counter s32_Return
    unfold logoffLoop kfxIndexes
    split_ifs with h_Kfx
    · simp only [List.map_cons, ih]
    · exact ih _ _

theorem logoffLoop_return :
    ∀ (c_Protocols : List C_OscDiagProtocolBase) (u32_Counter : Nat) (s32_Return : T_Error),
      (logoffLoop c_Protocols u32_Counter s32_Return).1 = C_NO_ERR ↔
        s32_Return = C_NO_ERR ∧
        ∀ c_Protocol, c_Protocol ∈ c_Protocols → c_Protocol.q_IsKfx = true →
          c_Protocol.Logoff false = C_NO_ERR := by
  intro c_Protocols
  induction c_Protocols with
  | nil =>
    intro _ s32_Return
    simp [logoffLoop]
  | cons c_Head c_Tail ih =>
    intro u32_Counter s32_Return
    unfold logoffLoop
    split_ifs with h_Kfx
    · simp only [ih, List.mem_cons, forall_eq_or_imp]
      by_cases h_Logoff : c_Head.Logoff false = C_NO_ERR
      · simp [h_Logoff]
      · simp [h_Logoff, h_Kfx]
    · rw [ih]
      simp only [List.mem_cons, forall_eq_or_imp]
      constructor
      · rintro ⟨h_Ret, h_All⟩
        exact ⟨h_Ret, fun h_Bad => absurd h_Bad h_Kfx, h_All⟩
      · rintro ⟨h_Ret, _, h_All⟩
        exact ⟨h_Ret, h_All⟩

theorem stopEventDrivenLoop_total (d : C_SyvComDriverDiag) :
    ∀ (c_ActiveDiagNodes : List Nat) (s32_Return : T_Error),
      (∀ u32_ActiveNode, u32_ActiveNode ∈ c_ActiveDiagNodes →
        u32_ActiveNode < d.mc_DiagProtocols.length) →
      ∃ s32_Result, stopEventDrivenLoop d c_ActiveDiagNodes s32_Return
        = some (s32_Result,
            c_ActiveDiagNodes.map (fun u32_ActiveNode =>
              T_StopCall.DataPoolStopEventDriven u32_ActiveNode)) := by
  intro c_ActiveDiagNodes
  induction c_ActiveDiagNodes with
  | nil => intro s32_Return _; exact ⟨s32_Return, rfl⟩
  | cons u32_Head c_Tail ih =>
    intro s32_Return h_All
    have h_Lt := h_All u32_Head (List.mem_cons_self _ _)
    unfold stopEventDrivenLoop
    rw [List.getElem?_eq_getElem h_Lt]
    obtain ⟨s32_Result, h_Rest⟩ := ih
      (if (d.mc_DiagProtocols[u32_Head]).DataPoolStopEventDriven ≠ C_NO_ERR then C_COM
        else s32_Return)
      (fun n hn => h_All n (List.mem_cons_of_mem _ hn))
    simp only [h_Rest, List.map_cons]
    exact ⟨s32_Result, rfl⟩

/-- The result of `StopDiagnosisServer` on an initialized driver whose active nodes with
diagnosis all have a protocol instance. -/
theorem StopDiagnosisServer_initialized (c_Project : T_Project) (d : C_SyvComDriverDiag)
    (h_Initialized : d.mq_Initialized = true)
    (h_Protocols : ∀ u32_ActiveNode, u32_ActiveNode ∈ d.mc_ActiveDiagNodes →
      u32_ActiveNode < d.mc_DiagProtocols.length) :
    ∃ c_Stop : List T_StopCall,
      (c_Stop = [] ∨ c_Stop = d.mc_ActiveDiagNodes.map (fun u32_ActiveNode =>
        T_StopCall.DataPoolStopEventDriven u32_ActiveNode)) ∧
      StopDiagnosisServer c_Project d
        = some { s32_Return := (logoffLoop d.mc_DiagProtocols 0 C_NO_ERR).1
                 c_Driver := { d with mq_Initialized := false }
                 c_Calls := (kfxIndexes d.mc_DiagProtocols 0).map
                     (fun i => T_StopCall.Logoff i false) ++ c_Stop ++
                   [T_StopCall.m_StopRoutingOfActiveNodes] } := by
  unfold StopDiagnosisServer StopCyclicTransmissions
  rw [if_pos h_Initialized]
  cases h_View : c_Project.c_Views[d.mu32_ViewIndex]? with
  | none =>
    refine ⟨[], Or.inl rfl, ?_⟩
    simp only [logoffLoop_calls]
  | some pc_View =>
    obtain ⟨s32_Result, h_Loop⟩ := stopEventDrivenLoop_total d d.mc_ActiveDiagNodes C_NO_ERR
      h_Protocols
    refine ⟨_, Or.inr rfl, ?_⟩
    simp only [h_Initialized, Bool.true_eq_false, if_false, h_Loop, logoffLoop_calls]

/-! ## Lemmas: polling -/

theorem Start_in_flight (t : C_SyvComPollingThreadDiag) (c_InFlight c_Request : T_PollRequest)
    (h_InFlight : t.oc_Request = some c_InFlight) :
    t.Start c_Request = (C_BUSY, t) := by
  unfold C_SyvComPollingThreadDiag.Start
  rw [h_InFlight]

theorem Start_accepted (t : C_SyvComPollingThreadDiag) (c_Request : T_PollRequest)
    (h_Idle : t.oc_Request = none) :
    t.Start c_Request = (C_NO_ERR, { t with oc_Request := some c_Request }) := by
  unfold C_SyvComPollingThreadDiag.Start
  rw [h_Idle]

theorem getElem?_of_all_some (mc_DataDealers : List (Option C_SyvComDataDealer))
    (u32_ActiveIndex : Nat)
    (h_Dealers : ∀ c_Dealer, c_Dealer ∈ mc_DataDealers → c_Dealer ≠ none)
    (h_Index : u32_ActiveIndex < mc_DataDealers.length) :
    ∃ c_Dealer, mc_DataDealers[u32_ActiveIndex]? = some (some c_Dealer) := by
  have h_Get := List.getElem?_eq_getElem h_Index
  have h_Some := h_Dealers _ (List.getElem_mem h_Index)
  cases h_Value : mc_DataDealers[u32_ActiveIndex] with
  | none => exact absurd h_Value h_Some
  | some c_Dealer => exact ⟨c_Dealer, by rw [h_Get, h_Value]⟩

/-- The start of a request at a data dealer of the vector while a request is in flight. -/
theorem startPolling_in_flight (mc_DataDealers : List (Option C_SyvComDataDealer))
    (t : C_SyvComPollingThreadDiag) (u32_ActiveIndex : Nat)
    (c_Build : C_SyvComDataDealer → T_PollRequest) (c_InFlight : T_PollRequest)
    (h_InFlight : t.oc_Request = some c_InFlight)
    (h_Dealers : ∀ c_Dealer, c_Dealer ∈ mc_DataDealers → c_Dealer ≠ none)
    (h_Index : u32_ActiveIndex < mc_DataDealers.length) :
    ∃ c_Dealer, mc_DataDealers[u32_ActiveIndex]? = some (some c_Dealer) ∧
      startPolling mc_DataDealers t u32_ActiveIndex c_Build
        = some { s32_Return := C_BUSY, c_PollingThread := t
                 oc_Started := some (c_Build c_Dealer) } := by
  obtain ⟨c_Dealer, h_Get⟩ := getElem?_of_all_some mc_DataDealers u32_ActiveIndex h_Dealers h_Index
  refine ⟨c_Dealer, h_Get, ?_⟩
  unfold startPolling
  rw [h_Get]
  simp only [Start_in_flight t c_InFlight _ h_InFlight]

/-- The start of a request at a data dealer of the vector while no request is in flight. -/
theorem startPolling_accepted (mc_DataDealers : List (Option C_SyvComDataDealer))
    (t : C_SyvComPollingThreadDiag) (u32_ActiveIndex : Nat)
    (c_Build : C_SyvComDataDealer → T_PollRequest) (c_Dealer : C_SyvComDataDealer)
    (h_Idle : t.oc_Request = none)
    (h_Get : mc_DataDealers[u32_ActiveIndex]? = some (some c_Dealer)) :
    startPolling mc_DataDealers t u32_ActiveIndex c_Build
      = some { s32_Return := C_NO_ERR
               c_PollingThread := { t with oc_Request := some (c_Build c_Dealer) }
               oc_Started := some (c_Build c_Dealer) } := by
  unfold startPolling
  rw [h_Get]
  simp only [Start_accepted t _ h_Idle]

/-- What a `Poll...` function without the flag hands back while a request is in flight. -/
theorem poll_in_flight (mc_DataDealers : List (Option C_SyvComDataDealer))
    (t : C_SyvComPollingThreadDiag) (u32_ActiveIndex : Nat)
    (c_Build : C_SyvComDataDealer → T_PollRequest) (c_InFlight : T_PollRequest)
    (h_InFlight : t.oc_Request = some c_InFlight)
    (h_Dealers : ∀ c_Dealer, c_Dealer ∈ mc_DataDealers → c_Dealer ≠ none) :
    ∃ c_Result : T_PollResult,
      (if u32_ActiveIndex ≥ mc_DataDealers.length then
        some { s32_Return := C_RANGE, c_PollingThread := t, oc_Started := none }
      else startPolling mc_DataDealers t u32_ActiveIndex c_Build) = some c_Result ∧
      c_Result.c_PollingThread = t ∧
      c_Result.s32_Return
        = (if u32_ActiveIndex < mc_DataDealers.length then C_BUSY else C_RANGE) := by
  by_cases h_Index : u32_ActiveIndex < mc_DataDealers.length
  · obtain ⟨c_Dealer, _, h_Start⟩ := startPolling_in_flight mc_DataDealers t u32_ActiveIndex
      c_Build c_InFlight h_InFlight h_Dealers h_Index
    rw [if_neg (by omega), if_pos h_Index, h_Start]
    exact ⟨_, rfl, rfl, rfl⟩
  · rw [if_pos (by omega), if_neg h_Index]
    exact ⟨_, rfl, rfl, rfl⟩

/-- What a `Poll...` function without the flag hands back while a request is in flight: the
polling thread is as before, the return code is `C_RANGE` for an index outside the data dealers
and `C_BUSY` for an index inside. -/
theorem poll_in_flight_codes (mc_DataDealers : List (Option C_SyvComDataDealer))
    (t : C_SyvComPollingThreadDiag) (u32_ActiveIndex : Nat)
    (c_Build : C_SyvComDataDealer → T_PollRequest) (c_InFlight : T_PollRequest)
    (h_InFlight : t.oc_Request = some c_InFlight)
    (h_Dealers : ∀ c_Dealer, c_Dealer ∈ mc_DataDealers → c_Dealer ≠ none) :
    ∃ c_Result : T_PollResult,
      (if u32_ActiveIndex ≥ mc_DataDealers.length then
        some { s32_Return := C_RANGE, c_PollingThread := t, oc_Started := none }
      else startPolling mc_DataDealers t u32_ActiveIndex c_Build) = some c_Result ∧
      c_Result.c_PollingThread = t ∧
      (u32_ActiveIndex ≥ mc_DataDealers.length → c_Result.s32_Return = C_RANGE) ∧
      (u32_ActiveIndex < mc_DataDealers.length → c_Result.s32_Return = C_BUSY) := by
  obtain ⟨c_Result, h_Result, h_Thread, h_Return⟩ :=
    poll_in_flight mc_DataDealers t u32_ActiveIndex c_Build c_InFlight h_InFlight h_Dealers
  refine ⟨c_Result, h_Result, h_Thread, fun h_Out => ?_, fun h_In => ?_⟩
  · rw [h_Return, if_neg (by omega)]
  · rw [h_Return, if_pos h_In]

/-! ## Lemmas: diagnostic mode -/

theorem m_StartDiagServers_total (c_Project : T_Project) (d : C_SyvComDriverDiag)
    (orc_ErrorDetails : List T_ErrorDetail) (h_Consistent : d.consistent c_Project) :
    ∃ c_Result, m_StartDiagServers c_Project d orc_ErrorDetails = some c_Result := by
  have h_InitConsistent : (startDiagServersInit d orc_ErrorDetails).c_Driver.consistent
      c_Project := h_Consistent
  have h_InitLength :
      (startDiagServersInit d orc_ErrorDetails).c_Driver.mc_ReadDatapoolMetadata.length
        = (startDiagServersInit d orc_ErrorDetails).c_Driver.mc_ActiveDiagNodes.length := by
    simp only [startDiagServersInit, List.length_replicate]
  have h_Total := startDiagServersLoop_total c_Project (startDiagServersInit d orc_ErrorDetails)
    h_InitConsistent h_InitLength
  have h_N : (startDiagServersInit d orc_ErrorDetails).c_Driver.mc_ActiveDiagNodes.length
      = d.mc_ActiveDiagNodes.length := rfl
  rw [h_N] at h_Total
  obtain ⟨c_Final, h_Final, _⟩ := h_Total d.mc_ActiveDiagNodes.length (Nat.le_refl _)
  unfold m_StartDiagServers
  split_ifs
  · rw [h_Final]
    exact ⟨_, rfl⟩
  · exact ⟨_, rfl⟩
  · exact ⟨_, rfl⟩

/-- The steps between the routing and the start of the diagnosis servers, and the return code
in front of the start of the diagnosis servers. -/
theorem setSessionAndSecurity_steps (d : C_SyvComDriverDiag) (c_Session : T_SessionBase)
    (c_Routing : T_RoutingState) :
    (setSessionAndSecurity d c_Session c_Routing).2.2.2
      = (if c_Routing.s32_Return = C_NO_ERR ∨ c_Routing.s32_Return = C_TIMEOUT then
          [T_DiagnosticModeStep.m_SetNodesSessionId d.mc_ActiveDiagNodes
            c_Session.hu8_DIAGNOSTIC_SESSION_EXTENDED_DIAGNOSIS true c_Routing.c_ErrorActiveNodes]
        else []) ++
        (if (c_Routing.s32_Return = C_NO_ERR ∨ c_Routing.s32_Return = C_TIMEOUT) ∧
            (sessionStepResult d c_Session c_Routing).1 = C_NO_ERR then
          [T_DiagnosticModeStep.m_SetNodesSecurityAccess d.mc_ActiveDiagNodes 1
            (sessionStepResult d c_Session c_Routing).2]
        else []) ∧
    ((setSessionAndSecurity d c_Session c_Routing).1 = C_NO_ERR ↔
      (c_Routing.s32_Return = C_NO_ERR ∨ c_Routing.s32_Return = C_TIMEOUT) ∧
      (sessionStepResult d c_Session c_Routing).1 = C_NO_ERR ∧
      (securityStepResult d c_Session c_Routing).1 = C_NO_ERR) ∧
    (¬ (c_Routing.s32_Return = C_NO_ERR ∨ c_Routing.s32_Return = C_TIMEOUT) →
      (setSessionAndSecurity d c_Session c_Routing).1 = c_Routing.s32_Return) := by
  unfold setSessionAndSecurity
  by_cases h_Gate : c_Routing.s32_Return = C_NO_ERR ∨ c_Routing.s32_Return = C_TIMEOUT
  · by_cases h_SessionOk : (sessionStepResult d c_Session c_Routing).1 = C_NO_ERR
    · simp only [if_pos h_Gate, if_pos h_SessionOk, h_Gate, h_SessionOk, and_self, if_true,
        true_and, not_true_eq_false, false_implies, and_true]
      rfl
    · simp only [if_pos h_Gate, if_neg h_SessionOk, h_Gate, h_SessionOk, and_false, if_false,
        false_and, not_true_eq_false, false_implies, and_true, iff_false, true_and]
      exact ⟨rfl, h_SessionOk⟩
  · simp only [if_neg h_Gate, h_Gate, false_and, if_false, iff_false]
    refine ⟨rfl, fun h_Ok => h_Gate (Or.inl h_Ok), fun _ => trivial⟩

/-! ## Lemmas: initialization -/

theorem initMembers_sameFrame_refl (m : T_InitMembers) : m.sameFrame m :=
  ⟨rfl, rfl, rfl, rfl, rfl, rfl, rfl, rfl, rfl, rfl, rfl⟩

theorem initMembers_sameFrame_trans {a b c : T_InitMembers} (h_First : a.sameFrame b)
    (h_Second : b.sameFrame c) : a.sameFrame c := by
  obtain ⟨a1, a2, a3, a4, a5, a6, a7, a8, a9, a10, a11⟩ := h_First
  obtain ⟨b1, b2, b3, b4, b5, b6, b7, b8, b9, b10, b11⟩ := h_Second
  exact ⟨b1.trans a1, b2.trans a2, b3.trans a3, b4.trans a4, b5.trans a5, b6.trans a6,
    b7.trans a7, b8.trans a8, b9.trans a9, b10.trans a10, b11.trans a11⟩

/-- The body of the loop of `m_InitDiagProtocol` for a node of the system definition, with all
vectors long enough. -/
theorem initDiagProtocolOfNode_spec (c_Project : T_Project) (c_Base : T_InitBase)
    (u32_NodeIndex u32_ItActiveNode : Nat) (m : T_InitMembers) (pc_Node : C_OscNode)
    (h_Node : c_Project.c_Nodes[u32_NodeIndex]? = some pc_Node)
    (h_Transport : u32_ItActiveNode < m.mc_TransportProtocols.length)
    (h_Server : u32_ItActiveNode < m.mc_ServerIds.length)
    (h_Diag : u32_ItActiveNode < m.mc_DiagProtocols.length)
    (h_Osy : u32_ItActiveNode < m.mc_OsyProtocols.length) :
    ∃ c_Result : T_Error × T_InitMembers,
      initDiagProtocolOfNode c_Project c_Base u32_NodeIndex u32_ItActiveNode m = some c_Result ∧
      m.sameFrame c_Result.2 ∧
      c_Result.2.mc_DiagProtocols
        = m.mc_DiagProtocols.set u32_ItActiveNode (instanceOfNode pc_Node u32_ItActiveNode) ∧
      (c_Result.1 = C_NO_ERR ∨ c_Result.1 = C_OVERFLOW) ∧
      (noDiagnosticServer pc_Node →
        c_Result.1 = C_OVERFLOW) ∧
      (¬ noDiagnosticServer pc_Node →
        (∀ c_TransportProtocol, c_Base.SetTransportProtocol c_TransportProtocol = C_NO_ERR) →
        (∀ c_ServerId, c_Base.SetNodeIdentifiers c_Base.c_ClientId c_ServerId = C_NO_ERR) →
        c_Result.1 = C_NO_ERR) := by
  unfold initDiagProtocolOfNode
  rw [h_Node]
  cases h_Server_Type : pc_Node.e_DiagnosticServer with
  | eDS_NONE =>
    simp only [h_Server_Type, if_pos h_Diag]
    refine ⟨_, rfl, ⟨rfl, rfl, rfl, rfl, rfl, rfl, rfl, rfl, rfl, ?_, rfl⟩, ?_,
      Or.inr rfl, fun _ => rfl, fun h_Bad => absurd (Or.inl h_Server_Type) h_Bad⟩
    · simp only [List.length_set]
    · simp only [instanceOfNode, h_Server_Type]
  | eDS_UNKNOWN =>
    simp only [h_Server_Type, if_pos h_Diag]
    refine ⟨_, rfl, ⟨rfl, rfl, rfl, rfl, rfl, rfl, rfl, rfl, rfl, ?_, rfl⟩, ?_,
      Or.inr rfl, fun _ => rfl, fun h_Bad => absurd (Or.inr h_Server_Type) h_Bad⟩
    · simp only [List.length_set]
    · simp only [instanceOfNode, h_Server_Type]
  | eDS_KEFEX =>
    simp only [h_Server_Type, if_pos h_Diag]
    refine ⟨_, rfl, ⟨rfl, rfl, rfl, rfl, rfl, rfl, rfl, rfl, rfl, ?_, rfl⟩, ?_,
      Or.inl rfl, fun h_Bad => ?_, fun _ _ _ => rfl⟩
    · simp only [List.length_set]
    · simp only [instanceOfNode, h_Server_Type]
    · unfold noDiagnosticServer at h_Bad
      rw [h_Server_Type] at h_Bad
      exact absurd h_Bad (by decide)
  | eDS_OPEN_SYDE =>
    simp only [h_Server_Type, List.getElem?_eq_getElem h_Transport,
      List.getElem?_eq_getElem h_Server]
    by_cases h_Set : c_Base.SetTransportProtocol m.mc_TransportProtocols[u32_ItActiveNode]
        = C_NO_ERR
    · by_cases h_Ids : c_Base.SetNodeIdentifiers c_Base.c_ClientId
          m.mc_ServerIds[u32_ItActiveNode] = C_NO_ERR
      · simp only [if_pos h_Set, h_Ids, ne_eq, not_true_eq_false, if_false,
          if_pos (And.intro h_Osy h_Diag)]
        refine ⟨_, rfl, ⟨rfl, rfl, rfl, rfl, rfl, rfl, rfl, rfl, rfl, ?_, ?_⟩, ?_,
          Or.inl rfl, fun h_Bad => ?_, fun _ _ _ => rfl⟩
        · simp only [List.length_set]
        · simp only [List.length_set]
        · simp only [instanceOfNode, h_Server_Type]
        · unfold noDiagnosticServer at h_Bad
          rw [h_Server_Type] at h_Bad
          exact absurd h_Bad (by decide)
      · simp only [if_pos h_Set, ne_eq, h_Ids, not_false_eq_true, if_true,
          if_pos (And.intro h_Osy h_Diag)]
        refine ⟨_, rfl, ⟨rfl, rfl, rfl, rfl, rfl, rfl, rfl, rfl, rfl, ?_, ?_⟩, ?_,
          Or.inr rfl, fun _ => rfl, fun _ _ h_All => absurd (h_All _) h_Ids⟩
        · simp only [List.length_set]
        · simp only [List.length_set]
        · simp only [instanceOfNode, h_Server_Type]
    · simp only [if_neg h_Set, if_pos (And.intro h_Osy h_Diag)]
      refine ⟨_, rfl, ⟨rfl, rfl, rfl, rfl, rfl, rfl, rfl, rfl, rfl, ?_, ?_⟩, ?_,
        Or.inr rfl, fun _ => rfl, fun _ h_All _ => absurd (h_All _) h_Set⟩
      · simp only [List.length_set]
      · simp only [List.length_set]
      · simp only [instanceOfNode, h_Server_Type]

/-- The loop of `m_InitDiagProtocol` over nodes of the system definition, with all vectors long
enough. -/
theorem initDiagProtocolLoop_spec (c_Project : T_Project) (c_Base : T_InitBase) :
    ∀ (c_Rest : List Nat) (u32_ItActiveNode : Nat) (m : T_InitMembers),
      (∀ u32_NodeIndex, u32_NodeIndex ∈ c_Rest → u32_NodeIndex < c_Project.c_Nodes.length) →
      u32_ItActiveNode + c_Rest.length ≤ m.mc_TransportProtocols.length →
      u32_ItActiveNode + c_Rest.length ≤ m.mc_ServerIds.length →
      u32_ItActiveNode + c_Rest.length ≤ m.mc_DiagProtocols.length →
      u32_ItActiveNode + c_Rest.length ≤ m.mc_OsyProtocols.length →
      ∃ c_Result : T_Error × T_InitMembers,
        initDiagProtocolLoop c_Project c_Base c_Rest u32_ItActiveNode m = some c_Result ∧
        m.sameFrame c_Result.2 ∧
        (c_Result.1 = C_NO_ERR ∨ c_Result.1 = C_OVERFLOW) ∧
        (∀ i, i < u32_ItActiveNode → c_Result.2.mc_DiagProtocols[i]? = m.mc_DiagProtocols[i]?) ∧
        (c_Result.1 = C_NO_ERR →
          ∀ (j u32_NodeIndex : Nat) (pc_Node : C_OscNode), c_Rest[j]? = some u32_NodeIndex →
            c_Project.c_Nodes[u32_NodeIndex]? = some pc_Node →
            ¬ noDiagnosticServer pc_Node ∧
            c_Result.2.mc_DiagProtocols[u32_ItActiveNode + j]?
              = some (instanceOfNode pc_Node (u32_ItActiveNode + j))) ∧
        ((∃ (u32_NodeIndex : Nat) (pc_Node : C_OscNode), u32_NodeIndex ∈ c_Rest ∧
            c_Project.c_Nodes[u32_NodeIndex]? = some pc_Node ∧
            noDiagnosticServer pc_Node) →
          c_Result.1 = C_OVERFLOW) ∧
        ((∀ (u32_NodeIndex : Nat) (pc_Node : C_OscNode), u32_NodeIndex ∈ c_Rest →
            c_Project.c_Nodes[u32_NodeIndex]? = some pc_Node →
            ¬ noDiagnosticServer pc_Node) →
          (∀ c_TransportProtocol, c_Base.SetTransportProtocol c_TransportProtocol = C_NO_ERR) →
          (∀ c_ServerId, c_Base.SetNodeIdentifiers c_Base.c_ClientId c_ServerId = C_NO_ERR) →
          c_Result.1 = C_NO_ERR) := by
  intro c_Rest
  induction c_Rest with
  | nil =>
    intro u32_ItActiveNode m _ _ _ _ _
    refine ⟨(C_NO_ERR, m), rfl, initMembers_sameFrame_refl m, Or.inl rfl, fun _ _ => rfl,
      fun _ j _ _ h_Get => ?_, ?_, fun _ _ _ => rfl⟩
    · simp at h_Get
    · rintro ⟨_, _, h_Mem, _⟩
      exact absurd h_Mem (List.not_mem_nil _)
  | cons u32_Head c_Tail ih =>
    intro u32_ItActiveNode m h_Nodes h_Transport h_Server h_Diag h_Osy
    rw [List.length_cons] at h_Transport h_Server h_Diag h_Osy
    have h_HeadLt := h_Nodes u32_Head (List.mem_cons_self _ _)
    have h_HeadNode := List.getElem?_eq_getElem h_HeadLt
    obtain ⟨c_Body, h_Body, h_Frame, h_Slot, h_Code, h_None, h_Good⟩ :=
      initDiagProtocolOfNode_spec c_Project c_Base u32_Head u32_ItActiveNode m
        c_Project.c_Nodes[u32_Head] h_HeadNode (by omega) (by omega) (by omega) (by omega)
    have h_Frame2 := h_Frame
    obtain ⟨_, _, _, f5, f6, _, _, _, _, f11, f12⟩ := h_Frame2
    unfold initDiagProtocolLoop
    rw [h_Body]
    by_cases h_Ok : c_Body.1 = C_NO_ERR
    · simp only [ne_eq, h_Ok, not_true_eq_false, if_false]
      obtain ⟨c_Result, h_Result, h_RestFrame, h_RestCode, h_Before, h_Instances, h_RestNone,
        h_RestGood⟩ := ih (u32_ItActiveNode + 1) c_Body.2
          (fun n hn => h_Nodes n (List.mem_cons_of_mem _ hn))
          (by rw [f5]; omega) (by rw [f6]; omega) (by rw [f11]; omega) (by rw [f12]; omega)
      have h_HeadType : ¬ noDiagnosticServer c_Project.c_Nodes[u32_Head] := by
        intro h_Bad
        have h_Overflow := h_None h_Bad
        rw [h_Ok] at h_Overflow
        exact T_Error.noConfusion h_Overflow
      refine ⟨c_Result, h_Result, initMembers_sameFrame_trans h_Frame h_RestFrame, h_RestCode,
        ?_, ?_, ?_, ?_⟩
      · intro i h_Lt
        rw [h_Before i (by omega), h_Slot, List.getElem?_set_ne (by omega)]
      · intro h_Success j u32_NodeIndex pc_Node h_Get h_Node
        cases j with
        | zero =>
          simp only [List.getElem?_cons_zero, Option.some.injEq] at h_Get
          rw [← h_Get, h_HeadNode] at h_Node
          rw [← Option.some.inj h_Node]
          refine ⟨h_HeadType, ?_⟩
          rw [Nat.add_zero, h_Before u32_ItActiveNode (by omega), h_Slot,
            List.getElem?_set_self (by omega)]
        | succ k =>
          simp only [List.getElem?_cons_succ] at h_Get
          have h_Tail := h_Instances h_Success k u32_NodeIndex pc_Node h_Get h_Node
          have h_Index : u32_ItActiveNode + (k + 1) = u32_ItActiveNode + 1 + k := by omega
          rw [h_Index]
          exact h_Tail
      · rintro ⟨u32_NodeIndex, pc_Node, h_Mem, h_Node, h_Type⟩
        rcases List.mem_cons.mp h_Mem with h_Eq | h_In
        · rw [h_Eq, h_HeadNode] at h_Node
          rw [← Option.some.inj h_Node] at h_Type
          exact absurd h_Type h_HeadType
        · exact h_RestNone ⟨u32_NodeIndex, pc_Node, h_In, h_Node, h_Type⟩
      · intro h_All h_Set h_Ids
        exact h_RestGood (fun n pc_Node hn h_Node => h_All n pc_Node (List.mem_cons_of_mem _ hn)
          h_Node) h_Set h_Ids
    · simp only [ne_eq, h_Ok, not_false_eq_true, if_true]
      have h_Overflow : c_Body.1 = C_OVERFLOW := by
        rcases h_Code with h_Bad | h_Fine
        · exact absurd h_Bad h_Ok
        · exact h_Fine
      refine ⟨c_Body, rfl, h_Frame, Or.inr h_Overflow, ?_, fun h_Bad => absurd h_Bad h_Ok,
        fun _ => h_Overflow, ?_⟩
      · intro i h_Lt
        rw [h_Slot, List.getElem?_set_ne (by omega)]
      · intro h_All h_Set h_Ids
        exact h_Good (h_All u32_Head _ (List.mem_cons_self _ _) h_HeadNode) h_Set h_Ids

theorem length_resizeNull {α : Type} (c_Vector : List (Option α)) (n : Nat) :
    (resizeNull c_Vector n).length = n := by
  unfold resizeNull
  rw [List.length_append, List.length_take, List.length_replicate]
  omega

/-- The function `m_InitDiagProtocol` on members that fit to each other and to the project. -/
theorem m_InitDiagProtocol_spec (c_Project : T_Project) (c_Base : T_InitBase)
    (m : T_InitMembers)
    (h_Transport : m.mc_TransportProtocols.length ≥ m.mc_ActiveNodesIndexes.length)
    (h_Server : m.mc_ServerIds.length = m.mc_ActiveNodesIndexes.length)
    (h_Nodes : ∀ u32_NodeIndex, u32_NodeIndex ∈ m.mc_ActiveNodesIndexes →
      u32_NodeIndex < c_Project.c_Nodes.length) :
    ∃ c_Result : T_Error × T_InitMembers,
      m_InitDiagProtocol c_Project c_Base m = some c_Result ∧
      c_Result.2.mq_Initialized = m.mq_Initialized ∧
      c_Result.2.mc_DataDealers = m.mc_DataDealers ∧
      c_Result.2.mc_DiagProtocols.length = m.mc_ActiveNodesIndexes.length ∧
      (c_Result.1 = C_NO_ERR ∨ c_Result.1 = C_OVERFLOW) ∧
      (c_Result.1 = C_NO_ERR →
        ∀ (i u32_NodeIndex : Nat) (pc_Node : C_OscNode),
          m.mc_ActiveNodesIndexes[i]? = some u32_NodeIndex →
          c_Project.c_Nodes[u32_NodeIndex]? = some pc_Node →
          ¬ noDiagnosticServer pc_Node ∧
          c_Result.2.mc_DiagProtocols[i]? = some (instanceOfNode pc_Node i)) ∧
      ((∃ (u32_NodeIndex : Nat) (pc_Node : C_OscNode),
          u32_NodeIndex ∈ m.mc_ActiveNodesIndexes ∧
          c_Project.c_Nodes[u32_NodeIndex]? = some pc_Node ∧
          noDiagnosticServer pc_Node) →
        c_Result.1 = C_OVERFLOW) ∧
      ((∀ (u32_NodeIndex : Nat) (pc_Node : C_OscNode),
          u32_NodeIndex ∈ m.mc_ActiveNodesIndexes →
          c_Project.c_Nodes[u32_NodeIndex]? = some pc_Node →
          ¬ noDiagnosticServer pc_Node) →
        (∀ c_TransportProtocol, c_Base.SetTransportProtocol c_TransportProtocol = C_NO_ERR) →
        (∀ c_ServerId, c_Base.SetNodeIdentifiers c_Base.c_ClientId c_ServerId = C_NO_ERR) →
        c_Result.1 = C_NO_ERR) := by
  obtain ⟨c_Result, h_Result, h_Frame, h_Code, _, h_Instances, h_None, h_Good⟩ :=
    initDiagProtocolLoop_spec c_Project c_Base m.mc_ActiveNodesIndexes 0
      { m with
        mc_DiagProtocols := resizeNull m.mc_DiagProtocols m.m_GetActiveNodeCount
        mc_OsyProtocols := resizeNull m.mc_OsyProtocols m.m_GetActiveNodeCount }
      h_Nodes (by simp only; omega) (by simp only; omega)
      (by simp only [length_resizeNull, T_InitMembers.m_GetActiveNodeCount]; omega)
      (by simp only [length_resizeNull, T_InitMembers.m_GetActiveNodeCount]; omega)
  obtain ⟨f1, _, f3, _, _, _, _, _, f10, f11, _⟩ := h_Frame
  unfold m_InitDiagProtocol
  rw [if_pos ⟨h_Transport, h_Server⟩, h_Result]
  refine ⟨c_Result, rfl, f1, f10, ?_, h_Code, ?_, h_None, h_Good⟩
  · rw [f11]
    simp only [length_resizeNull]
    rfl
  · intro h_Success i u32_NodeIndex pc_Node h_Get h_Node
    have h_Slot := h_Instances h_Success i u32_NodeIndex pc_Node h_Get h_Node
    rw [Nat.zero_add] at h_Slot
    exact h_Slot

theorem initActiveNodes_frame (c_Project : T_Project) (c_Base : T_InitBase)
    (m : T_InitMembers) :
    (initActiveNodes c_Project c_Base m).2.mq_Initialized = m.mq_Initialized ∧
    (initActiveNodes c_Project c_Base m).2.mc_DataDealers = m.mc_DataDealers := by
  unfold initActiveNodes
  simp only
  split_ifs <;> exact ⟨rfl, rfl⟩

/-! ## Lemmas: registration of widgets -/

theorem equals_iff (c_This orc_Cmp : C_SyvComDriverDiagWidgetRegistration) :
    c_This.equals orc_Cmp = true ↔
      c_This.q_IsExtended = orc_Cmp.q_IsExtended ∧ c_This.u16_Dlc = orc_Cmp.u16_Dlc ∧
      c_This.pc_Handler = orc_Cmp.pc_Handler ∧ c_This.c_Signal = orc_Cmp.c_Signal ∧
      c_This.c_MultiplexerSignal = orc_Cmp.c_MultiplexerSignal := by
  unfold C_SyvComDriverDiagWidgetRegistration.equals
  constructor
  · intro h_Eq
    split_ifs at h_Eq with h_Differ
    by_contra h_Not
    apply h_Differ
    by_cases h1 : c_This.q_IsExtended = orc_Cmp.q_IsExtended
    · by_cases h2 : c_This.u16_Dlc = orc_Cmp.u16_Dlc
      · by_cases h3 : c_This.pc_Handler = orc_Cmp.pc_Handler
        · by_cases h4 : c_This.c_Signal = orc_Cmp.c_Signal
          · by_cases h5 : c_This.c_MultiplexerSignal = orc_Cmp.c_MultiplexerSignal
            · exact absurd ⟨h1, h2, h3, h4, h5⟩ h_Not
            · exact Or.inr (Or.inr (Or.inr (Or.inr h5)))
          · exact Or.inr (Or.inr (Or.inr (Or.inl h4)))
        · exact Or.inr (Or.inr (Or.inl h3))
      · exact Or.inr (Or.inl h2)
    · exact Or.inl h1
  · rintro ⟨h1, h2, h3, h4, h5⟩
    rw [if_neg]
    rintro (h | h | h | h | h)
    · exact h h1
    · exact h h2
    · exact h h3
    · exact h h4
    · exact h h5

theorem equals_refl (c_This : C_SyvComDriverDiagWidgetRegistration) :
    c_This.equals c_This = true :=
  (equals_iff c_This c_This).mpr ⟨rfl, rfl, rfl, rfl, rfl⟩

theorem findWidgets_cons
    (c_Entry : C_OscCanMessageUniqueId × List C_SyvComDriverDiagWidgetRegistration)
    (c_Rest : List (C_OscCanMessageUniqueId × List C_SyvComDriverDiagWidgetRegistration))
    (c_Key : C_OscCanMessageUniqueId) :
    findWidgets (c_Entry :: c_Rest) c_Key
      = if c_Entry.1 = c_Key then some c_Entry.2 else findWidgets c_Rest c_Key := by
  unfold findWidgets
  by_cases h_Key : c_Entry.1 = c_Key
  · rw [List.find?_cons_of_pos _ (by simpa using h_Key), if_pos h_Key]
    rfl
  · rw [List.find?_cons_of_neg _ (by simpa using h_Key), if_neg h_Key]

/-- What the map holds under a key after a registration was added. -/
theorem findWidgets_addRegistration :
    ∀ (mc_AllWidgets :
        List (C_OscCanMessageUniqueId × List C_SyvComDriverDiagWidgetRegistration))
      (c_MsgCanId c_Key : C_OscCanMessageUniqueId)
      (c_WidgetRegistration : C_SyvComDriverDiagWidgetRegistration),
      findWidgets (addRegistration mc_AllWidgets c_MsgCanId c_WidgetRegistration) c_Key
        = if c_Key = c_MsgCanId then
            some (match findWidgets mc_AllWidgets c_MsgCanId with
              | some c_List =>
                if c_List.any (fun c_Other => c_Other.equals c_WidgetRegistration) = false then
                  c_List ++ [c_WidgetRegistration]
                else c_List
              | none => [c_WidgetRegistration])
          else findWidgets mc_AllWidgets c_Key := by
  intro mc_AllWidgets
  induction mc_AllWidgets with
  | nil =>
    intro c_MsgCanId c_Key c_WidgetRegistration
    simp only [addRegistration, findWidgets_cons]
    by_cases h_Key : c_Key = c_MsgCanId
    · rw [if_pos h_Key, if_pos h_Key.symm]
      rfl
    · rw [if_neg h_Key, if_neg (fun h => h_Key h.symm)]
  | cons c_Entry c_Rest ih =>
    intro c_MsgCanId c_Key c_WidgetRegistration
    unfold addRegistration
    by_cases h_Entry : c_Entry.1 = c_MsgCanId
    · rw [if_pos h_Entry, findWidgets_cons, findWidgets_cons, if_pos h_Entry]
      by_cases h_Key : c_Key = c_MsgCanId
      · rw [if_pos h_Key]
        by_cases h_Any : c_Entry.2.any (fun c_Other => c_Other.equals c_WidgetRegistration) = false
        · simp only [if_pos h_Any, h_Entry, h_Key, if_true]
        · simp only [if_neg h_Any, h_Entry, h_Key, if_true]
      · rw [if_neg h_Key]
        have h_Other : ¬ c_Entry.1 = c_Key := fun h => h_Key (h.symm.trans h_Entry)
        by_cases h_Any : c_Entry.2.any (fun c_Other => c_Other.equals c_WidgetRegistration) = false
        · simp only [if_pos h_Any, h_Other, if_false, findWidgets_cons]
        · simp only [if_neg h_Any, h_Other, if_false, findWidgets_cons]
    · rw [if_neg h_Entry, findWidgets_cons, ih, findWidgets_cons, if_neg h_Entry]
      by_cases h_Key : c_Key = c_MsgCanId
      · rw [if_pos h_Key, if_pos h_Key, if_neg (fun h => h_Entry (h.trans h_Key))]
      · rw [if_neg h_Key, if_neg h_Key, findWidgets_cons]

/-- A list of the map is a prefix of the list of the same key after a registration was
added. -/
theorem addRegistration_grows
    (mc_AllWidgets : List (C_OscCanMessageUniqueId × List C_SyvComDriverDiagWidgetRegistration))
    (c_MsgCanId c_Key : C_OscCanMessageUniqueId)
    (c_WidgetRegistration : C_SyvComDriverDiagWidgetRegistration)
    (c_List : List C_SyvComDriverDiagWidgetRegistration)
    (h_Find : findWidgets mc_AllWidgets c_Key = some c_List) :
    ∃ c_Longer, findWidgets (addRegistration mc_AllWidgets c_MsgCanId c_WidgetRegistration)
        c_Key = some c_Longer ∧ c_List <+: c_Longer := by
  rw [findWidgets_addRegistration]
  by_cases h_Key : c_Key = c_MsgCanId
  · rw [if_pos h_Key, ← h_Key, h_Find]
    simp only
    split_ifs
    · exact ⟨_, rfl, ⟨_, rfl⟩⟩
    · exact ⟨_, rfl, ⟨[], List.append_nil _⟩⟩
  · rw [if_neg h_Key]
    exact ⟨c_List, h_Find, ⟨[], List.append_nil _⟩⟩

theorem holdsRegistration_addRegistration
    (mc_AllWidgets : List (C_OscCanMessageUniqueId × List C_SyvComDriverDiagWidgetRegistration))
    (c_MsgCanId : C_OscCanMessageUniqueId)
    (c_WidgetRegistration : C_SyvComDriverDiagWidgetRegistration) :
    holdsRegistration (addRegistration mc_AllWidgets c_MsgCanId c_WidgetRegistration) c_MsgCanId
      c_WidgetRegistration := by
  unfold holdsRegistration
  rw [findWidgets_addRegistration, if_pos rfl]
  refine ⟨_, rfl, ?_⟩
  cases h_Find : findWidgets mc_AllWidgets c_MsgCanId with
  | none => exact ⟨c_WidgetRegistration, List.mem_singleton.mpr rfl, equals_refl _⟩
  | some c_List =>
    simp only
    split_ifs with h_Any
    · exact ⟨c_WidgetRegistration, List.mem_append_right _ (List.mem_singleton.mpr rfl),
        equals_refl _⟩
    · have h_True : c_List.any (fun c_Other => c_Other.equals c_WidgetRegistration) = true := by
        cases h_Value : c_List.any (fun c_Other => c_Other.equals c_WidgetRegistration) with
        | false => exact absurd h_Value h_Any
        | true => rfl
      rw [List.any_eq_true] at h_True
      exact h_True

theorem holdsRegistration_mono
    (mc_AllWidgets : List (C_OscCanMessageUniqueId × List C_SyvComDriverDiagWidgetRegistration))
    (c_MsgCanId c_Key : C_OscCanMessageUniqueId)
    (c_WidgetRegistration c_Held : C_SyvComDriverDiagWidgetRegistration)
    (h_Holds : holdsRegistration mc_AllWidgets c_Key c_Held) :
    holdsRegistration (addRegistration mc_AllWidgets c_MsgCanId c_WidgetRegistration) c_Key
      c_Held := by
  obtain ⟨c_List, h_Find, c_Other, h_Mem, h_Eq⟩ := h_Holds
  obtain ⟨c_Longer, h_Longer, h_Grows⟩ := addRegistration_grows mc_AllWidgets c_MsgCanId c_Key
    c_WidgetRegistration c_List h_Find
  exact ⟨c_Longer, h_Longer, c_Other, h_Grows.subset h_Mem, h_Eq⟩

/-- Adding a registration to a map that holds an equal one under the key changes nothing. -/
theorem addRegistration_of_holds :
    ∀ (mc_AllWidgets :
        List (C_OscCanMessageUniqueId × List C_SyvComDriverDiagWidgetRegistration))
      (c_MsgCanId : C_OscCanMessageUniqueId)
      (c_WidgetRegistration : C_SyvComDriverDiagWidgetRegistration),
      holdsRegistration mc_AllWidgets c_MsgCanId c_WidgetRegistration →
      addRegistration mc_AllWidgets c_MsgCanId c_WidgetRegistration = mc_AllWidgets := by
  intro mc_AllWidgets
  induction mc_AllWidgets with
  | nil =>
    rintro c_MsgCanId c_WidgetRegistration ⟨c_List, h_Find, _⟩
    simp [findWidgets] at h_Find
  | cons c_Entry c_Rest ih =>
    rintro c_MsgCanId c_WidgetRegistration ⟨c_List, h_Find, c_Other, h_Mem, h_Eq⟩
    rw [findWidgets_cons] at h_Find
    unfold addRegistration
    by_cases h_Entry : c_Entry.1 = c_MsgCanId
    · rw [if_pos h_Entry] at h_Find
      rw [if_pos h_Entry]
      have h_List : c_Entry.2 = c_List := Option.some.inj h_Find
      have h_Any : c_Entry.2.any (fun c_Other => c_Other.equals c_WidgetRegistration) = true := by
        rw [List.any_eq_true]
        exact ⟨c_Other, by rw [h_List]; exact h_Mem, h_Eq⟩
      rw [h_Any]
      simp only [Bool.true_eq_false, if_false]
    · rw [if_neg h_Entry] at h_Find
      rw [if_neg h_Entry, ih c_MsgCanId c_WidgetRegistration ⟨c_List, h_Find, c_Other, h_Mem, h_Eq⟩]

theorem keys_addRegistration :
    ∀ (mc_AllWidgets :
        List (C_OscCanMessageUniqueId × List C_SyvComDriverDiagWidgetRegistration))
      (c_MsgCanId : C_OscCanMessageUniqueId)
      (c_WidgetRegistration : C_SyvComDriverDiagWidgetRegistration),
      (addRegistration mc_AllWidgets c_MsgCanId c_WidgetRegistration).map (fun c_Entry => c_Entry.1)
        = if c_MsgCanId ∈ mc_AllWidgets.map (fun c_Entry => c_Entry.1) then
            mc_AllWidgets.map (fun c_Entry => c_Entry.1)
          else mc_AllWidgets.map (fun c_Entry => c_Entry.1) ++ [c_MsgCanId] := by
  intro mc_AllWidgets
  induction mc_AllWidgets with
  | nil => intro _ _; rfl
  | cons c_Entry c_Rest ih =>
    intro c_MsgCanId c_WidgetRegistration
    unfold addRegistration
    by_cases h_Entry : c_Entry.1 = c_MsgCanId
    · have h_Mem : c_MsgCanId ∈ (c_Entry :: c_Rest).map (fun c_Entry => c_Entry.1) := by
        rw [List.map_cons, ← h_Entry]
        exact List.mem_cons_self _ _
      have h_Right : (if c_MsgCanId ∈ (c_Entry :: c_Rest).map (fun c_Entry => c_Entry.1) then
            (c_Entry :: c_Rest).map (fun c_Entry => c_Entry.1)
          else (c_Entry :: c_Rest).map (fun c_Entry => c_Entry.1) ++ [c_MsgCanId])
          = (c_Entry :: c_Rest).map (fun c_Entry => c_Entry.1) := if_pos h_Mem
      rw [h_Right, if_pos h_Entry]
      by_cases h_Any : c_Entry.2.any (fun c_Other => c_Other.equals c_WidgetRegistration) = false
      · rw [if_pos h_Any]
        rfl
      · rw [if_neg h_Any]
    · rw [if_neg h_Entry, List.map_cons, ih, List.map_cons]
      by_cases h_Mem : c_MsgCanId ∈ c_Rest.map (fun c_Entry => c_Entry.1)
      · rw [if_pos h_Mem, if_pos (List.mem_cons_of_mem _ h_Mem)]
      · rw [if_neg h_Mem, if_neg, List.cons_append]
        intro h_Bad
        rcases List.mem_cons.mp h_Bad with h_Eq | h_In
        · exact h_Entry h_Eq.symm
        · exact h_Mem h_In

theorem mem_addRegistration :
    ∀ (mc_AllWidgets :
        List (C_OscCanMessageUniqueId × List C_SyvComDriverDiagWidgetRegistration))
      (c_MsgCanId : C_OscCanMessageUniqueId)
      (c_WidgetRegistration : C_SyvComDriverDiagWidgetRegistration)
      (c_New : C_OscCanMessageUniqueId × List C_SyvComDriverDiagWidgetRegistration),
      c_New ∈ addRegistration mc_AllWidgets c_MsgCanId c_WidgetRegistration →
      c_New ∈ mc_AllWidgets ∨ c_New = (c_MsgCanId, [c_WidgetRegistration]) ∨
      ∃ c_Entry, c_Entry ∈ mc_AllWidgets ∧ c_Entry.1 = c_MsgCanId ∧
        c_Entry.2.any (fun c_Other => c_Other.equals c_WidgetRegistration) = false ∧
        c_New = (c_Entry.1, c_Entry.2 ++ [c_WidgetRegistration]) := by
  intro mc_AllWidgets
  induction mc_AllWidgets with
  | nil =>
    intro c_MsgCanId c_WidgetRegistration c_New h_Mem
    simp only [addRegistration, List.mem_singleton] at h_Mem
    exact Or.inr (Or.inl h_Mem)
  | cons c_Entry c_Rest ih =>
    intro c_MsgCanId c_WidgetRegistration c_New h_Mem
    unfold addRegistration at h_Mem
    by_cases h_Entry : c_Entry.1 = c_MsgCanId
    · rw [if_pos h_Entry] at h_Mem
      rcases List.mem_cons.mp h_Mem with h_Eq | h_In
      · by_cases h_Any : c_Entry.2.any (fun c_Other => c_Other.equals c_WidgetRegistration)
            = false
        · rw [if_pos h_Any] at h_Eq
          exact Or.inr (Or.inr ⟨c_Entry, List.mem_cons_self _ _, h_Entry, h_Any, h_Eq⟩)
        · rw [if_neg h_Any] at h_Eq
          exact Or.inl (by rw [h_Eq]; exact List.mem_cons_self _ _)
      · exact Or.inl (List.mem_cons_of_mem _ h_In)
    · rw [if_neg h_Entry] at h_Mem
      rcases List.mem_cons.mp h_Mem with h_Eq | h_In
      · exact Or.inl (by rw [h_Eq]; exact List.mem_cons_self _ _)
      · rcases ih c_MsgCanId c_WidgetRegistration c_New h_In with h_Old | h_Single | h_Longer
        · exact Or.inl (List.mem_cons_of_mem _ h_Old)
        · exact Or.inr (Or.inl h_Single)
        · obtain ⟨c_Found, h_Found, h_Rest⟩ := h_Longer
          exact Or.inr (Or.inr ⟨c_Found, List.mem_cons_of_mem _ h_Found, h_Rest⟩)

/-- Adding a registration whose extended flag is the one of the key keeps the map well
formed. -/
theorem widgetsWellFormed_addRegistration
    (mc_AllWidgets : List (C_OscCanMessageUniqueId × List C_SyvComDriverDiagWidgetRegistration))
    (c_MsgCanId : C_OscCanMessageUniqueId)
    (c_WidgetRegistration : C_SyvComDriverDiagWidgetRegistration)
    (h_Flag : c_WidgetRegistration.q_IsExtended = c_MsgCanId.2)
    (h_Formed : widgetsWellFormed mc_AllWidgets) :
    widgetsWellFormed (addRegistration mc_AllWidgets c_MsgCanId c_WidgetRegistration) := by
  obtain ⟨h_Keys, h_Entries⟩ := h_Formed
  refine ⟨?_, ?_⟩
  · rw [keys_addRegistration]
    split_ifs with h_Mem
    · exact h_Keys
    · rw [List.nodup_append]
      refine ⟨h_Keys, List.nodup_singleton _, ?_⟩
      intro c_Key h_In h_Single
      rw [List.mem_singleton] at h_Single
      rw [h_Single] at h_In
      exact h_Mem h_In
  · intro c_New h_New
    rcases mem_addRegistration mc_AllWidgets c_MsgCanId c_WidgetRegistration c_New h_New with
      h_Old | h_Single | ⟨c_Entry, h_Entry, h_Key, h_Any, h_Eq⟩
    · exact h_Entries c_New h_Old
    · rw [h_Single]
      refine ⟨List.pairwise_singleton _ _, ?_⟩
      intro c_Held h_Held
      rw [List.mem_singleton] at h_Held
      rw [h_Held]
      exact h_Flag
    · obtain ⟨h_Pairwise, h_Flags⟩ := h_Entries c_Entry h_Entry
      rw [h_Eq]
      refine ⟨?_, ?_⟩
      · rw [List.pairwise_append]
        refine ⟨h_Pairwise, List.pairwise_singleton _ _, ?_⟩
        intro c_This h_This c_Other h_Other
        rw [List.mem_singleton] at h_Other
        rw [h_Other]
        rw [List.any_eq_false] at h_Any
        have h_Not := h_Any c_This h_This
        cases h_Value : c_This.equals c_WidgetRegistration with
        | false => rfl
        | true => exact absurd h_Value h_Not
      · intro c_Held h_Held
        rcases List.mem_append.mp h_Held with h_In | h_Last
        · exact h_Flags c_Held h_In
        · rw [List.mem_singleton] at h_Last
          rw [h_Last, h_Key]
          exact h_Flag

theorem registrationOf_some (c_Lookup : T_SignalLookup) (u32_Handler : Nat)
    (c_Element : T_WidgetElement) (c_MsgCanId : C_OscCanMessageUniqueId)
    (c_WidgetRegistration : C_SyvComDriverDiagWidgetRegistration)
    (h_Built : registrationOf c_Lookup u32_Handler c_Element
      = some (c_MsgCanId, c_WidgetRegistration)) :
    ∃ pc_CanMsg, c_Lookup.GetCanMessage c_Element.c_DpElementId = some pc_CanMsg ∧
      c_MsgCanId = (pc_CanMsg.u32_CanId, pc_CanMsg.q_IsExtended) ∧
      c_WidgetRegistration.q_IsExtended = c_MsgCanId.2 ∧
      c_WidgetRegistration.pc_Handler = some u32_Handler := by
  unfold registrationOf at h_Built
  split_ifs at h_Built
  split at h_Built
  · next pc_CanMsg pc_Signal c_Value h_Msg _ _ =>
    simp only [Option.some.injEq, Prod.mk.injEq] at h_Built
    obtain ⟨h_Key, h_Reg⟩ := h_Built
    refine ⟨pc_CanMsg, h_Msg, h_Key.symm, ?_, ?_⟩
    · rw [← h_Reg, ← h_Key]
    · rw [← h_Reg]
  · exact Option.noConfusion h_Built

theorem registerElement_wellFormed (c_Lookup : T_SignalLookup) (u32_Handler : Nat)
    (mc_AllWidgets : List (C_OscCanMessageUniqueId × List C_SyvComDriverDiagWidgetRegistration))
    (c_Element : T_WidgetElement) (h_Formed : widgetsWellFormed mc_AllWidgets) :
    widgetsWellFormed (registerElement c_Lookup u32_Handler mc_AllWidgets c_Element) := by
  unfold registerElement
  cases h_Built : registrationOf c_Lookup u32_Handler c_Element with
  | none => exact h_Formed
  | some c_New =>
    obtain ⟨_, _, _, h_Flag, _⟩ := registrationOf_some c_Lookup u32_Handler c_Element c_New.1
      c_New.2 h_Built
    exact widgetsWellFormed_addRegistration mc_AllWidgets c_New.1 c_New.2 h_Flag h_Formed

theorem registerElement_grows (c_Lookup : T_SignalLookup) (u32_Handler : Nat)
    (mc_AllWidgets : List (C_OscCanMessageUniqueId × List C_SyvComDriverDiagWidgetRegistration))
    (c_Element : T_WidgetElement) (c_Key : C_OscCanMessageUniqueId)
    (c_List : List C_SyvComDriverDiagWidgetRegistration)
    (h_Find : findWidgets mc_AllWidgets c_Key = some c_List) :
    ∃ c_Longer, findWidgets (registerElement c_Lookup u32_Handler mc_AllWidgets c_Element) c_Key
        = some c_Longer ∧ c_List <+: c_Longer := by
  unfold registerElement
  cases registrationOf c_Lookup u32_Handler c_Element with
  | none => exact ⟨c_List, h_Find, ⟨[], List.append_nil _⟩⟩
  | some c_New => exact addRegistration_grows mc_AllWidgets c_New.1 c_Key c_New.2 c_List h_Find

theorem foldl_registerElement_wellFormed (c_Lookup : T_SignalLookup) (u32_Handler : Nat) :
    ∀ (c_Elements : List T_WidgetElement)
      (mc_AllWidgets :
        List (C_OscCanMessageUniqueId × List C_SyvComDriverDiagWidgetRegistration)),
      widgetsWellFormed mc_AllWidgets →
      widgetsWellFormed (c_Elements.foldl (registerElement c_Lookup u32_Handler) mc_AllWidgets) := by
  intro c_Elements
  induction c_Elements with
  | nil => intro _ h_Formed; exact h_Formed
  | cons c_Head c_Tail ih =>
    intro mc_AllWidgets h_Formed
    rw [List.foldl_cons]
    exact ih _ (registerElement_wellFormed c_Lookup u32_Handler mc_AllWidgets c_Head h_Formed)

theorem foldl_registerElement_grows (c_Lookup : T_SignalLookup) (u32_Handler : Nat) :
    ∀ (c_Elements : List T_WidgetElement)
      (mc_AllWidgets :
        List (C_OscCanMessageUniqueId × List C_SyvComDriverDiagWidgetRegistration))
      (c_Key : C_OscCanMessageUniqueId) (c_List : List C_SyvComDriverDiagWidgetRegistration),
      findWidgets mc_AllWidgets c_Key = some c_List →
      ∃ c_Longer,
        findWidgets (c_Elements.foldl (registerElement c_Lookup u32_Handler) mc_AllWidgets) c_Key
          = some c_Longer ∧ c_List <+: c_Longer := by
  intro c_Elements
  induction c_Elements with
  | nil => intro _ _ c_List h_Find; exact ⟨c_List, h_Find, ⟨[], List.append_nil _⟩⟩
  | cons c_Head c_Tail ih =>
    intro mc_AllWidgets c_Key c_List h_Find
    rw [List.foldl_cons]
    obtain ⟨c_Middle, h_Middle, h_First⟩ := registerElement_grows c_Lookup u32_Handler
      mc_AllWidgets c_Head c_Key c_List h_Find
    obtain ⟨c_Longer, h_Longer, h_Second⟩ := ih _ c_Key c_Middle h_Middle
    exact ⟨c_Longer, h_Longer, h_First.trans h_Second⟩

theorem holdsRegistration_of_grows
    (mc_AllWidgets c_Later :
      List (C_OscCanMessageUniqueId × List C_SyvComDriverDiagWidgetRegistration))
    (h_Grows : ∀ (c_Key : C_OscCanMessageUniqueId)
      (c_List : List C_SyvComDriverDiagWidgetRegistration),
      findWidgets mc_AllWidgets c_Key = some c_List →
      ∃ c_Longer, findWidgets c_Later c_Key = some c_Longer ∧ c_List <+: c_Longer)
    (c_Key : C_OscCanMessageUniqueId) (c_Held : C_SyvComDriverDiagWidgetRegistration)
    (h_Holds : holdsRegistration mc_AllWidgets c_Key c_Held) :
    holdsRegistration c_Later c_Key c_Held := by
  obtain ⟨c_List, h_Find, c_Other, h_Mem, h_Eq⟩ := h_Holds
  obtain ⟨c_Longer, h_Longer, h_Sub⟩ := h_Grows c_Key c_List h_Find
  exact ⟨c_Longer, h_Longer, c_Other, h_Sub.subset h_Mem, h_Eq⟩

/-- After the loop of `RegisterWidget` the map holds a registration equal to the one built for
each data element of the widget, under its key. -/
theorem foldl_registerElement_holds (c_Lookup : T_SignalLookup) (u32_Handler : Nat) :
    ∀ (c_Elements : List T_WidgetElement)
      (mc_AllWidgets :
        List (C_OscCanMessageUniqueId × List C_SyvComDriverDiagWidgetRegistration))
      (c_Element : T_WidgetElement) (c_MsgCanId : C_OscCanMessageUniqueId)
      (c_WidgetRegistration : C_SyvComDriverDiagWidgetRegistration),
      c_Element ∈ c_Elements →
      registrationOf c_Lookup u32_Handler c_Element = some (c_MsgCanId, c_WidgetRegistration) →
      holdsRegistration (c_Elements.foldl (registerElement c_Lookup u32_Handler) mc_AllWidgets)
        c_MsgCanId c_WidgetRegistration := by
  intro c_Elements
  induction c_Elements with
  | nil => intro _ c_Element _ _ h_Mem; exact absurd h_Mem (List.not_mem_nil _)
  | cons c_Head c_Tail ih =>
    intro mc_AllWidgets c_Element c_MsgCanId c_WidgetRegistration h_Mem h_Built
    rw [List.foldl_cons]
    rcases List.mem_cons.mp h_Mem with h_Eq | h_In
    · apply holdsRegistration_of_grows
        (registerElement c_Lookup u32_Handler mc_AllWidgets c_Head) _
        (foldl_registerElement_grows c_Lookup u32_Handler c_Tail _)
      unfold registerElement
      rw [← h_Eq, h_Built]
      exact holdsRegistration_addRegistration mc_AllWidgets c_MsgCanId c_WidgetRegistration
    · exact ih _ c_Element c_MsgCanId c_WidgetRegistration h_In h_Built

/-- The loop of `RegisterWidget` changes nothing in a map that holds a registration equal to the
one built for each data element of the widget. -/
theorem foldl_registerElement_of_holds (c_Lookup : T_SignalLookup) (u32_Handler : Nat) :
    ∀ (c_Elements : List T_WidgetElement)
      (mc_AllWidgets :
        List (C_OscCanMessageUniqueId × List C_SyvComDriverDiagWidgetRegistration)),
      (∀ (c_Element : T_WidgetElement) (c_MsgCanId : C_OscCanMessageUniqueId)
        (c_WidgetRegistration : C_SyvComDriverDiagWidgetRegistration),
        c_Element ∈ c_Elements →
        registrationOf c_Lookup u32_Handler c_Element = some (c_MsgCanId, c_WidgetRegistration) →
        holdsRegistration mc_AllWidgets c_MsgCanId c_WidgetRegistration) →
      c_Elements.foldl (registerElement c_Lookup u32_Handler) mc_AllWidgets = mc_AllWidgets := by
  intro c_Elements
  induction c_Elements with
  | nil => intro _ _; rfl
  | cons c_Head c_Tail ih =>
    intro mc_AllWidgets h_All
    have h_Head : registerElement c_Lookup u32_Handler mc_AllWidgets c_Head = mc_AllWidgets := by
      unfold registerElement
      cases h_Built : registrationOf c_Lookup u32_Handler c_Head with
      | none => rfl
      | some c_New =>
        exact addRegistration_of_holds mc_AllWidgets c_New.1 c_New.2
          (h_All c_Head c_New.1 c_New.2 (List.mem_cons_self _ _) h_Built)
    rw [List.foldl_cons, h_Head]
    exact ih mc_AllWidgets
      (fun c_Element c_MsgCanId c_WidgetRegistration h_In h_Built =>
        h_All c_Element c_MsgCanId c_WidgetRegistration (List.mem_cons_of_mem _ h_In) h_Built)

theorem RegisterWidget_wellFormed (c_Lookup : T_SignalLookup)
    (mc_AllWidgets : List (C_OscCanMessageUniqueId × List C_SyvComDriverDiagWidgetRegistration))
    (opc_Widget : Option C_PuiSvDbDataElementHandler)
    (h_Formed : widgetsWellFormed mc_AllWidgets) :
    widgetsWellFormed (RegisterWidget c_Lookup mc_AllWidgets opc_Widget) := by
  unfold RegisterWidget
  cases opc_Widget with
  | none => exact h_Formed
  | some c_Widget =>
    exact foldl_registerElement_wellFormed c_Lookup c_Widget.u32_Handler c_Widget.c_Elements
      mc_AllWidgets h_Formed

theorem RegisterWidget_grows (c_Lookup : T_SignalLookup)
    (mc_AllWidgets : List (C_OscCanMessageUniqueId × List C_SyvComDriverDiagWidgetRegistration))
    (opc_Widget : Option C_PuiSvDbDataElementHandler) (c_Key : C_OscCanMessageUniqueId)
    (c_List : List C_SyvComDriverDiagWidgetRegistration)
    (h_Find : findWidgets mc_AllWidgets c_Key = some c_List) :
    ∃ c_Longer, findWidgets (RegisterWidget c_Lookup mc_AllWidgets opc_Widget) c_Key
        = some c_Longer ∧ c_List <+: c_Longer := by
  unfold RegisterWidget
  cases opc_Widget with
  | none => exact ⟨c_List, h_Find, ⟨[], List.append_nil _⟩⟩
  | some c_Widget =>
    exact foldl_registerElement_grows c_Lookup c_Widget.u32_Handler c_Widget.c_Elements
      mc_AllWidgets c_Key c_List h_Find

theorem RegisterWidget_twice (c_Lookup : T_SignalLookup)
    (mc_AllWidgets : List (C_OscCanMessageUniqueId × List C_SyvComDriverDiagWidgetRegistration))
    (opc_Widget : Option C_PuiSvDbDataElementHandler) :
    RegisterWidget c_Lookup (RegisterWidget c_Lookup mc_AllWidgets opc_Widget) opc_Widget
      = RegisterWidget c_Lookup mc_AllWidgets opc_Widget := by
  cases opc_Widget with
  | none => rfl
  | some c_Widget =>
    unfold RegisterWidget
    exact foldl_registerElement_of_holds c_Lookup c_Widget.u32_Handler c_Widget.c_Elements _
      (fun c_Element c_MsgCanId c_WidgetRegistration h_In h_Built =>
        foldl_registerElement_holds c_Lookup c_Widget.u32_Handler c_Widget.c_Elements
          mc_AllWidgets c_Element c_MsgCanId c_WidgetRegistration h_In h_Built)

theorem foldl_RegisterWidget_wellFormed :
    ∀ (c_Calls : List (T_SignalLookup × Option C_PuiSvDbDataElementHandler))
      (mc_AllWidgets :
        List (C_OscCanMessageUniqueId × List C_SyvComDriverDiagWidgetRegistration)),
      widgetsWellFormed mc_AllWidgets →
      widgetsWellFormed
        (c_Calls.foldl
          (fun mc_AllWidgets c_Call => RegisterWidget c_Call.1 mc_AllWidgets c_Call.2)
          mc_AllWidgets) := by
  intro c_Calls
  induction c_Calls with
  | nil => intro _ h_Formed; exact h_Formed
  | cons c_Head c_Tail ih =>
    intro mc_AllWidgets h_Formed
    rw [List.foldl_cons]
    exact ih _ (RegisterWidget_wellFormed c_Head.1 mc_AllWidgets c_Head.2 h_Formed)

theorem registerWidgets_wellFormed
    (c_Calls : List (T_SignalLookup × Option C_PuiSvDbDataElementHandler)) :
    widgetsWellFormed (registerWidgets c_Calls) := by
  unfold registerWidgets
  apply foldl_RegisterWidget_wellFormed
  exact ⟨List.nodup_nil, fun c_Entry h_Mem => absurd h_Mem (List.not_mem_nil _)⟩

/-- The registration of the widget of the fixtures on a new driver: the map gets the one entry
of `fixtureAllWidgets`, and a second registration of the widget leaves it as it is. -/
theorem RegisterWidget_fixture :
    RegisterWidget fixtureLookup [] (some fixtureWidget) = fixtureAllWidgets ∧
    RegisterWidget fixtureLookup fixtureAllWidgets (some fixtureWidget) = fixtureAllWidgets ∧
    RegisterWidget fixtureLookup fixtureAllWidgets
      (some { fixtureWidget with u32_Handler := 8 })
      = [((0x100, false), [fixtureRegistration, { fixtureRegistration with pc_Handler := some 8 }])] := by
  refine ⟨by decide, by decide, by decide⟩

/-! ## The claims -/

/-- C1. For every list and either byte order of the protocol, `NvmCalcCrc` is the running
CRC16-CCITT that starts at 0x1D0F and is updated, element by element in list order, with the NVM
value of the element serialised big endian when the protocol reports big endian and little endian
otherwise; it is the CRC (start value 0x1D0F) of the concatenation of these serialised values,
and it is 0x1D0F for a list without elements. -/
theorem NvmCalcCrc_eq_crc_of_serialized_values (p : C_OSCDiagProtocolBase)
    (l : C_OSCNodeDataPoolList) :
    NvmCalcCrc (some p) l
      = l.c_Elements.foldl
          (fun u16_Crc e =>
            CalcCRC16
              (if p.GetEndianness = p.mhu8_ENDIANNESS_BIG then
                e.c_NvmValue.GetValueAsBigEndianBlob
              else e.c_NvmValue.GetValueAsLittleEndianBlob)
              u16_Crc)
          0x1D0F ∧
    NvmCalcCrc (some p) l
      = CalcCRC16
          (l.c_Elements.map
            (fun e =>
              if p.GetEndianness = p.mhu8_ENDIANNESS_BIG then
                e.c_NvmValue.GetValueAsBigEndianBlob
              else e.c_NvmValue.GetValueAsLittleEndianBlob)).flatten
          0x1D0F ∧
    (l.c_Elements = [] → NvmCalcCrc (some p) l = 0x1D0F) := by
  refine ⟨?_, ?_, ?_⟩
  · exact nvmCalcCrcLoop_eq_foldl p l.c_Elements 0x1D0F
  · exact nvmCalcCrcLoop_eq_crc_join p l.c_Elements 0x1D0F
  · intro h
    simp [NvmCalcCrc, h, nvmCalcCrcLoop]

/-- C2. For every list with CRC of the node: when the read request is answered positively with a
dump of at least 2 bytes from which all elements decode (the decode step returns `C_NO_ERR`), then
`m_SaveDumpToList`, and with it `NvmReadList`, reads bytes 0 and 1 of the dump as the stored 16
bit CRC (byte 0 most significant for a big endian protocol, least significant otherwise), stores
it in the CRC member of the list, and returns `C_NO_ERR` if and only if `NvmCalcCrc` over the
freshly decoded elements equals that value, and `C_CHECKSUM` otherwise. -/
theorem NvmReadList_crc_check (d : C_OSCDataDealerNvm)
    (G : C_OSCNodeDataPoolList → Nat) (dp li : Nat) (node : C_OSCNode)
    (p : C_OSCDiagProtocolBase) (l l1 : C_OSCNodeDataPoolList) (c_Dump : List Nat)
    (hn : d.mpc_Node = some node) (hp : d.mpc_DiagProtocol = some p)
    (hl : listAt (some node) dp li = some l)
    (hcrc : l.q_NvMCRCActive = true)
    (hret : (m_NvmReadListRaw p G l []).s32_Return = C_NO_ERR)
    (hdump : (m_NvmReadListRaw p G l []).c_Values = c_Dump)
    (hlen : 2 ≤ c_Dump.length)
    (hdec : m_SaveDumpValuesToListValues p c_Dump l = some (C_NO_ERR, l1)) :
    ∃ r d1,
      m_SaveDumpToList p c_Dump l = some (r, { l1 with u32_NvMCRC := dumpCrc p c_Dump }) ∧
      (NvmReadList d G dp li).oc_Outcome = some (r, d1) ∧
      d1 = { d with
        mpc_Node := some (node.setList dp li { l1 with u32_NvMCRC := dumpCrc p c_Dump }) } ∧
      listAt d1.mpc_Node dp li = some { l1 with u32_NvMCRC := dumpCrc p c_Dump } ∧
      (r = C_NO_ERR ↔ NvmCalcCrc (some p) l1 = dumpCrc p c_Dump) ∧
      (r ≠ C_NO_ERR → r = C_CHECKSUM) := by
  have hsave := m_SaveDumpToList_crc p c_Dump l l1 hcrc hlen hdec
  refine ⟨if NvmCalcCrc (some p) l1 = dumpCrc p c_Dump then C_NO_ERR else C_CHECKSUM,
    { d with mpc_Node := some (node.setList dp li { l1 with u32_NvMCRC := dumpCrc p c_Dump }) },
    hsave, ?_, rfl, listAt_setList node dp li l _ hl, ?_, ?_⟩
  · rw [NvmReadList_of_list d G dp li node p l hn hp hl, if_pos hret, hdump, hsave]
  · split <;> simp_all
  · split <;> simp_all

/-- Witness for C2: the fixture dump carries the CRC 0xCF6D of its elements, little endian. -/
theorem NvmReadList_crc_check_witness :
    ∃ r d1,
      m_SaveDumpToList (fixtureProtocol 0 fixtureDump) fixtureDump fixtureList
        = some (r,
          { ({ fixtureList with c_Elements := fixtureDecodedElements } : C_OSCNodeDataPoolList) with
            u32_NvMCRC := dumpCrc (fixtureProtocol 0 fixtureDump) fixtureDump }) ∧
      (NvmReadList (fixtureDealer fixtureDump) fixtureNumBytesUsed 0 0).oc_Outcome
        = some (r, d1) ∧
      d1 = { fixtureDealer fixtureDump with
        mpc_Node := some (fixtureNode.setList 0 0
          { ({ fixtureList with c_Elements := fixtureDecodedElements } : C_OSCNodeDataPoolList) with
            u32_NvMCRC := dumpCrc (fixtureProtocol 0 fixtureDump) fixtureDump }) } ∧
      listAt d1.mpc_Node 0 0
        = some
          { ({ fixtureList with c_Elements := fixtureDecodedElements } : C_OSCNodeDataPoolList) with
            u32_NvMCRC := dumpCrc (fixtureProtocol 0 fixtureDump) fixtureDump } ∧
      (r = C_NO_ERR ↔
        NvmCalcCrc (some (fixtureProtocol 0 fixtureDump))
            { fixtureList with c_Elements := fixtureDecodedElements }
          = dumpCrc (fixtureProtocol 0 fixtureDump) fixtureDump) ∧
      (r ≠ C_NO_ERR → r = C_CHECKSUM) :=
  NvmReadList_crc_check (fixtureDealer fixtureDump) fixtureNumBytesUsed 0 0 fixtureNode
    (fixtureProtocol 0 fixtureDump) fixtureList
    { fixtureList with c_Elements := fixtureDecodedElements } fixtureDump
    rfl rfl (by decide) (by decide) (by decide) (by decide) (by decide) (by decide)

/-- C3, counterexample: the list of the fixture has a CRC and two one byte elements that both
lie at the address 102, so that both are decoded from byte 2 of the dump and byte 3 belongs to
no element. `NvmReadList` returns `C_NO_ERR` for the dump, and it still returns `C_NO_ERR` when
byte 3 of the dump is replaced by another value: the CRC is calculated over the values of the
elements, not over the bytes of the dump. -/
theorem NvmReadList_tampered_unused_byte_not_detected :
    fixtureOverlapList.q_NvMCRCActive = true ∧
    (NvmReadList (fixtureOverlapDealer fixtureOverlapDump) fixtureNumBytesUsed 0 0).oc_Outcome.map
      Prod.fst = some C_NO_ERR ∧
    fixtureOverlapDump.set 3 0x35 ≠ fixtureOverlapDump ∧
    (fixtureOverlapDump.set 3 0x35).length = fixtureOverlapDump.length ∧
    (∀ k, k ≠ 3 → (fixtureOverlapDump.set 3 0x35)[k]? = fixtureOverlapDump[k]?) ∧
    (NvmReadList (fixtureOverlapDealer (fixtureOverlapDump.set 3 0x35)) fixtureNumBytesUsed
      0 0).oc_Outcome.map Prod.fst = some C_NO_ERR ∧
    (NvmReadList
      { mpc_Node := (fixtureOverlapDealer fixtureOverlapDump).mpc_Node
        mpc_DiagProtocol := some (tamperedProtocol (fixtureProtocol 0 fixtureOverlapDump) 3 0x35) }
      fixtureNumBytesUsed 0 0).oc_Outcome.map Prod.fst = some C_NO_ERR := by
  refine ⟨rfl, by decide, by decide, by decide, fun k h_Ne => ?_, by decide, by decide⟩
  exact List.getElem?_set_ne (Ne.symm h_Ne)

/-- C3, amended. For every list with CRC of the node and every dump with which `NvmReadList` returns
`C_NO_ERR`, where the dump is laid out as the list content is (the two bytes of the stored CRC,
then the elements, every byte behind the CRC held by exactly one element): when exactly one byte
of that dump is replaced by another byte value, `NvmReadList` returns `C_CHECKSUM`. -/
theorem NvmReadList_tampered_byte_detected (node : C_OSCNode) (p : C_OSCDiagProtocolBase)
    (G : C_OSCNodeDataPoolList → Nat) (dp li : Nat) (l : C_OSCNodeDataPoolList)
    (d1 : C_OSCDataDealerNvm) (k b : Nat)
    (hl : listAt (some node) dp li = some l)
    (hcrc : l.q_NvMCRCActive = true)
    (hok : (NvmReadList { mpc_Node := some node, mpc_DiagProtocol := some p } G dp li).oc_Outcome
      = some (C_NO_ERR, d1))
    (hlayout : dumpLayout l
      (p.NvmRead l.u32_NvMStartAddress (List.replicate (G l) 0)).c_Values.length)
    (hk : k < (p.NvmRead l.u32_NvMStartAddress (List.replicate (G l) 0)).c_Values.length)
    (hold : (p.NvmRead l.u32_NvMStartAddress (List.replicate (G l) 0)).c_Values.getD k 0 < 0x100)
    (hb : b < 0x100)
    (hne : b ≠ (p.NvmRead l.u32_NvMStartAddress (List.replicate (G l) 0)).c_Values.getD k 0) :
    ∃ d2,
      (NvmReadList { mpc_Node := some node, mpc_DiagProtocol := some (tamperedProtocol p k b) }
        G dp li).oc_Outcome = some (C_CHECKSUM, d2) :=
  NvmReadList_of_replaced_byte node p G dp li l d1 k b hl hcrc hok hold hb hne (hlayout k hk)

/-- C3, witness: byte 2 of the fixture dump, a byte of the first element, is replaced. -/
theorem NvmReadList_tampered_byte_detected_witness :
    (dumpLayout fixtureList
        ((fixtureProtocol 0 fixtureDump).NvmRead fixtureList.u32_NvMStartAddress
          (List.replicate (fixtureNumBytesUsed fixtureList) 0)).c_Values.length ∧
      (NvmReadList (fixtureDealer fixtureDump) fixtureNumBytesUsed 0 0).oc_Outcome.map Prod.fst
        = some C_NO_ERR) ∧
    ∃ d2,
      (NvmReadList
        { mpc_Node := some fixtureNode
          mpc_DiagProtocol := some (tamperedProtocol (fixtureProtocol 0 fixtureDump) 2 0x13) }
        fixtureNumBytesUsed 0 0).oc_Outcome = some (C_CHECKSUM, d2) :=
  ⟨⟨by decide, by decide⟩,
    NvmReadList_tampered_byte_detected fixtureNode (fixtureProtocol 0 fixtureDump)
      fixtureNumBytesUsed 0 0 fixtureList _ 2 0x13 (by decide) (by decide) rfl (by decide)
      (by decide) (by decide) (by decide) (by decide)⟩

/-- Counterexample for C4: byte 2 of the fixture dump, a byte of the first element, is replaced.
`NvmReadList` returns `C_CHECKSUM`; the second element lies behind the replaced byte and was
not valid before the call, but it is valid after the call. -/
theorem NvmReadList_tampered_later_element_becomes_valid :
    (NvmReadList (fixtureDealer fixtureDump) fixtureNumBytesUsed 0 0).oc_Outcome.map Prod.fst
      = some C_NO_ERR ∧
    (NvmReadList
        { mpc_Node := some fixtureNode
          mpc_DiagProtocol := some (tamperedProtocol (fixtureProtocol 0 fixtureDump) 2 0x13) }
        fixtureNumBytesUsed 0 0).oc_Outcome.map Prod.fst
      = some C_CHECKSUM ∧
    (listAt (some fixtureNode) 0 0).map
        (fun l => l.c_Elements.map
          (fun e => (elementIndex l.u32_NvMStartAddress e, e.q_NvmValueIsValid)))
      = some [(2, false), (4, false)] ∧
    ((NvmReadList
        { mpc_Node := some fixtureNode
          mpc_DiagProtocol := some (tamperedProtocol (fixtureProtocol 0 fixtureDump) 2 0x13) }
        fixtureNumBytesUsed 0 0).oc_Outcome.bind (fun x => listAt x.2.mpc_Node 0 0)).map
        (fun l => l.c_Elements.map
          (fun e => (elementIndex l.u32_NvMStartAddress e, e.q_NvmValueIsValid)))
      = some [(2, true), (4, true)] := by
  decide

/-- C4, amended. When `NvmReadList` on a list of the node returns `C_CHECKSUM`, the list has a
CRC and every element of the list was decoded before the mismatch was detected: every element,
also one that lies behind a corrupted byte, has valid = true and holds its bytes of the dump,
whatever its valid flag was before the call. -/
theorem NvmReadList_checksum_all_decoded (d : C_OSCDataDealerNvm)
    (G : C_OSCNodeDataPoolList → Nat) (dp li : Nat) (node : C_OSCNode)
    (p : C_OSCDiagProtocolBase) (l : C_OSCNodeDataPoolList) (d1 : C_OSCDataDealerNvm)
    (hn : d.mpc_Node = some node) (hp : d.mpc_DiagProtocol = some p)
    (hl : listAt (some node) dp li = some l)
    (hout : (NvmReadList d G dp li).oc_Outcome = some (C_CHECKSUM, d1)) :
    l.q_NvMCRCActive = true ∧
    ∃ l2, listAt d1.mpc_Node dp li = some l2 ∧
      l2.c_Elements.length = l.c_Elements.length ∧
      ∀ (i : Nat) (e e2 : C_OSCNodeDataPoolListElement),
        l.c_Elements[i]? = some e → l2.c_Elements[i]? = some e2 →
          e2.q_NvmValueIsValid = true ∧
          e2.u32_NvMStartAddress = e.u32_NvMStartAddress ∧
          (if p.GetEndianness = p.mhu8_ENDIANNESS_BIG then
              e2.c_NvmValue.GetValueAsBigEndianBlob
            else e2.c_NvmValue.GetValueAsLittleEndianBlob)
            = ((m_NvmReadListRaw p G l []).c_Values.drop
                (u32_sub e.u32_NvMStartAddress l.u32_NvMStartAddress)).take e.GetSizeByte := by
  rw [NvmReadList_of_list d G dp li node p l hn hp hl] at hout
  split at hout
  · split at hout
    · simp at hout
    · next r l2 hsave =>
      simp only [Option.some.injEq, Prod.mk.injEq] at hout
      obtain ⟨hr, hd1⟩ := hout
      subst hr
      obtain ⟨hcrc, l1, hdec, hel, _⟩ := m_SaveDumpToList_checksum p _ l l2 hsave
      obtain ⟨hloop, _⟩ := m_SaveDumpValuesToListValues_some p _ l l1 _ hdec
      rcases saveDumpLoop_some p _ _ _ _ _ hloop with ⟨_, hmap, hin⟩ | ⟨hr, _⟩
      · refine ⟨hcrc, l2, ?_, ?_, ?_⟩
        · rw [← hd1]
          exact listAt_setList node dp li l l2 hl
        · rw [hel, hmap, List.length_map]
        · intro i e e2 he he2
          rw [hel, hmap, List.getElem?_map, he] at he2
          simp only [Option.map_some', Option.some.injEq] at he2
          subst he2
          have hb := hin e (List.getElem?_mem he)
          have hser := serializeNvmValue_decodeElement p e _ (elementBytes_length _ _ e hb)
          exact ⟨rfl, rfl, hser⟩
      · exact absurd hr (by decide)
  · simp only [Option.some.injEq, Prod.mk.injEq] at hout
    exact absurd hout.1 (m_NvmReadListRaw_ne_checksum p G l [])

/-- Witness for C4, amended: the fixture list read from the dump with byte 2 replaced. -/
theorem NvmReadList_checksum_all_decoded_witness :
    fixtureList.q_NvMCRCActive = true ∧
    ∃ l2,
      listAt
          ({ mpc_Node := some (fixtureNode.setList 0 0
              { fixtureList with
                u32_NvMCRC := 0xCF6D
                c_Elements :=
                  [{ u32_NvMStartAddress := 102, c_NvmValue := { mc_Data := [0x13, 0x34] },
                      q_NvmValueIsValid := true },
                    { u32_NvMStartAddress := 104, c_NvmValue := { mc_Data := [0x56] },
                      q_NvmValueIsValid := true }] })
             mpc_DiagProtocol := some (tamperedProtocol (fixtureProtocol 0 fixtureDump) 2 0x13) }
            : C_OSCDataDealerNvm).mpc_Node 0 0
        = some l2 ∧
      l2.c_Elements.length = fixtureList.c_Elements.length ∧
      ∀ (i : Nat) (e e2 : C_OSCNodeDataPoolListElement),
        fixtureList.c_Elements[i]? = some e → l2.c_Elements[i]? = some e2 →
          e2.q_NvmValueIsValid = true ∧
          e2.u32_NvMStartAddress = e.u32_NvMStartAddress ∧
          (if (tamperedProtocol (fixtureProtocol 0 fixtureDump) 2 0x13).GetEndianness
                = (tamperedProtocol (fixtureProtocol 0 fixtureDump) 2 0x13).mhu8_ENDIANNESS_BIG then
              e2.c_NvmValue.GetValueAsBigEndianBlob
            else e2.c_NvmValue.GetValueAsLittleEndianBlob)
            = ((m_NvmReadListRaw (tamperedProtocol (fixtureProtocol 0 fixtureDump) 2 0x13)
                  fixtureNumBytesUsed fixtureList []).c_Values.drop
                (u32_sub e.u32_NvMStartAddress fixtureList.u32_NvMStartAddress)).take
                  e.GetSizeByte :=
  NvmReadList_checksum_all_decoded
    { mpc_Node := some fixtureNode
      mpc_DiagProtocol := some (tamperedProtocol (fixtureProtocol 0 fixtureDump) 2 0x13) }
    fixtureNumBytesUsed 0 0 fixtureNode (tamperedProtocol (fixtureProtocol 0 fixtureDump) 2 0x13)
    fixtureList _ rfl rfl (by decide) rfl

/-- C6. Whenever `m_SaveDumpValuesToListValues` returns `C_NO_ERR`, the list keeps its stored CRC
(and its address, size and CRC flag), it has the same number of elements, and every element is
valid, keeps its address and size, lies inside the dump, and its NVM value is the element-size
bytes of the dump from offset (element address - list start address, in `uint32`) on: these bytes
are its big endian serialisation and its number read big endian when the protocol is big endian,
and its little endian serialisation and its number read little endian otherwise. -/
theorem m_SaveDumpValuesToListValues_no_err (p : C_OSCDiagProtocolBase) (vals : List Nat)
    (l l1 : C_OSCNodeDataPoolList)
    (h : m_SaveDumpValuesToListValues p vals l = some (C_NO_ERR, l1)) :
    l1.u32_NvMCRC = l.u32_NvMCRC ∧
    l1.u32_NvMStartAddress = l.u32_NvMStartAddress ∧
    l1.u32_NvMSize = l.u32_NvMSize ∧
    l1.q_NvMCRCActive = l.q_NvMCRCActive ∧
    l1.c_Elements.length = l.c_Elements.length ∧
    ∀ (i : Nat) (e e1 : C_OSCNodeDataPoolListElement),
      l.c_Elements[i]? = some e → l1.c_Elements[i]? = some e1 →
      e1.q_NvmValueIsValid = true ∧
      e1.u32_NvMStartAddress = e.u32_NvMStartAddress ∧
      e1.GetSizeByte = e.GetSizeByte ∧
      u32_sub e.u32_NvMStartAddress l.u32_NvMStartAddress + e.GetSizeByte ≤ vals.length ∧
      (p.GetEndianness = p.mhu8_ENDIANNESS_BIG →
        e1.c_NvmValue.GetValueAsBigEndianBlob
          = (vals.drop (u32_sub e.u32_NvMStartAddress l.u32_NvMStartAddress)).take e.GetSizeByte ∧
        littleEndianValue e1.c_NvmValue.mc_Data
          = bigEndianValue
              ((vals.drop (u32_sub e.u32_NvMStartAddress l.u32_NvMStartAddress)).take
                e.GetSizeByte)) ∧
      (p.GetEndianness ≠ p.mhu8_ENDIANNESS_BIG →
        e1.c_NvmValue.GetValueAsLittleEndianBlob
          = (vals.drop (u32_sub e.u32_NvMStartAddress l.u32_NvMStartAddress)).take e.GetSizeByte ∧
        littleEndianValue e1.c_NvmValue.mc_Data
          = littleEndianValue
              ((vals.drop (u32_sub e.u32_NvMStartAddress l.u32_NvMStartAddress)).take
                e.GetSizeByte)) := by
  obtain ⟨hloop, hl1⟩ := m_SaveDumpValuesToListValues_some p vals l l1 _ h
  rcases saveDumpLoop_some p _ vals _ _ _ hloop with ⟨_, hmap, hin⟩ | ⟨hr, _⟩
  · refine ⟨by rw [hl1], by rw [hl1], by rw [hl1], by rw [hl1], by rw [hmap]; simp, ?_⟩
    intro i e e1 he he1
    rw [hmap, List.getElem?_map, he] at he1
    simp at he1
    have hmem : e ∈ l.c_Elements := List.getElem?_mem he
    have hb := hin e hmem
    have hlen := elementBytes_length _ vals e hb
    subst he1
    refine ⟨rfl, rfl, decodeElement_size _ _ _, hb, ?_, ?_⟩
    · intro hbig
      have h1 := decodeElement_big p e _ hlen hbig
      refine ⟨h1, ?_⟩
      unfold C_OSCNodeDataPoolContent.GetValueAsBigEndianBlob at h1
      unfold bigEndianValue
      have h2 := congrArg List.reverse h1
      rw [List.reverse_reverse] at h2
      rw [h2]
      rfl
    · intro hlit
      have h1 := decodeElement_little p e _ hlen hlit
      refine ⟨h1, ?_⟩
      unfold C_OSCNodeDataPoolContent.GetValueAsLittleEndianBlob at h1
      rw [h1]
      rfl
  · exact absurd hr (by decide)

/-- Witness for C6: the fixture dump is decoded into the fixture list without error. -/
theorem m_SaveDumpValuesToListValues_no_err_witness :
    m_SaveDumpValuesToListValues (fixtureProtocol 0 []) fixtureDump fixtureList
      = some (C_NO_ERR, { fixtureList with c_Elements := fixtureDecodedElements }) ∧
    ({ fixtureList with c_Elements := fixtureDecodedElements } : C_OSCNodeDataPoolList).u32_NvMCRC
      = fixtureList.u32_NvMCRC ∧
    ∀ (i : Nat) (e e1 : C_OSCNodeDataPoolListElement),
      fixtureList.c_Elements[i]? = some e → fixtureDecodedElements[i]? = some e1 →
        e1.q_NvmValueIsValid = true ∧
        e1.c_NvmValue.GetValueAsLittleEndianBlob
          = (fixtureDump.drop
              (u32_sub e.u32_NvMStartAddress fixtureList.u32_NvMStartAddress)).take
                e.GetSizeByte :=
  ⟨by decide,
    (m_SaveDumpValuesToListValues_no_err (fixtureProtocol 0 []) fixtureDump fixtureList
      { fixtureList with c_Elements := fixtureDecodedElements } (by decide)).1,
    fun i e e1 he he1 =>
      have h := (m_SaveDumpValuesToListValues_no_err (fixtureProtocol 0 []) fixtureDump fixtureList
        { fixtureList with c_Elements := fixtureDecodedElements } (by decide)).2.2.2.2.2
          i e e1 he he1
      ⟨h.1, (h.2.2.2.2.2 (by decide)).1⟩⟩

/-- C7. For every list of the node that `NvmReadList` does not reject with `C_OVERFLOW`, the call
hands exactly one `NvmRead` request to the protocol: it goes to the NVM start address of the list
and its buffer has exactly `GetNumBytesUsed()` bytes, whatever the number of elements. -/
theorem NvmReadList_single_request (d : C_OSCDataDealerNvm)
    (G : C_OSCNodeDataPoolList → Nat) (dp li : Nat) (node : C_OSCNode)
    (p : C_OSCDiagProtocolBase) (l : C_OSCNodeDataPoolList)
    (hn : d.mpc_Node = some node) (hp : d.mpc_DiagProtocol = some p)
    (hl : listAt (some node) dp li = some l)
    (hacc : ∀ d1, (NvmReadList d G dp li).oc_Outcome ≠ some (C_OVERFLOW, d1)) :
    ∃ c_Buffer, (NvmReadList d G dp li).c_Requests
        = [{ u32_MemoryAddress := l.u32_NvMStartAddress, c_DataRecord := c_Buffer }] ∧
      c_Buffer.length = G l := by
  by_cases hrej : l.u32_NvMSize = 0 ∨ (l.q_NvMCRCActive = true ∧ l.u32_NvMSize ≤ 2)
  · exfalso
    apply hacc d
    rw [NvmReadList_of_list d G dp li node p l hn hp hl, m_NvmReadListRaw_rejected p G l [] hrej]
    simp
  · refine ⟨List.replicate (G l) 0, ?_, List.length_replicate _ _⟩
    rw [NvmReadList_requests d G dp li node p l hn hp hl,
      m_NvmReadListRaw_accepted p G l [] hrej, resize_nil]

/-- Witness for C7: reading the fixture list puts one request for five bytes at address 100. -/
theorem NvmReadList_single_request_witness :
    ∃ c_Buffer, (NvmReadList (fixtureDealer fixtureDump) fixtureNumBytesUsed 0 0).c_Requests
        = [{ u32_MemoryAddress := fixtureList.u32_NvMStartAddress, c_DataRecord := c_Buffer }] ∧
      c_Buffer.length = fixtureNumBytesUsed fixtureList :=
  NvmReadList_single_request (fixtureDealer fixtureDump) fixtureNumBytesUsed 0 0 fixtureNode
    (fixtureProtocol 0 fixtureDump) fixtureList rfl rfl (by decide)
    (by
      intro d1 h
      have h1 : Option.map Prod.fst
          (NvmReadList (fixtureDealer fixtureDump) fixtureNumBytesUsed 0 0).oc_Outcome
            = some C_OVERFLOW := by
        rw [h]
        rfl
      exact absurd h1 (by decide))

/-- Counterexample for C8: a list with CRC and an NVM size of 2 bytes is refused with
`C_OVERFLOW` without a request, although its size is not below the 2 bytes of the CRC. -/
theorem NvmReadList_crc_list_of_two_bytes_rejected :
    fixtureCrcOnlyList.q_NvMCRCActive = true ∧
    2 ≤ fixtureCrcOnlyList.u32_NvMSize ∧
    listAt fixtureCrcOnlyDealer.mpc_Node 0 0 = some fixtureCrcOnlyList ∧
    (NvmReadList fixtureCrcOnlyDealer fixtureNumBytesUsed 0 0).c_Requests = [] ∧
    (NvmReadList fixtureCrcOnlyDealer fixtureNumBytesUsed 0 0).oc_Outcome.map Prod.fst
      = some C_OVERFLOW := by
  decide

/-- C8, amended. `NvmReadList` refuses a list of the node with `C_OVERFLOW`, without a request to
the protocol and without a change of the data dealer, exactly when the NVM size of the list is 0,
or the list has a CRC and its NVM size is at most 2 (nothing behind the 2 bytes of the CRC). Every
other list is read with one request and the call does not return `C_OVERFLOW`; so it is for every
list with CRC and a size of at least 3 and for every list without CRC and a size of at least 1. -/
theorem NvmReadList_overflow_iff (d : C_OSCDataDealerNvm)
    (G : C_OSCNodeDataPoolList → Nat) (dp li : Nat) (node : C_OSCNode)
    (p : C_OSCDiagProtocolBase) (l : C_OSCNodeDataPoolList)
    (hn : d.mpc_Node = some node) (hp : d.mpc_DiagProtocol = some p)
    (hl : listAt (some node) dp li = some l) :
    ((l.u32_NvMSize = 0 ∨ (l.q_NvMCRCActive = true ∧ l.u32_NvMSize ≤ 2)) →
      (NvmReadList d G dp li).oc_Outcome = some (C_OVERFLOW, d) ∧
      (NvmReadList d G dp li).c_Requests = []) ∧
    (¬ (l.u32_NvMSize = 0 ∨ (l.q_NvMCRCActive = true ∧ l.u32_NvMSize ≤ 2)) →
      (∀ d1, (NvmReadList d G dp li).oc_Outcome ≠ some (C_OVERFLOW, d1)) ∧
      (NvmReadList d G dp li).c_Requests
        = [{ u32_MemoryAddress := l.u32_NvMStartAddress
             c_DataRecord := List.replicate (G l) 0 }]) ∧
    (l.q_NvMCRCActive = true → 3 ≤ l.u32_NvMSize →
      (NvmReadList d G dp li).c_Requests
        = [{ u32_MemoryAddress := l.u32_NvMStartAddress
             c_DataRecord := List.replicate (G l) 0 }]) ∧
    (l.q_NvMCRCActive = false → 1 ≤ l.u32_NvMSize →
      (NvmReadList d G dp li).c_Requests
        = [{ u32_MemoryAddress := l.u32_NvMStartAddress
             c_DataRecord := List.replicate (G l) 0 }]) := by
  have hreq : ¬ (l.u32_NvMSize = 0 ∨ (l.q_NvMCRCActive = true ∧ l.u32_NvMSize ≤ 2)) →
      (NvmReadList d G dp li).c_Requests
        = [{ u32_MemoryAddress := l.u32_NvMStartAddress
             c_DataRecord := List.replicate (G l) 0 }] := by
    intro hacc
    rw [NvmReadList_requests d G dp li node p l hn hp hl,
      m_NvmReadListRaw_accepted p G l [] hacc, resize_nil]
  refine ⟨?_, ?_, ?_, ?_⟩
  · intro hrej
    rw [NvmReadList_of_list d G dp li node p l hn hp hl, m_NvmReadListRaw_rejected p G l [] hrej]
    simp
  · intro hacc
    refine ⟨?_, hreq hacc⟩
    intro d1 hout
    rw [NvmReadList_of_list d G dp li node p l hn hp hl] at hout
    split at hout
    · split at hout
      · simp at hout
      · next r l1 hsave =>
        simp only [Option.some.injEq, Prod.mk.injEq] at hout
        rcases m_SaveDumpToList_codes p _ l l1 r hsave with h | h | h <;>
          rw [h] at hout <;> exact absurd hout.1 (by decide)
    · simp only [Option.some.injEq, Prod.mk.injEq] at hout
      rw [m_NvmReadListRaw_accepted p G l [] hacc] at hout
      exact m_AdaptProtocolReturnValue_ne_overflow _ hout.1
  · intro hcrc hsize
    apply hreq
    rintro (h | ⟨_, h⟩) <;> omega
  · intro hcrc hsize
    apply hreq
    rintro (h | ⟨h, _⟩)
    · omega
    · rw [hcrc] at h
      exact absurd h (by decide)

/-- Witness for C8, amended: the fixture list, with CRC and five bytes, is read. -/
theorem NvmReadList_overflow_iff_witness :
    (NvmReadList (fixtureDealer fixtureDump) fixtureNumBytesUsed 0 0).c_Requests
      = [{ u32_MemoryAddress := fixtureList.u32_NvMStartAddress
           c_DataRecord := List.replicate (fixtureNumBytesUsed fixtureList) 0 }] :=
  (NvmReadList_overflow_iff (fixtureDealer fixtureDump) fixtureNumBytesUsed 0 0 fixtureNode
    (fixtureProtocol 0 fixtureDump) fixtureList rfl rfl (by decide)).2.2.1 (by decide) (by decide)

/-- C9. `NvmReadList` returns `C_CONFIG` when no node or no protocol is installed; with both
installed it returns `C_RANGE` when the data pool index is not below the number of data pools of
the node or the list index is not below the number of lists of that data pool. In both cases no
request goes to the protocol and the data dealer is left as it was. -/
theorem NvmReadList_config_or_range (d : C_OSCDataDealerNvm)
    (G : C_OSCNodeDataPoolList → Nat) (dp li : Nat) :
    ((d.mpc_Node = none ∨ d.mpc_DiagProtocol = none) →
      (NvmReadList d G dp li).oc_Outcome = some (C_CONFIG, d) ∧
      (NvmReadList d G dp li).c_Requests = []) ∧
    (∀ (node : C_OSCNode) (p : C_OSCDiagProtocolBase),
      d.mpc_Node = some node → d.mpc_DiagProtocol = some p →
      (node.c_DataPools.length ≤ dp ∨
        ∃ pool, node.c_DataPools[dp]? = some pool ∧ pool.c_Lists.length ≤ li) →
      (NvmReadList d G dp li).oc_Outcome = some (C_RANGE, d) ∧
      (NvmReadList d G dp li).c_Requests = []) := by
  refine ⟨?_, ?_⟩
  · intro h
    rw [NvmReadList_config d G dp li h]
    exact ⟨rfl, rfl⟩
  · intro node p hn hp h
    have hnone : listAt (some node) dp li = none := by
      rw [listAt_eq_none]
      rcases h with h | ⟨pool, h1, h2⟩
      · exact Or.inl (List.getElem?_eq_none h)
      · exact Or.inr ⟨pool, h1, List.getElem?_eq_none h2⟩
    rw [NvmReadList_range d G dp li node p hn hp hnone]
    exact ⟨rfl, rfl⟩

/-- Witness for C9: a data dealer without node, and list index 1 where the data pool has one list. -/
theorem NvmReadList_config_or_range_witness :
    ((NvmReadList { mpc_Node := none, mpc_DiagProtocol := some (fixtureProtocol 0 fixtureDump) }
        fixtureNumBytesUsed 0 0).c_Requests = []) ∧
    ((NvmReadList (fixtureDealer fixtureDump) fixtureNumBytesUsed 0 1).oc_Outcome
        = some (C_RANGE, fixtureDealer fixtureDump) ∧
      (NvmReadList (fixtureDealer fixtureDump) fixtureNumBytesUsed 0 1).c_Requests = []) :=
  ⟨((NvmReadList_config_or_range
      { mpc_Node := none, mpc_DiagProtocol := some (fixtureProtocol 0 fixtureDump) }
      fixtureNumBytesUsed 0 0).1 (Or.inl rfl)).2,
    (NvmReadList_config_or_range (fixtureDealer fixtureDump) fixtureNumBytesUsed 0 1).2
      fixtureNode (fixtureProtocol 0 fixtureDump) rfl rfl
      (Or.inr ⟨{ c_Lists := [fixtureList] }, rfl, by decide⟩)⟩

/-- C10. If `NvmReadList` returns `C_CONFIG`, `C_RANGE` or `C_OVERFLOW`, or if the protocol
answers the read request for the list with anything other than `C_NO_ERR`, then the call leaves
the data dealer as it was: no value and no valid flag of an element and no stored CRC of a list
is changed, and the call does not return `C_NO_ERR`. -/
theorem NvmReadList_rejected_unchanged (d : C_OSCDataDealerNvm)
    (G : C_OSCNodeDataPoolList → Nat) (dp li : Nat)
    (h : (∃ d1, (NvmReadList d G dp li).oc_Outcome = some (C_CONFIG, d1)) ∨
      (∃ d1, (NvmReadList d G dp li).oc_Outcome = some (C_RANGE, d1)) ∨
      (∃ d1, (NvmReadList d G dp li).oc_Outcome = some (C_OVERFLOW, d1)) ∨
      (∃ p l, d.mpc_DiagProtocol = some p ∧ listAt d.mpc_Node dp li = some l ∧
        (p.NvmRead l.u32_NvMStartAddress (List.replicate (G l) 0)).s32_Return ≠ C_NO_ERR)) :
    ∃ r, (NvmReadList d G dp li).oc_Outcome = some (r, d) ∧ r ≠ C_NO_ERR := by
  cases hn : d.mpc_Node with
  | none =>
    rw [NvmReadList_config d G dp li (Or.inl hn)]
    exact ⟨C_CONFIG, rfl, by decide⟩
  | some node =>
    cases hp : d.mpc_DiagProtocol with
    | none =>
      rw [NvmReadList_config d G dp li (Or.inr hp)]
      exact ⟨C_CONFIG, rfl, by decide⟩
    | some p =>
      cases hl : listAt (some node) dp li with
      | none =>
        rw [NvmReadList_range d G dp li node p hn hp hl]
        exact ⟨C_RANGE, rfl, by decide⟩
      | some l =>
        rw [NvmReadList_of_list d G dp li node p l hn hp hl] at h ⊢
        by_cases hraw : (m_NvmReadListRaw p G l []).s32_Return = C_NO_ERR
        · exfalso
          rw [if_pos hraw] at h
          have hcodes : ∀ r d1,
              (match m_SaveDumpToList p (m_NvmReadListRaw p G l []).c_Values l with
                | none =>
                  ({ c_Requests := (m_NvmReadListRaw p G l []).c_Requests
                     oc_NrCode := (m_NvmReadListRaw p G l []).oc_NrCode
                     oc_Outcome := none } : T_NvmReadListResult)
                | some (r, l1) =>
                  { c_Requests := (m_NvmReadListRaw p G l []).c_Requests
                    oc_NrCode := (m_NvmReadListRaw p G l []).oc_NrCode
                    oc_Outcome :=
                      some (r, { d with mpc_Node := some (node.setList dp li l1) }) }).oc_Outcome
                = some (r, d1) → r = C_NO_ERR ∨ r = C_RD_WR ∨ r = C_CHECKSUM := by
            intro r d1 hout
            split at hout
            · simp at hout
            · next r2 l2 hsave =>
              simp only [Option.some.injEq, Prod.mk.injEq] at hout
              rw [← hout.1]
              exact m_SaveDumpToList_codes p _ l l2 r2 hsave
          rcases h with ⟨d1, h⟩ | ⟨d1, h⟩ | ⟨d1, h⟩ | ⟨p2, l2, h1, h2, h3⟩
          · rcases hcodes _ _ h with h | h | h <;> exact absurd h (by decide)
          · rcases hcodes _ _ h with h | h | h <;> exact absurd h (by decide)
          · rcases hcodes _ _ h with h | h | h <;> exact absurd h (by decide)
          · rw [hp] at h1
            rw [hn, hl] at h2
            cases h1
            cases h2
            by_cases hrej : l.u32_NvMSize = 0 ∨ (l.q_NvMCRCActive = true ∧ l.u32_NvMSize ≤ 2)
            · rw [m_NvmReadListRaw_rejected p G l [] hrej] at hraw
              exact absurd hraw (by decide)
            · rw [m_NvmReadListRaw_accepted p G l [] hrej, resize_nil] at hraw
              exact h3 ((m_AdaptProtocolReturnValue_eq_no_err _).mp hraw)
        · rw [if_neg hraw]
          exact ⟨_, rfl, hraw⟩

/-- Witness for C10: the protocol answers the read request with `C_TIMEOUT`. -/
theorem NvmReadList_rejected_unchanged_witness :
    ∃ r,
      (NvmReadList
        { mpc_Node := some fixtureNode, mpc_DiagProtocol := some (fixtureFailingProtocol C_TIMEOUT) }
        fixtureNumBytesUsed 0 0).oc_Outcome
        = some (r,
          { mpc_Node := some fixtureNode
            mpc_DiagProtocol := some (fixtureFailingProtocol C_TIMEOUT) }) ∧
      r ≠ C_NO_ERR :=
  NvmReadList_rejected_unchanged
    { mpc_Node := some fixtureNode, mpc_DiagProtocol := some (fixtureFailingProtocol C_TIMEOUT) }
    fixtureNumBytesUsed 0 0
    (Or.inr (Or.inr (Or.inr ⟨fixtureFailingProtocol C_TIMEOUT, fixtureList, rfl, by decide,
      by decide⟩)))

/-- C11: with at most 256 data pools per node (the index of a slot is handed over as a byte),
`m_GetAllDatapoolMetadata` asks for the slots 0, 1, 2, ... in this order and stops behind the
first slot `u32_Stop` that is not answered with `C_NO_ERR`, or behind the last of the
`hu32_MAX_NUMBER_OF_DATA_POOLS_PER_NODE` slots. The meta data of the slots before `u32_Stop` is
appended in this order to the meta data stored for the node, the meta data stored for the other
nodes stays as it is. The return code is `C_NO_ERR` if no slot failed or if the answer for slot
`u32_Stop` is `C_WARN` with the negative response code "request out of range", and the return
code of the answer for slot `u32_Stop` otherwise. -/
theorem m_GetAllDatapoolMetadata_scan_until_stop
    (c_Project : T_Project) (d : C_SyvComDriverDiag) (ou32_ActiveDiagNodeIndex : Nat)
    (orc_ErrorDetails : List T_ErrorDetail) (u32_ActiveNode u32_NodeIndex : Nat)
    (pc_Protocol : C_OscDiagProtocolBase) (c_Old : List C_DataPoolMetaData) (u32_Stop : Nat)
    (h_Max : c_Project.hu32_MAX_NUMBER_OF_DATA_POOLS_PER_NODE ≤ 0x100)
    (h_ActiveNode : d.mc_ActiveDiagNodes[ou32_ActiveDiagNodeIndex]? = some u32_ActiveNode)
    (h_Protocol : d.mc_DiagProtocols[u32_ActiveNode]? = some pc_Protocol)
    (h_NodeIndex : d.mc_ActiveNodesIndexes[u32_ActiveNode]? = some u32_NodeIndex)
    (h_Old : d.mc_ReadDatapoolMetadata[ou32_ActiveDiagNodeIndex]? = some c_Old)
    (h_Stop : u32_Stop ≤ c_Project.hu32_MAX_NUMBER_OF_DATA_POOLS_PER_NODE)
    (h_Positive : ∀ i, i < u32_Stop → (pc_Protocol.DataPoolReadMetaData i).s32_Return = C_NO_ERR)
    (h_Negative : u32_Stop < c_Project.hu32_MAX_NUMBER_OF_DATA_POOLS_PER_NODE →
      (pc_Protocol.DataPoolReadMetaData u32_Stop).s32_Return ≠ C_NO_ERR) :
    ∃ c_Result : T_DriverResult,
      m_GetAllDatapoolMetadata c_Project d ou32_ActiveDiagNodeIndex orc_ErrorDetails
        = some c_Result ∧
      c_Result.c_Requests
        = (List.range (min (u32_Stop + 1) c_Project.hu32_MAX_NUMBER_OF_DATA_POOLS_PER_NODE)).map
            (T_Request.readMetaData u32_ActiveNode) ∧
      c_Result.c_Driver.mc_ReadDatapoolMetadata[ou32_ActiveDiagNodeIndex]?
        = some (c_Old ++
            (List.range u32_Stop).map (fun i => (pc_Protocol.DataPoolReadMetaData i).c_MetaData)) ∧
      (∀ k, k ≠ ou32_ActiveDiagNodeIndex →
        c_Result.c_Driver.mc_ReadDatapoolMetadata[k]? = d.mc_ReadDatapoolMetadata[k]?) ∧
      c_Result.s32_Return
        = (if u32_Stop < c_Project.hu32_MAX_NUMBER_OF_DATA_POOLS_PER_NODE then
            (if (pc_Protocol.DataPoolReadMetaData u32_Stop).s32_Return = C_WARN ∧
                (pc_Protocol.DataPoolReadMetaData u32_Stop).u8_ErrorCode
                  = pc_Protocol.hu8_NR_CODE_REQUEST_OUT_OF_RANGE then C_NO_ERR
             else (pc_Protocol.DataPoolReadMetaData u32_Stop).s32_Return)
           else C_NO_ERR) := by
  obtain ⟨h_Requests, h_Metadata, h_Return, h_Reason⟩ :=
    getAllDatapoolMetadataLoop_from_zero pc_Protocol u32_Stop
      c_Project.hu32_MAX_NUMBER_OF_DATA_POOLS_PER_NODE h_Max h_Stop h_Positive h_Negative
  obtain ⟨c_Result, h_Result, h_Req, h_Store, h_Ret⟩ :=
    m_GetAllDatapoolMetadata_of_scan c_Project d ou32_ActiveDiagNodeIndex orc_ErrorDetails
      u32_ActiveNode u32_NodeIndex pc_Protocol c_Old h_ActiveNode h_Protocol h_NodeIndex h_Old
  refine ⟨c_Result, h_Result, ?_, ?_, ?_, ?_⟩
  · rw [h_Req, h_Requests]
  · rw [h_Store.1, h_Metadata]
  · exact h_Store.2
  · rw [h_Ret, h_Return]

/-- C11, witness: the fixture server answers the slots 0, 1 and 2 with meta data and slot 3 with
"request out of range": four requests, the three meta data are stored, the result is
`C_NO_ERR`. -/
theorem m_GetAllDatapoolMetadata_scan_until_stop_witness :
    ∃ c_Result : T_DriverResult,
      m_GetAllDatapoolMetadata fixtureProject fixtureDriver 0 [] = some c_Result ∧
      c_Result.c_Requests
        = [T_Request.readMetaData 0 0, T_Request.readMetaData 0 1, T_Request.readMetaData 0 2,
           T_Request.readMetaData 0 3] ∧
      c_Result.c_Driver.mc_ReadDatapoolMetadata[0]? = some fixtureServerMetadata ∧
      c_Result.s32_Return = C_NO_ERR := by
  obtain ⟨c_Result, h_Result, h_Requests, h_Store, _, h_Return⟩ :=
    m_GetAllDatapoolMetadata_scan_until_stop fixtureProject fixtureDriver 0 [] 0 0 fixtureServer [] 3
      (by decide) rfl rfl rfl rfl (by decide) (by decide) (by decide)
  exact ⟨c_Result, h_Result, h_Requests.trans rfl, h_Store.trans rfl, h_Return.trans rfl⟩

/-- C12, counterexample: data pool 0 (`Crash`) of the fixture node is used on a dashboard and
found in the meta data of the server with another version, but
`m_CheckOsyDatapoolsAndCreateMapping` does not return `C_DEFAULT`: the verify requests for the
data pools behind it are not answered in time and the function returns the `C_TIMEOUT` of the
last data pool that failed. -/
theorem m_CheckOsyDatapoolsAndCreateMapping_version_mismatch_then_timeout :
    fixtureOsyNode.c_DataPools[0]? = some fixtureDiagPool ∧
    isDatapoolRelevant fixtureView.c_RegisteredDashboardElements 0 0 = true ∧
    (m_GetReadDatapoolMetadata fixtureOtherVersionMetadata fixtureDiagPool.c_Name).oc_Metadata
      = some { au8_Version := (1, 0, 1), c_Name := "Crash" } ∧
    fixtureDiagPool.au8_Version ≠ (1, 0, 1) ∧
    (m_CheckOsyDatapoolsAndCreateMapping fixtureProject
      (fixtureDriverOf fixtureTimeoutServer fixtureOtherVersionMetadata) 0 []).map
      (fun c_Result => c_Result.s32_Return) = some C_TIMEOUT := by
  refine ⟨rfl, by decide, by decide, by decide, by decide⟩

/-- C12, amended: a data pool that is used on a dashboard and whose name is found in the meta
data of the server with a version that differs from the one of the client fails its check with
`C_DEFAULT` and a version reason, without a verify request and without an entry for the mapping,
whatever the protocol would answer to a verify request. `m_CheckOsyDatapoolsAndCreateMapping`
then fails: it returns the return code of the last data pool used on a dashboard whose check
fails, which is `C_DEFAULT` if the check of no used data pool behind this one fails, it
registers no mapping at the protocol, lists the version reason in the entry of the node in the
error details, and the verify requests it sends are those of the checks of the other data pools
used on a dashboard. -/
theorem m_CheckOsyDatapoolsAndCreateMapping_version_mismatch
    (c_Project : T_Project) (d : C_SyvComDriverDiag) (ou32_ActiveDiagNodeIndex : Nat)
    (orc_ErrorDetails : List T_ErrorDetail) (u32_ActiveNode u32_NodeIndex : Nat)
    (pc_Protocol : C_OscDiagProtocolBase) (pc_View : C_PuiSvData) (pc_Node : C_OscNode)
    (c_Metadata : List C_DataPoolMetaData) (i : Nat) (rc_Datapool : C_OscNodeDataPool)
    (c_Server : C_DataPoolMetaData)
    (h_ActiveNode : d.mc_ActiveDiagNodes[ou32_ActiveDiagNodeIndex]? = some u32_ActiveNode)
    (h_Protocol : d.mc_DiagProtocols[u32_ActiveNode]? = some pc_Protocol)
    (h_NodeIndex : d.mc_ActiveNodesIndexes[u32_ActiveNode]? = some u32_NodeIndex)
    (h_View : c_Project.c_Views[d.mu32_ViewIndex]? = some pc_View)
    (h_Node : c_Project.c_Nodes[u32_NodeIndex]? = some pc_Node)
    (h_Osy : pc_Protocol.q_IsOsy = true)
    (h_Metadata : d.mc_ReadDatapoolMetadata[ou32_ActiveDiagNodeIndex]? = some c_Metadata)
    (h_Pool : pc_Node.c_DataPools[i]? = some rc_Datapool)
    (h_Used : isDatapoolRelevant pc_View.c_RegisteredDashboardElements u32_NodeIndex i = true)
    (h_Found : (m_GetReadDatapoolMetadata c_Metadata rc_Datapool.c_Name).oc_Metadata
      = some c_Server)
    (h_Version : rc_Datapool.au8_Version ≠ c_Server.au8_Version) :
    checkDatapool pc_Protocol c_Metadata rc_Datapool i
      = { s32_Return := C_DEFAULT
          oc_ErrorReason := some (T_ErrorReason.versionMismatch rc_Datapool.c_Name
            rc_Datapool.au8_Version c_Server.au8_Version)
          oc_Mapping := none, c_Requests := [] } ∧
    ∃ c_Result : T_CheckResult,
      m_CheckOsyDatapoolsAndCreateMapping c_Project d ou32_ActiveDiagNodeIndex orc_ErrorDetails
        = some c_Result ∧
      c_Result.s32_Return ≠ C_NO_ERR ∧
      (∃ (k : Nat) (c_Last : C_OscNodeDataPool), i ≤ k ∧
        pc_Node.c_DataPools[k]? = some c_Last ∧
        isDatapoolRelevant pc_View.c_RegisteredDashboardElements u32_NodeIndex k = true ∧
        (checkDatapool pc_Protocol c_Metadata c_Last k).s32_Return = c_Result.s32_Return ∧
        ∀ (j : Nat) (c_Later : C_OscNodeDataPool), k < j →
          pc_Node.c_DataPools[j]? = some c_Later →
          isDatapoolRelevant pc_View.c_RegisteredDashboardElements u32_NodeIndex j = true →
          (checkDatapool pc_Protocol c_Metadata c_Later j).s32_Return = C_NO_ERR) ∧
      ((∀ (j : Nat) (c_Later : C_OscNodeDataPool), i < j →
          pc_Node.c_DataPools[j]? = some c_Later →
          isDatapoolRelevant pc_View.c_RegisteredDashboardElements u32_NodeIndex j = true →
          (checkDatapool pc_Protocol c_Metadata c_Later j).s32_Return = C_NO_ERR) →
        c_Result.s32_Return = C_DEFAULT) ∧
      c_Result.q_Registered = false ∧
      c_Result.c_Driver.mc_DiagProtocols = d.mc_DiagProtocols ∧
      (∃ c_Reasons : List T_ErrorReason,
        c_Result.c_ErrorDetails
          = orc_ErrorDetails ++ [{ c_NodeName := pc_Node.c_Name, c_Reasons := c_Reasons }] ∧
        T_ErrorReason.versionMismatch rc_Datapool.c_Name rc_Datapool.au8_Version
          c_Server.au8_Version ∈ c_Reasons) ∧
      c_Result.c_Requests
        = ((datapoolChecks pc_Protocol c_Metadata pc_View.c_RegisteredDashboardElements
              u32_NodeIndex (pc_Node.c_DataPools.take i) 0).map (fun c => c.c_Requests)).flatten ++
          ((datapoolChecks pc_Protocol c_Metadata pc_View.c_RegisteredDashboardElements
              u32_NodeIndex (pc_Node.c_DataPools.drop (i + 1)) (i + 1)).map
              (fun c => c.c_Requests)).flatten := by
  have h_Check := checkDatapool_version_mismatch pc_Protocol c_Metadata rc_Datapool i c_Server
    h_Found h_Version
  refine ⟨h_Check, ?_⟩
  have h_Failed : (checkDatapool pc_Protocol c_Metadata rc_Datapool i).s32_Return = C_DEFAULT := by
    rw [h_Check]
  obtain ⟨c_Result, h_Result, h_Ne, _, h_Reg, h_Drv, h_Details, h_Requests⟩ :=
    m_CheckOsyDatapoolsAndCreateMapping_of_failed_pool c_Project d ou32_ActiveDiagNodeIndex
      orc_ErrorDetails u32_ActiveNode u32_NodeIndex pc_Protocol pc_View pc_Node c_Metadata i
      rc_Datapool h_ActiveNode h_Protocol h_NodeIndex h_View h_Node h_Osy h_Metadata h_Pool h_Used
      h_Failed
  have h_Split := datapoolChecks_split pc_Protocol c_Metadata
    pc_View.c_RegisteredDashboardElements u32_NodeIndex pc_Node.c_DataPools i rc_Datapool h_Pool
    h_Used
  have h_NotOk : (checkDatapool pc_Protocol c_Metadata rc_Datapool i).s32_Return ≠ C_NO_ERR := by
    rw [h_Failed]
    decide
  have h_Last := m_CheckOsyDatapoolsAndCreateMapping_last_failed c_Project d
    ou32_ActiveDiagNodeIndex orc_ErrorDetails u32_ActiveNode u32_NodeIndex pc_Protocol pc_View
    pc_Node c_Metadata i rc_Datapool c_Result h_ActiveNode h_Protocol h_NodeIndex h_View h_Node
    h_Osy h_Metadata h_Pool h_Used h_NotOk h_Result
  have h_Default : (∀ (j : Nat) (c_Later : C_OscNodeDataPool), i < j →
      pc_Node.c_DataPools[j]? = some c_Later →
      isDatapoolRelevant pc_View.c_RegisteredDashboardElements u32_NodeIndex j = true →
      (checkDatapool pc_Protocol c_Metadata c_Later j).s32_Return = C_NO_ERR) →
      c_Result.s32_Return = C_DEFAULT := by
    intro h_AllLater
    obtain ⟨k, c_Last, h_Le, h_Get, h_KUsed, h_Eq, _⟩ := h_Last
    by_cases h_Same : k = i
    · rw [h_Same, h_Pool] at h_Get
      rw [← h_Eq, h_Same, ← Option.some.inj h_Get, h_Failed]
    · have h_Passed := h_AllLater k c_Last (by omega) h_Get h_KUsed
      rw [h_Eq] at h_Passed
      exact absurd h_Passed h_Ne
  refine ⟨c_Result, h_Result, h_Ne, h_Last, h_Default, h_Reg, h_Drv, ⟨_, h_Details, ?_⟩, ?_⟩
  · simp only [List.mem_flatten, List.mem_map]
    refine ⟨[T_ErrorReason.versionMismatch rc_Datapool.c_Name rc_Datapool.au8_Version
      c_Server.au8_Version], ⟨checkDatapool pc_Protocol c_Metadata rc_Datapool i, ?_, ?_⟩,
      List.mem_singleton.mpr rfl⟩
    · rw [failedChecks_mem, h_Split]
      refine ⟨List.mem_append_right _ (List.mem_cons_self _ _), ?_⟩
      rw [h_Failed]
      decide
    · rw [h_Check]
      rfl
  · rw [h_Requests, h_Split, h_Check]
    simp

/-- C12, witness: the fixture server holds `Crash` in version 1.0.1, the client in version 1.0.0;
the other two data pools pass, the function returns `C_DEFAULT` and sends the verify requests of
the other two data pools only. -/
theorem m_CheckOsyDatapoolsAndCreateMapping_version_mismatch_witness :
    ∃ c_Result : T_CheckResult,
      m_CheckOsyDatapoolsAndCreateMapping fixtureProject
        (fixtureDriverOf fixtureServer fixtureOtherVersionMetadata) 0 [] = some c_Result ∧
      c_Result.s32_Return = C_DEFAULT ∧
      c_Result.q_Registered = false ∧
      c_Result.c_ErrorDetails
        = [{ c_NodeName := "Node_A"
             c_Reasons := [T_ErrorReason.versionMismatch "Crash" (1, 0, 0) (1, 0, 1)] }] ∧
      c_Result.c_Requests
        = [{ u8_DataPoolIndex := 0, u32_DataPoolChecksum := 0x3333 },
           { u8_DataPoolIndex := 2, u32_DataPoolChecksum := 0x5555 }] := by
  obtain ⟨_, c_Result, h_Result, _, _, _, _, _, _, _⟩ :=
    m_CheckOsyDatapoolsAndCreateMapping_version_mismatch fixtureProject
      (fixtureDriverOf fixtureServer fixtureOtherVersionMetadata) 0 [] 0 0 fixtureServer
      fixtureView fixtureOsyNode fixtureOtherVersionMetadata 0 fixtureDiagPool
      { au8_Version := (1, 0, 1), c_Name := "Crash" } rfl rfl rfl rfl rfl rfl rfl rfl
      (by decide) (by decide) (by decide)
  have h_Value : (m_CheckOsyDatapoolsAndCreateMapping fixtureProject
      (fixtureDriverOf fixtureServer fixtureOtherVersionMetadata) 0 []).map
      (fun c => (c.s32_Return, c.q_Registered, c.c_ErrorDetails, c.c_Requests))
      = some (C_DEFAULT, false,
          [{ c_NodeName := "Node_A"
             c_Reasons := [T_ErrorReason.versionMismatch "Crash" (1, 0, 0) (1, 0, 1)] }],
          [{ u8_DataPoolIndex := 0, u32_DataPoolChecksum := 0x3333 },
           { u8_DataPoolIndex := 2, u32_DataPoolChecksum := 0x5555 }]) := by decide
  rw [h_Result] at h_Value
  simp only [Option.map_some', Option.some.injEq, Prod.mk.injEq] at h_Value
  exact ⟨c_Result, h_Result, h_Value.1, h_Value.2.1, h_Value.2.2.1, h_Value.2.2.2⟩

/-- C13, counterexample: data pool 0 (`Crash`) of the fixture node is used on a dashboard and no
meta data of the server has its name, but `m_CheckOsyDatapoolsAndCreateMapping` does not return
`C_DEFAULT`: the verify service fails for the data pools behind it and the function returns the
`C_COM` of the last data pool that failed. -/
theorem m_CheckOsyDatapoolsAndCreateMapping_missing_then_com :
    fixtureOsyNode.c_DataPools[0]? = some fixtureDiagPool ∧
    isDatapoolRelevant fixtureView.c_RegisteredDashboardElements 0 0 = true ∧
    (∀ m, m ∈ fixtureNoCrashMetadata → m.c_Name ≠ fixtureDiagPool.c_Name) ∧
    (m_CheckOsyDatapoolsAndCreateMapping fixtureProject
      (fixtureDriverOf fixtureComServer fixtureNoCrashMetadata) 0 []).map
      (fun c_Result => c_Result.s32_Return) = some C_COM := by
  refine ⟨rfl, by decide, by decide, by decide⟩

/-- C13, amended: a data pool that is used on a dashboard and whose name no meta data of the
server has fails its check with `C_DEFAULT` and the reason "does not exist on the server", and
`m_CheckOsyDatapoolsAndCreateMapping` fails: it returns the return code of the last data pool
used on a dashboard whose check fails, which is `C_DEFAULT` if the check of no used data pool
behind this one fails. The loop is not left: the verify requests sent are those of the
checks of all data pools used on a dashboard, in the order of the data pools of the client, and
the entry of the node in the error details has exactly one reason for each of these checks that
failed, in the same order; the reason of the missing data pool is among them. -/
theorem m_CheckOsyDatapoolsAndCreateMapping_missing_pool
    (c_Project : T_Project) (d : C_SyvComDriverDiag) (ou32_ActiveDiagNodeIndex : Nat)
    (orc_ErrorDetails : List T_ErrorDetail) (u32_ActiveNode u32_NodeIndex : Nat)
    (pc_Protocol : C_OscDiagProtocolBase) (pc_View : C_PuiSvData) (pc_Node : C_OscNode)
    (c_Metadata : List C_DataPoolMetaData) (i : Nat) (rc_Datapool : C_OscNodeDataPool)
    (h_ActiveNode : d.mc_ActiveDiagNodes[ou32_ActiveDiagNodeIndex]? = some u32_ActiveNode)
    (h_Protocol : d.mc_DiagProtocols[u32_ActiveNode]? = some pc_Protocol)
    (h_NodeIndex : d.mc_ActiveNodesIndexes[u32_ActiveNode]? = some u32_NodeIndex)
    (h_View : c_Project.c_Views[d.mu32_ViewIndex]? = some pc_View)
    (h_Node : c_Project.c_Nodes[u32_NodeIndex]? = some pc_Node)
    (h_Osy : pc_Protocol.q_IsOsy = true)
    (h_Metadata : d.mc_ReadDatapoolMetadata[ou32_ActiveDiagNodeIndex]? = some c_Metadata)
    (h_Pool : pc_Node.c_DataPools[i]? = some rc_Datapool)
    (h_Used : isDatapoolRelevant pc_View.c_RegisteredDashboardElements u32_NodeIndex i = true)
    (h_Missing : ∀ m, m ∈ c_Metadata → m.c_Name ≠ rc_Datapool.c_Name) :
    checkDatapool pc_Protocol c_Metadata rc_Datapool i
      = { s32_Return := C_DEFAULT
          oc_ErrorReason := some (T_ErrorReason.notOnServer rc_Datapool.c_Name)
          oc_Mapping := none, c_Requests := [] } ∧
    ∃ c_Result : T_CheckResult,
      m_CheckOsyDatapoolsAndCreateMapping c_Project d ou32_ActiveDiagNodeIndex orc_ErrorDetails
        = some c_Result ∧
      c_Result.s32_Return ≠ C_NO_ERR ∧
      (∃ (k : Nat) (c_Last : C_OscNodeDataPool), i ≤ k ∧
        pc_Node.c_DataPools[k]? = some c_Last ∧
        isDatapoolRelevant pc_View.c_RegisteredDashboardElements u32_NodeIndex k = true ∧
        (checkDatapool pc_Protocol c_Metadata c_Last k).s32_Return = c_Result.s32_Return ∧
        ∀ (j : Nat) (c_Later : C_OscNodeDataPool), k < j →
          pc_Node.c_DataPools[j]? = some c_Later →
          isDatapoolRelevant pc_View.c_RegisteredDashboardElements u32_NodeIndex j = true →
          (checkDatapool pc_Protocol c_Metadata c_Later j).s32_Return = C_NO_ERR) ∧
      ((∀ (j : Nat) (c_Later : C_OscNodeDataPool), i < j →
          pc_Node.c_DataPools[j]? = some c_Later →
          isDatapoolRelevant pc_View.c_RegisteredDashboardElements u32_NodeIndex j = true →
          (checkDatapool pc_Protocol c_Metadata c_Later j).s32_Return = C_NO_ERR) →
        c_Result.s32_Return = C_DEFAULT) ∧
      c_Result.c_Requests
        = ((datapoolChecks pc_Protocol c_Metadata pc_View.c_RegisteredDashboardElements
              u32_NodeIndex pc_Node.c_DataPools 0).map (fun c => c.c_Requests)).flatten ∧
      ∃ c_Reasons : List T_ErrorReason,
        c_Result.c_ErrorDetails
          = orc_ErrorDetails ++ [{ c_NodeName := pc_Node.c_Name, c_Reasons := c_Reasons }] ∧
        c_Reasons.map some
          = (failedChecks (datapoolChecks pc_Protocol c_Metadata
              pc_View.c_RegisteredDashboardElements u32_NodeIndex pc_Node.c_DataPools 0)).map
              (fun c => c.oc_ErrorReason) ∧
        T_ErrorReason.notOnServer rc_Datapool.c_Name ∈ c_Reasons := by
  have h_Check := checkDatapool_not_on_server pc_Protocol c_Metadata rc_Datapool i h_Missing
  refine ⟨h_Check, ?_⟩
  have h_Failed : (checkDatapool pc_Protocol c_Metadata rc_Datapool i).s32_Return = C_DEFAULT := by
    rw [h_Check]
  obtain ⟨c_Result, h_Result, h_Ne, _, _, _, h_Details, h_Requests⟩ :=
    m_CheckOsyDatapoolsAndCreateMapping_of_failed_pool c_Project d ou32_ActiveDiagNodeIndex
      orc_ErrorDetails u32_ActiveNode u32_NodeIndex pc_Protocol pc_View pc_Node c_Metadata i
      rc_Datapool h_ActiveNode h_Protocol h_NodeIndex h_View h_Node h_Osy h_Metadata h_Pool h_Used
      h_Failed
  have h_Split := datapoolChecks_split pc_Protocol c_Metadata
    pc_View.c_RegisteredDashboardElements u32_NodeIndex pc_Node.c_DataPools i rc_Datapool h_Pool
    h_Used
  have h_NotOk : (checkDatapool pc_Protocol c_Metadata rc_Datapool i).s32_Return ≠ C_NO_ERR := by
    rw [h_Failed]
    decide
  have h_Last := m_CheckOsyDatapoolsAndCreateMapping_last_failed c_Project d
    ou32_ActiveDiagNodeIndex orc_ErrorDetails u32_ActiveNode u32_NodeIndex pc_Protocol pc_View
    pc_Node c_Metadata i rc_Datapool c_Result h_ActiveNode h_Protocol h_NodeIndex h_View h_Node
    h_Osy h_Metadata h_Pool h_Used h_NotOk h_Result
  have h_Default : (∀ (j : Nat) (c_Later : C_OscNodeDataPool), i < j →
      pc_Node.c_DataPools[j]? = some c_Later →
      isDatapoolRelevant pc_View.c_RegisteredDashboardElements u32_NodeIndex j = true →
      (checkDatapool pc_Protocol c_Metadata c_Later j).s32_Return = C_NO_ERR) →
      c_Result.s32_Return = C_DEFAULT := by
    intro h_AllLater
    obtain ⟨k, c_Last, h_Le, h_Get, h_KUsed, h_Eq, _⟩ := h_Last
    by_cases h_Same : k = i
    · rw [h_Same, h_Pool] at h_Get
      rw [← h_Eq, h_Same, ← Option.some.inj h_Get, h_Failed]
    · have h_Passed := h_AllLater k c_Last (by omega) h_Get h_KUsed
      rw [h_Eq] at h_Passed
      exact absurd h_Passed h_Ne
  refine ⟨c_Result, h_Result, h_Ne, h_Last, h_Default, h_Requests, _, h_Details,
    datapoolChecks_failed_reasons _ _ _ _ _ _, ?_⟩
  simp only [List.mem_flatten, List.mem_map]
  refine ⟨[T_ErrorReason.notOnServer rc_Datapool.c_Name],
    ⟨checkDatapool pc_Protocol c_Metadata rc_Datapool i, ?_, ?_⟩, List.mem_singleton.mpr rfl⟩
  · rw [failedChecks_mem, h_Split]
    refine ⟨List.mem_append_right _ (List.mem_cons_self _ _), ?_⟩
    rw [h_Failed]
    decide
  · rw [h_Check]
    rfl

/-- C13, witness: the fixture server holds `Engine` instead of `Crash`; the other two data pools are still
verified (one verify request each) and pass, the function returns `C_DEFAULT` with the one reason
for `Crash`. -/
theorem m_CheckOsyDatapoolsAndCreateMapping_missing_pool_witness :
    ∃ c_Result : T_CheckResult,
      m_CheckOsyDatapoolsAndCreateMapping fixtureProject
        (fixtureDriverOf fixtureServer fixtureNoCrashMetadata) 0 [] = some c_Result ∧
      c_Result.s32_Return = C_DEFAULT ∧
      c_Result.c_ErrorDetails
        = [{ c_NodeName := "Node_A", c_Reasons := [T_ErrorReason.notOnServer "Crash"] }] ∧
      c_Result.c_Requests
        = [{ u8_DataPoolIndex := 0, u32_DataPoolChecksum := 0x3333 },
           { u8_DataPoolIndex := 2, u32_DataPoolChecksum := 0x5555 }] := by
  obtain ⟨_, c_Result, h_Result, _, _, _, _, _, _, _⟩ :=
    m_CheckOsyDatapoolsAndCreateMapping_missing_pool fixtureProject
      (fixtureDriverOf fixtureServer fixtureNoCrashMetadata) 0 [] 0 0 fixtureServer
      fixtureView fixtureOsyNode fixtureNoCrashMetadata 0 fixtureDiagPool rfl rfl rfl rfl rfl rfl
      rfl rfl (by decide) (by decide)
  have h_Value : (m_CheckOsyDatapoolsAndCreateMapping fixtureProject
      (fixtureDriverOf fixtureServer fixtureNoCrashMetadata) 0 []).map
      (fun c => (c.s32_Return, c.c_ErrorDetails, c.c_Requests))
      = some (C_DEFAULT,
          [{ c_NodeName := "Node_A", c_Reasons := [T_ErrorReason.notOnServer "Crash"] }],
          [{ u8_DataPoolIndex := 0, u32_DataPoolChecksum := 0x3333 },
           { u8_DataPoolIndex := 2, u32_DataPoolChecksum := 0x5555 }]) := by decide
  rw [h_Result] at h_Value
  simp only [Option.map_some', Option.some.injEq, Prod.mk.injEq] at h_Value
  exact ⟨c_Result, h_Result, h_Value.1, h_Value.2.1, h_Value.2.2⟩

/-- C14: for a data pool that is not of type NVM or HAL-NVM, if the server answers the verify
request with the hash of the generated definition with "no match" and the one with the hash of
the V1 compatible definition with "match", `mh_HandleDatapoolCrcVerification` returns `C_NO_ERR`
with match flag true after exactly these two requests. For every input at most two verify
requests are sent, and a second one only after the first returned `C_NO_ERR` with match flag
false. -/
theorem mh_HandleDatapoolCrcVerification_fallback_once
    (orc_Datapool : C_OscNodeDataPool) (orc_Protocol : C_OscDiagProtocolBase)
    (ou32_ServerDatapoolIndex : Nat) (q_Match : Bool) (oc_ErrorReason : Option T_ErrorReason)
    (h_Type : orc_Datapool.e_Type ≠ E_Type.eNVM ∧ orc_Datapool.e_Type ≠ E_Type.eHALC_NVM)
    (h_Generated : orc_Protocol.DataPoolVerify (ou32_ServerDatapoolIndex % 0x100)
      orc_Datapool.u32_GeneratedDefinitionHash = { s32_Return := C_NO_ERR, oq_Match := some false })
    (h_CompatV1 : orc_Protocol.DataPoolVerify (ou32_ServerDatapoolIndex % 0x100)
      orc_Datapool.u32_CompatV1DefinitionHash = { s32_Return := C_NO_ERR, oq_Match := some true }) :
    (mh_HandleDatapoolCrcVerification orc_Datapool orc_Protocol ou32_ServerDatapoolIndex q_Match
        oc_ErrorReason
      = { s32_Return := C_NO_ERR, q_Match := true, oc_ErrorReason := oc_ErrorReason
          c_Requests :=
            [{ u8_DataPoolIndex := ou32_ServerDatapoolIndex % 0x100
               u32_DataPoolChecksum := orc_Datapool.u32_GeneratedDefinitionHash },
             { u8_DataPoolIndex := ou32_ServerDatapoolIndex % 0x100
               u32_DataPoolChecksum := orc_Datapool.u32_CompatV1DefinitionHash }] }) ∧
    ∀ (c_Datapool : C_OscNodeDataPool) (c_Protocol : C_OscDiagProtocolBase) (u32_Index : Nat)
      (q_Before : Bool) (oc_Before : Option T_ErrorReason),
      (mh_HandleDatapoolCrcVerification c_Datapool c_Protocol u32_Index q_Before
        oc_Before).c_Requests.length ≤ 2 ∧
      ((mh_HandleDatapoolCrcVerification c_Datapool c_Protocol u32_Index q_Before
          oc_Before).c_Requests.length = 2 →
        (mh_DoDatapoolCrcVerification c_Datapool c_Protocol u32_Index true q_Before
            oc_Before).s32_Return = C_NO_ERR ∧
        (mh_DoDatapoolCrcVerification c_Datapool c_Protocol u32_Index true q_Before
            oc_Before).q_Match = false) := by
  refine ⟨?_, ?_⟩
  · simp [mh_HandleDatapoolCrcVerification, mh_DoDatapoolCrcVerification, h_Generated,
      h_CompatV1, h_Type.1, h_Type.2]
  · intro c_Datapool c_Protocol u32_Index q_Before oc_Before
    unfold mh_HandleDatapoolCrcVerification
    simp only []
    split_ifs with h_Return h_Flag h_NotNvm
    · simp [mh_DoDatapoolCrcVerification_requests, h_Return, h_Flag]
    · simp [mh_DoDatapoolCrcVerification_requests]
    · simp [mh_DoDatapoolCrcVerification_requests]
    · simp [mh_DoDatapoolCrcVerification_requests]

/-- C14, witness: the data pool `Crash` of type DIAG on the fixture server, which holds the V1
compatible definition in slot 1. -/
theorem mh_HandleDatapoolCrcVerification_fallback_once_witness :
    (mh_HandleDatapoolCrcVerification fixtureDiagPool fixtureServer 1 false none).s32_Return
      = C_NO_ERR ∧
    (mh_HandleDatapoolCrcVerification fixtureDiagPool fixtureServer 1 false none).q_Match = true ∧
    (mh_HandleDatapoolCrcVerification fixtureDiagPool fixtureServer 1 false none).c_Requests
      = [{ u8_DataPoolIndex := 1, u32_DataPoolChecksum := 0x1111 },
         { u8_DataPoolIndex := 1, u32_DataPoolChecksum := 0x2222 }] := by
  have h := (mh_HandleDatapoolCrcVerification_fallback_once fixtureDiagPool fixtureServer 1 false
    none (by decide) (by decide) (by decide)).1
  rw [h]
  exact ⟨rfl, rfl, rfl⟩

/-- C15: for a data pool of type NVM or HAL-NVM `mh_HandleDatapoolCrcVerification` sends exactly
one verify request, the one with the hash of the generated definition, and hands back what
`mh_DoDatapoolCrcVerification` made of the answer: the return code of the answer and the match
flag of the answer (the flag stays as it was if the answer carries none). -/
theorem mh_HandleDatapoolCrcVerification_nvm_single_request
    (orc_Datapool : C_OscNodeDataPool) (orc_Protocol : C_OscDiagProtocolBase)
    (ou32_ServerDatapoolIndex : Nat) (q_Match : Bool) (oc_ErrorReason : Option T_ErrorReason)
    (h_Type : orc_Datapool.e_Type = E_Type.eNVM ∨ orc_Datapool.e_Type = E_Type.eHALC_NVM) :
    mh_HandleDatapoolCrcVerification orc_Datapool orc_Protocol ou32_ServerDatapoolIndex q_Match
        oc_ErrorReason
      = mh_DoDatapoolCrcVerification orc_Datapool orc_Protocol ou32_ServerDatapoolIndex true
          q_Match oc_ErrorReason ∧
    (mh_HandleDatapoolCrcVerification orc_Datapool orc_Protocol ou32_ServerDatapoolIndex q_Match
        oc_ErrorReason).c_Requests
      = [{ u8_DataPoolIndex := ou32_ServerDatapoolIndex % 0x100
           u32_DataPoolChecksum := orc_Datapool.u32_GeneratedDefinitionHash }] ∧
    (mh_HandleDatapoolCrcVerification orc_Datapool orc_Protocol ou32_ServerDatapoolIndex q_Match
        oc_ErrorReason).s32_Return
      = (orc_Protocol.DataPoolVerify (ou32_ServerDatapoolIndex % 0x100)
          orc_Datapool.u32_GeneratedDefinitionHash).s32_Return ∧
    (mh_HandleDatapoolCrcVerification orc_Datapool orc_Protocol ou32_ServerDatapoolIndex q_Match
        oc_ErrorReason).q_Match
      = ((orc_Protocol.DataPoolVerify (ou32_ServerDatapoolIndex % 0x100)
          orc_Datapool.u32_GeneratedDefinitionHash).oq_Match).getD q_Match := by
  have h_Eq : mh_HandleDatapoolCrcVerification orc_Datapool orc_Protocol
      ou32_ServerDatapoolIndex q_Match oc_ErrorReason
      = mh_DoDatapoolCrcVerification orc_Datapool orc_Protocol ou32_ServerDatapoolIndex true
          q_Match oc_ErrorReason := by
    unfold mh_HandleDatapoolCrcVerification
    simp only []
    split
    · split
      · rw [if_neg]
        intro h_Not
        rcases h_Type with h | h
        · exact h_Not.1 h
        · exact h_Not.2 h
      · rfl
    · rfl
  rw [h_Eq]
  exact ⟨rfl, mh_DoDatapoolCrcVerification_requests _ _ _ _ _ _,
    mh_DoDatapoolCrcVerification_return _ _ _ _ _ _,
    mh_DoDatapoolCrcVerification_match _ _ _ _ _ _⟩

/-- C15, witness: the data pool `Params` of type NVM with a hash that the fixture server does not
hold in slot 1: one request and the answer "no match" is handed back. -/
theorem mh_HandleDatapoolCrcVerification_nvm_single_request_witness :
    (mh_HandleDatapoolCrcVerification fixtureNvmPool fixtureServer 1 true none).c_Requests
      = [{ u8_DataPoolIndex := 1, u32_DataPoolChecksum := 0x3333 }] ∧
    (mh_HandleDatapoolCrcVerification fixtureNvmPool fixtureServer 1 true none).s32_Return
      = C_NO_ERR ∧
    (mh_HandleDatapoolCrcVerification fixtureNvmPool fixtureServer 1 true none).q_Match
      = false := by
  have h := mh_HandleDatapoolCrcVerification_nvm_single_request fixtureNvmPool fixtureServer 1
    true none (Or.inl rfl)
  exact ⟨h.2.1, h.2.2.1.trans rfl, h.2.2.2.trans rfl⟩

/-- C16, counterexample: data pool 2 (`Log`) of the fixture node is used on a dashboard and
passes its check against the server, in whose meta data it has the index 2 as well; the pair
`2 → 2` is in the mapping that `m_CheckOsyDatapoolsAndCreateMapping` builds. The version of
another data pool (`Crash`) differs, the function returns `C_DEFAULT` and does not call
`RegisterDataPoolMapping`: the mapping of the protocol is as empty as before the call. -/
theorem m_CheckOsyDatapoolsAndCreateMapping_passed_pool_not_registered :
    fixtureOsyNode.c_DataPools[2]? = some fixtureLogPool ∧
    isDatapoolRelevant fixtureView.c_RegisteredDashboardElements 0 2 = true ∧
    (checkDatapool fixtureServer fixtureOtherVersionMetadata fixtureLogPool 2).s32_Return
      = C_NO_ERR ∧
    (checkDatapool fixtureServer fixtureOtherVersionMetadata fixtureLogPool 2).oc_Mapping
      = some (2, 2) ∧
    (m_CheckOsyDatapoolsAndCreateMapping fixtureProject
      (fixtureDriverOf fixtureServer fixtureOtherVersionMetadata) 0 []).map
      (fun c_Result => (c_Result.s32_Return, c_Result.q_Registered,
        mapFind c_Result.c_DatapoolMapping 2))
      = some (C_DEFAULT, false, some 2) ∧
    (m_CheckOsyDatapoolsAndCreateMapping fixtureProject
      (fixtureDriverOf fixtureServer fixtureOtherVersionMetadata) 0 []).map
      (fun c_Result => (c_Result.c_Driver.mc_DiagProtocols.map (fun p => p.mc_DataPoolMapping)))
      = some [[]] ∧
    (fixtureDriverOf fixtureServer fixtureOtherVersionMetadata).mc_DiagProtocols.map
      (fun p => p.mc_DataPoolMapping) = [[]] := by
  refine ⟨rfl, by decide, by decide, by decide, by decide, by decide, by decide⟩

/-- C16, amended: with at most 256 data pools on the client and at most 256 meta data read from
the server (indexes are kept as bytes), for every data pool `i` that is used on a dashboard and
passes its check (name found, version equal, checksum verified) the mapping built by
`m_CheckOsyDatapoolsAndCreateMapping` holds for the key `i` the index `j` of the first meta data
of the server with the name of the data pool, whether `j` differs from `i` or not. The function
returns `C_NO_ERR` exactly when the check of every data pool used on a dashboard passes; then
this mapping is the one handed to the protocol with `RegisterDataPoolMapping`. Otherwise
`RegisterDataPoolMapping` is not called and the driver with its protocols is as before the
call. -/
theorem m_CheckOsyDatapoolsAndCreateMapping_mapping_recorded
    (c_Project : T_Project) (d : C_SyvComDriverDiag) (ou32_ActiveDiagNodeIndex : Nat)
    (orc_ErrorDetails : List T_ErrorDetail) (u32_ActiveNode u32_NodeIndex : Nat)
    (pc_Protocol : C_OscDiagProtocolBase) (pc_View : C_PuiSvData) (pc_Node : C_OscNode)
    (c_Metadata : List C_DataPoolMetaData) (i : Nat) (rc_Datapool : C_OscNodeDataPool)
    (h_ActiveNode : d.mc_ActiveDiagNodes[ou32_ActiveDiagNodeIndex]? = some u32_ActiveNode)
    (h_Protocol : d.mc_DiagProtocols[u32_ActiveNode]? = some pc_Protocol)
    (h_NodeIndex : d.mc_ActiveNodesIndexes[u32_ActiveNode]? = some u32_NodeIndex)
    (h_View : c_Project.c_Views[d.mu32_ViewIndex]? = some pc_View)
    (h_Node : c_Project.c_Nodes[u32_NodeIndex]? = some pc_Node)
    (h_Osy : pc_Protocol.q_IsOsy = true)
    (h_Metadata : d.mc_ReadDatapoolMetadata[ou32_ActiveDiagNodeIndex]? = some c_Metadata)
    (h_ClientPools : pc_Node.c_DataPools.length ≤ 0x100)
    (h_ServerPools : c_Metadata.length ≤ 0x100)
    (h_Pool : pc_Node.c_DataPools[i]? = some rc_Datapool)
    (h_Used : isDatapoolRelevant pc_View.c_RegisteredDashboardElements u32_NodeIndex i = true)
    (h_Passed : (checkDatapool pc_Protocol c_Metadata rc_Datapool i).s32_Return = C_NO_ERR) :
    ∃ (c_Result : T_CheckResult) (j : Nat) (c_Server : C_DataPoolMetaData),
      m_CheckOsyDatapoolsAndCreateMapping c_Project d ou32_ActiveDiagNodeIndex orc_ErrorDetails
        = some c_Result ∧
      c_Metadata[j]? = some c_Server ∧ c_Server.c_Name = rc_Datapool.c_Name ∧
      (∀ (k : Nat) (c_Other : C_DataPoolMetaData), k < j → c_Metadata[k]? = some c_Other →
        c_Other.c_Name ≠ rc_Datapool.c_Name) ∧
      mapFind c_Result.c_DatapoolMapping i = some j ∧
      (c_Result.s32_Return = C_NO_ERR ↔
        ∀ (k : Nat) (c_Other : C_OscNodeDataPool), pc_Node.c_DataPools[k]? = some c_Other →
          isDatapoolRelevant pc_View.c_RegisteredDashboardElements u32_NodeIndex k = true →
          (checkDatapool pc_Protocol c_Metadata c_Other k).s32_Return = C_NO_ERR) ∧
      (c_Result.s32_Return = C_NO_ERR →
        c_Result.q_Registered = true ∧
        ∃ c_Registered : C_OscDiagProtocolBase,
          c_Result.c_Driver.mc_DiagProtocols[u32_ActiveNode]? = some c_Registered ∧
          c_Registered.mc_DataPoolMapping = c_Result.c_DatapoolMapping ∧
          mapFind c_Registered.mc_DataPoolMapping i = some j) ∧
      (c_Result.s32_Return ≠ C_NO_ERR →
        c_Result.q_Registered = false ∧ c_Result.c_Driver = d) := by
  have h_Iff := (foldl_take_retval_no_err
    (datapoolChecks pc_Protocol c_Metadata pc_View.c_RegisteredDashboardElements u32_NodeIndex
      pc_Node.c_DataPools 0)
    { s32_Retval := C_NO_ERR, c_DataPoolErrorString := [], c_DatapoolMapping := []
      c_Requests := [] } rfl).trans
    (datapoolChecks_all_passed_iff pc_Protocol c_Metadata pc_View.c_RegisteredDashboardElements
      u32_NodeIndex pc_Node.c_DataPools)
  obtain ⟨j, c_Server, h_Get, h_Same, h_First, _, _, _, h_Map⟩ :=
    checkDatapool_passed pc_Protocol c_Metadata rc_Datapool i h_Passed
  have h_J : j < c_Metadata.length := by
    by_contra h_Not
    rw [List.getElem?_eq_none (by omega)] at h_Get
    exact Option.noConfusion h_Get
  rw [Nat.mod_eq_of_lt (show j < 0x100 by omega)] at h_Map
  have h_Find := foldl_take_mapFind_of_passed pc_Protocol c_Metadata
    pc_View.c_RegisteredDashboardElements u32_NodeIndex pc_Node.c_DataPools i j rc_Datapool
    { s32_Retval := C_NO_ERR, c_DataPoolErrorString := [], c_DatapoolMapping := []
      c_Requests := [] } h_ClientPools h_Pool h_Used h_Map
  rw [m_CheckOsyDatapoolsAndCreateMapping_of_checks c_Project d ou32_ActiveDiagNodeIndex
    orc_ErrorDetails u32_ActiveNode u32_NodeIndex pc_Protocol pc_View pc_Node c_Metadata
    h_ActiveNode h_Protocol h_NodeIndex h_View h_Node h_Osy h_Metadata]
  split_ifs with h_Ok
  · refine ⟨_, j, c_Server, rfl, h_Get, h_Same, h_First, h_Find,
      ⟨fun _ => h_Iff.mp h_Ok, fun _ => rfl⟩, fun _ => ⟨rfl, ?_⟩, fun h_Bad => absurd rfl h_Bad⟩
    refine ⟨_, registerDataPoolMapping_protocol d u32_ActiveNode _ pc_Protocol h_Protocol,
      rfl, h_Find⟩
  · refine ⟨_, j, c_Server, rfl, h_Get, h_Same, h_First, h_Find,
      ⟨fun h_Bad => absurd h_Bad h_Ok, fun h_All => absurd (h_Iff.mpr h_All) h_Ok⟩,
      fun h_Bad => absurd h_Bad h_Ok, fun _ => ⟨rfl, rfl⟩⟩

/-- C16, witness: data pool 2 (`Log`) of the fixture node is in slot 2 of the fixture server as
well: the pair with the same index on both sides is in the mapping handed to the protocol, next
to the pairs of the other two data pools, which change places. -/
theorem m_CheckOsyDatapoolsAndCreateMapping_mapping_recorded_witness :
    ∃ c_Result : T_CheckResult,
      m_CheckOsyDatapoolsAndCreateMapping fixtureProject
        (fixtureDriverOf fixtureServer fixtureServerMetadata) 0 [] = some c_Result ∧
      mapFind c_Result.c_DatapoolMapping 2 = some 2 ∧
      c_Result.s32_Return = C_NO_ERR ∧
      c_Result.c_DatapoolMapping = [(0, 1), (1, 0), (2, 2)] ∧
      (c_Result.c_Driver.mc_DiagProtocols[0]?).map (fun p => p.mc_DataPoolMapping)
        = some [(0, 1), (1, 0), (2, 2)] := by
  obtain ⟨c_Result, j, c_Server, h_Result, h_Get, h_Same, _, h_Find, _, h_Registered, _⟩ :=
    m_CheckOsyDatapoolsAndCreateMapping_mapping_recorded fixtureProject
      (fixtureDriverOf fixtureServer fixtureServerMetadata) 0 [] 0 0 fixtureServer
      fixtureView fixtureOsyNode fixtureServerMetadata 2 fixtureLogPool rfl rfl rfl rfl rfl rfl
      rfl (by decide) (by decide) rfl (by decide) (by decide)
  have h_Value : (m_CheckOsyDatapoolsAndCreateMapping fixtureProject
      (fixtureDriverOf fixtureServer fixtureServerMetadata) 0 []).map
      (fun c => (c.s32_Return, c.c_DatapoolMapping)) = some (C_NO_ERR, [(0, 1), (1, 0), (2, 2)]) := by
    decide
  rw [h_Result] at h_Value
  simp only [Option.map_some', Option.some.injEq, Prod.mk.injEq] at h_Value
  obtain ⟨_, c_Registered, h_Protocol, h_Table, _⟩ := h_Registered h_Value.1
  refine ⟨c_Result, h_Result, ?_, h_Value.1, h_Value.2, ?_⟩
  · rw [h_Value.2]
    decide
  · rw [h_Protocol, Option.map_some', h_Table, h_Value.2]

/-- C17: on an initialized driver with at least one protocol instance whose vectors fit to each
other (every active node with diagnosis has a protocol instance and a node of the system
definition), `m_StartDiagServers` returns a result and runs the body of its loop for every active
node with diagnosis `k`, from the state `c_Before` that the loop reached in front of `k` to the
state `c_After`, whatever the return code so far is. A return code other than `C_NO_ERR` is never
replaced by `C_NO_ERR`. A node that is not in `mc_DiagNodesWithElements` or is a KEFEX node leaves
the state as it is (no request, no error detail, same return code). The return code changes only
for a node in `mc_DiagNodesWithElements` that is not a KEFEX node and for which
`m_GetAllDatapoolMetadata` or, after it, `m_CheckOsyDatapoolsAndCreateMapping` returned the new
return code, which is not `C_NO_ERR`. The result is other than `C_NO_ERR` exactly if there is
such a node. The set `mc_DiagNodesWithElements` is filled by `m_InitDiagNodes` with the nodes of
the read rail assignments and of the write assignments of the view. -/
theorem m_StartDiagServers_visits_all_nodes
    (c_Project : T_Project) (d : C_SyvComDriverDiag) (orc_ErrorDetails : List T_ErrorDetail)
    (h_Initialized : d.mq_Initialized = true)
    (h_Protocols : d.mc_DiagProtocols.length > 0)
    (h_Consistent : d.consistent c_Project) :
    ∃ c_Result : T_DriverResult,
      m_StartDiagServers c_Project d orc_ErrorDetails = some c_Result ∧
      startDiagServersLoop c_Project d.mc_ActiveDiagNodes.length 0
          (startDiagServersInit d orc_ErrorDetails)
        = some { s32_Retval := c_Result.s32_Return, c_Driver := c_Result.c_Driver
                 c_ErrorDetails := c_Result.c_ErrorDetails, c_Requests := c_Result.c_Requests } ∧
      (∀ k, k < d.mc_ActiveDiagNodes.length →
        ∃ (c_Before c_After : T_StartState) (u32_ActiveNode u32_NodeIndex : Nat)
          (pc_Node : C_OscNode),
          startDiagServersLoop c_Project k 0 (startDiagServersInit d orc_ErrorDetails)
            = some c_Before ∧
          startDiagServer c_Project k c_Before = some c_After ∧
          startDiagServersLoop c_Project (k + 1) 0 (startDiagServersInit d orc_ErrorDetails)
            = some c_After ∧
          d.mc_ActiveDiagNodes[k]? = some u32_ActiveNode ∧
          d.mc_ActiveNodesIndexes[u32_ActiveNode]? = some u32_NodeIndex ∧
          c_Project.c_Nodes[u32_NodeIndex]? = some pc_Node ∧
          (c_Before.s32_Retval ≠ C_NO_ERR → c_After.s32_Retval ≠ C_NO_ERR) ∧
          (u32_NodeIndex ∉ d.mc_DiagNodesWithElements ∨
              pc_Node.e_DiagnosticServer = E_DiagnosticServerProtocol.eDS_KEFEX →
            c_After = c_Before) ∧
          (c_After.s32_Retval ≠ c_Before.s32_Retval →
            u32_NodeIndex ∈ d.mc_DiagNodesWithElements ∧
            pc_Node.e_DiagnosticServer ≠ E_DiagnosticServerProtocol.eDS_KEFEX ∧
            c_After.s32_Retval ≠ C_NO_ERR ∧
            ∃ c_Read, m_GetAllDatapoolMetadata c_Project c_Before.c_Driver k
                c_Before.c_ErrorDetails = some c_Read ∧
              (c_Read.s32_Return = c_After.s32_Retval ∨
                (c_Read.s32_Return = C_NO_ERR ∧
                  ∃ c_Check, m_CheckOsyDatapoolsAndCreateMapping c_Project c_Read.c_Driver k
                      c_Read.c_ErrorDetails = some c_Check ∧
                    c_Check.s32_Return = c_After.s32_Retval)))) ∧
      (c_Result.s32_Return ≠ C_NO_ERR ↔
        ∃ (k : Nat) (c_Before c_After : T_StartState), k < d.mc_ActiveDiagNodes.length ∧
          startDiagServersLoop c_Project k 0 (startDiagServersInit d orc_ErrorDetails)
            = some c_Before ∧
          startDiagServer c_Project k c_Before = some c_After ∧
          c_After.s32_Retval ≠ c_Before.s32_Retval) ∧
      ∀ (c_Driver : C_SyvComDriverDiag) (pc_View : C_PuiSvData) (u32_NodeIndex : Nat),
        c_Project.c_Views[c_Driver.mu32_ViewIndex]? = some pc_View →
        (u32_NodeIndex ∈ (m_InitDiagNodes c_Project c_Driver).2.mc_DiagNodesWithElements ↔
          u32_NodeIndex ∈ c_Driver.mc_DiagNodesWithElements ∨
          (∃ c_Id, c_Id ∈ pc_View.c_ReadRailAssignments ∧ c_Id.u32_NodeIndex = u32_NodeIndex) ∨
          (∃ c_Id, c_Id ∈ pc_View.c_WriteAssignments ∧ c_Id.u32_NodeIndex = u32_NodeIndex)) := by
  have h_InitConsistent : (startDiagServersInit d orc_ErrorDetails).c_Driver.consistent
      c_Project := h_Consistent
  have h_InitLength : (startDiagServersInit d orc_ErrorDetails).c_Driver.mc_ReadDatapoolMetadata.length
      = (startDiagServersInit d orc_ErrorDetails).c_Driver.mc_ActiveDiagNodes.length := by
    simp only [startDiagServersInit, List.length_replicate]
  have h_Total := startDiagServersLoop_total c_Project (startDiagServersInit d orc_ErrorDetails)
    h_InitConsistent h_InitLength
  have h_N : (startDiagServersInit d orc_ErrorDetails).c_Driver.mc_ActiveDiagNodes.length
      = d.mc_ActiveDiagNodes.length := rfl
  rw [h_N] at h_Total
  obtain ⟨c_Final, h_Final, _⟩ := h_Total d.mc_ActiveDiagNodes.length (Nat.le_refl _)
  have h_Steps : ∀ k, k < d.mc_ActiveDiagNodes.length →
      ∃ (c_Before c_After : T_StartState),
        startDiagServersLoop c_Project k 0 (startDiagServersInit d orc_ErrorDetails)
          = some c_Before ∧
        startDiagServer c_Project k c_Before = some c_After ∧
        startDiagServersLoop c_Project (k + 1) 0 (startDiagServersInit d orc_ErrorDetails)
          = some c_After ∧
        (startDiagServersInit d orc_ErrorDetails).c_Driver.sameFrame c_Before.c_Driver := by
    intro k h_K
    obtain ⟨c_Before, h_Before, h_Frame⟩ := h_Total k (by omega)
    obtain ⟨c_After, h_After, _⟩ := h_Total (k + 1) (by omega)
    refine ⟨c_Before, c_After, h_Before, ?_, h_After, h_Frame⟩
    rw [startDiagServersLoop_succ, h_Before, Option.some_bind, Nat.zero_add] at h_After
    exact h_After
  refine ⟨{ s32_Return := c_Final.s32_Retval, c_Driver := c_Final.c_Driver
            c_ErrorDetails := c_Final.c_ErrorDetails, c_Requests := c_Final.c_Requests },
    ?_, h_Final, ?_, ?_, ?_⟩
  · unfold m_StartDiagServers
    rw [if_pos ⟨h_Initialized, h_Protocols⟩, h_Final]
  · intro k h_K
    obtain ⟨c_Before, c_After, h_Before, h_Step, h_After, h_Frame⟩ := h_Steps k h_K
    obtain ⟨_, _, a3, a4, a5, _, _⟩ := h_Frame
    have b3 : c_Before.c_Driver.mc_ActiveNodesIndexes = d.mc_ActiveNodesIndexes := a3
    have b4 : c_Before.c_Driver.mc_ActiveDiagNodes = d.mc_ActiveDiagNodes := a4
    have b5 : c_Before.c_Driver.mc_DiagNodesWithElements = d.mc_DiagNodesWithElements := a5
    obtain ⟨u32_ActiveNode, u32_NodeIndex, h_ActiveNode, h_NodeIndex, h_Cases⟩ :=
      startDiagServer_cases c_Project k c_Before c_After h_Step
    rw [b4] at h_ActiveNode
    rw [b3] at h_NodeIndex
    rw [b5] at h_Cases
    obtain ⟨_, u32_Other, h_Other, h_NodeLt⟩ := h_Consistent u32_ActiveNode
      (List.getElem?_mem h_ActiveNode)
    rw [h_NodeIndex] at h_Other
    have h_Same : u32_NodeIndex = u32_Other := Option.some.inj h_Other
    rw [← h_Same] at h_NodeLt
    have h_Node := List.getElem?_eq_getElem h_NodeLt
    refine ⟨c_Before, c_After, u32_ActiveNode, u32_NodeIndex, c_Project.c_Nodes[u32_NodeIndex],
      h_Before, h_Step, h_After, h_ActiveNode, h_NodeIndex, h_Node,
      startDiagServer_retval _ _ _ _ h_Step, ?_, ?_⟩
    · intro h_Skip
      rcases h_Cases with ⟨_, h_Eq⟩ | ⟨_, h_None, _⟩ |
        ⟨h_Mem, pc_Node, h_Some, ⟨_, h_Eq⟩ | ⟨h_NotKefex, _⟩⟩
      · exact h_Eq
      · rw [h_Node] at h_None
        exact Option.noConfusion h_None
      · exact h_Eq
      · rw [h_Node] at h_Some
        rcases h_Skip with h | h
        · exact absurd h_Mem h
        · rw [Option.some.inj h_Some] at h
          exact absurd h h_NotKefex
    · intro h_Changed
      rcases h_Cases with ⟨_, h_Eq⟩ | ⟨_, h_None, _⟩ |
        ⟨h_Mem, pc_Node, h_Some, ⟨_, h_Eq⟩ | ⟨h_NotKefex, c_Read, h_Read, h_Rest⟩⟩
      · rw [h_Eq] at h_Changed
        exact absurd rfl h_Changed
      · rw [h_Node] at h_None
        exact Option.noConfusion h_None
      · rw [h_Eq] at h_Changed
        exact absurd rfl h_Changed
      · rw [h_Node] at h_Some
        rw [← Option.some.inj h_Some] at h_NotKefex
        refine ⟨h_Mem, h_NotKefex, ?_, c_Read, h_Read, ?_⟩
        · rcases h_Rest with ⟨h_Return, h_Eq⟩ | ⟨_, c_Check, _, h_Eq⟩
          · rw [h_Eq]
            exact h_Return
          · rw [h_Eq] at h_Changed ⊢
            simp only [] at h_Changed ⊢
            split_ifs at h_Changed ⊢ with h_Code
            · exact h_Code
            · exact absurd rfl h_Changed
        · rcases h_Rest with ⟨_, h_Eq⟩ | ⟨h_Return, c_Check, h_Check, h_Eq⟩
          · left
            rw [h_Eq]
          · right
            refine ⟨h_Return, c_Check, h_Check, ?_⟩
            rw [h_Eq] at h_Changed ⊢
            simp only [] at h_Changed ⊢
            split_ifs at h_Changed ⊢ with h_Code
            · rfl
            · exact absurd rfl h_Changed
  · constructor
    · intro h_Failed
      obtain ⟨k, c_Before, c_After, h_K, h_Before, h_Step, h_Ok, h_Bad⟩ :=
        startDiagServersLoop_first_failure c_Project (startDiagServersInit d orc_ErrorDetails)
          rfl _ c_Final h_Final h_Failed
      refine ⟨k, c_Before, c_After, h_K, h_Before, h_Step, ?_⟩
      rw [h_Ok]
      exact h_Bad
    · rintro ⟨k, c_Before, c_After, h_K, h_Before, h_Step, h_Changed⟩
      have h_AfterFailed : c_After.s32_Retval ≠ C_NO_ERR := by
        by_cases h_BeforeOk : c_Before.s32_Retval = C_NO_ERR
        · rw [h_BeforeOk] at h_Changed
          exact h_Changed
        · exact startDiagServer_retval _ _ _ _ h_Step h_BeforeOk
      have h_After : startDiagServersLoop c_Project (k + 1) 0
          (startDiagServersInit d orc_ErrorDetails) = some c_After := by
        rw [startDiagServersLoop_succ, h_Before, Option.some_bind, Nat.zero_add, h_Step]
      have h_Sum : k + 1 + (d.mc_ActiveDiagNodes.length - (k + 1))
          = d.mc_ActiveDiagNodes.length := by omega
      have h_Final2 := h_Final
      rw [← h_Sum] at h_Final2
      exact startDiagServersLoop_retval c_Project _ _ _ c_After c_Final h_After h_Final2
        h_AfterFailed
  · intro c_Driver pc_View u32_NodeIndex h_View
    exact m_InitDiagNodes_mem c_Project c_Driver pc_View h_View u32_NodeIndex

/-- C17, witness: three active nodes with diagnosis; node 0 is used by the view and its verify
request is not answered in time, node 1 is not used by the view, node 2 is used and verified.
The loop goes on behind node 0, node 1 gets no request although its verify service would fail,
and the success of node 2 leaves the `C_TIMEOUT` of node 0 in place. -/
theorem m_StartDiagServers_visits_all_nodes_witness :
    ∃ c_Result : T_DriverResult,
      m_StartDiagServers fixtureThreeNodesProject fixtureThreeNodesDriver [] = some c_Result ∧
      c_Result.s32_Return = C_TIMEOUT ∧
      c_Result.c_Requests
        = [T_Request.readMetaData 0 0, T_Request.readMetaData 0 1, T_Request.readMetaData 0 2,
           T_Request.readMetaData 0 3,
           T_Request.verify 0 { u8_DataPoolIndex := 1, u32_DataPoolChecksum := 0x1111 },
           T_Request.readMetaData 2 0, T_Request.readMetaData 2 1, T_Request.readMetaData 2 2,
           T_Request.readMetaData 2 3,
           T_Request.verify 2 { u8_DataPoolIndex := 2, u32_DataPoolChecksum := 0x5555 }] ∧
      c_Result.c_ErrorDetails
        = [{ c_NodeName := "Node_A"
             c_Reasons := [T_ErrorReason.verifyFailed "Crash" C_TIMEOUT] }] := by
  obtain ⟨c_Result, h_Result, _⟩ :=
    m_StartDiagServers_visits_all_nodes fixtureThreeNodesProject fixtureThreeNodesDriver []
      rfl (by decide) (by decide)
  have h_Value : (m_StartDiagServers fixtureThreeNodesProject fixtureThreeNodesDriver []).map
      (fun c => (c.s32_Return, c.c_Requests, c.c_ErrorDetails))
      = some (C_TIMEOUT,
          [T_Request.readMetaData 0 0, T_Request.readMetaData 0 1, T_Request.readMetaData 0 2,
           T_Request.readMetaData 0 3,
           T_Request.verify 0 { u8_DataPoolIndex := 1, u32_DataPoolChecksum := 0x1111 },
           T_Request.readMetaData 2 0, T_Request.readMetaData 2 1, T_Request.readMetaData 2 2,
           T_Request.readMetaData 2 3,
           T_Request.verify 2 { u8_DataPoolIndex := 2, u32_DataPoolChecksum := 0x5555 }],
          [{ c_NodeName := "Node_A"
             c_Reasons := [T_ErrorReason.verifyFailed "Crash" C_TIMEOUT] }]) := by decide
  rw [h_Result] at h_Value
  simp only [Option.map_some', Option.some.injEq, Prod.mk.injEq] at h_Value
  exact ⟨c_Result, h_Result, h_Value.1, h_Value.2.1, h_Value.2.2⟩

/-- C18, counterexample: three active nodes with diagnosis; the routing to node 0 is set up, the
routing to node 1 runs into a timeout, and the routing to node 2 would run into a timeout as
well. `m_StartRoutingDiag` leaves its loop at node 1: `m_StartRouting` is never called for
node 2 and node 2 is not in the set of the nodes with an error. -/
theorem m_StartRoutingDiag_leaves_loop_at_first_failure :
    (m_StartRoutingDiag fixtureThreeNodesProject fixtureThreeNodesDriver fixtureRoutingBase []
        []).map (fun c_State => (c_State.s32_Return, c_State.c_ErrorActiveNodes, c_State.c_Calls))
      = some (C_TIMEOUT, [1],
          [T_RoutingCall.startRoutingIp2Ip 0, T_RoutingCall.startRoutingIp2Ip 1,
           T_RoutingCall.startRoutingIp2Ip 2, T_RoutingCall.startRouting 0,
           T_RoutingCall.reConnectNode { u8_BusIdentifier := 0, u8_NodeIdentifier := 1 },
           T_RoutingCall.startRouting 1]) ∧
    fixtureThreeNodesDriver.mc_ActiveDiagNodes = [0, 1, 2] ∧
    (fixtureRoutingBase.m_StartRouting 2).s32_Return = C_TIMEOUT := by
  refine ⟨by decide, rfl, rfl⟩

/-- C18, amended: `m_StartRoutingDiag` leaves its loop at the first active node with diagnosis
whose routing fails. If `m_StartRoutingIp2Ip` succeeds for the nodes in front of node `k` and
fails for node `k`, or if it succeeds for all nodes and the second loop (`m_StartRouting` and
`ReConnectNode`) succeeds for the nodes in front of node `k` and fails for node `k`, then the
function returns the return code of node `k`, the set of the nodes with an error is the given
set with node `k` and the node that caused the error inserted (each once), and the calls into
the base class end with the ones for node `k`: nothing is called for the nodes behind it. -/
theorem m_StartRoutingDiag_stops_at_first_failure
    (c_Project : T_Project) (d : C_SyvComDriverDiag) (c_Base : T_RoutingBase)
    (orc_ErrorDetails : List T_ErrorDetail) (orc_ErrorActiveNodes : List Nat)
    (k u32_ActiveNode u32_Error : Nat) (c_Details : List T_ErrorDetail × List Nat)
    (h_Node : d.mc_ActiveDiagNodes[k]? = some u32_ActiveNode)
    (h_Details : m_GetRoutingErrorDetails c_Project d orc_ErrorDetails orc_ErrorActiveNodes
      u32_ActiveNode (some u32_Error) = some c_Details) :
    c_Details.2 = setInsert (setInsert orc_ErrorActiveNodes u32_ActiveNode) u32_Error ∧
    ((∀ (i c_Earlier : Nat), i < k → d.mc_ActiveDiagNodes[i]? = some c_Earlier →
        (c_Base.m_StartRoutingIp2Ip c_Earlier).s32_Return = C_NO_ERR) →
      (c_Base.m_StartRoutingIp2Ip u32_ActiveNode).s32_Return ≠ C_NO_ERR →
      (c_Base.m_StartRoutingIp2Ip u32_ActiveNode).ou32_ErrorActiveNodeIndex = some u32_Error →
      m_StartRoutingDiag c_Project d c_Base orc_ErrorDetails orc_ErrorActiveNodes
        = some { s32_Return := (c_Base.m_StartRoutingIp2Ip u32_ActiveNode).s32_Return
                 ou32_ErrorActiveNodeIndex := some u32_Error
                 c_ErrorDetails := c_Details.1
                 c_ErrorActiveNodes := c_Details.2
                 c_Calls :=
                   (d.mc_ActiveDiagNodes.take (k + 1)).map T_RoutingCall.startRoutingIp2Ip }) ∧
    ((∀ c_Node, c_Node ∈ d.mc_ActiveDiagNodes →
        (c_Base.m_StartRoutingIp2Ip c_Node).s32_Return = C_NO_ERR) →
      (∀ (i c_Earlier : Nat), i < k → d.mc_ActiveDiagNodes[i]? = some c_Earlier →
        ∃ c_Ok, startRoutingOfNode c_Project d c_Base c_Earlier = some (some c_Ok) ∧
          c_Ok.s32_Return = C_NO_ERR) →
      ∀ c_Routing : T_NodeRouting,
        startRoutingOfNode c_Project d c_Base u32_ActiveNode = some (some c_Routing) →
        c_Routing.s32_Return ≠ C_NO_ERR →
        c_Routing.ou32_ErrorActiveNodeIndex = some u32_Error →
        m_StartRoutingDiag c_Project d c_Base orc_ErrorDetails orc_ErrorActiveNodes
          = some { s32_Return := c_Routing.s32_Return
                   ou32_ErrorActiveNodeIndex := some u32_Error
                   c_ErrorDetails := c_Details.1
                   c_ErrorActiveNodes := c_Details.2
                   c_Calls :=
                     d.mc_ActiveDiagNodes.map T_RoutingCall.startRoutingIp2Ip ++
                       routingCalls (startRoutingOfNode c_Project d c_Base)
                         (d.mc_ActiveDiagNodes.take (k + 1)) }) := by
  have h_K : k < d.mc_ActiveDiagNodes.length := by
    by_contra h_Not
    rw [List.getElem?_eq_none (by omega)] at h_Node
    exact Option.noConfusion h_Node
  have h_Node0 : d.mc_ActiveDiagNodes[0 + k]? = some u32_ActiveNode := by
    rw [Nat.zero_add]; exact h_Node
  refine ⟨m_GetRoutingErrorDetails_set _ _ _ _ _ _ _ h_Details, ?_, ?_⟩
  · intro h_Before h_Failed h_Error
    have h_Loop := startRoutingLoop_first_failure c_Project d (startRoutingIp2IpOfNode c_Base)
      u32_ActiveNode u32_Error _ c_Details orc_ErrorDetails orc_ErrorActiveNodes rfl h_Failed
      h_Error h_Details k d.mc_ActiveDiagNodes.length 0
      { s32_Return := C_NO_ERR, ou32_ErrorActiveNodeIndex := none
        c_ErrorDetails := orc_ErrorDetails, c_ErrorActiveNodes := orc_ErrorActiveNodes
        c_Calls := [] } h_K
      (fun i c_Earlier hi h_Get => ⟨_, rfl, h_Before i c_Earlier hi (by
        rw [Nat.zero_add] at h_Get; exact h_Get)⟩)
      (fun i hi => by omega) h_Node0 rfl rfl
    unfold m_StartRoutingDiag
    rw [h_Loop]
    simp only [if_neg h_Failed, List.nil_append, List.drop_zero, routingCalls_ip2ip]
  · intro h_Ip2Ip h_Before c_Routing h_Body h_Failed h_Error
    obtain ⟨c_First, h_First, h_Return, h_D, h_S, h_Calls⟩ :=
      startRoutingLoop_all_ok c_Project d (startRoutingIp2IpOfNode c_Base)
        d.mc_ActiveDiagNodes.length 0
        { s32_Return := C_NO_ERR, ou32_ErrorActiveNodeIndex := none
          c_ErrorDetails := orc_ErrorDetails, c_ErrorActiveNodes := orc_ErrorActiveNodes
          c_Calls := [] } (by omega)
        (fun i c_Earlier _ h_Get => ⟨_, rfl, h_Ip2Ip c_Earlier (List.getElem?_mem h_Get)⟩) rfl
    have h_Loop := startRoutingLoop_first_failure c_Project d
      (startRoutingOfNode c_Project d c_Base) u32_ActiveNode u32_Error c_Routing c_Details
      orc_ErrorDetails orc_ErrorActiveNodes h_Body h_Failed h_Error h_Details k
      d.mc_ActiveDiagNodes.length 0 c_First h_K
      (fun i c_Earlier hi h_Get => h_Before i c_Earlier hi (by
        rw [Nat.zero_add] at h_Get; exact h_Get))
      (fun i hi => by omega) h_Node0 h_D h_S
    unfold m_StartRoutingDiag
    rw [h_First]
    simp only [if_pos h_Return]
    rw [h_Loop, h_Calls]
    simp only [List.nil_append, List.drop_zero, List.take_length, routingCalls_ip2ip]

/-- C18, witness: in the first case nodes 1 and 2 do not support IP to IP routing and the
function stops at node 1 with `C_NOACT`; in the second case the routing to node 1 runs into a
timeout and the function stops at node 1 with `C_TIMEOUT`. In both cases nothing is called for
node 2 and the set of the nodes with an error holds node 1 only. -/
theorem m_StartRoutingDiag_stops_at_first_failure_witness :
    m_StartRoutingDiag fixtureThreeNodesProject fixtureThreeNodesDriver fixtureIp2IpBase [] []
      = some { s32_Return := C_NOACT, ou32_ErrorActiveNodeIndex := some 1
               c_ErrorDetails := [{ c_NodeName := "Node_B", c_Reasons := [] }]
               c_ErrorActiveNodes := [1]
               c_Calls := [T_RoutingCall.startRoutingIp2Ip 0, T_RoutingCall.startRoutingIp2Ip 1] } ∧
    m_StartRoutingDiag fixtureThreeNodesProject fixtureThreeNodesDriver fixtureRoutingBase [] []
      = some { s32_Return := C_TIMEOUT, ou32_ErrorActiveNodeIndex := some 1
               c_ErrorDetails := [{ c_NodeName := "Node_B", c_Reasons := [] }]
               c_ErrorActiveNodes := [1]
               c_Calls :=
                 [T_RoutingCall.startRoutingIp2Ip 0, T_RoutingCall.startRoutingIp2Ip 1,
                  T_RoutingCall.startRoutingIp2Ip 2, T_RoutingCall.startRouting 0,
                  T_RoutingCall.reConnectNode { u8_BusIdentifier := 0, u8_NodeIdentifier := 1 },
                  T_RoutingCall.startRouting 1] } := by
  have h_Details : m_GetRoutingErrorDetails fixtureThreeNodesProject fixtureThreeNodesDriver [] []
      1 (some 1) = some ([{ c_NodeName := "Node_B", c_Reasons := [] }], [1]) := by decide
  have h_First : ∀ (i c_Earlier : Nat), i < 1 →
      fixtureThreeNodesDriver.mc_ActiveDiagNodes[i]? = some c_Earlier → c_Earlier = 0 := by
    intro i c_Earlier h_I h_Get
    obtain rfl : i = 0 := by omega
    exact (Option.some.inj h_Get).symm
  constructor
  · exact (m_StartRoutingDiag_stops_at_first_failure fixtureThreeNodesProject
      fixtureThreeNodesDriver fixtureIp2IpBase [] [] 1 1 1 _ rfl h_Details).2.1
      (fun i c_Earlier h_I h_Get => by rw [h_First i c_Earlier h_I h_Get]; rfl)
      (by decide) rfl
  · exact (m_StartRoutingDiag_stops_at_first_failure fixtureThreeNodesProject
      fixtureThreeNodesDriver fixtureRoutingBase [] [] 1 1 1 _ rfl h_Details).2.2
      (by decide)
      (fun i c_Earlier h_I h_Get => by rw [h_First i c_Earlier h_I h_Get]; exact ⟨_, rfl, rfl⟩)
      _ rfl (by decide) rfl

/-- C19: for a registration of a multiplexed signal and a frame whose data length code covers the
multiplexer signal but whose multiplexer value is not the multiplex value of the signal,
`m_HandleCanMessage` calls neither `InsertNewValueIntoQueue` nor `SetErrorForInvalidDlc` for the
registration, whether the data length code covers the multiplexed signal or not: the calls for
the frame are those of the other registrations under the key of the frame. -/
theorem m_HandleCanMessage_other_multiplexer_value
    (c_Util : T_CanUtil) (orc_Msg : T_STWCAN_Msg_RX)
    (rc_WidgetRegistration : C_SyvComDriverDiagWidgetRegistration)
    (h_Multiplexed : rc_WidgetRegistration.c_Signal.e_MultiplexerType
      = E_MultiplexerType.eMUX_MULTIPLEXED_SIGNAL)
    (h_MultiplexerFits : c_Util.h_IsSignalInMessage orc_Msg.u8_DLC
      rc_WidgetRegistration.c_MultiplexerSignal = true)
    (h_OtherValue : rc_WidgetRegistration.c_Signal.u16_MultiplexValue
      ≠ multiplexerValue c_Util orc_Msg rc_WidgetRegistration) :
    handleRegistration c_Util orc_Msg rc_WidgetRegistration = [] ∧
    ∀ (mc_AllWidgets : List (C_OscCanMessageUniqueId × List C_SyvComDriverDiagWidgetRegistration))
      (c_Front c_Back : List C_SyvComDriverDiagWidgetRegistration),
      findWidgets mc_AllWidgets (orc_Msg.u32_ID, decide (orc_Msg.u8_XTD = 1))
        = some (c_Front ++ rc_WidgetRegistration :: c_Back) →
      m_HandleCanMessage c_Util mc_AllWidgets orc_Msg
        = (c_Front.map (handleRegistration c_Util orc_Msg)).flatten ++
          (c_Back.map (handleRegistration c_Util orc_Msg)).flatten := by
  have h_None : handleRegistration c_Util orc_Msg rc_WidgetRegistration = [] := by
    unfold handleRegistration
    cases rc_WidgetRegistration.pc_Handler with
    | none => rfl
    | some u32_Handler =>
      simp only [signalFits, h_Multiplexed, ne_eq, not_true_eq_false, if_false, h_MultiplexerFits,
        if_true, h_OtherValue, Bool.false_eq_true]
      split_ifs <;> rfl
  refine ⟨h_None, ?_⟩
  intro mc_AllWidgets c_Front c_Back h_Find
  unfold m_HandleCanMessage
  rw [h_Find]
  simp only [List.map_append, List.map_cons, List.flatten_append, List.flatten_cons, h_None,
    List.nil_append]

/-- C19, witness: the frame has one data byte with the multiplexer value 3; the signal of the
registration is in byte 1 for the multiplexer value 2. The data length code does not cover the
signal, but no call is made. -/
theorem m_HandleCanMessage_other_multiplexer_value_witness :
    fixtureCanUtil.h_IsSignalInMessage fixtureOtherMuxMsg.u8_DLC fixtureRegistration.c_Signal
      = false ∧
    handleRegistration fixtureCanUtil fixtureOtherMuxMsg fixtureRegistration = [] ∧
    m_HandleCanMessage fixtureCanUtil fixtureAllWidgets fixtureOtherMuxMsg = [] := by
  have h := m_HandleCanMessage_other_multiplexer_value fixtureCanUtil fixtureOtherMuxMsg
    fixtureRegistration rfl (by decide) (by decide)
  exact ⟨by decide, h.1, h.2 fixtureAllWidgets [] [] rfl⟩

/-- C20: for every frame and every registration with a handler whose extended flag is the one of
the key of the frame, the body of the loop of `m_HandleCanMessage` makes at most one call to the
handler: `InsertNewValueIntoQueue` (with the value of the signal and the time stamp of the frame)
exactly if `specDeliversValue` holds, `SetErrorForInvalidDlc` exactly if `specReportsDlcError`
holds, and the two never hold together. The calls of `m_HandleCanMessage` are the calls for
the registrations under the key of the frame in their order, and there is no call at all if the
key of the frame has no entry. -/
theorem m_HandleCanMessage_at_most_one_call
    (c_Util : T_CanUtil) (orc_Msg : T_STWCAN_Msg_RX)
    (rc_WidgetRegistration : C_SyvComDriverDiagWidgetRegistration) (u32_Handler : Nat)
    (h_Handler : rc_WidgetRegistration.pc_Handler = some u32_Handler)
    (h_Extended : rc_WidgetRegistration.q_IsExtended = decide (orc_Msg.u8_XTD = 1)) :
    (handleRegistration c_Util orc_Msg rc_WidgetRegistration).length ≤ 1 ∧
    ((∃ c_Content, T_WidgetCall.InsertNewValueIntoQueue u32_Handler
          rc_WidgetRegistration.c_ElementId c_Content
          ∈ handleRegistration c_Util orc_Msg rc_WidgetRegistration) ↔
      specDeliversValue c_Util orc_Msg rc_WidgetRegistration) ∧
    (specDeliversValue c_Util orc_Msg rc_WidgetRegistration →
      handleRegistration c_Util orc_Msg rc_WidgetRegistration
        = [T_WidgetCall.InsertNewValueIntoQueue u32_Handler rc_WidgetRegistration.c_ElementId
            ((c_Util.h_GetSignalValue orc_Msg.au8_Data rc_WidgetRegistration.c_Signal
              rc_WidgetRegistration.c_ElementContent).SetTimeStamp
              (orc_Msg.u64_TimeStamp / 1000 % U32_MOD))]) ∧
    ((∃ u8_Dlc, T_WidgetCall.SetErrorForInvalidDlc u32_Handler
          rc_WidgetRegistration.c_ElementId u8_Dlc
          ∈ handleRegistration c_Util orc_Msg rc_WidgetRegistration) ↔
      specReportsDlcError c_Util orc_Msg rc_WidgetRegistration) ∧
    (specReportsDlcError c_Util orc_Msg rc_WidgetRegistration →
      handleRegistration c_Util orc_Msg rc_WidgetRegistration
        = [T_WidgetCall.SetErrorForInvalidDlc u32_Handler rc_WidgetRegistration.c_ElementId
            orc_Msg.u8_DLC]) ∧
    ¬ (specDeliversValue c_Util orc_Msg rc_WidgetRegistration ∧
      specReportsDlcError c_Util orc_Msg rc_WidgetRegistration) ∧
    ∀ (mc_AllWidgets :
        List (C_OscCanMessageUniqueId × List C_SyvComDriverDiagWidgetRegistration)),
      (findWidgets mc_AllWidgets (orc_Msg.u32_ID, decide (orc_Msg.u8_XTD = 1)) = none →
        m_HandleCanMessage c_Util mc_AllWidgets orc_Msg = []) ∧
      (∀ rc_Registrations,
        findWidgets mc_AllWidgets (orc_Msg.u32_ID, decide (orc_Msg.u8_XTD = 1))
          = some rc_Registrations →
        m_HandleCanMessage c_Util mc_AllWidgets orc_Msg
          = (rc_Registrations.map (handleRegistration c_Util orc_Msg)).flatten) := by
  have h_Calls := handleRegistration_spec c_Util orc_Msg rc_WidgetRegistration u32_Handler
    h_Handler h_Extended
  have h_Never := specDeliversValue_not_specReportsDlcError c_Util orc_Msg rc_WidgetRegistration
  refine ⟨?_, ?_, ?_, ?_, ?_, h_Never, ?_⟩
  · rw [h_Calls]
    split_ifs <;> simp
  · rw [h_Calls]
    constructor
    · rintro ⟨c_Content, h_Mem⟩
      split_ifs at h_Mem with h_Value h_Error
      · exact h_Value
      · simp at h_Mem
      · simp at h_Mem
    · intro h_Value
      rw [if_pos h_Value]
      exact ⟨_, List.mem_singleton.mpr rfl⟩
  · intro h_Value
    rw [h_Calls, if_pos h_Value]
  · rw [h_Calls]
    constructor
    · rintro ⟨u8_Dlc, h_Mem⟩
      split_ifs at h_Mem with h_Value h_Error
      · simp at h_Mem
      · exact h_Error
      · simp at h_Mem
    · intro h_Error
      rw [if_neg (fun h_Value => h_Never ⟨h_Value, h_Error⟩), if_pos h_Error]
      exact ⟨_, List.mem_singleton.mpr rfl⟩
  · intro h_Error
    rw [h_Calls, if_neg (fun h_Value => h_Never ⟨h_Value, h_Error⟩), if_pos h_Error]
  · intro mc_AllWidgets
    constructor
    · intro h_Find
      unfold m_HandleCanMessage
      rw [h_Find]
    · intro rc_Registrations h_Find
      unfold m_HandleCanMessage
      rw [h_Find]

/-- C20, witness: the frame has two data bytes, the multiplexer value 2 and the value `0x55` in
byte 1; the one registration under its key gets the value with the time stamp 5000 (the frame
was received at 5000999 micro seconds). -/
theorem m_HandleCanMessage_at_most_one_call_witness :
    specDeliversValue fixtureCanUtil fixtureSelectedMsg fixtureRegistration ∧
    m_HandleCanMessage fixtureCanUtil fixtureAllWidgets fixtureSelectedMsg
      = [T_WidgetCall.InsertNewValueIntoQueue 7 (fixtureElementId 0)
          { e_Type := E_ContentType.eUINT8, u64_Value := 0x55, u32_TimeStamp := 5000 }] := by
  have h := m_HandleCanMessage_at_most_one_call fixtureCanUtil fixtureSelectedMsg
    fixtureRegistration 7 rfl rfl
  have h_Value : specDeliversValue fixtureCanUtil fixtureSelectedMsg fixtureRegistration := by
    decide
  refine ⟨h_Value, ?_⟩
  rw [(h.2.2.2.2.2.2 fixtureAllWidgets).2 [fixtureRegistration] rfl]
  simp only [List.map_cons, List.map_nil, List.flatten_cons, List.flatten_nil, List.append_nil]
  rw [h.2.2.1 h_Value]
  rfl


/-- C21, counterexample: a read is in flight, and `PollNvmReadList` is called for the node 5,
which is not an active node of the driver. The function returns `C_RANGE`, not `C_BUSY`: the
node index is checked before the polling thread is asked. -/
theorem PollNvmReadList_in_flight_returns_range :
    fixtureBusyThread.oc_Request ≠ none ∧
    PollNvmReadList (fixtureGetActiveIndex fixturePollDriver) fixturePollDriver
      fixtureDataDealers fixtureBusyThread 5 0 1
      = some { s32_Return := C_RANGE, c_PollingThread := fixtureBusyThread, oc_Started := none } := by
  refine ⟨by decide, by decide⟩

/-- C21, amended: while a request is in flight (and every entry of `mc_DataDealers` holds a data
dealer), each of the ten `Poll...` functions of the driver hands back a result and leaves the
polling thread as it is: the request in flight, the stored result code and the stored negative
response code are unchanged. Each of them returns `C_BUSY` if the node is an active node with
diagnosis whose index leads to a data dealer, and `C_RANGE` if the index that
`m_GetActiveDiagIndex` hands back lies outside the data dealers; `PollNvmReadList` returns
`C_RANGE` also for a node that was not found. The return code of the other nine functions for a
node that was not found, with an index inside the data dealers, is left open. The stored result
code and negative response code are handed on by `m_HandlePollingFinished`, after which no
request is in flight. -/
theorem Poll_in_flight_busy_or_range (m_GetActiveIndex : Nat → Nat × Bool)
    (d : C_SyvComDriverDiag) (mc_DataDealers : List (Option C_SyvComDataDealer))
    (t : C_SyvComPollingThreadDiag) (c_InFlight : T_PollRequest)
    (ou32_NodeIndex ou8_DataPoolIndex ou16_ListIndex ou16_ElementIndex : Nat)
    (orc_ListIds : List C_OscNodeDataPoolListId)
    (h_InFlight : t.oc_Request = some c_InFlight)
    (h_Dealers : ∀ c_Dealer, c_Dealer ∈ mc_DataDealers → c_Dealer ≠ none) :
    (∀ c_Poll, c_Poll ∈
        [PollDataPoolRead m_GetActiveIndex d mc_DataDealers t ou32_NodeIndex ou8_DataPoolIndex
           ou16_ListIndex ou16_ElementIndex,
         PollDataPoolWrite m_GetActiveIndex d mc_DataDealers t ou32_NodeIndex ou8_DataPoolIndex
           ou16_ListIndex ou16_ElementIndex,
         PollNvmRead m_GetActiveIndex d mc_DataDealers t ou32_NodeIndex ou8_DataPoolIndex
           ou16_ListIndex ou16_ElementIndex,
         PollNvmWrite m_GetActiveIndex d mc_DataDealers t ou32_NodeIndex ou8_DataPoolIndex
           ou16_ListIndex ou16_ElementIndex,
         PollSafeNvmWriteChangedElements m_GetActiveIndex d mc_DataDealers t ou32_NodeIndex
           orc_ListIds,
         PollSafeNvmReadValues m_GetActiveIndex d mc_DataDealers t ou32_NodeIndex,
         PollSafeNvmSafeWriteCrcs m_GetActiveIndex d mc_DataDealers t ou32_NodeIndex,
         PollNvmNotifyOfChanges m_GetActiveIndex d mc_DataDealers t ou32_NodeIndex
           ou8_DataPoolIndex ou16_ListIndex,
         PollNvmSafeReadParameterValues m_GetActiveIndex d mc_DataDealers t ou32_NodeIndex
           orc_ListIds] →
      ∃ c_Result : T_PollResult, c_Poll = some c_Result ∧
        c_Result.c_PollingThread = t ∧
        ((m_GetActiveDiagIndex m_GetActiveIndex d ou32_NodeIndex).1 ≥ mc_DataDealers.length →
          c_Result.s32_Return = C_RANGE) ∧
        ((m_GetActiveDiagIndex m_GetActiveIndex d ou32_NodeIndex).2 = true →
          (m_GetActiveDiagIndex m_GetActiveIndex d ou32_NodeIndex).1 < mc_DataDealers.length →
          c_Result.s32_Return = C_BUSY)) ∧
    (∃ c_Result : T_PollResult,
      PollNvmReadList m_GetActiveIndex d mc_DataDealers t ou32_NodeIndex ou8_DataPoolIndex
        ou16_ListIndex = some c_Result ∧
      c_Result.c_PollingThread = t ∧
      c_Result.s32_Return
        = (if (m_GetActiveDiagIndex m_GetActiveIndex d ou32_NodeIndex).1 < mc_DataDealers.length ∧
              (m_GetActiveDiagIndex m_GetActiveIndex d ou32_NodeIndex).2 = true
            then C_BUSY else C_RANGE)) ∧
    m_HandlePollingFinished t = ({ t with oc_Request := none }, t.s32_Result, t.u8_Nrc) := by
  refine ⟨?_, ?_, rfl⟩
  · intro c_Poll h_Mem
    have h_Codes : ∀ c_Build : C_SyvComDataDealer → T_PollRequest,
        ∃ c_Result : T_PollResult,
          (if (m_GetActiveDiagIndex m_GetActiveIndex d ou32_NodeIndex).1 ≥ mc_DataDealers.length
            then some { s32_Return := C_RANGE, c_PollingThread := t, oc_Started := none }
            else startPolling mc_DataDealers t
              (m_GetActiveDiagIndex m_GetActiveIndex d ou32_NodeIndex).1 c_Build)
            = some c_Result ∧
          c_Result.c_PollingThread = t ∧
          ((m_GetActiveDiagIndex m_GetActiveIndex d ou32_NodeIndex).1 ≥ mc_DataDealers.length →
            c_Result.s32_Return = C_RANGE) ∧
          ((m_GetActiveDiagIndex m_GetActiveIndex d ou32_NodeIndex).2 = true →
            (m_GetActiveDiagIndex m_GetActiveIndex d ou32_NodeIndex).1 < mc_DataDealers.length →
            c_Result.s32_Return = C_BUSY) := by
      intro c_Build
      obtain ⟨c_Result, h_Result, h_Thread, h_Range, h_Busy⟩ :=
        poll_in_flight_codes mc_DataDealers t
          (m_GetActiveDiagIndex m_GetActiveIndex d ou32_NodeIndex).1 c_Build c_InFlight
          h_InFlight h_Dealers
      exact ⟨c_Result, h_Result, h_Thread, h_Range, fun _ h_In => h_Busy h_In⟩
    simp only [List.mem_cons, List.mem_singleton, List.not_mem_nil, or_false] at h_Mem
    rcases h_Mem with h_Eq | h_Eq | h_Eq | h_Eq | h_Eq | h_Eq | h_Eq | h_Eq | h_Eq
    · rw [h_Eq]
      exact h_Codes _
    · rw [h_Eq]
      exact h_Codes _
    · rw [h_Eq]
      exact h_Codes _
    · rw [h_Eq]
      exact h_Codes _
    · rw [h_Eq]
      exact h_Codes _
    · rw [h_Eq]
      exact h_Codes _
    · rw [h_Eq]
      exact h_Codes _
    · rw [h_Eq]
      exact h_Codes _
    · rw [h_Eq]
      exact h_Codes _
  · unfold PollNvmReadList
    by_cases h_Found : (m_GetActiveDiagIndex m_GetActiveIndex d ou32_NodeIndex).1
          < mc_DataDealers.length ∧
        (m_GetActiveDiagIndex m_GetActiveIndex d ou32_NodeIndex).2 = true
    · obtain ⟨c_Dealer, _, h_Start⟩ := startPolling_in_flight mc_DataDealers t
        (m_GetActiveDiagIndex m_GetActiveIndex d ou32_NodeIndex).1
        (fun c_Dealer => T_PollRequest.StartNvmReadList c_Dealer ou8_DataPoolIndex ou16_ListIndex)
        c_InFlight h_InFlight h_Dealers h_Found.1
      have h_Check : ¬ ((m_GetActiveDiagIndex m_GetActiveIndex d ou32_NodeIndex).1
          ≥ mc_DataDealers.length ∨
          (m_GetActiveDiagIndex m_GetActiveIndex d ou32_NodeIndex).2 = false) := by
        rintro (h_Bad | h_Bad)
        · omega
        · rw [h_Found.2] at h_Bad
          exact Bool.noConfusion h_Bad
      simp only [if_neg h_Check, if_pos h_Found, h_Start]
      exact ⟨_, rfl, rfl, rfl⟩
    · have h_Check : (m_GetActiveDiagIndex m_GetActiveIndex d ou32_NodeIndex).1
          ≥ mc_DataDealers.length ∨
          (m_GetActiveDiagIndex m_GetActiveIndex d ou32_NodeIndex).2 = false := by
        by_cases h_Index : (m_GetActiveDiagIndex m_GetActiveIndex d ou32_NodeIndex).1
            < mc_DataDealers.length
        · right
          cases h_Flag : (m_GetActiveDiagIndex m_GetActiveIndex d ou32_NodeIndex).2 with
          | false => rfl
          | true => exact absurd ⟨h_Index, h_Flag⟩ h_Found
        · left
          omega
      simp only [if_pos h_Check, if_neg h_Found]
      exact ⟨_, rfl, rfl, rfl⟩

/-- C21, witness: a read from the node 2 is in flight and has the result `C_WARN` with the
negative response code `0x31` stored. The node 2 is an active node with diagnosis and has the
data dealer 0: `PollSafeNvmReadValues` for the node 2 returns `C_BUSY` and leaves the polling
thread as it is. -/
theorem Poll_in_flight_busy_or_range_witness :
    ∃ c_Result : T_PollResult,
      PollSafeNvmReadValues (fixtureGetActiveIndex fixturePollDriver) fixturePollDriver
        fixtureDataDealers fixtureBusyThread 2 = some c_Result ∧
      c_Result.c_PollingThread = fixtureBusyThread ∧
      c_Result.s32_Return = C_BUSY := by
  obtain ⟨c_Result, h_Result, h_Thread, _, h_Busy⟩ :=
    (Poll_in_flight_busy_or_range (fixtureGetActiveIndex fixturePollDriver) fixturePollDriver
      fixtureDataDealers fixtureBusyThread
      (T_PollRequest.StartNvmRead { mu32_NodeIndex := 2, u32_ActiveNode := 1 } 0 1 2) 2 0 1 2 []
      rfl (by decide)).1
      (PollSafeNvmReadValues (fixtureGetActiveIndex fixturePollDriver) fixturePollDriver
        fixtureDataDealers fixtureBusyThread 2) (by simp)
  exact ⟨c_Result, h_Result, h_Thread, h_Busy (by decide) (by decide)⟩


/-- C22, evaluation of the code at the failing input: in the driver of the fixtures the nodes 0
and 2 are active, the node 2 is the only active node with diagnosis and has the only data
dealer. The node 5 is not active: `m_GetActiveIndex` does not find it and `m_GetActiveDiagIndex`
hands back the index 0 with the flag cleared. `PollDataPoolRead`, `PollDataPoolWrite`,
`PollNvmRead` and `PollNvmWrite` do not look at the flag: for the node 5 they hand a request to
the polling thread with the data dealer of the node 2. `PollNvmReadList` looks at the flag and
returns `C_RANGE` without a request. -/
theorem PollDataPoolRead_inactive_node_starts_request :
    (fixtureGetActiveIndex fixturePollDriver 5).2 = false ∧
    m_GetActiveDiagIndex (fixtureGetActiveIndex fixturePollDriver) fixturePollDriver 5
      = (0, false) ∧
    (PollDataPoolRead (fixtureGetActiveIndex fixturePollDriver) fixturePollDriver
      fixtureDataDealers fixtureIdleThread 5 0 1 2).map (fun c_Result => c_Result.oc_Started)
      = some (some (T_PollRequest.StartDataPoolRead { mu32_NodeIndex := 2, u32_ActiveNode := 1 }
          0 1 2)) ∧
    (PollDataPoolWrite (fixtureGetActiveIndex fixturePollDriver) fixturePollDriver
      fixtureDataDealers fixtureIdleThread 5 0 1 2).map (fun c_Result => c_Result.oc_Started)
      = some (some (T_PollRequest.StartDataPoolWrite { mu32_NodeIndex := 2, u32_ActiveNode := 1 }
          0 1 2)) ∧
    (PollNvmRead (fixtureGetActiveIndex fixturePollDriver) fixturePollDriver
      fixtureDataDealers fixtureIdleThread 5 0 1 2).map (fun c_Result => c_Result.oc_Started)
      = some (some (T_PollRequest.StartNvmRead { mu32_NodeIndex := 2, u32_ActiveNode := 1 }
          0 1 2)) ∧
    (PollNvmWrite (fixtureGetActiveIndex fixturePollDriver) fixturePollDriver
      fixtureDataDealers fixtureIdleThread 5 0 1 2).map (fun c_Result => c_Result.oc_Started)
      = some (some (T_PollRequest.StartNvmWrite { mu32_NodeIndex := 2, u32_ActiveNode := 1 }
          0 1 2)) ∧
    (PollDataPoolRead (fixtureGetActiveIndex fixturePollDriver) fixturePollDriver
      fixtureDataDealers fixtureIdleThread 5 0 1 2).map (fun c_Result => c_Result.s32_Return)
      ≠ some C_RANGE ∧
    PollNvmReadList (fixtureGetActiveIndex fixturePollDriver) fixturePollDriver
      fixtureDataDealers fixtureIdleThread 5 0 1
      = some { s32_Return := C_RANGE, c_PollingThread := fixtureIdleThread, oc_Started := none } := by
  refine ⟨by decide, by decide, by decide, by decide, by decide, by decide, by decide, by decide⟩


/-- C23. `StopDiagnosisServer` on an initialized driver (every active node with diagnosis has a
protocol instance; an openSYDE instance is no KEFEX instance) hands back a result. `Logoff(false)`
is called exactly once on every protocol instance that is a `C_OscDiagProtocolKfx`, whether an
earlier logoff failed or not, and every call of `Logoff` in the log goes to such an instance, so
none goes to an openSYDE instance. The return code is `C_NO_ERR` if and only if the logoff of
every KEFEX instance returned `C_NO_ERR`; the return codes of `DataPoolStopEventDriven` do not
enter. Afterwards the driver is the same with `mq_Initialized` cleared, and a second call on it
makes no call and returns `C_NO_ERR`. -/
theorem StopDiagnosisServer_logs_off_every_kfx_server (c_Project : T_Project)
    (d : C_SyvComDriverDiag)
    (h_Initialized : d.mq_Initialized = true)
    (h_Protocols : ∀ u32_ActiveNode, u32_ActiveNode ∈ d.mc_ActiveDiagNodes →
      u32_ActiveNode < d.mc_DiagProtocols.length)
    (h_Classes : ∀ c_Protocol, c_Protocol ∈ d.mc_DiagProtocols →
      c_Protocol.q_IsOsy = true → c_Protocol.q_IsKfx = false) :
    ∃ c_Result : T_StopResult,
      StopDiagnosisServer c_Project d = some c_Result ∧
      (∀ (i : Nat) (c_Protocol : C_OscDiagProtocolBase),
        d.mc_DiagProtocols[i]? = some c_Protocol →
        (c_Protocol.q_IsKfx = true →
          c_Result.c_Calls.count (T_StopCall.Logoff i false) = 1) ∧
        (c_Protocol.q_IsOsy = true →
          ∀ q_Flag, T_StopCall.Logoff i q_Flag ∉ c_Result.c_Calls)) ∧
      (∀ (i : Nat) (q_Flag : Bool), T_StopCall.Logoff i q_Flag ∈ c_Result.c_Calls →
        q_Flag = false ∧
        ∃ c_Protocol, d.mc_DiagProtocols[i]? = some c_Protocol ∧ c_Protocol.q_IsKfx = true) ∧
      (c_Result.s32_Return = C_NO_ERR ↔
        ∀ (i : Nat) (c_Protocol : C_OscDiagProtocolBase),
          d.mc_DiagProtocols[i]? = some c_Protocol → c_Protocol.q_IsKfx = true →
          c_Protocol.Logoff false = C_NO_ERR) ∧
      c_Result.c_Driver = { d with mq_Initialized := false } ∧
      StopDiagnosisServer c_Project c_Result.c_Driver
        = some { s32_Return := C_NO_ERR, c_Driver := c_Result.c_Driver, c_Calls := [] } := by
  obtain ⟨c_Stop, h_Stop, h_Result⟩ :=
    StopDiagnosisServer_initialized c_Project d h_Initialized h_Protocols
  have h_NoLogoff : ∀ (i : Nat) (q_Flag : Bool),
      T_StopCall.Logoff i q_Flag ∉ c_Stop ++ [T_StopCall.m_StopRoutingOfActiveNodes] := by
    intro i q_Flag h_Mem
    rcases List.mem_append.mp h_Mem with h_In | h_In
    · rcases h_Stop with h_Nil | h_Map
      · rw [h_Nil] at h_In
        exact absurd h_In (List.not_mem_nil _)
      · rw [h_Map, List.mem_map] at h_In
        obtain ⟨_, _, h_Eq⟩ := h_In
        exact T_StopCall.noConfusion h_Eq
    · rw [List.mem_singleton] at h_In
      exact T_StopCall.noConfusion h_In
  have h_Mem : ∀ (i : Nat) (q_Flag : Bool),
      T_StopCall.Logoff i q_Flag ∈ (kfxIndexes d.mc_DiagProtocols 0).map
          (fun i => T_StopCall.Logoff i false) ++ c_Stop ++
          [T_StopCall.m_StopRoutingOfActiveNodes] →
      q_Flag = false ∧
      ∃ c_Protocol, d.mc_DiagProtocols[i]? = some c_Protocol ∧ c_Protocol.q_IsKfx = true := by
    intro i q_Flag h_In
    rw [List.append_assoc] at h_In
    rcases List.mem_append.mp h_In with h_Log | h_Other
    · rw [List.mem_map] at h_Log
      obtain ⟨k, h_K, h_Eq⟩ := h_Log
      injection h_Eq with h_Index h_Flag
      rw [mem_kfxIndexes] at h_K
      obtain ⟨j, c_Protocol, h_Get, h_Kfx, h_Sum⟩ := h_K
      refine ⟨h_Flag.symm, c_Protocol, ?_, h_Kfx⟩
      rw [← h_Index, h_Sum, Nat.zero_add]
      exact h_Get
    · exact absurd h_Other (h_NoLogoff i q_Flag)
  have h_Injective : Function.Injective (fun i : Nat => T_StopCall.Logoff i false) := by
    intro a b h_Eq
    injection h_Eq
  refine ⟨_, h_Result, ?_, h_Mem, ?_, rfl, ?_⟩
  · intro i c_Protocol h_Get
    refine ⟨fun h_Kfx => ?_, fun h_Osy q_Flag h_In => ?_⟩
    · simp only
      rw [List.append_assoc, List.count_append,
        List.count_eq_zero_of_not_mem (h_NoLogoff i false), Nat.add_zero,
        List.count_map_of_injective _ _ h_Injective]
      apply List.count_eq_one_of_mem (kfxIndexes_nodup _ _)
      rw [mem_kfxIndexes]
      exact ⟨i, c_Protocol, h_Get, h_Kfx, (Nat.zero_add i).symm⟩
    · obtain ⟨_, c_Other, h_Other, h_Kfx⟩ := h_Mem i q_Flag h_In
      rw [h_Get] at h_Other
      rw [← Option.some.inj h_Other] at h_Kfx
      rw [h_Classes c_Protocol (List.getElem?_mem h_Get) h_Osy] at h_Kfx
      exact Bool.noConfusion h_Kfx
  · simp only
    rw [logoffLoop_return]
    constructor
    · rintro ⟨_, h_All⟩ i c_Protocol h_Get h_Kfx
      exact h_All c_Protocol (List.getElem?_mem h_Get) h_Kfx
    · intro h_All
      refine ⟨rfl, fun c_Protocol h_In h_Kfx => ?_⟩
      obtain ⟨i, h_Lt, h_Eq⟩ := List.getElem_of_mem h_In
      exact h_All i c_Protocol (by rw [List.getElem?_eq_getElem h_Lt, h_Eq]) h_Kfx
  · simp only [StopDiagnosisServer, Bool.false_eq_true, if_false]

/-- Witness of C23: a driver with a KEFEX server whose logoff runs into a timeout, an openSYDE
server and a KEFEX server whose logoff succeeds and that does not confirm the stop of the event
driven transmissions. Both KEFEX servers are logged off, the return code is the `C_TIMEOUT` of
the first logoff, and the driver is no longer initialized. -/
theorem StopDiagnosisServer_logs_off_every_kfx_server_witness :
    ∃ c_Result : T_StopResult,
      StopDiagnosisServer fixtureThreeNodesProject fixtureMixedDriver = some c_Result ∧
      c_Result.s32_Return = C_TIMEOUT ∧
      c_Result.c_Calls
        = [T_StopCall.Logoff 0 false, T_StopCall.Logoff 2 false,
           T_StopCall.DataPoolStopEventDriven 0, T_StopCall.DataPoolStopEventDriven 1,
           T_StopCall.DataPoolStopEventDriven 2, T_StopCall.m_StopRoutingOfActiveNodes] ∧
      c_Result.c_Driver.mq_Initialized = false ∧
      (StopDiagnosisServer fixtureThreeNodesProject c_Result.c_Driver).map
        (fun c_Second => (c_Second.s32_Return, c_Second.c_Calls)) = some (C_NO_ERR, []) := by
  obtain ⟨c_Result, h_Result, _, _, _, h_Driver, h_Second⟩ :=
    StopDiagnosisServer_logs_off_every_kfx_server fixtureThreeNodesProject fixtureMixedDriver
      rfl (by decide) (by decide)
  have h_Value : (StopDiagnosisServer fixtureThreeNodesProject fixtureMixedDriver).map
      (fun c => (c.s32_Return, c.c_Calls))
      = some (C_TIMEOUT,
          [T_StopCall.Logoff 0 false, T_StopCall.Logoff 2 false,
           T_StopCall.DataPoolStopEventDriven 0, T_StopCall.DataPoolStopEventDriven 1,
           T_StopCall.DataPoolStopEventDriven 2, T_StopCall.m_StopRoutingOfActiveNodes]) := by
    decide
  rw [h_Result] at h_Value
  simp only [Option.map_some', Option.some.injEq, Prod.mk.injEq] at h_Value
  refine ⟨c_Result, h_Result, h_Value.1, h_Value.2, ?_, ?_⟩
  · rw [h_Driver]
  · rw [h_Second]
    rfl


/-- C25, counterexample: the routing to the node 1 of the fixtures runs into a timeout, so
`m_StartRoutingDiag` returns `C_TIMEOUT`; the session step and the security step return
`C_NO_ERR`. `SetDiagnosticMode` goes on to `m_StartDiagServers` and sends its requests, although
an earlier step did not return `C_NO_ERR`. -/
theorem SetDiagnosticMode_verifies_after_routing_timeout :
    (m_StartRoutingDiag fixtureThreeNodesProject fixtureThreeNodesDriver fixtureRoutingBase [] []).map
      (fun c_Routing => c_Routing.s32_Return) = some C_TIMEOUT ∧
    (SetDiagnosticMode fixtureThreeNodesProject fixtureThreeNodesDriver fixtureRoutingBase
      fixtureSessionBase []).map (fun c_Result => c_Result.c_Steps)
      = some [T_DiagnosticModeStep.m_StartRoutingDiag [],
          T_DiagnosticModeStep.m_SetNodesSessionId [0, 1, 2] 3 true [1],
          T_DiagnosticModeStep.m_SetNodesSecurityAccess [0, 1, 2] 1 [1],
          T_DiagnosticModeStep.m_StartDiagServers] ∧
    (SetDiagnosticMode fixtureThreeNodesProject fixtureThreeNodesDriver fixtureRoutingBase
      fixtureSessionBase []).map (fun c_Result => c_Result.c_Requests.length) = some 10 := by
  refine ⟨by decide, by decide, by decide⟩

/-- C25, amended: `SetDiagnosticMode` (on a driver whose vectors fit to each other, with a
routing that hands back the state `c_Routing`) hands back a result. It calls `m_StartRoutingDiag`
with the set of the defect nodes cleared, and its steps are, in this order: the routing; the
request of the extended diagnostic session for the active nodes with diagnosis, if the routing
returned `C_NO_ERR` or `C_TIMEOUT`; the security access at level 1, if moreover the session step
returned `C_NO_ERR`; the start of the diagnosis servers with the check of the data pools, if
moreover the security step returned `C_NO_ERR`. So the check of the data pools runs exactly if
the routing returned `C_NO_ERR` or `C_TIMEOUT` and the session step and the security step
returned `C_NO_ERR`. If the routing returns another code, this code is returned and there is no
step and no request after the routing. -/
theorem SetDiagnosticMode_steps_in_order (c_Project : T_Project) (d : C_SyvComDriverDiag)
    (c_Base : T_RoutingBase) (c_Session : T_SessionBase) (orc_ErrorDetails : List T_ErrorDetail)
    (c_Routing : T_RoutingState)
    (h_Routing : m_StartRoutingDiag c_Project d c_Base orc_ErrorDetails [] = some c_Routing)
    (h_Consistent : d.consistent c_Project) :
    ∃ c_Result : T_DiagnosticModeResult,
      SetDiagnosticMode c_Project d c_Base c_Session orc_ErrorDetails = some c_Result ∧
      c_Result.c_RoutingCalls = c_Routing.c_Calls ∧
      c_Result.c_Steps
        = [T_DiagnosticModeStep.m_StartRoutingDiag []] ++
          (if c_Routing.s32_Return = C_NO_ERR ∨ c_Routing.s32_Return = C_TIMEOUT then
            [T_DiagnosticModeStep.m_SetNodesSessionId d.mc_ActiveDiagNodes
              c_Session.hu8_DIAGNOSTIC_SESSION_EXTENDED_DIAGNOSIS true
              c_Routing.c_ErrorActiveNodes]
          else []) ++
          (if (c_Routing.s32_Return = C_NO_ERR ∨ c_Routing.s32_Return = C_TIMEOUT) ∧
              (sessionStepResult d c_Session c_Routing).1 = C_NO_ERR then
            [T_DiagnosticModeStep.m_SetNodesSecurityAccess d.mc_ActiveDiagNodes 1
              (sessionStepResult d c_Session c_Routing).2]
          else []) ++
          (if (c_Routing.s32_Return = C_NO_ERR ∨ c_Routing.s32_Return = C_TIMEOUT) ∧
              (sessionStepResult d c_Session c_Routing).1 = C_NO_ERR ∧
              (securityStepResult d c_Session c_Routing).1 = C_NO_ERR then
            [T_DiagnosticModeStep.m_StartDiagServers]
          else []) ∧
      (T_DiagnosticModeStep.m_StartDiagServers ∈ c_Result.c_Steps ↔
        (c_Routing.s32_Return = C_NO_ERR ∨ c_Routing.s32_Return = C_TIMEOUT) ∧
        (sessionStepResult d c_Session c_Routing).1 = C_NO_ERR ∧
        (securityStepResult d c_Session c_Routing).1 = C_NO_ERR) ∧
      (¬ (c_Routing.s32_Return = C_NO_ERR ∨ c_Routing.s32_Return = C_TIMEOUT) →
        c_Result.s32_Return = c_Routing.s32_Return ∧
        c_Result.c_Steps = [T_DiagnosticModeStep.m_StartRoutingDiag []] ∧
        c_Result.c_Requests = []) := by
  obtain ⟨h_Steps, h_Ok, h_Else⟩ := setSessionAndSecurity_steps d c_Session c_Routing
  have h_Shape : ∀ c_Result : T_DiagnosticModeResult,
      (c_Result.c_Steps
        = [T_DiagnosticModeStep.m_StartRoutingDiag []] ++
          (if c_Routing.s32_Return = C_NO_ERR ∨ c_Routing.s32_Return = C_TIMEOUT then
            [T_DiagnosticModeStep.m_SetNodesSessionId d.mc_ActiveDiagNodes
              c_Session.hu8_DIAGNOSTIC_SESSION_EXTENDED_DIAGNOSIS true
              c_Routing.c_ErrorActiveNodes]
          else []) ++
          (if (c_Routing.s32_Return = C_NO_ERR ∨ c_Routing.s32_Return = C_TIMEOUT) ∧
              (sessionStepResult d c_Session c_Routing).1 = C_NO_ERR then
            [T_DiagnosticModeStep.m_SetNodesSecurityAccess d.mc_ActiveDiagNodes 1
              (sessionStepResult d c_Session c_Routing).2]
          else []) ++
          (if (c_Routing.s32_Return = C_NO_ERR ∨ c_Routing.s32_Return = C_TIMEOUT) ∧
              (sessionStepResult d c_Session c_Routing).1 = C_NO_ERR ∧
              (securityStepResult d c_Session c_Routing).1 = C_NO_ERR then
            [T_DiagnosticModeStep.m_StartDiagServers]
          else [])) →
      (T_DiagnosticModeStep.m_StartDiagServers ∈ c_Result.c_Steps ↔
        (c_Routing.s32_Return = C_NO_ERR ∨ c_Routing.s32_Return = C_TIMEOUT) ∧
        (sessionStepResult d c_Session c_Routing).1 = C_NO_ERR ∧
        (securityStepResult d c_Session c_Routing).1 = C_NO_ERR) := by
    intro c_Result h_Eq
    rw [h_Eq]
    by_cases h_Gate : c_Routing.s32_Return = C_NO_ERR ∨ c_Routing.s32_Return = C_TIMEOUT <;>
    by_cases h_SessionOk : (sessionStepResult d c_Session c_Routing).1 = C_NO_ERR <;>
    by_cases h_SecurityOk : (securityStepResult d c_Session c_Routing).1 = C_NO_ERR <;>
    simp [h_Gate, h_SessionOk, h_SecurityOk]
  unfold SetDiagnosticMode
  rw [h_Routing]
  simp only
  by_cases h_State : (setSessionAndSecurity d c_Session c_Routing).1 = C_NO_ERR
  · obtain ⟨c_Servers, h_Servers⟩ := m_StartDiagServers_total c_Project d
      (setSessionAndSecurity d c_Session c_Routing).2.1 h_Consistent
    rw [if_pos h_State, h_Servers]
    have h_All := h_Ok.mp h_State
    have h_Eq : T_DiagnosticModeStep.m_StartRoutingDiag [] ::
        (setSessionAndSecurity d c_Session c_Routing).2.2.2 ++
        [T_DiagnosticModeStep.m_StartDiagServers]
        = [T_DiagnosticModeStep.m_StartRoutingDiag []] ++
          (if c_Routing.s32_Return = C_NO_ERR ∨ c_Routing.s32_Return = C_TIMEOUT then
            [T_DiagnosticModeStep.m_SetNodesSessionId d.mc_ActiveDiagNodes
              c_Session.hu8_DIAGNOSTIC_SESSION_EXTENDED_DIAGNOSIS true
              c_Routing.c_ErrorActiveNodes]
          else []) ++
          (if (c_Routing.s32_Return = C_NO_ERR ∨ c_Routing.s32_Return = C_TIMEOUT) ∧
              (sessionStepResult d c_Session c_Routing).1 = C_NO_ERR then
            [T_DiagnosticModeStep.m_SetNodesSecurityAccess d.mc_ActiveDiagNodes 1
              (sessionStepResult d c_Session c_Routing).2]
          else []) ++
          (if (c_Routing.s32_Return = C_NO_ERR ∨ c_Routing.s32_Return = C_TIMEOUT) ∧
              (sessionStepResult d c_Session c_Routing).1 = C_NO_ERR ∧
              (securityStepResult d c_Session c_Routing).1 = C_NO_ERR then
            [T_DiagnosticModeStep.m_StartDiagServers]
          else []) := by
      rw [h_Steps]
      simp [h_All.1, h_All.2.1, h_All.2.2]
    refine ⟨_, rfl, rfl, h_Eq, h_Shape _ h_Eq, fun h_Gate => absurd h_All.1 h_Gate⟩
  · rw [if_neg h_State]
    have h_All : ¬ ((c_Routing.s32_Return = C_NO_ERR ∨ c_Routing.s32_Return = C_TIMEOUT) ∧
        (sessionStepResult d c_Session c_Routing).1 = C_NO_ERR ∧
        (securityStepResult d c_Session c_Routing).1 = C_NO_ERR) :=
      fun h_Bad => h_State (h_Ok.mpr h_Bad)
    have h_Eq : T_DiagnosticModeStep.m_StartRoutingDiag [] ::
        (setSessionAndSecurity d c_Session c_Routing).2.2.2
        = [T_DiagnosticModeStep.m_StartRoutingDiag []] ++
          (if c_Routing.s32_Return = C_NO_ERR ∨ c_Routing.s32_Return = C_TIMEOUT then
            [T_DiagnosticModeStep.m_SetNodesSessionId d.mc_ActiveDiagNodes
              c_Session.hu8_DIAGNOSTIC_SESSION_EXTENDED_DIAGNOSIS true
              c_Routing.c_ErrorActiveNodes]
          else []) ++
          (if (c_Routing.s32_Return = C_NO_ERR ∨ c_Routing.s32_Return = C_TIMEOUT) ∧
              (sessionStepResult d c_Session c_Routing).1 = C_NO_ERR then
            [T_DiagnosticModeStep.m_SetNodesSecurityAccess d.mc_ActiveDiagNodes 1
              (sessionStepResult d c_Session c_Routing).2]
          else []) ++
          (if (c_Routing.s32_Return = C_NO_ERR ∨ c_Routing.s32_Return = C_TIMEOUT) ∧
              (sessionStepResult d c_Session c_Routing).1 = C_NO_ERR ∧
              (securityStepResult d c_Session c_Routing).1 = C_NO_ERR then
            [T_DiagnosticModeStep.m_StartDiagServers]
          else []) := by
      rw [h_Steps, if_neg h_All]
      simp
    refine ⟨_, rfl, rfl, h_Eq, h_Shape _ h_Eq, fun h_Gate => ⟨h_Else h_Gate, ?_, rfl⟩⟩
    simp only
    rw [h_Steps, if_neg h_Gate, if_neg (fun h_Bad => h_Gate h_Bad.1)]
    rfl

/-- C25, witness: with the base class of the fixtures that does not support IP to IP routing
for the node 1, the routing returns `C_NOACT`; `SetDiagnosticMode` returns `C_NOACT`, and the
routing is its only step. -/
theorem SetDiagnosticMode_steps_in_order_witness :
    ∃ c_Result : T_DiagnosticModeResult,
      SetDiagnosticMode fixtureThreeNodesProject fixtureThreeNodesDriver fixtureIp2IpBase
        fixtureSessionBase [] = some c_Result ∧
      c_Result.s32_Return = C_NOACT ∧
      c_Result.c_Steps = [T_DiagnosticModeStep.m_StartRoutingDiag []] ∧
      c_Result.c_Requests = [] := by
  have h_Routing : (m_StartRoutingDiag fixtureThreeNodesProject fixtureThreeNodesDriver
      fixtureIp2IpBase [] []).isSome = true := by decide
  obtain ⟨c_Routing, h_State⟩ := Option.isSome_iff_exists.mp h_Routing
  have h_Code : (m_StartRoutingDiag fixtureThreeNodesProject fixtureThreeNodesDriver
      fixtureIp2IpBase [] []).map (fun c => c.s32_Return) = some C_NOACT := by decide
  rw [h_State] at h_Code
  simp only [Option.map_some', Option.some.injEq] at h_Code
  obtain ⟨c_Result, h_Result, _, _, _, h_Else⟩ :=
    SetDiagnosticMode_steps_in_order fixtureThreeNodesProject fixtureThreeNodesDriver
      fixtureIp2IpBase fixtureSessionBase [] c_Routing h_State (by decide)
  have h_Gate : ¬ (c_Routing.s32_Return = C_NO_ERR ∨ c_Routing.s32_Return = C_TIMEOUT) := by
    rw [h_Code]
    decide
  obtain ⟨h_Return, h_Steps, h_Requests⟩ := h_Else h_Gate
  exact ⟨c_Result, h_Result, by rw [h_Return, h_Code], h_Steps, h_Requests⟩


/-- C26, counterexample: two frames for the registration of the fixtures, the first received at
4294967295000 microseconds and the second one millisecond later. The first value is delivered with
the time stamp 4294967295, the second one with the time stamp 0: the time stamp is kept in 32
bit and starts again at 0. -/
theorem m_HandleCanMessage_time_stamp_wraps :
    (fixtureSelectedMsgAt 4294967295000).u64_TimeStamp
      ≤ (fixtureSelectedMsgAt 4294967296000).u64_TimeStamp ∧
    deliveredTimeStamps (m_HandleCanMessage fixtureCanUtil fixtureAllWidgets
      (fixtureSelectedMsgAt 4294967295000)) = [4294967295] ∧
    deliveredTimeStamps (m_HandleCanMessage fixtureCanUtil fixtureAllWidgets
      (fixtureSelectedMsgAt 4294967296000)) = [0] ∧
    ¬ (∀ ts1 ∈ deliveredTimeStamps (m_HandleCanMessage fixtureCanUtil fixtureAllWidgets
          (fixtureSelectedMsgAt 4294967295000)),
        ∀ ts2 ∈ deliveredTimeStamps (m_HandleCanMessage fixtureCanUtil fixtureAllWidgets
          (fixtureSelectedMsgAt 4294967296000)), ts1 ≤ ts2) := by
  refine ⟨by decide, by decide, by decide, by decide⟩

/-- C26, amended: the time stamp of every value that `m_HandleCanMessage` delivers for a frame
is the receive time of the frame in microseconds divided by 1000, rounded down, modulo `2^32`.
It is monotonic as long as it does not wrap: for two frames with receive times `t1 ≤ t2` and
`t2 / 1000 < 2^32` the time stamps are `t1 / 1000` and `t2 / 1000`, and every time stamp
delivered for the first frame is at most every time stamp delivered for the second one. -/
theorem m_HandleCanMessage_time_stamp_monotonic (c_Util : T_CanUtil)
    (mc_AllWidgets : List (C_OscCanMessageUniqueId × List C_SyvComDriverDiagWidgetRegistration))
    (c_First c_Second : T_STWCAN_Msg_RX)
    (h_Order : c_First.u64_TimeStamp ≤ c_Second.u64_TimeStamp)
    (h_Range : c_Second.u64_TimeStamp / 1000 < U32_MOD) :
    (∀ (orc_Msg : T_STWCAN_Msg_RX),
      ∀ ts ∈ deliveredTimeStamps (m_HandleCanMessage c_Util mc_AllWidgets orc_Msg),
        ts = orc_Msg.u64_TimeStamp / 1000 % U32_MOD) ∧
    (∀ ts1 ∈ deliveredTimeStamps (m_HandleCanMessage c_Util mc_AllWidgets c_First),
      ts1 = c_First.u64_TimeStamp / 1000) ∧
    (∀ ts2 ∈ deliveredTimeStamps (m_HandleCanMessage c_Util mc_AllWidgets c_Second),
      ts2 = c_Second.u64_TimeStamp / 1000) ∧
    (∀ ts1 ∈ deliveredTimeStamps (m_HandleCanMessage c_Util mc_AllWidgets c_First),
      ∀ ts2 ∈ deliveredTimeStamps (m_HandleCanMessage c_Util mc_AllWidgets c_Second),
        ts1 ≤ ts2) := by
  have h_Div : c_First.u64_TimeStamp / 1000 ≤ c_Second.u64_TimeStamp / 1000 :=
    Nat.div_le_div_right h_Order
  have h_First : ∀ ts1 ∈ deliveredTimeStamps (m_HandleCanMessage c_Util mc_AllWidgets c_First),
      ts1 = c_First.u64_TimeStamp / 1000 := by
    intro ts1 h_Mem
    rw [m_HandleCanMessage_time_stamp_eq c_Util mc_AllWidgets c_First ts1 h_Mem]
    exact Nat.mod_eq_of_lt (lt_of_le_of_lt h_Div h_Range)
  have h_Second : ∀ ts2 ∈ deliveredTimeStamps (m_HandleCanMessage c_Util mc_AllWidgets c_Second),
      ts2 = c_Second.u64_TimeStamp / 1000 := by
    intro ts2 h_Mem
    rw [m_HandleCanMessage_time_stamp_eq c_Util mc_AllWidgets c_Second ts2 h_Mem]
    exact Nat.mod_eq_of_lt h_Range
  refine ⟨fun orc_Msg ts h_Mem => m_HandleCanMessage_time_stamp_eq c_Util mc_AllWidgets orc_Msg
    ts h_Mem, h_First, h_Second, ?_⟩
  intro ts1 h_Mem1 ts2 h_Mem2
  rw [h_First ts1 h_Mem1, h_Second ts2 h_Mem2]
  exact h_Div

/-- C26, witness: the frame of the fixtures received at 5000999 microseconds and again at
7000000 microseconds: the values are delivered with the time stamps 5000 and 7000. -/
theorem m_HandleCanMessage_time_stamp_monotonic_witness :
    deliveredTimeStamps (m_HandleCanMessage fixtureCanUtil fixtureAllWidgets
      (fixtureSelectedMsgAt 5000999)) = [5000] ∧
    deliveredTimeStamps (m_HandleCanMessage fixtureCanUtil fixtureAllWidgets
      (fixtureSelectedMsgAt 7000000)) = [7000] ∧
    (∀ ts1 ∈ deliveredTimeStamps (m_HandleCanMessage fixtureCanUtil fixtureAllWidgets
        (fixtureSelectedMsgAt 5000999)),
      ∀ ts2 ∈ deliveredTimeStamps (m_HandleCanMessage fixtureCanUtil fixtureAllWidgets
        (fixtureSelectedMsgAt 7000000)), ts1 ≤ ts2) :=
  ⟨by decide, by decide,
    (m_HandleCanMessage_time_stamp_monotonic fixtureCanUtil fixtureAllWidgets
      (fixtureSelectedMsgAt 5000999) (fixtureSelectedMsgAt 7000000) (by decide)
      (by decide)).2.2.2⟩


/-- C27, evaluation of the code at the failing input: the driver has two protocol instances and
`Cycle()` of the first one returns `C_COM`. `m_Cycle` returns `C_NO_ERR` and has called `Cycle()`
on the protocol instance 0 only: the loop is left at the first call that fails, and the second
protocol instance, whose `Cycle()` would return `C_NO_ERR`, is not cycled in this iteration. -/
theorem m_Cycle_leaves_loop_at_first_failure :
    fixtureCycleDriver.mc_DiagProtocols.length = 2 ∧
    fixtureCycleDriver.mc_DiagProtocols.map (fun c_Protocol => c_Protocol.Cycle)
      = [C_COM, C_NO_ERR] ∧
    m_Cycle fixtureCycleDriver = (C_NO_ERR, [0]) ∧
    1 ∉ (m_Cycle fixtureCycleDriver).2 := by
  refine ⟨rfl, by decide, by decide, by decide⟩


/-- C28. Decoding never reads outside the response buffer. In `m_SaveDumpValuesToListValues`,
with all offsets computed in `uint32` arithmetic, let every element lie at or behind the start
address of the list and let its offset plus its size be at most `2^32 - 1`. Then for every
element of the list and every dump: when the size check of the element passes, the copied
range `[offset, offset + size)` lies inside the dump, so the copy yields exactly the bytes of
the element; and the function as a whole hands back a result for every dump (in the model
only a read outside the dump yields `none`). -/
theorem m_SaveDumpValuesToListValues_reads_inside_buffer (p : C_OSCDiagProtocolBase)
    (vals : List Nat) (l : C_OSCNodeDataPoolList) (h_Layout : elementsInList l) :
    (∀ e ∈ l.c_Elements,
      vals.length ≥ u32_add (elementIndex l.u32_NvMStartAddress e) e.GetSizeByte →
      elementIndex l.u32_NvMStartAddress e + e.GetSizeByte ≤ vals.length ∧
      readBytes vals (elementIndex l.u32_NvMStartAddress e) e.GetSizeByte
        = some (elementBytes l.u32_NvMStartAddress vals e)) ∧
    (m_SaveDumpValuesToListValues p vals l).isSome = true := by
  refine ⟨?_, ?_⟩
  · intro e h_Mem h_Check
    obtain ⟨h_Start, h_End⟩ := h_Layout e h_Mem
    have h_Inside := elementIndex_inside_of_check _ vals e h_Start h_End h_Check
    exact ⟨h_Inside, readBytes_eq_some _ _ _ h_Inside⟩
  · have h_Loop := saveDumpLoop_isSome p l.u32_NvMStartAddress vals l.c_Elements h_Layout
    obtain ⟨c_Result, h_Result⟩ := Option.isSome_iff_exists.mp h_Loop
    unfold m_SaveDumpValuesToListValues
    rw [h_Result]
    rfl

/-- Witness of C28: the list of the fixtures satisfies the layout condition, and with the dump
of five bytes every element is copied from inside the dump. -/
theorem m_SaveDumpValuesToListValues_reads_inside_buffer_witness :
    elementsInList fixtureList ∧
    (∀ e ∈ fixtureList.c_Elements,
      fixtureDump.length ≥ u32_add (elementIndex fixtureList.u32_NvMStartAddress e) e.GetSizeByte →
      elementIndex fixtureList.u32_NvMStartAddress e + e.GetSizeByte ≤ fixtureDump.length ∧
      readBytes fixtureDump (elementIndex fixtureList.u32_NvMStartAddress e) e.GetSizeByte
        = some (elementBytes fixtureList.u32_NvMStartAddress fixtureDump e)) ∧
    (m_SaveDumpValuesToListValues (fixtureProtocol 0 []) fixtureDump fixtureList).isSome = true :=
  ⟨by decide,
    m_SaveDumpValuesToListValues_reads_inside_buffer (fixtureProtocol 0 []) fixtureDump fixtureList
      (by decide)⟩


/-- C29. Registration of the data pool mapping is all-or-nothing per node. For an active node
with an openSYDE protocol instance, `m_CheckOsyDatapoolsAndCreateMapping` hands back a result,
and `RegisterDataPoolMapping` was called if and only if the return code is `C_NO_ERR`, which is
the case if and only if the check of every data pool of the node that is used on a dashboard
passes. With `C_NO_ERR` the driver after the call is the driver with the whole mapping
registered at the protocol of the node, and the error details are unchanged. Otherwise the
driver is unchanged (no mapping is registered, whatever the local mapping holds for the data
pools that passed), and exactly one entry is appended to the error details: the name of the node
with the reasons of all checks that failed, in order. -/
theorem m_CheckOsyDatapoolsAndCreateMapping_all_or_nothing
    (c_Project : T_Project) (d : C_SyvComDriverDiag) (ou32_ActiveDiagNodeIndex : Nat)
    (orc_ErrorDetails : List T_ErrorDetail) (u32_ActiveNode u32_NodeIndex : Nat)
    (pc_Protocol : C_OscDiagProtocolBase) (pc_View : C_PuiSvData) (pc_Node : C_OscNode)
    (c_Metadata : List C_DataPoolMetaData)
    (h_ActiveNode : d.mc_ActiveDiagNodes[ou32_ActiveDiagNodeIndex]? = some u32_ActiveNode)
    (h_Protocol : d.mc_DiagProtocols[u32_ActiveNode]? = some pc_Protocol)
    (h_NodeIndex : d.mc_ActiveNodesIndexes[u32_ActiveNode]? = some u32_NodeIndex)
    (h_View : c_Project.c_Views[d.mu32_ViewIndex]? = some pc_View)
    (h_Node : c_Project.c_Nodes[u32_NodeIndex]? = some pc_Node)
    (h_Osy : pc_Protocol.q_IsOsy = true)
    (h_Metadata : d.mc_ReadDatapoolMetadata[ou32_ActiveDiagNodeIndex]? = some c_Metadata) :
    ∃ c_Result : T_CheckResult,
      m_CheckOsyDatapoolsAndCreateMapping c_Project d ou32_ActiveDiagNodeIndex orc_ErrorDetails
        = some c_Result ∧
      (c_Result.q_Registered = true ↔ c_Result.s32_Return = C_NO_ERR) ∧
      (c_Result.s32_Return = C_NO_ERR ↔
        ∀ (i : Nat) (rc_Datapool : C_OscNodeDataPool), pc_Node.c_DataPools[i]? = some rc_Datapool →
          isDatapoolRelevant pc_View.c_RegisteredDashboardElements u32_NodeIndex i = true →
          (checkDatapool pc_Protocol c_Metadata rc_Datapool i).s32_Return = C_NO_ERR) ∧
      (c_Result.s32_Return = C_NO_ERR →
        c_Result.c_Driver = d.registerDataPoolMapping u32_ActiveNode c_Result.c_DatapoolMapping ∧
        c_Result.c_ErrorDetails = orc_ErrorDetails) ∧
      (c_Result.s32_Return ≠ C_NO_ERR →
        c_Result.c_Driver = d ∧
        ∃ c_Reasons : List T_ErrorReason,
          c_Result.c_ErrorDetails
            = orc_ErrorDetails ++ [{ c_NodeName := pc_Node.c_Name, c_Reasons := c_Reasons }] ∧
          c_Reasons.map some
            = (failedChecks (datapoolChecks pc_Protocol c_Metadata
                pc_View.c_RegisteredDashboardElements u32_NodeIndex pc_Node.c_DataPools 0)).map
                (fun c => c.oc_ErrorReason)) := by
  have h_Iff := (foldl_take_retval_no_err
    (datapoolChecks pc_Protocol c_Metadata pc_View.c_RegisteredDashboardElements u32_NodeIndex
      pc_Node.c_DataPools 0)
    { s32_Retval := C_NO_ERR, c_DataPoolErrorString := [], c_DatapoolMapping := []
      c_Requests := [] } rfl).trans
    (datapoolChecks_all_passed_iff pc_Protocol c_Metadata pc_View.c_RegisteredDashboardElements
      u32_NodeIndex pc_Node.c_DataPools)
  rw [m_CheckOsyDatapoolsAndCreateMapping_of_checks c_Project d ou32_ActiveDiagNodeIndex
    orc_ErrorDetails u32_ActiveNode u32_NodeIndex pc_Protocol pc_View pc_Node c_Metadata
    h_ActiveNode h_Protocol h_NodeIndex h_View h_Node h_Osy h_Metadata]
  split_ifs with h_Ok
  · refine ⟨_, rfl, ⟨fun _ => rfl, fun _ => rfl⟩, ⟨fun _ => h_Iff.mp h_Ok, fun _ => rfl⟩,
      fun _ => ⟨rfl, rfl⟩, fun h_Bad => absurd rfl h_Bad⟩
  · refine ⟨_, rfl, ⟨fun h_Bad => Bool.noConfusion h_Bad, fun h_Bad => absurd h_Bad h_Ok⟩,
      ⟨fun h_Bad => absurd h_Bad h_Ok, fun h_All => absurd (h_Iff.mpr h_All) h_Ok⟩,
      fun h_Bad => absurd h_Bad h_Ok, fun _ => ⟨rfl, _, rfl, ?_⟩⟩
    exact datapoolChecks_failed_reasons pc_Protocol c_Metadata
      pc_View.c_RegisteredDashboardElements u32_NodeIndex pc_Node.c_DataPools 0

/-- Witness of C29: the server holds `Crash` in another version. The check of `Crash` fails and
the checks of `Params` and `Log` pass, so the local mapping holds their pairs; still nothing is
registered: the driver is unchanged, and one entry for the node is appended. -/
theorem m_CheckOsyDatapoolsAndCreateMapping_all_or_nothing_witness :
    ∃ c_Result : T_CheckResult,
      m_CheckOsyDatapoolsAndCreateMapping fixtureProject
        (fixtureDriverOf fixtureServer fixtureOtherVersionMetadata) 0 [] = some c_Result ∧
      c_Result.s32_Return = C_DEFAULT ∧
      c_Result.q_Registered = false ∧
      c_Result.c_DatapoolMapping = [(1, 0), (2, 2)] ∧
      c_Result.c_Driver = fixtureDriverOf fixtureServer fixtureOtherVersionMetadata ∧
      c_Result.c_ErrorDetails
        = [{ c_NodeName := "Node_A"
             c_Reasons := [T_ErrorReason.versionMismatch "Crash" (1, 0, 0) (1, 0, 1)] }] := by
  obtain ⟨c_Result, h_Result, _, _, _, h_Failed⟩ :=
    m_CheckOsyDatapoolsAndCreateMapping_all_or_nothing fixtureProject
      (fixtureDriverOf fixtureServer fixtureOtherVersionMetadata) 0 [] 0 0 fixtureServer
      fixtureView fixtureOsyNode fixtureOtherVersionMetadata rfl rfl rfl rfl rfl rfl rfl
  have h_Value : (m_CheckOsyDatapoolsAndCreateMapping fixtureProject
      (fixtureDriverOf fixtureServer fixtureOtherVersionMetadata) 0 []).map
      (fun c => (c.s32_Return, c.q_Registered, c.c_DatapoolMapping, c.c_ErrorDetails))
      = some (C_DEFAULT, false, [(1, 0), (2, 2)],
          [{ c_NodeName := "Node_A"
             c_Reasons := [T_ErrorReason.versionMismatch "Crash" (1, 0, 0) (1, 0, 1)] }]) := by
    decide
  rw [h_Result] at h_Value
  simp only [Option.map_some', Option.some.injEq, Prod.mk.injEq] at h_Value
  have h_Ne : c_Result.s32_Return ≠ C_NO_ERR := by
    rw [h_Value.1]
    exact fun h_Bad => T_Error.noConfusion h_Bad
  exact ⟨c_Result, h_Result, h_Value.1, h_Value.2.1, h_Value.2.2.1, (h_Failed h_Ne).1,
    h_Value.2.2.2⟩


/-- C30. `RegisterWidget` keeps the map of the widgets well formed. After any sequence of calls
on a new driver, no list of the map holds two registrations that are equal by the operator `==`
(same extended flag, data length code, handler, signal and multiplexer signal), the extended
flag of every registration is the one of its key, and no key has two entries. The map after one
more call is the map of the longer sequence. In this call every list of the map stays a prefix
of the list of its key (nothing is removed or reordered), every registration built for a data
element of the widget has the key of the CAN identifier and the extended flag of its message and
is held by the map under this key afterwards, and the same call once more leaves the map
unchanged. -/
theorem RegisterWidget_keeps_map_well_formed
    (c_Calls : List (T_SignalLookup × Option C_PuiSvDbDataElementHandler)) :
    (∀ c_Entry, c_Entry ∈ registerWidgets c_Calls →
      c_Entry.2.Pairwise (fun c_This c_Other => c_This.equals c_Other = false) ∧
      ∀ c_WidgetRegistration, c_WidgetRegistration ∈ c_Entry.2 →
        c_WidgetRegistration.q_IsExtended = c_Entry.1.2) ∧
    ((registerWidgets c_Calls).map (fun c_Entry => c_Entry.1)).Nodup ∧
    (∀ c_This orc_Cmp : C_SyvComDriverDiagWidgetRegistration,
      c_This.equals orc_Cmp = true ↔
        c_This.q_IsExtended = orc_Cmp.q_IsExtended ∧ c_This.u16_Dlc = orc_Cmp.u16_Dlc ∧
        c_This.pc_Handler = orc_Cmp.pc_Handler ∧ c_This.c_Signal = orc_Cmp.c_Signal ∧
        c_This.c_MultiplexerSignal = orc_Cmp.c_MultiplexerSignal) ∧
    ∀ (c_Lookup : T_SignalLookup) (opc_Widget : Option C_PuiSvDbDataElementHandler),
      registerWidgets (c_Calls ++ [(c_Lookup, opc_Widget)])
        = RegisterWidget c_Lookup (registerWidgets c_Calls) opc_Widget ∧
      (∀ (c_Key : C_OscCanMessageUniqueId)
        (c_List : List C_SyvComDriverDiagWidgetRegistration),
        findWidgets (registerWidgets c_Calls) c_Key = some c_List →
        ∃ c_Longer,
          findWidgets (RegisterWidget c_Lookup (registerWidgets c_Calls) opc_Widget) c_Key
            = some c_Longer ∧ c_List <+: c_Longer) ∧
      (∀ (c_Widget : C_PuiSvDbDataElementHandler) (c_Element : T_WidgetElement)
        (c_MsgCanId : C_OscCanMessageUniqueId)
        (c_WidgetRegistration : C_SyvComDriverDiagWidgetRegistration),
        opc_Widget = some c_Widget → c_Element ∈ c_Widget.c_Elements →
        registrationOf c_Lookup c_Widget.u32_Handler c_Element
          = some (c_MsgCanId, c_WidgetRegistration) →
        (∃ pc_CanMsg, c_Lookup.GetCanMessage c_Element.c_DpElementId = some pc_CanMsg ∧
          c_MsgCanId = (pc_CanMsg.u32_CanId, pc_CanMsg.q_IsExtended)) ∧
        c_WidgetRegistration.q_IsExtended = c_MsgCanId.2 ∧
        holdsRegistration (RegisterWidget c_Lookup (registerWidgets c_Calls) opc_Widget)
          c_MsgCanId c_WidgetRegistration) ∧
      RegisterWidget c_Lookup (RegisterWidget c_Lookup (registerWidgets c_Calls) opc_Widget)
          opc_Widget
        = RegisterWidget c_Lookup (registerWidgets c_Calls) opc_Widget := by
  obtain ⟨h_Keys, h_Entries⟩ := registerWidgets_wellFormed c_Calls
  refine ⟨h_Entries, h_Keys, equals_iff, fun c_Lookup opc_Widget => ⟨?_, ?_, ?_, ?_⟩⟩
  · simp only [registerWidgets, List.foldl_append, List.foldl_cons, List.foldl_nil]
  · exact RegisterWidget_grows c_Lookup (registerWidgets c_Calls) opc_Widget
  · intro c_Widget c_Element c_MsgCanId c_WidgetRegistration h_Widget h_Mem h_Built
    obtain ⟨pc_CanMsg, h_Msg, h_Key, h_Flag, _⟩ := registrationOf_some c_Lookup
      c_Widget.u32_Handler c_Element c_MsgCanId c_WidgetRegistration h_Built
    refine ⟨⟨pc_CanMsg, h_Msg, h_Key⟩, h_Flag, ?_⟩
    rw [h_Widget]
    exact foldl_registerElement_holds c_Lookup c_Widget.u32_Handler c_Widget.c_Elements
      (registerWidgets c_Calls) c_Element c_MsgCanId c_WidgetRegistration h_Mem h_Built
  · exact RegisterWidget_twice c_Lookup (registerWidgets c_Calls) opc_Widget

end OpenSyde
